import Mathlib

/-!
# M480 BSP: flash ISP controller driver and SD card SPI block driver

A shallow embedding of `Library/StdDriver/src/fmc.c` and
`SampleCode/Template/sdcard.c`.

* A memory-mapped register is volatile: what a read returns is decided by the
  hardware.  The hardware is a function of the history of register accesses, so
  a statement quantified over every `Hw` holds for every behaviour of the
  registers.
* Every register access made by the driver is appended to a trace, so "writes
  X", "does not touch Y" are statements about the trace.
* C integers are `Nat`/`Int`, reduced modulo `2^32` (or `2^8`) where the C type
  wraps.
* Macros of the headers that are not part of the sources (`fmc.h`, `fmc_reg.h`,
  `sdcard.h`) are fields of a parameter record.
-/

namespace FMC

/-- Registers of the flash memory controller that `fmc.c` accesses. -/
inductive Reg
  | ISPCTL | ISPADDR | ISPDAT | ISPCMD | ISPTRG | DFBA | ISPSTS
  | MPDAT0 | MPDAT1 | MPDAT2 | MPDAT3 | MPSTS
  | XOMR0STS | XOMR1STS | XOMR2STS | XOMR3STS | XOMSTS
  | KPKEY0 | KPKEY1 | KPKEY2 | KPKEYTRG | KPKEYSTS | KPKEYCNT | KPCNT
  deriving DecidableEq, Repr

/-- One observable action of the driver: a register read (with the value the
hardware returned), a register write, or a load of `pu32Buf[idx]`. -/
inductive Ev
  | rd (r : Reg) (v : Nat)
  | wr (r : Reg) (v : Nat)
  | buf (idx : Nat)
  deriving DecidableEq, Repr

/-- The hardware: the value a register read returns, given everything the driver
has done so far. -/
abbrev Hw := List Ev → Reg → Nat

/-- Driver state: the trace of accesses and the global `g_FMC_i32ErrCode`. -/
structure St where
  trace : List Ev
  g_FMC_i32ErrCode : Int
  deriving DecidableEq, Repr

/-- Macros of `fmc.h` / `fmc_reg.h`, which are not among the sources.  The
time-outs are poll budgets (positive `int32_t` values in C). -/
structure Hdr where
  FMC_ISPCMD_READ : Nat
  FMC_ISPCMD_READ_64 : Nat
  FMC_ISPCMD_PROGRAM : Nat
  FMC_ISPCMD_PROGRAM_64 : Nat
  FMC_ISPCMD_PROGRAM_MUL : Nat
  FMC_ISPCMD_PAGE_ERASE : Nat
  FMC_ISPCMD_BLOCK_ERASE : Nat
  FMC_ISPCMD_BANK_ERASE : Nat
  FMC_ISPTRG_ISPGO_Msk : Nat
  FMC_ISPSTS_ISPBUSY_Msk : Nat
  FMC_ISPSTS_ISPFF_Msk : Nat
  FMC_ISPCTL_ISPFF_Msk : Nat
  FMC_MPSTS_MPBUSY_Msk : Nat
  FMC_MPSTS_D0_Msk : Nat
  FMC_MPSTS_D1_Msk : Nat
  FMC_MPSTS_D2_Msk : Nat
  FMC_MPSTS_D3_Msk : Nat
  FMC_TIMEOUT_READ : Nat
  FMC_TIMEOUT_WRITE : Nat
  FMC_TIMEOUT_ERASE : Nat
  FMC_SPROM_BASE : Nat
  FMC_APROM_END : Nat
  FMC_MULTI_WORD_PROG_LEN : Nat
  FMC_ISPCTL_CFGUEN_Msk : Nat
  FMC_XOM_BASE : Nat
  FMC_CONFIG_BASE : Nat
  FMC_KPROM_BASE : Nat
  FMC_OTP_BASE : Nat
  FMC_KPKEYSTS_KEYBUSY_Msk : Nat
  FMC_KPKEYSTS_KEYLOCK_Msk : Nat
  FMC_KPKEYSTS_CFGFLAG_Msk : Nat
  FMC_KPKEYSTS_SPFLAG_Msk : Nat
  FMC_KPCNT_KPMAX_Msk : Nat
  FMC_KPCNT_KPMAX_Pos : Nat
  FMC_KPKEYCNT_KPKEMAX_Msk : Nat
  FMC_KPKEYCNT_KPKEMAX_Pos : Nat
  FMC_KPKEYSTS_FORBID_Msk : Nat
  FMC_KPKEYSTS_KEYMATCH_Msk : Nat
  FMC_KPKEYTRG_KPKEYGO_Msk : Nat
  FMC_KPKEYTRG_TCEN_Msk : Nat
  FMC_ISPCMD_RUN_ALL1 : Nat
  FMC_ISPCMD_READ_ALL1 : Nat
  FMC_TIMEOUT_CHKALLONE : Nat
  READ_ALLONE_YES : Nat
  READ_ALLONE_NOT : Nat
  READ_ALLONE_CMD_FAIL : Nat

/-- The values of the M480 headers, with small poll budgets (the real budgets are
computed from the core clock at run time). -/
def m480 : Hdr where
  FMC_ISPCMD_READ := 0x00
  FMC_ISPCMD_READ_64 := 0x40
  FMC_ISPCMD_PROGRAM := 0x21
  FMC_ISPCMD_PROGRAM_64 := 0x61
  FMC_ISPCMD_PROGRAM_MUL := 0x27
  FMC_ISPCMD_PAGE_ERASE := 0x22
  FMC_ISPCMD_BLOCK_ERASE := 0x25
  FMC_ISPCMD_BANK_ERASE := 0x29
  FMC_ISPTRG_ISPGO_Msk := 0x1
  FMC_ISPSTS_ISPBUSY_Msk := 0x1
  FMC_ISPSTS_ISPFF_Msk := 0x40
  FMC_ISPCTL_ISPFF_Msk := 0x40
  FMC_MPSTS_MPBUSY_Msk := 0x1
  FMC_MPSTS_D0_Msk := 0x10
  FMC_MPSTS_D1_Msk := 0x20
  FMC_MPSTS_D2_Msk := 0x40
  FMC_MPSTS_D3_Msk := 0x80
  FMC_TIMEOUT_READ := 3
  FMC_TIMEOUT_WRITE := 3
  FMC_TIMEOUT_ERASE := 4
  FMC_SPROM_BASE := 0x200000
  FMC_APROM_END := 0x80000
  FMC_MULTI_WORD_PROG_LEN := 512
  FMC_ISPCTL_CFGUEN_Msk := 0x10
  FMC_XOM_BASE := 0x200000
  FMC_CONFIG_BASE := 0x300000
  FMC_KPROM_BASE := 0x301000
  FMC_OTP_BASE := 0x310000
  FMC_KPKEYSTS_KEYBUSY_Msk := 0x1
  FMC_KPKEYSTS_KEYLOCK_Msk := 0x2
  FMC_KPKEYSTS_CFGFLAG_Msk := 0x20
  FMC_KPKEYSTS_SPFLAG_Msk := 0x40
  FMC_KPCNT_KPMAX_Msk := 0xF00
  FMC_KPCNT_KPMAX_Pos := 8
  FMC_KPKEYCNT_KPKEMAX_Msk := 0x3F00
  FMC_KPKEYCNT_KPKEMAX_Pos := 8
  FMC_KPKEYSTS_FORBID_Msk := 0x8
  FMC_KPKEYSTS_KEYMATCH_Msk := 0x4
  FMC_KPKEYTRG_KPKEYGO_Msk := 0x1
  FMC_KPKEYTRG_TCEN_Msk := 0x2
  FMC_ISPCMD_RUN_ALL1 := 0x28
  FMC_ISPCMD_READ_ALL1 := 0x08
  FMC_TIMEOUT_CHKALLONE := 5
  READ_ALLONE_YES := 0xA11FFFFF
  READ_ALLONE_NOT := 0xA1100000
  READ_ALLONE_CMD_FAIL := 0xFFFFFFFF

/-- A read of register `r`: the hardware decides the 32-bit value. -/
def rd (hw : Hw) (r : Reg) (s : St) : Nat × St :=
  (hw s.trace r % 2 ^ 32, { s with trace := s.trace ++ [Ev.rd r (hw s.trace r % 2 ^ 32)] })

/-- The statement `FMC->r = v`. -/
def wr (r : Reg) (v : Nat) (s : St) : St :=
  { s with trace := s.trace ++ [Ev.wr r (v % 2 ^ 32)] }

/-- The statement `FMC->r |= m`: a read followed by a write. -/
def orReg (hw : Hw) (r : Reg) (m : Nat) (s : St) : St :=
  wr r ((rd hw r s).1 ||| m) (rd hw r s).2

/-- The statement `g_FMC_i32ErrCode = e`. -/
def setErr (e : Int) (s : St) : St :=
  { s with g_FMC_i32ErrCode := e }

/-- The loop `tout = n; while ((tout-- > 0) && (FMC->r & m)) {}`; the result is
the value of `tout` after the loop. -/
def waitWhile (hw : Hw) (r : Reg) (m : Nat) : Nat → St → Int × St
  | 0, s => (-1, s)
  | n + 1, s =>
    if (rd hw r s).1 &&& m ≠ 0 then waitWhile hw r m n (rd hw r s).2
    else ((n : Int), (rd hw r s).2)

/-- `FMC_Erase_SPROM`. -/
def FMC_Erase_SPROM (h : Hdr) (hw : Hw) (s : St) : Int × St :=
  let s := setErr 0 s
  let s := wr .ISPCMD h.FMC_ISPCMD_PAGE_ERASE s
  let s := wr .ISPADDR h.FMC_SPROM_BASE s
  let s := wr .ISPDAT 0x0055AA03 s
  let s := wr .ISPTRG h.FMC_ISPTRG_ISPGO_Msk s
  let w := waitWhile hw .ISPTRG h.FMC_ISPTRG_ISPGO_Msk h.FMC_TIMEOUT_ERASE s
  if w.1 ≤ 0 then (-1, setErr (-1) w.2)
  else if (rd hw .ISPCTL w.2).1 &&& h.FMC_ISPCTL_ISPFF_Msk ≠ 0 then
    (-1, setErr (-1) (orReg hw .ISPCTL h.FMC_ISPCTL_ISPFF_Msk (rd hw .ISPCTL w.2).2))
  else (0, (rd hw .ISPCTL w.2).2)

/-- `FMC_Erase`. -/
def FMC_Erase (h : Hdr) (hw : Hw) (u32PageAddr : Nat) (s : St) : Int × St :=
  let s := setErr 0 s
  if u32PageAddr = h.FMC_SPROM_BASE then FMC_Erase_SPROM h hw s
  else
    let s := wr .ISPCMD h.FMC_ISPCMD_PAGE_ERASE s
    let s := wr .ISPADDR u32PageAddr s
    let s := wr .ISPTRG h.FMC_ISPTRG_ISPGO_Msk s
    let w := waitWhile hw .ISPTRG h.FMC_ISPTRG_ISPGO_Msk h.FMC_TIMEOUT_ERASE s
    if w.1 ≤ 0 then (-1, setErr (-1) w.2)
    else if (rd hw .ISPCTL w.2).1 &&& h.FMC_ISPCTL_ISPFF_Msk ≠ 0 then
      (-1, setErr (-1) (orReg hw .ISPCTL h.FMC_ISPCTL_ISPFF_Msk (rd hw .ISPCTL w.2).2))
    else (0, (rd hw .ISPCTL w.2).2)

/-- `FMC_Read`: the result is the returned word. -/
def FMC_Read (h : Hdr) (hw : Hw) (u32Addr : Nat) (s : St) : Nat × St :=
  let s := setErr 0 s
  let s := wr .ISPCMD h.FMC_ISPCMD_READ s
  let s := wr .ISPADDR u32Addr s
  let s := wr .ISPTRG h.FMC_ISPTRG_ISPGO_Msk s
  let w := waitWhile hw .ISPTRG h.FMC_ISPTRG_ISPGO_Msk h.FMC_TIMEOUT_READ s
  if w.1 ≤ 0 then (0xFFFFFFFF, setErr (-1) w.2)
  else rd hw .ISPDAT w.2

/-- `FMC_Read_64`: the result is the return code and, on success, the two words
stored through `u32data0` and `u32data1`. -/
def FMC_Read_64 (h : Hdr) (hw : Hw) (u32addr : Nat) (s : St) : (Int × Option (Nat × Nat)) × St :=
  let s := setErr 0 s
  let s := wr .ISPCMD h.FMC_ISPCMD_READ_64 s
  let s := wr .ISPADDR u32addr s
  let s := wr .ISPDAT 0x0 s
  let s := wr .ISPTRG h.FMC_ISPTRG_ISPGO_Msk s
  let w := waitWhile hw .ISPSTS h.FMC_ISPSTS_ISPBUSY_Msk h.FMC_TIMEOUT_READ s
  if w.1 ≤ 0 then ((-1, none), setErr (-1) w.2)
  else if (rd hw .ISPSTS w.2).1 &&& h.FMC_ISPSTS_ISPFF_Msk ≠ 0 then
    ((-1, none), setErr (-1) (orReg hw .ISPSTS h.FMC_ISPSTS_ISPFF_Msk (rd hw .ISPSTS w.2).2))
  else
    let d0 := rd hw .MPDAT0 (rd hw .ISPSTS w.2).2
    let d1 := rd hw .MPDAT1 d0.2
    ((0, some (d0.1, d1.1)), d1.2)

/-- `FMC_Write`. -/
def FMC_Write (h : Hdr) (hw : Hw) (u32Addr u32Data : Nat) (s : St) : Int × St :=
  let s := setErr 0 s
  let s := wr .ISPCMD h.FMC_ISPCMD_PROGRAM s
  let s := wr .ISPADDR u32Addr s
  let s := wr .ISPDAT u32Data s
  let s := wr .ISPTRG h.FMC_ISPTRG_ISPGO_Msk s
  let w := waitWhile hw .ISPTRG h.FMC_ISPTRG_ISPGO_Msk h.FMC_TIMEOUT_WRITE s
  if w.1 ≤ 0 then (-1, setErr (-1) w.2)
  else if (rd hw .ISPSTS w.2).1 &&& h.FMC_ISPSTS_ISPFF_Msk ≠ 0 then
    (-1, setErr (-1) (orReg hw .ISPSTS h.FMC_ISPSTS_ISPFF_Msk (rd hw .ISPSTS w.2).2))
  else (0, (rd hw .ISPSTS w.2).2)

/-- The trace after `k` consecutive reads of register `r`, starting from trace `t`. -/
def polls (hw : Hw) (r : Reg) : Nat → List Ev → List Ev
  | 0, t => t
  | k + 1, t => polls hw r k (t ++ [Ev.rd r (hw t r % 2 ^ 32)])

/-- The `j`-th poll (counted from 0) of register `r` after trace `t` reads a value
with a bit of mask `m` set. -/
def busyAt (hw : Hw) (r : Reg) (m : Nat) (t : List Ev) (j : Nat) : Prop :=
  (hw (polls hw r j t) r % 2 ^ 32) &&& m ≠ 0

/-- The busy bit reads clear for the first time at poll `j`, and that poll is not
the one that uses up a budget of `N`. -/
def ClearedAt (hw : Hw) (r : Reg) (m N : Nat) (t : List Ev) (j : Nat) : Prop :=
  j + 1 < N ∧ (∀ i, i < j → busyAt hw r m t i) ∧ ¬ busyAt hw r m t j

/-- Outcome (a): the budget ran out; `-1` is returned and recorded, and the trace
consists of polls of the busy bit only (nothing follows them). -/
def OutTimeout (hw : Hw) (r : Reg) (m N : Nat) (t0 : List Ev) (res : Int × St) : Prop :=
  (∀ j, j + 1 < N → busyAt hw r m t0 j) ∧ res.1 = -1 ∧ res.2.g_FMC_i32ErrCode = -1 ∧
    ∃ k, k ≤ N ∧ res.2.trace = polls hw r k t0

/-- Outcome (b): the busy bit cleared in time, the fault flag (mask `fm` of
register `fr`) read as set; the flag is written back set (`fr |= fm`), `-1` is
returned and recorded. -/
def OutFault (hw : Hw) (r : Reg) (m N : Nat) (fr : Reg) (fm : Nat) (t0 : List Ev)
    (res : Int × St) : Prop :=
  ∃ j, ClearedAt hw r m N t0 j ∧
    (hw (polls hw r (j + 1) t0) fr % 2 ^ 32) &&& fm ≠ 0 ∧
    res.1 = -1 ∧ res.2.g_FMC_i32ErrCode = -1 ∧
    ∃ v, res.2.trace = polls hw r (j + 1) t0 ++
      [Ev.rd fr (hw (polls hw r (j + 1) t0) fr % 2 ^ 32), Ev.rd fr v, Ev.wr fr ((v ||| fm) % 2 ^ 32)]

/-- Outcome (c): the busy bit cleared in time and the fault flag read as clear; `0`
is returned and the error code is `0`. -/
def OutOk (hw : Hw) (r : Reg) (m N : Nat) (fr : Reg) (fm : Nat) (t0 : List Ev)
    (res : Int × St) : Prop :=
  ∃ j, ClearedAt hw r m N t0 j ∧
    (hw (polls hw r (j + 1) t0) fr % 2 ^ 32) &&& fm = 0 ∧
    res.1 = 0 ∧ res.2.g_FMC_i32ErrCode = 0 ∧
    res.2.trace = polls hw r (j + 1) t0 ++ [Ev.rd fr (hw (polls hw r (j + 1) t0) fr % 2 ^ 32)]

/-- Exactly one of the three outcomes holds. -/
def IspOutcome (hw : Hw) (r : Reg) (m N : Nat) (fr : Reg) (fm : Nat) (t0 : List Ev)
    (res : Int × St) : Prop :=
  (OutTimeout hw r m N t0 res ∨ OutFault hw r m N fr fm t0 res ∨ OutOk hw r m N fr fm t0 res) ∧
  ¬ (OutTimeout hw r m N t0 res ∧ OutFault hw r m N fr fm t0 res) ∧
  ¬ (OutTimeout hw r m N t0 res ∧ OutOk hw r m N fr fm t0 res) ∧
  ¬ (OutFault hw r m N fr fm t0 res ∧ OutOk hw r m N fr fm t0 res)

/-- The part common to the single-command primitives after their set-up writes:
bounded poll, time-out check, fault-flag check. -/
def ispTail (hw : Hw) (r : Reg) (m N : Nat) (fr : Reg) (fm : Nat) (s : St) : Int × St :=
  let w := waitWhile hw r m N s
  if w.1 ≤ 0 then (-1, setErr (-1) w.2)
  else if (rd hw fr w.2).1 &&& fm ≠ 0 then
    (-1, setErr (-1) (orReg hw fr fm (rd hw fr w.2).2))
  else (0, (rd hw fr w.2).2)

/-- The empty initial state. -/
def st0 : St := { trace := [], g_FMC_i32ErrCode := 0 }

/-- Hardware on which every register reads 0: no busy bit, no fault flag. -/
def hwIdle : Hw := fun _ _ => 0

/-- Hardware on which `ISPTRG` reads 1 (GO set) while fewer than five accesses
have been made and 0 afterwards, `ISPDAT` reads `0xCAFE`, every other register 0.
After the three set-up writes of `FMC_Read` the polls at trace lengths 3 and 4 see
GO set and the poll at trace length 5 sees it clear. -/
def hwClearOnThirdPoll : Hw := fun t r =>
  match r with
  | .ISPTRG => if t.length < 5 then 1 else 0
  | .ISPDAT => 0xCAFE
  | _ => 0

/-- Hardware on which the busy bits read clear at once, the fault flag `ISPFF` is
set in `ISPSTS` and `ISPCTL` (bit 6), `ISPDAT` reads `0xCAFE` and the other
registers read 0. -/
def hwFault : Hw := fun _ r =>
  match r with
  | .ISPSTS => 0x40
  | .ISPCTL => 0x40
  | .ISPDAT => 0xCAFE
  | _ => 0

/-- The trace after the set-up writes of `FMC_Read`. -/
def readSetup (h : Hdr) (a : Nat) (s : St) : List Ev :=
  s.trace ++ [Ev.wr .ISPCMD (h.FMC_ISPCMD_READ % 2 ^ 32), Ev.wr .ISPADDR (a % 2 ^ 32),
    Ev.wr .ISPTRG (h.FMC_ISPTRG_ISPGO_Msk % 2 ^ 32)]

instance busyAtDecidable (hw : Hw) (r : Reg) (m : Nat) (t : List Ev) (j : Nat) :
    Decidable (busyAt hw r m t j) := by
  unfold busyAt
  infer_instance

/-- Two's-complement wrap of a signed 32-bit `int`. -/
def wrapS32 (x : Int) : Int :=
  (x + 2 ^ 31) % 2 ^ 32 - 2 ^ 31

/-- The local variables of `FMC_WriteMultiple` (`u32Addr` and `u32Len` are its
parameters, which the function updates). -/
structure WM where
  u32Addr : Nat
  u32Len : Nat
  i : Nat
  idx : Nat
  retval : Int
  deriving DecidableEq, Repr

/-- The statement `FMC->r = pu32Buf[idx++]`. -/
def ldBuf (pu32Buf : Nat → Nat) (r : Reg) (l : WM) (s : St) : WM × St :=
  ({ l with idx := l.idx + 1 },
   wr r (pu32Buf l.idx) { s with trace := s.trace ++ [Ev.buf l.idx] })

/-- The statements `retval += 8; u32Len -= 8;` (`retval` is an `int`, `u32Len` a
`uint32_t`, which wraps when it is below 8). -/
def count8 (l : WM) : WM :=
  { l with retval := wrapS32 (l.retval + 8),
           u32Len := if 8 ≤ l.u32Len then l.u32Len - 8 else l.u32Len + 2 ^ 32 - 8 }

/-- The loop `for (i = 16; i < FMC_MULTI_WORD_PROG_LEN; ) { ... }` of
`FMC_WriteMultiple`, entered with `i` already set.  `fuel` bounds the number of
iterations (`none`: fuel exhausted).  The first component of the result is
`some v` when the body executed `return v`, and `none` when the loop was left by
`break` or by its condition. -/
def wmFor (h : Hdr) (hw : Hw) (pu32Buf : Nat → Nat) :
    Nat → WM → St → Option (Option Int × WM × St)
  | 0, _, _ => none
  | fuel + 1, l, s =>
    if ¬ (l.i < h.FMC_MULTI_WORD_PROG_LEN) then some (none, l, s)
    else
      let w := waitWhile hw .MPSTS (h.FMC_MPSTS_D0_Msk ||| h.FMC_MPSTS_D1_Msk)
        h.FMC_TIMEOUT_WRITE s
      if w.1 ≤ 0 then some (some (-1), l, setErr (-1) w.2)
      else
        let l := count8 l
        if l.u32Len < 8 then some (some l.retval, l, w.2)
        else
          let b := rd hw .MPSTS w.2
          if b.1 &&& h.FMC_MPSTS_MPBUSY_Msk = 0 then some (none, { l with i := l.i + 8 }, b.2)
          else
            let p := ldBuf pu32Buf .MPDAT0 l b.2
            let p := ldBuf pu32Buf .MPDAT1 p.1 p.2
            if p.1.i = h.FMC_MULTI_WORD_PROG_LEN / 4 then some (none, p.1, p.2)
            else
              let w := waitWhile hw .MPSTS (h.FMC_MPSTS_D2_Msk ||| h.FMC_MPSTS_D3_Msk)
                h.FMC_TIMEOUT_WRITE p.2
              if w.1 ≤ 0 then some (some (-1), p.1, setErr (-1) w.2)
              else
                let l := count8 p.1
                if l.u32Len < 8 then some (some l.retval, l, w.2)
                else
                  let b := rd hw .MPSTS w.2
                  if b.1 &&& h.FMC_MPSTS_MPBUSY_Msk = 0 then
                    some (none, { l with i := l.i + 8 }, b.2)
                  else
                    let p := ldBuf pu32Buf .MPDAT2 l b.2
                    let p := ldBuf pu32Buf .MPDAT3 p.1 p.2
                    wmFor h hw pu32Buf fuel p.1 p.2

/-- The start of a burst in `FMC_WriteMultiple`: the statements of the `while` body
before the `for` loop (address, four data words, command, trigger) and the
initialisation `i = 16` of the `for` loop. -/
def wmStart (h : Hdr) (pu32Buf : Nat → Nat) (l : WM) (s : St) : WM × St :=
  let s := wr .ISPADDR l.u32Addr s
  let p := ldBuf pu32Buf .MPDAT0 l s
  let p := ldBuf pu32Buf .MPDAT1 p.1 p.2
  let p := ldBuf pu32Buf .MPDAT2 p.1 p.2
  let p := ldBuf pu32Buf .MPDAT3 p.1 p.2
  let s := wr .ISPCMD h.FMC_ISPCMD_PROGRAM_MUL p.2
  let s := wr .ISPTRG h.FMC_ISPTRG_ISPGO_Msk s
  ({ p.1 with i := 16 }, s)

/-- The loop `while (u32Len >= 8) { ... }` of `FMC_WriteMultiple` followed by the
final `return retval`.  The result is the returned value, the locals at the
`return`, and the state. -/
def wmWhile (h : Hdr) (hw : Hw) (pu32Buf : Nat → Nat) :
    Nat → WM → St → Option (Int × WM × St)
  | 0, _, _ => none
  | fuel + 1, l, s =>
    if ¬ (l.u32Len ≥ 8) then some (l.retval, l, s)
    else
      match wmFor h hw pu32Buf (fuel + 1) (wmStart h pu32Buf l s).1 (wmStart h pu32Buf l s).2 with
      | none => none
      | some (some v, l, s) => some (v, l, s)
      | some (none, l, s) =>
        if l.i ≠ h.FMC_MULTI_WORD_PROG_LEN then some (l.retval, l, s)
        else
          let w := waitWhile hw .MPSTS h.FMC_MPSTS_MPBUSY_Msk h.FMC_TIMEOUT_WRITE s
          if w.1 ≤ 0 then some (-1, l, setErr (-1) w.2)
          else
            wmWhile h hw pu32Buf fuel
              { l with u32Addr := (l.u32Addr + h.FMC_MULTI_WORD_PROG_LEN) % 2 ^ 32 } w.2

/-- `FMC_WriteMultiple`.  `fuel` bounds the loop iterations; the result is `none`
when it does not suffice.  Otherwise the result is the returned value, the locals
at the `return` and the state. -/
def FMC_WriteMultiple (h : Hdr) (hw : Hw) (fuel : Nat) (u32Addr : Nat) (pu32Buf : Nat → Nat)
    (u32Len : Nat) (s : St) : Option (Int × WM × St) :=
  let s := setErr 0 s
  if u32Addr ≥ h.FMC_APROM_END ∨ u32Addr % 8 ≠ 0 then
    some (-2, { u32Addr := u32Addr, u32Len := u32Len, i := 0, idx := 0, retval := 0 },
      setErr (-2) s)
  else
    wmWhile h hw pu32Buf fuel
      { u32Addr := u32Addr, u32Len := u32Len - u32Len % 8, i := 0, idx := 0, retval := 0 } s

/-- Hardware on which `MPSTS` always reads `0xC1`: D0/D1 clear, D2/D3 set, MPBUSY
set.  Every other register reads 0. -/
def hwD2Stuck : Hw := fun _ r =>
  match r with
  | .MPSTS => 0xC1
  | _ => 0

/-- The trace `t` ends with a bounded wait on `MPSTS` (for D0/D1, D2/D3 or MPBUSY)
that used up its budget: after some earlier trace `t0` there are only polls, and
no poll before the last one of the budget read the awaited bits clear. -/
def TimedOutTail (h : Hdr) (hw : Hw) (t : List Ev) : Prop :=
  ∃ m t0 k, (m = (h.FMC_MPSTS_D0_Msk ||| h.FMC_MPSTS_D1_Msk) ∨
      m = (h.FMC_MPSTS_D2_Msk ||| h.FMC_MPSTS_D3_Msk) ∨ m = h.FMC_MPSTS_MPBUSY_Msk) ∧
    (∀ j, j + 1 < h.FMC_TIMEOUT_WRITE → busyAt hw .MPSTS m t0 j) ∧
    k ≤ h.FMC_TIMEOUT_WRITE ∧ t = polls hw .MPSTS k t0

/-- Invariant of the counters of `FMC_WriteMultiple`: the bytes counted so far
plus the bytes remaining equal the rounded length `R`, both are multiples of 8. -/
def WMInv (R : Nat) (l : WM) : Prop :=
  0 ≤ l.retval ∧ l.retval + (l.u32Len : Int) = (R : Int) ∧ (8 : Int) ∣ l.retval ∧ 8 ∣ l.u32Len

/-- The contract of `FMC_WriteMultiple` on its byte counters, for the rounded
length `R = u32Len - u32Len % 8`: the call returns when the fuel is at least
`u32Len / 8 + 1`; the counters start with `retval + u32Len = R`; every
`retval += 8; u32Len -= 8` step taken with `u32Len >= 8` keeps it; it holds at the
`return`; and a non-negative returned value is `retval`, a multiple of 8, at most
`R`. -/
def WriteMultipleCounts (h : Hdr) (hw : Hw) (fuel a : Nat) (buf : Nat → Nat) (len : Nat)
    (s : St) : Prop :=
  (h.FMC_MULTI_WORD_PROG_LEN ≠ 16 → len < 8 * fuel →
    ∃ r, FMC_WriteMultiple h hw fuel a buf len s = some r) ∧
  WMInv (len - len % 8)
    { u32Addr := a, u32Len := len - len % 8, i := 0, idx := 0, retval := 0 } ∧
  (∀ l, WMInv (len - len % 8) l → 8 ≤ l.u32Len → WMInv (len - len % 8) (count8 l)) ∧
  (∀ r, FMC_WriteMultiple h hw fuel a buf len s = some r →
    WMInv (len - len % 8) r.2.1 ∧
    (0 ≤ r.1 → r.1 = r.2.1.retval ∧ (8 : Int) ∣ r.1 ∧ r.1 ≤ ((len - len % 8 : Nat) : Int)))

/-- The first bounded wait of the `for` loop of `FMC_WriteMultiple` that uses up
its budget, if the loop reaches one: the state right after the polls of that wait
(`none`: the loop ends, by `return`, `break` or its condition, or the fuel runs
out, before any wait is exhausted).  The loop is followed statement by statement
from locals `l` and state `s`; the D0/D1 wait is reached in every iteration, the
D2/D3 wait when the iteration did not return or `break` before it. -/
def wmForExhausted (h : Hdr) (hw : Hw) (pu32Buf : Nat → Nat) : Nat → WM → St → Option St
  | 0, _, _ => none
  | fuel + 1, l, s =>
    if ¬ (l.i < h.FMC_MULTI_WORD_PROG_LEN) then none
    else
      let w := waitWhile hw .MPSTS (h.FMC_MPSTS_D0_Msk ||| h.FMC_MPSTS_D1_Msk)
        h.FMC_TIMEOUT_WRITE s
      if w.1 ≤ 0 then some w.2
      else
        let l := count8 l
        if l.u32Len < 8 then none
        else
          let b := rd hw .MPSTS w.2
          if b.1 &&& h.FMC_MPSTS_MPBUSY_Msk = 0 then none
          else
            let p := ldBuf pu32Buf .MPDAT0 l b.2
            let p := ldBuf pu32Buf .MPDAT1 p.1 p.2
            if p.1.i = h.FMC_MULTI_WORD_PROG_LEN / 4 then none
            else
              let w := waitWhile hw .MPSTS (h.FMC_MPSTS_D2_Msk ||| h.FMC_MPSTS_D3_Msk)
                h.FMC_TIMEOUT_WRITE p.2
              if w.1 ≤ 0 then some w.2
              else
                let l := count8 p.1
                if l.u32Len < 8 then none
                else
                  let b := rd hw .MPSTS w.2
                  if b.1 &&& h.FMC_MPSTS_MPBUSY_Msk = 0 then none
                  else
                    let p := ldBuf pu32Buf .MPDAT2 l b.2
                    let p := ldBuf pu32Buf .MPDAT3 p.1 p.2
                    wmForExhausted h hw pu32Buf fuel p.1 p.2

/-- The first bounded wait of the `while` loop of `FMC_WriteMultiple` that uses up
its budget, if the loop reaches one: a wait of the `for` loop of some burst, or the
wait for MPBUSY that follows a `for` loop left with
`i == FMC_MULTI_WORD_PROG_LEN`. -/
def wmWhileExhausted (h : Hdr) (hw : Hw) (pu32Buf : Nat → Nat) : Nat → WM → St → Option St
  | 0, _, _ => none
  | fuel + 1, l, s =>
    if ¬ (l.u32Len ≥ 8) then none
    else
      match wmForExhausted h hw pu32Buf (fuel + 1) (wmStart h pu32Buf l s).1
          (wmStart h pu32Buf l s).2 with
      | some sx => some sx
      | none =>
        match wmFor h hw pu32Buf (fuel + 1) (wmStart h pu32Buf l s).1
            (wmStart h pu32Buf l s).2 with
        | some (none, l, s) =>
          if l.i ≠ h.FMC_MULTI_WORD_PROG_LEN then none
          else
            let w := waitWhile hw .MPSTS h.FMC_MPSTS_MPBUSY_Msk h.FMC_TIMEOUT_WRITE s
            if w.1 ≤ 0 then some w.2
            else
              wmWhileExhausted h hw pu32Buf fuel
                { l with u32Addr := (l.u32Addr + h.FMC_MULTI_WORD_PROG_LEN) % 2 ^ 32 } w.2
        | _ => none

/-- The first bounded wait (for D0/D1, D2/D3 or MPBUSY clear) of a call of
`FMC_WriteMultiple` that uses up its budget, if the call reaches one: the state
right after the polls of that wait. -/
def writeMultipleExhausted (h : Hdr) (hw : Hw) (fuel : Nat) (u32Addr : Nat)
    (pu32Buf : Nat → Nat) (u32Len : Nat) (s : St) : Option St :=
  if u32Addr ≥ h.FMC_APROM_END ∨ u32Addr % 8 ≠ 0 then none
  else
    wmWhileExhausted h hw pu32Buf fuel
      { u32Addr := u32Addr, u32Len := u32Len - u32Len % 8, i := 0, idx := 0, retval := 0 }
      (setErr 0 s)

/-- The contract of `FMC_WriteMultiple` on time-outs.  When the call reaches a
bounded wait that uses up its budget, it returns right after the polls of that
wait, with `g_FMC_i32ErrCode = -1` and the value `-1`, which is not the byte count
`retval`.  When it reaches none, every result has error code `0` and is the byte
count, which is not `-1`. -/
def WriteMultipleTimeout (h : Hdr) (hw : Hw) (fuel a : Nat) (buf : Nat → Nat) (len : Nat)
    (s : St) : Prop :=
  (∀ sx, writeMultipleExhausted h hw fuel a buf len s = some sx →
    ∃ l, FMC_WriteMultiple h hw fuel a buf len s = some (-1, l, setErr (-1) sx) ∧
      l.retval ≠ -1) ∧
  (writeMultipleExhausted h hw fuel a buf len s = none →
    ∀ r, FMC_WriteMultiple h hw fuel a buf len s = some r →
      r.2.2.g_FMC_i32ErrCode = 0 ∧ r.1 = r.2.1.retval ∧ r.1 ≠ -1)

/-- The result of `FMC_WriteMultiple` for 32 bytes at address 0 on `hwD2Stuck`
with a poll budget of 3: the first pair is counted, the second pair is loaded, and
the D2/D3 wait polls three times. -/
def d2StuckResult : Int × WM × St :=
  (-1, { u32Addr := 0, u32Len := 24, i := 16, idx := 6, retval := 8 },
   { trace := [Ev.wr .ISPADDR 0, Ev.buf 0, Ev.wr .MPDAT0 0, Ev.buf 1, Ev.wr .MPDAT1 1,
       Ev.buf 2, Ev.wr .MPDAT2 2, Ev.buf 3, Ev.wr .MPDAT3 3, Ev.wr .ISPCMD 0x27,
       Ev.wr .ISPTRG 1, Ev.rd .MPSTS 0xC1, Ev.rd .MPSTS 0xC1, Ev.buf 4, Ev.wr .MPDAT0 4,
       Ev.buf 5, Ev.wr .MPDAT1 5, Ev.rd .MPSTS 0xC1, Ev.rd .MPSTS 0xC1, Ev.rd .MPSTS 0xC1],
     g_FMC_i32ErrCode := -1 })

/-- The statements that program one word and occur three times in `FMC_ConfigXOM`,
twice in `FMC_Write_OTP` and once in `FMC_Lock_OTP`: `ISPCMD = FMC_ISPCMD_PROGRAM`,
`ISPADDR = addr`, `ISPDAT = data`, `ISPTRG = GO`, the bounded wait on `ISPTRG`, the
time-out check and the `ISPFF` check on `ISPSTS`.  The first component is `-1` when
the statements end in `return -1` and `0` when control continues after them. -/
def progStep (h : Hdr) (hw : Hw) (addr data : Nat) (s : St) : Int × St :=
  let s := wr .ISPCMD h.FMC_ISPCMD_PROGRAM s
  let s := wr .ISPADDR addr s
  let s := wr .ISPDAT data s
  let s := wr .ISPTRG h.FMC_ISPTRG_ISPGO_Msk s
  let w := waitWhile hw .ISPTRG h.FMC_ISPTRG_ISPGO_Msk h.FMC_TIMEOUT_WRITE s
  if w.1 ≤ 0 then (-1, setErr (-1) w.2)
  else if (rd hw .ISPSTS w.2).1 &&& h.FMC_ISPSTS_ISPFF_Msk ≠ 0 then
    (-1, setErr (-1) (orReg hw .ISPSTS h.FMC_ISPSTS_ISPFF_Msk (rd hw .ISPSTS w.2).2))
  else (0, (rd hw .ISPSTS w.2).2)

/-- `FMC_GetXOMState`. -/
def FMC_GetXOMState (hw : Hw) (u32XomNum : Nat) (s : St) : Int × St :=
  let ret : Int := if u32XomNum ≥ 4 then -2 else 0
  if ret ≥ 0 then
    let x := rd hw .XOMSTS s
    (((((x.1 &&& 0xf) &&& ((1 <<< u32XomNum) % 2 ^ 32)) >>> u32XomNum : Nat) : Int), x.2)
  else (ret, s)

/-- `FMC_ConfigXOM` (`u8XomPage` is a `uint8_t`). -/
def FMC_ConfigXOM (h : Hdr) (hw : Hw) (u32XomNum u32XomBase u8XomPage : Nat) (s : St) :
    Int × St :=
  let s := setErr 0 s
  if u32XomNum ≥ 4 then (-2, setErr (-2) s)
  else
    let g := FMC_GetXOMState hw u32XomNum s
    if g.1 ≠ 0 then (g.1, g.2)
    else
      let p := progStep h hw (h.FMC_XOM_BASE + u32XomNum * 0x10) u32XomBase g.2
      if p.1 ≠ 0 then p
      else
        let p := progStep h hw (h.FMC_XOM_BASE + (u32XomNum * 0x10 + 0x04)) (u8XomPage % 256) p.2
        if p.1 ≠ 0 then p
        else
          let p := progStep h hw (h.FMC_XOM_BASE + (u32XomNum * 0x10 + 0x08)) 0 p.2
          if p.1 ≠ 0 then p else (0, p.2)

/-- The register read by the `switch (u32XomNum)` of `FMC_EraseXOM`.  The switch
is reached only with `u32XomNum < 4`; its `default` case reads nothing. -/
def xomStsReg : Nat → Reg
  | 0 => .XOMR0STS
  | 1 => .XOMR1STS
  | 2 => .XOMR2STS
  | _ => .XOMR3STS

/-- `FMC_EraseXOM`.  The loop `while ((tout-- > 0) && FMC->ISPTRG) {}` tests the
whole 32-bit register, which is the mask `0xFFFFFFFF`. -/
def FMC_EraseXOM (h : Hdr) (hw : Hw) (u32XomNum : Nat) (s : St) : Int × St :=
  let err : Int := if u32XomNum ≥ 4 then -2 else 0
  if err = 0 then
    let g := FMC_GetXOMState hw u32XomNum s
    if g.1 ≠ 0 then
      let x := rd hw (xomStsReg u32XomNum) g.2
      let u32Addr := (x.1 &&& 0xFFFFFF00) >>> 8
      let s := wr .ISPCMD h.FMC_ISPCMD_PAGE_ERASE x.2
      let s := wr .ISPADDR u32Addr s
      let s := wr .ISPDAT 0x55aa03 s
      let s := wr .ISPTRG 0x1 s
      let w := waitWhile hw .ISPTRG 0xFFFFFFFF h.FMC_TIMEOUT_ERASE s
      let err : Int := if w.1 ≤ 0 then -1 else 0
      let f := rd hw .ISPCTL w.2
      if f.1 &&& h.FMC_ISPCTL_ISPFF_Msk ≠ 0 then
        (-1, setErr (-1) (orReg hw .ISPCTL h.FMC_ISPCTL_ISPFF_Msk f.2))
      else (err, setErr err f.2)
    else (-1, setErr (-1) g.2)
  else (err, setErr err s)

/-- `FMC_Write_OTP`. -/
def FMC_Write_OTP (h : Hdr) (hw : Hw) (otp_num low_word high_word : Nat) (s : St) : Int × St :=
  let s := setErr 0 s
  if otp_num > 255 then (-2, setErr (-2) s)
  else
    let p := progStep h hw (h.FMC_OTP_BASE + otp_num * 8) low_word s
    if p.1 ≠ 0 then p
    else
      let p := progStep h hw (h.FMC_OTP_BASE + otp_num * 8 + 4) high_word p.2
      if p.1 ≠ 0 then p else (0, p.2)

/-- `FMC_Read_OTP`: the result is the return code and, on success, the two words
stored through `low_word` and `high_word` (`none`: nothing is stored). -/
def FMC_Read_OTP (h : Hdr) (hw : Hw) (otp_num : Nat) (s : St) :
    (Int × Option (Nat × Nat)) × St :=
  let s := setErr 0 s
  if otp_num > 255 then ((-2, none), setErr (-2) s)
  else
    let s := wr .ISPCMD h.FMC_ISPCMD_READ_64 s
    let s := wr .ISPADDR (h.FMC_OTP_BASE + otp_num * 8) s
    let s := wr .ISPDAT 0x0 s
    let s := wr .ISPTRG h.FMC_ISPTRG_ISPGO_Msk s
    let w := waitWhile hw .ISPSTS h.FMC_ISPSTS_ISPBUSY_Msk h.FMC_TIMEOUT_WRITE s
    if w.1 ≤ 0 then ((-1, none), setErr (-1) w.2)
    else if (rd hw .ISPSTS w.2).1 &&& h.FMC_ISPSTS_ISPFF_Msk ≠ 0 then
      ((-1, none), setErr (-1) (orReg hw .ISPSTS h.FMC_ISPSTS_ISPFF_Msk (rd hw .ISPSTS w.2).2))
    else
      let d0 := rd hw .MPDAT0 (rd hw .ISPSTS w.2).2
      let d1 := rd hw .MPDAT1 d0.2
      ((0, some (d0.1, d1.1)), d1.2)

/-- `FMC_Lock_OTP`. -/
def FMC_Lock_OTP (h : Hdr) (hw : Hw) (otp_num : Nat) (s : St) : Int × St :=
  let s := setErr 0 s
  if otp_num > 255 then (-2, setErr (-2) s)
  else
    let p := progStep h hw (h.FMC_OTP_BASE + 0x800 + otp_num * 4) 0 s
    if p.1 ≠ 0 then p else (0, p.2)

/-- `FMC_Is_OTP_Locked`. -/
def FMC_Is_OTP_Locked (h : Hdr) (hw : Hw) (otp_num : Nat) (s : St) : Int × St :=
  let s := setErr 0 s
  if otp_num > 255 then (-2, setErr (-2) s)
  else
    let s := wr .ISPCMD h.FMC_ISPCMD_READ s
    let s := wr .ISPADDR (h.FMC_OTP_BASE + 0x800 + otp_num * 4) s
    let s := wr .ISPTRG h.FMC_ISPTRG_ISPGO_Msk s
    let w := waitWhile hw .ISPTRG h.FMC_ISPTRG_ISPGO_Msk h.FMC_TIMEOUT_READ s
    if w.1 ≤ 0 then (-1, setErr (-1) w.2)
    else if (rd hw .ISPSTS w.2).1 &&& h.FMC_ISPSTS_ISPFF_Msk ≠ 0 then
      (-1, setErr (-1) (orReg hw .ISPSTS h.FMC_ISPSTS_ISPFF_Msk (rd hw .ISPSTS w.2).2))
    else
      let d := rd hw .ISPDAT (rd hw .ISPSTS w.2).2
      if d.1 ≠ 0xFFFFFFFF then (1, setErr (-1) d.2) else (0, d.2)

/-- `FMC_ReadConfig`: the result is the return code and the array `u32Config`
after the call. -/
def FMC_ReadConfig (h : Hdr) (hw : Hw) (u32Config : List Nat) (u32Count : Nat) (s : St) :
    (Int × List Nat) × St :=
  let r0 := FMC_Read h hw h.FMC_CONFIG_BASE s
  let cfg := u32Config.set 0 r0.1
  if r0.2.g_FMC_i32ErrCode ≠ 0 then ((r0.2.g_FMC_i32ErrCode, cfg), r0.2)
  else if u32Count < 2 then ((-2, cfg), r0.2)
  else
    let r1 := FMC_Read h hw ((h.FMC_CONFIG_BASE + 4) % 2 ^ 32) r0.2
    ((0, cfg.set 1 r1.1), r1.2)

/-- The macro `FMC_ENABLE_CFG_UPDATE()` of `fmc.h`, which is not among the sources:
it sets the bit `FMC_ISPCTL_CFGUEN_Msk` of `ISPCTL` (`FMC->ISPCTL |= mask`). -/
def FMC_ENABLE_CFG_UPDATE (h : Hdr) (hw : Hw) (s : St) : St :=
  orReg hw .ISPCTL h.FMC_ISPCTL_CFGUEN_Msk s

/-- The macro `FMC_DISABLE_CFG_UPDATE()` of `fmc.h`, which is not among the
sources: it clears the bit `FMC_ISPCTL_CFGUEN_Msk` of `ISPCTL`
(`FMC->ISPCTL &= ~mask`). -/
def FMC_DISABLE_CFG_UPDATE (h : Hdr) (hw : Hw) (s : St) : St :=
  wr .ISPCTL ((rd hw .ISPCTL s).1 &&& (0xFFFFFFFF ^^^ (h.FMC_ISPCTL_CFGUEN_Msk % 2 ^ 32)))
    (rd hw .ISPCTL s).2

/-- The loop `for (i = 0; i < u32Count; i++) { ... }` of `FMC_WriteConfig` with `n`
iterations left, at index `i`.  The first component is `-1` when the body ended in
`return -1` (after `FMC_DISABLE_CFG_UPDATE()`), and `0` when the loop ran to its
end. -/
def writeConfigLoop (h : Hdr) (hw : Hw) (u32Config : Nat → Nat) : Nat → Nat → St → Int × St
  | 0, _, s => (0, s)
  | n + 1, i, s =>
    let w := FMC_Write h hw ((h.FMC_CONFIG_BASE + i * 4) % 2 ^ 32) (u32Config i) s
    if w.1 ≠ 0 then (-1, FMC_DISABLE_CFG_UPDATE h hw w.2)
    else
      let r := FMC_Read h hw ((h.FMC_CONFIG_BASE + i * 4) % 2 ^ 32) w.2
      if r.1 ≠ u32Config i % 2 ^ 32 then (-1, FMC_DISABLE_CFG_UPDATE h hw r.2)
      else if r.2.g_FMC_i32ErrCode ≠ 0 then (-1, FMC_DISABLE_CFG_UPDATE h hw r.2)
      else writeConfigLoop h hw u32Config n (i + 1) r.2

/-- `FMC_WriteConfig`. -/
def FMC_WriteConfig (h : Hdr) (hw : Hw) (u32Config : Nat → Nat) (u32Count : Nat) (s : St) :
    Int × St :=
  let s := FMC_ENABLE_CFG_UPDATE h hw s
  let e := FMC_Erase h hw h.FMC_CONFIG_BASE s
  if e.1 ≠ 0 then (-1, e.2)
  else
    let r0 := FMC_Read h hw h.FMC_CONFIG_BASE e.2
    if r0.1 ≠ 0xFFFFFFFF then (-1, FMC_DISABLE_CFG_UPDATE h hw r0.2)
    else
      let r1 := FMC_Read h hw ((h.FMC_CONFIG_BASE + 4) % 2 ^ 32) r0.2
      if r1.1 ≠ 0xFFFFFFFF then (-1, FMC_DISABLE_CFG_UPDATE h hw r1.2)
      else
        let r2 := FMC_Read h hw ((h.FMC_CONFIG_BASE + 8) % 2 ^ 32) r1.2
        if r2.1 ≠ 0xFFFF5A5A then (-1, FMC_DISABLE_CFG_UPDATE h hw r2.2)
        else if r2.2.g_FMC_i32ErrCode ≠ 0 then (-1, FMC_DISABLE_CFG_UPDATE h hw r2.2)
        else
          let l := writeConfigLoop h hw u32Config (u32Count % 2 ^ 32) 0 r2.2
          if l.1 ≠ 0 then l else (0, FMC_DISABLE_CFG_UPDATE h hw l.2)

/-- The checks of `FMC_SetSPKey` after the key-busy wait, on the value
`u32KeySts` read from `KPKEYSTS`, followed by `g_FMC_i32ErrCode = ret; return ret;`. -/
def spKeyVerify (h : Hdr) (hw : Hw) (kpmax kemax : Nat) (lock_CONFIG lock_SPROM : Int)
    (u32KeySts : Nat) (s : St) : Int × St :=
  if u32KeySts &&& h.FMC_KPKEYSTS_KEYLOCK_Msk = 0 then (-4, setErr (-4) s)
  else if (lock_CONFIG ≠ 0 ∧ u32KeySts &&& h.FMC_KPKEYSTS_CFGFLAG_Msk = 0) ∨
      (lock_CONFIG = 0 ∧ u32KeySts &&& h.FMC_KPKEYSTS_CFGFLAG_Msk ≠ 0) then (-5, setErr (-5) s)
  else if (lock_SPROM ≠ 0 ∧ u32KeySts &&& h.FMC_KPKEYSTS_SPFLAG_Msk = 0) ∨
      (lock_SPROM = 0 ∧ u32KeySts &&& h.FMC_KPKEYSTS_SPFLAG_Msk ≠ 0) then (-6, setErr (-6) s)
  else
    let c := rd hw .KPCNT s
    if (c.1 &&& h.FMC_KPCNT_KPMAX_Msk) >>> h.FMC_KPCNT_KPMAX_Pos ≠ kpmax % 2 ^ 32 then
      (-7, setErr (-7) c.2)
    else
      let d := rd hw .KPKEYCNT c.2
      if (d.1 &&& h.FMC_KPKEYCNT_KPKEMAX_Msk) >>> h.FMC_KPKEYCNT_KPKEMAX_Pos ≠ kemax % 2 ^ 32 then
        (-8, setErr (-8) d.2)
      else (0, setErr 0 d.2)

/-- The six `FMC_Write` calls of `FMC_SetSPKey` (their return values are ignored). -/
def spKeyProgram (h : Hdr) (hw : Hw) (key : Nat → Nat) (kpmax kemax lock_ctrl : Nat) (s : St) :
    St :=
  let s := (FMC_Write h hw h.FMC_KPROM_BASE (key 0) s).2
  let s := (FMC_Write h hw ((h.FMC_KPROM_BASE + 0x4) % 2 ^ 32) (key 1) s).2
  let s := (FMC_Write h hw ((h.FMC_KPROM_BASE + 0x8) % 2 ^ 32) (key 2) s).2
  let s := (FMC_Write h hw ((h.FMC_KPROM_BASE + 0xC) % 2 ^ 32) kpmax s).2
  let s := (FMC_Write h hw ((h.FMC_KPROM_BASE + 0x10) % 2 ^ 32) kemax s).2
  (FMC_Write h hw ((h.FMC_KPROM_BASE + 0x14) % 2 ^ 32) lock_ctrl s).2

/-- `FMC_SetSPKey` (`lock_CONFIG` and `lock_SPROM` are `int32_t` flags). -/
def FMC_SetSPKey (h : Hdr) (hw : Hw) (key : Nat → Nat) (kpmax kemax : Nat)
    (lock_CONFIG lock_SPROM : Int) (s : St) : Int × St :=
  let s := setErr 0 s
  let k := rd hw .KPKEYSTS s
  let ret : Int := if k.1 ≠ 0x200 then -1 else 0
  let e1 := FMC_Erase h hw h.FMC_KPROM_BASE k.2
  let ret : Int := if e1.1 ≠ 0 then -2 else ret
  let e2 := FMC_Erase h hw ((h.FMC_KPROM_BASE + 0x200) % 2 ^ 32) e1.2
  let ret : Int := if e2.1 ≠ 0 then -3 else ret
  let lock_ctrl : Nat := (if lock_CONFIG = 0 then 0x1 else 0) ||| (if lock_SPROM = 0 then 0x2 else 0)
  if ret = 0 then
    let s := spKeyProgram h hw key kpmax kemax lock_ctrl e2.2
    let w := waitWhile hw .KPKEYSTS h.FMC_KPKEYSTS_KEYBUSY_Msk h.FMC_TIMEOUT_WRITE s
    if w.1 ≤ 0 then (-3, setErr (-3) w.2)
    else
      let u := rd hw .KPKEYSTS w.2
      spKeyVerify h hw kpmax kemax lock_CONFIG lock_SPROM u.1 u.2
  else (ret, setErr ret e2.2)

/-- The trace `t` records an erase command for the page at `addr`: the writes
`ISPCMD = FMC_ISPCMD_PAGE_ERASE` and `ISPADDR = addr` next to each other. -/
def IssuesErase (h : Hdr) (addr : Nat) (t : List Ev) : Prop :=
  ∃ pre post, t = pre ++ [Ev.wr .ISPCMD (h.FMC_ISPCMD_PAGE_ERASE % 2 ^ 32),
    Ev.wr .ISPADDR (addr % 2 ^ 32)] ++ post

/-- No event of `ext` issues a program command: no write of
`FMC_ISPCMD_PROGRAM` to `ISPCMD`. -/
def NoProgram (h : Hdr) (ext : List Ev) : Prop :=
  ∀ e ∈ ext, e ≠ Ev.wr .ISPCMD (h.FMC_ISPCMD_PROGRAM % 2 ^ 32)

/-- The contract of the parameter checks: each function returns `-2` and leaves
the trace as it was (no register was read or written, no buffer word loaded);
`FMC_GetXOMState` leaves the whole state unchanged, the others record `-2` in
`g_FMC_i32ErrCode`; `FMC_Read_OTP` stores nothing through its output pointers. -/
def InvalidParamContract (h : Hdr) (hw : Hw) (s : St) (n base page otp lo hi : Nat)
    (fuel a : Nat) (buf : Nat → Nat) (len : Nat) : Prop :=
  FMC_GetXOMState hw n s = (-2, s) ∧
  FMC_ConfigXOM h hw n base page s = (-2, { s with g_FMC_i32ErrCode := -2 }) ∧
  FMC_EraseXOM h hw n s = (-2, { s with g_FMC_i32ErrCode := -2 }) ∧
  FMC_Write_OTP h hw otp lo hi s = (-2, { s with g_FMC_i32ErrCode := -2 }) ∧
  FMC_Read_OTP h hw otp s = ((-2, none), { s with g_FMC_i32ErrCode := -2 }) ∧
  FMC_Lock_OTP h hw otp s = (-2, { s with g_FMC_i32ErrCode := -2 }) ∧
  FMC_Is_OTP_Locked h hw otp s = (-2, { s with g_FMC_i32ErrCode := -2 }) ∧
  FMC_WriteMultiple h hw fuel a buf len s =
    some (-2, { u32Addr := a, u32Len := len, i := 0, idx := 0, retval := 0 },
      { s with g_FMC_i32ErrCode := -2 })

/-- The trace after the four set-up writes of a word program command at `addr`
with data `data`, starting from trace `t`. -/
def progSetup (h : Hdr) (t : List Ev) (addr data : Nat) : List Ev :=
  t ++ [Ev.wr .ISPCMD (h.FMC_ISPCMD_PROGRAM % 2 ^ 32), Ev.wr .ISPADDR (addr % 2 ^ 32),
    Ev.wr .ISPDAT (data % 2 ^ 32), Ev.wr .ISPTRG (h.FMC_ISPTRG_ISPGO_Msk % 2 ^ 32)]

/-- The program command `FMC_Write(addr, data)` issued in state `s` completes in
time without fault: outcome (c) of the single-command protocol. -/
def WriteOk (h : Hdr) (hw : Hw) (addr data : Nat) (s : St) : Prop :=
  OutOk hw .ISPTRG h.FMC_ISPTRG_ISPGO_Msk h.FMC_TIMEOUT_WRITE .ISPSTS h.FMC_ISPSTS_ISPFF_Msk
    (progSetup h s.trace addr data) (FMC_Write h hw addr data s)

/-- The contract of `FMC_ConfigXOM` for a region number `n < 4`, with `v` the value
of `XOMSTS` at the time of the call.  If bit `n` of `v` is set the result is 1 and
the only register access is the read of `XOMSTS`.  If it is clear the call behaves
as `FMC_Write(FMC_XOM_BASE + 16n, base)`, `FMC_Write(FMC_XOM_BASE + 16n + 4, page)`,
`FMC_Write(FMC_XOM_BASE + 16n + 8, 0)` in this order, stopping at the first that
fails; the result is 0 or -1, and it is 0 exactly when each of the three program
commands completes in time without fault. -/
def ConfigXOMContract (h : Hdr) (hw : Hw) (n base page : Nat) (s : St) : Prop :=
  let v := hw s.trace .XOMSTS % 2 ^ 32
  let s1 : St := { trace := s.trace ++ [Ev.rd .XOMSTS v], g_FMC_i32ErrCode := 0 }
  let w1 := FMC_Write h hw (h.FMC_XOM_BASE + 16 * n) base s1
  let w2 := FMC_Write h hw (h.FMC_XOM_BASE + 16 * n + 4) (page % 256) w1.2
  let w3 := FMC_Write h hw (h.FMC_XOM_BASE + 16 * n + 8) 0 w2.2
  (v.testBit n = true → FMC_ConfigXOM h hw n base page s = (1, s1)) ∧
  (v.testBit n = false →
    FMC_ConfigXOM h hw n base page s = (if w1.1 ≠ 0 then w1 else if w2.1 ≠ 0 then w2 else w3) ∧
    ((FMC_ConfigXOM h hw n base page s).1 = 0 ∨ (FMC_ConfigXOM h hw n base page s).1 = -1) ∧
    ((FMC_ConfigXOM h hw n base page s).1 = 0 ↔
      WriteOk h hw (h.FMC_XOM_BASE + 16 * n) base s1 ∧
      WriteOk h hw (h.FMC_XOM_BASE + 16 * n + 4) (page % 256) w1.2 ∧
      WriteOk h hw (h.FMC_XOM_BASE + 16 * n + 8) 0 w2.2))

/-- Hardware on which XOM region 1 becomes active once the driver has written the
address `FMC_XOM_BASE + 0x18` (the last of the three words of region 1) to
`ISPADDR`: from then on `XOMSTS` reads `0x2`.  Every other register reads 0. -/
def hwXomLatch : Hw := fun t r =>
  match r with
  | .XOMSTS => if Ev.wr .ISPADDR 0x200018 ∈ t then 0x2 else 0
  | _ => 0

/-- The state `s2` extends the trace of `s1` by events that all satisfy `P`. -/
def TraceExt (P : Ev → Prop) (s1 s2 : St) : Prop :=
  ∃ ext, s2.trace = s1.trace ++ ext ∧ ∀ e ∈ ext, P e

/-- Whether config-update mode is enabled according to the trace `t`: the bit
`FMC_ISPCTL_CFGUEN_Msk` in the value last written to `ISPCTL` (`none`: `ISPCTL` was
never written). -/
def cfgUpdateMode (h : Hdr) (t : List Ev) : Option Bool :=
  t.foldl (fun acc e =>
    match e with
    | Ev.wr .ISPCTL v => some (decide (v &&& (h.FMC_ISPCTL_CFGUEN_Msk % 2 ^ 32) ≠ 0))
    | _ => acc) none

/-- Hardware on which the GO bit of `ISPTRG` never clears; every other register
reads 0. -/
def hwGoStuck : Hw := fun _ r =>
  match r with
  | .ISPTRG => 1
  | _ => 0

/-- Hardware on which a command completes at once unless the address last written
to `ISPADDR` is `bad`: then the GO bit of `ISPTRG` stays set.  `KPKEYSTS` reads
`sts`, `ISPDAT` reads `0x12345678`, every other register reads 0. -/
def hwStuckAt (bad sts : Nat) : Hw := fun t r =>
  match r with
  | .ISPTRG =>
    if (t.foldl (fun acc e => match e with | Ev.wr .ISPADDR a => a | _ => acc) 0) = bad then 1
    else 0
  | .KPKEYSTS => sts
  | .ISPDAT => 0x12345678
  | _ => 0

/-- The value of `ret` in `FMC_SetSPKey` before `if (ret == 0)`, from the value `k`
read from `KPKEYSTS` and the results `e1`, `e2` of the two erase calls. -/
def spKeyRet (k : Nat) (e1 e2 : Int) : Int :=
  if e2 ≠ 0 then -3 else if e1 ≠ 0 then -2 else if k ≠ 0x200 then -1 else 0

/-- `FMC_CompareSPKey`. -/
def FMC_CompareSPKey (h : Hdr) (hw : Hw) (key : Nat → Nat) (s : St) : Int × St :=
  let s := setErr 0 s
  let f := rd hw .KPKEYSTS s
  if f.1 &&& h.FMC_KPKEYSTS_FORBID_Msk ≠ 0 then (-2, setErr (-2) f.2)
  else
    let l := rd hw .KPKEYSTS f.2
    if l.1 &&& h.FMC_KPKEYSTS_KEYLOCK_Msk = 0 then (-4, setErr (-4) l.2)
    else
      let s := wr .KPKEY0 (key 0) l.2
      let s := wr .KPKEY1 (key 1) s
      let s := wr .KPKEY2 (key 2) s
      let s := wr .KPKEYTRG (h.FMC_KPKEYTRG_KPKEYGO_Msk ||| h.FMC_KPKEYTRG_TCEN_Msk) s
      let w := waitWhile hw .KPKEYSTS h.FMC_KPKEYSTS_KEYBUSY_Msk h.FMC_TIMEOUT_READ s
      if w.1 ≤ 0 then (-1, setErr (-1) w.2)
      else
        let u := rd hw .KPKEYSTS w.2
        if u.1 &&& h.FMC_KPKEYSTS_KEYMATCH_Msk = 0 then (-3, setErr (-3) u.2)
        else if u.1 &&& h.FMC_KPKEYSTS_KEYLOCK_Msk ≠ 0 then (-5, setErr (-5) u.2)
        else (0, u.2)

/-- The end of `FMC_CheckAllOne`, after the `do ... while (FMC->ISPDAT == 0UL)`
loop: `ISPDAT` is read once or twice by the test (the `||` short-circuits) and
once more by `return FMC->ISPDAT`. -/
def checkAllOneEnd (h : Hdr) (hw : Hw) (s : St) : Nat × St :=
  let a := rd hw .ISPDAT s
  if a.1 = h.READ_ALLONE_YES % 2 ^ 32 then rd hw .ISPDAT a.2
  else
    let b := rd hw .ISPDAT a.2
    if b.1 = h.READ_ALLONE_NOT % 2 ^ 32 then rd hw .ISPDAT b.2
    else (h.READ_ALLONE_CMD_FAIL % 2 ^ 32, setErr (-1) b.2)

/-- The loop `do { ... } while (FMC->ISPDAT == 0UL);` of `FMC_CheckAllOne` followed
by the end of the function, entered with the current value `tout` of the shared
poll budget.  `fuel` bounds the number of iterations (`none`: fuel exhausted). -/
def checkAllOneLoop (h : Hdr) (hw : Hw) (u32addr : Nat) : Nat → Nat → St → Option (Nat × St)
  | 0, _, _ => none
  | fuel + 1, tout, s =>
    let s := wr .ISPCMD h.FMC_ISPCMD_READ_ALL1 s
    let s := wr .ISPADDR u32addr s
    let s := wr .ISPTRG h.FMC_ISPTRG_ISPGO_Msk s
    let w := waitWhile hw .ISPSTS h.FMC_ISPSTS_ISPBUSY_Msk tout s
    if w.1 ≤ 0 then some (h.READ_ALLONE_CMD_FAIL % 2 ^ 32, setErr (-1) w.2)
    else
      let d := rd hw .ISPDAT w.2
      if d.1 = 0 then checkAllOneLoop h hw u32addr fuel w.1.toNat d.2
      else some (checkAllOneEnd h hw d.2)

/-- `FMC_CheckAllOne`.  `fuel` bounds the iterations of the `do ... while` loop;
the result is `none` when it does not suffice. -/
def FMC_CheckAllOne (h : Hdr) (hw : Hw) (fuel : Nat) (u32addr u32count : Nat) (s : St) :
    Option (Nat × St) :=
  let s := setErr 0 s
  let s := wr .ISPSTS 0x80 s
  let s := wr .ISPCMD h.FMC_ISPCMD_RUN_ALL1 s
  let s := wr .ISPADDR u32addr s
  let s := wr .ISPDAT u32count s
  let s := wr .ISPTRG h.FMC_ISPTRG_ISPGO_Msk s
  let w := waitWhile hw .ISPSTS h.FMC_ISPSTS_ISPBUSY_Msk h.FMC_TIMEOUT_CHKALLONE s
  if w.1 ≤ 0 then some (h.READ_ALLONE_CMD_FAIL % 2 ^ 32, setErr (-1) w.2)
  else checkAllOneLoop h hw u32addr fuel h.FMC_TIMEOUT_CHKALLONE w.2

/-- The contract of `FMC_CompareSPKey`, with `v0` and `v1` the values of the two
reads of `KPKEYSTS` at the start.  The error code always equals the value returned.
`FORBID` set in `v0`: `-2`, and the only access is that read.  Else `KEYLOCK` clear
in `v1`: `-4`, and the only accesses are the two reads.  Else the three key words
and the trigger are written, and then: `-1` when `KEYBUSY` did not read clear before
the poll that uses up the budget; otherwise, with `u` the value of `KPKEYSTS` read
after the wait, `-3` when `KEYMATCH` is clear in `u`, `-5` when `KEYMATCH` and
`KEYLOCK` are set, and `0` when `KEYMATCH` is set and `KEYLOCK` is clear. -/
def CompareSPKeyContract (h : Hdr) (hw : Hw) (key : Nat → Nat) (s : St) : Prop :=
  let v0 := hw s.trace .KPKEYSTS % 2 ^ 32
  let t1 := s.trace ++ [Ev.rd .KPKEYSTS v0]
  let v1 := hw t1 .KPKEYSTS % 2 ^ 32
  let t2 := t1 ++ [Ev.rd .KPKEYSTS v1]
  let t3 := t2 ++ [Ev.wr .KPKEY0 (key 0 % 2 ^ 32), Ev.wr .KPKEY1 (key 1 % 2 ^ 32),
    Ev.wr .KPKEY2 (key 2 % 2 ^ 32),
    Ev.wr .KPKEYTRG ((h.FMC_KPKEYTRG_KPKEYGO_Msk ||| h.FMC_KPKEYTRG_TCEN_Msk) % 2 ^ 32)]
  (FMC_CompareSPKey h hw key s).2.g_FMC_i32ErrCode = (FMC_CompareSPKey h hw key s).1 ∧
  (v0 &&& h.FMC_KPKEYSTS_FORBID_Msk ≠ 0 →
    FMC_CompareSPKey h hw key s = (-2, { trace := t1, g_FMC_i32ErrCode := -2 })) ∧
  (v0 &&& h.FMC_KPKEYSTS_FORBID_Msk = 0 → v1 &&& h.FMC_KPKEYSTS_KEYLOCK_Msk = 0 →
    FMC_CompareSPKey h hw key s = (-4, { trace := t2, g_FMC_i32ErrCode := -4 })) ∧
  (v0 &&& h.FMC_KPKEYSTS_FORBID_Msk = 0 → v1 &&& h.FMC_KPKEYSTS_KEYLOCK_Msk ≠ 0 →
    ((∀ j, j + 1 < h.FMC_TIMEOUT_READ → busyAt hw .KPKEYSTS h.FMC_KPKEYSTS_KEYBUSY_Msk t3 j) →
      (FMC_CompareSPKey h hw key s).1 = -1 ∧
      ∃ k, k ≤ h.FMC_TIMEOUT_READ ∧
        (FMC_CompareSPKey h hw key s).2.trace = polls hw .KPKEYSTS k t3) ∧
    (∀ j, ClearedAt hw .KPKEYSTS h.FMC_KPKEYSTS_KEYBUSY_Msk h.FMC_TIMEOUT_READ t3 j →
      (FMC_CompareSPKey h hw key s).2.trace = polls hw .KPKEYSTS (j + 1) t3 ++
        [Ev.rd .KPKEYSTS (hw (polls hw .KPKEYSTS (j + 1) t3) .KPKEYSTS % 2 ^ 32)] ∧
      ((hw (polls hw .KPKEYSTS (j + 1) t3) .KPKEYSTS % 2 ^ 32) &&&
          h.FMC_KPKEYSTS_KEYMATCH_Msk = 0 → (FMC_CompareSPKey h hw key s).1 = -3) ∧
      ((hw (polls hw .KPKEYSTS (j + 1) t3) .KPKEYSTS % 2 ^ 32) &&&
          h.FMC_KPKEYSTS_KEYMATCH_Msk ≠ 0 →
        (hw (polls hw .KPKEYSTS (j + 1) t3) .KPKEYSTS % 2 ^ 32) &&&
          h.FMC_KPKEYSTS_KEYLOCK_Msk ≠ 0 → (FMC_CompareSPKey h hw key s).1 = -5) ∧
      ((hw (polls hw .KPKEYSTS (j + 1) t3) .KPKEYSTS % 2 ^ 32) &&&
          h.FMC_KPKEYSTS_KEYMATCH_Msk ≠ 0 →
        (hw (polls hw .KPKEYSTS (j + 1) t3) .KPKEYSTS % 2 ^ 32) &&&
          h.FMC_KPKEYSTS_KEYLOCK_Msk = 0 → (FMC_CompareSPKey h hw key s).1 = 0)))

/-- The trace of `FMC_CompareSPKey` up to and including the write of the compare
trigger, starting from trace `t`. -/
def compareSetup (h : Hdr) (hw : Hw) (key : Nat → Nat) (t : List Ev) : List Ev :=
  t ++ [Ev.rd .KPKEYSTS (hw t .KPKEYSTS % 2 ^ 32)] ++
    [Ev.rd .KPKEYSTS (hw (t ++ [Ev.rd .KPKEYSTS (hw t .KPKEYSTS % 2 ^ 32)]) .KPKEYSTS % 2 ^ 32)] ++
    [Ev.wr .KPKEY0 (key 0 % 2 ^ 32), Ev.wr .KPKEY1 (key 1 % 2 ^ 32),
     Ev.wr .KPKEY2 (key 2 % 2 ^ 32),
     Ev.wr .KPKEYTRG ((h.FMC_KPKEYTRG_KPKEYGO_Msk ||| h.FMC_KPKEYTRG_TCEN_Msk) % 2 ^ 32)]

/-- Hardware for the key comparison: `KPKEYSTS` reads `0x2` (key locked, not
busy) until the compare trigger `KPKEYTRG` has been written, and `0x4` (matched,
unlocked) afterwards.  Every other register reads 0. -/
def hwKeyMatch : Hw := fun t r =>
  match r with
  | .KPKEYSTS => if Ev.wr .KPKEYTRG 3 ∈ t then 0x4 else 0x2
  | _ => 0

/-- The trace of `FMC_EraseXOM` for an active region `n < 4` up to and including
the write of the trigger, starting from trace `t`: the read of `XOMSTS`, the read
of the region's status register, and the four set-up writes of the erase. -/
def xomEraseSetup (h : Hdr) (hw : Hw) (n : Nat) (t : List Ev) : List Ev :=
  t ++ [Ev.rd .XOMSTS (hw t .XOMSTS % 2 ^ 32)] ++
    [Ev.rd (xomStsReg n) (hw (t ++ [Ev.rd .XOMSTS (hw t .XOMSTS % 2 ^ 32)]) (xomStsReg n) % 2 ^ 32)] ++
    [Ev.wr .ISPCMD (h.FMC_ISPCMD_PAGE_ERASE % 2 ^ 32),
     Ev.wr .ISPADDR ((((hw (t ++ [Ev.rd .XOMSTS (hw t .XOMSTS % 2 ^ 32)]) (xomStsReg n) % 2 ^ 32)
        &&& 0xFFFFFF00) >>> 8) % 2 ^ 32),
     Ev.wr .ISPDAT (0x55aa03 % 2 ^ 32), Ev.wr .ISPTRG (0x1 % 2 ^ 32)]

/-- Hardware on which XOM region 0 is active (`XOMSTS` reads 1, `XOMR0STS` reads
`0x12300`), the trigger register `ISPTRG` never clears, and `ISPCTL` reads `0x40`
(`ISPFF` set).  Every other register reads 0. -/
def hwXomStuck : Hw := fun _ r =>
  match r with
  | .XOMSTS => 1
  | .XOMR0STS => 0x12300
  | .ISPTRG => 1
  | .ISPCTL => 0x40
  | _ => 0

/-- The post-write checks of `FMC_SetSPKey` as a contract on the result `r`, for
the value `sts` read from `KPKEYSTS` after the key-busy wait and the state `s`
after that read: the error code equals the value returned; the first failing
check decides it, in the order `KEYLOCK` set (`-4`), `CFGFLAG` agrees with
`lock_CONFIG` (`-5`), `SPFLAG` agrees with `lock_SPROM` (`-6`), the KPMAX field of
`KPCNT` equals `kpmax` (`-7`), the KPKEMAX field of `KPKEYCNT` equals `kemax`
(`-8`); the value is 0 exactly when all five pass. -/
def SpKeyChecks (h : Hdr) (hw : Hw) (kpmax kemax : Nat) (lc ls : Int) (sts : Nat) (s : St)
    (r : Int × St) : Prop :=
  let cfgBad := ¬ ((sts &&& h.FMC_KPKEYSTS_CFGFLAG_Msk ≠ 0) ↔ lc ≠ 0)
  let spBad := ¬ ((sts &&& h.FMC_KPKEYSTS_SPFLAG_Msk ≠ 0) ↔ ls ≠ 0)
  let kp := ((hw s.trace .KPCNT % 2 ^ 32) &&& h.FMC_KPCNT_KPMAX_Msk) >>> h.FMC_KPCNT_KPMAX_Pos
  let ke := ((hw (s.trace ++ [Ev.rd .KPCNT (hw s.trace .KPCNT % 2 ^ 32)]) .KPKEYCNT % 2 ^ 32) &&&
    h.FMC_KPKEYCNT_KPKEMAX_Msk) >>> h.FMC_KPKEYCNT_KPKEMAX_Pos
  r.2.g_FMC_i32ErrCode = r.1 ∧
  (sts &&& h.FMC_KPKEYSTS_KEYLOCK_Msk = 0 → r.1 = -4) ∧
  (sts &&& h.FMC_KPKEYSTS_KEYLOCK_Msk ≠ 0 → cfgBad → r.1 = -5) ∧
  (sts &&& h.FMC_KPKEYSTS_KEYLOCK_Msk ≠ 0 → ¬ cfgBad → spBad → r.1 = -6) ∧
  (sts &&& h.FMC_KPKEYSTS_KEYLOCK_Msk ≠ 0 → ¬ cfgBad → ¬ spBad → kp ≠ kpmax % 2 ^ 32 →
    r.1 = -7) ∧
  (sts &&& h.FMC_KPKEYSTS_KEYLOCK_Msk ≠ 0 → ¬ cfgBad → ¬ spBad → kp = kpmax % 2 ^ 32 →
    ke ≠ kemax % 2 ^ 32 → r.1 = -8) ∧
  (r.1 = 0 ↔ sts &&& h.FMC_KPKEYSTS_KEYLOCK_Msk ≠ 0 ∧ ¬ cfgBad ∧ ¬ spBad ∧
    kp = kpmax % 2 ^ 32 ∧ ke = kemax % 2 ^ 32)

/-- The state of `FMC_SetSPKey` after its six `FMC_Write` calls, on the path on
which they are made (`ret == 0`): after the read of `KPKEYSTS`, the two erases, and
the programming of the three key words, `kpmax`, `kemax` and the lock-control
word. -/
def spKeyAfterProgram (h : Hdr) (hw : Hw) (key : Nat → Nat) (kpmax kemax : Nat)
    (lock_CONFIG lock_SPROM : Int) (s : St) : St :=
  spKeyProgram h hw key kpmax kemax
    ((if lock_CONFIG = 0 then 0x1 else 0) ||| (if lock_SPROM = 0 then 0x2 else 0))
    (FMC_Erase h hw ((h.FMC_KPROM_BASE + 0x200) % 2 ^ 32)
      (FMC_Erase h hw h.FMC_KPROM_BASE (rd hw .KPKEYSTS (setErr 0 s)).2).2).2

/-- Hardware on which every ISP command completes at once and a key can be set:
`KPKEYSTS` reads `0x200` until the address of the lock-control word
(`FMC_KPROM_BASE + 0x14`) has been written to `ISPADDR`, and `0x22` (`KEYLOCK` and
`CFGFLAG` set, `SPFLAG` clear) afterwards; `KPCNT` reads `0x300` (KPMAX = 3) and
`KPKEYCNT` reads `0x500` (KPKEMAX = 5).  Every other register reads 0. -/
def hwKeySet : Hw := fun t r =>
  match r with
  | .KPKEYSTS => if Ev.wr .ISPADDR 0x301014 ∈ t then 0x22 else 0x200
  | .KPCNT => 0x300
  | .KPKEYCNT => 0x500
  | _ => 0

/-- The result register `ISPDAT` is stable once non-zero: after it has read a
non-zero value, every later read returns the same value. -/
def IspdatStable (hw : Hw) : Prop :=
  ∀ (t ext : List Ev), hw t .ISPDAT % 2 ^ 32 ≠ 0 →
    hw (t ++ ext) .ISPDAT % 2 ^ 32 = hw t .ISPDAT % 2 ^ 32

/-- The number of `READ_ALL1` commands in the trace `t`: the writes of
`FMC_ISPCMD_READ_ALL1` to `ISPCMD`. -/
def numReadAll1 (h : Hdr) (t : List Ev) : Nat :=
  t.count (Ev.wr .ISPCMD (h.FMC_ISPCMD_READ_ALL1 % 2 ^ 32))

/-- The contract of `FMC_CheckAllOne` with budget `T = FMC_TIMEOUT_CHKALLONE`.
The call returns (fuel `T`, and at least 1, suffices for the loop).  When it
returns: at most `T` `READ_ALL1` commands were issued (the command codes of
`RUN_ALL1` and `READ_ALL1` being different); if `ISPDAT` never reads
`READ_ALLONE_YES` or `READ_ALLONE_NOT` (in particular if it stays 0) the result is
`READ_ALLONE_CMD_FAIL` with error code `-1`; and if `ISPDAT` is stable once
non-zero the result is one of the three `READ_ALLONE` values. -/
def CheckAllOneContract (h : Hdr) (hw : Hw) (fuel u32addr u32count : Nat) (s : St) : Prop :=
  (h.FMC_TIMEOUT_CHKALLONE ≤ fuel → 0 < fuel →
    ∃ r, FMC_CheckAllOne h hw fuel u32addr u32count s = some r) ∧
  ∀ r, FMC_CheckAllOne h hw fuel u32addr u32count s = some r →
    (h.FMC_ISPCMD_RUN_ALL1 % 2 ^ 32 ≠ h.FMC_ISPCMD_READ_ALL1 % 2 ^ 32 →
      numReadAll1 h r.2.trace ≤ numReadAll1 h s.trace + h.FMC_TIMEOUT_CHKALLONE) ∧
    ((∀ t, hw t .ISPDAT % 2 ^ 32 ≠ h.READ_ALLONE_YES % 2 ^ 32 ∧
        hw t .ISPDAT % 2 ^ 32 ≠ h.READ_ALLONE_NOT % 2 ^ 32) →
      r.1 = h.READ_ALLONE_CMD_FAIL % 2 ^ 32 ∧ r.2.g_FMC_i32ErrCode = -1) ∧
    (IspdatStable hw →
      r.1 = h.READ_ALLONE_YES % 2 ^ 32 ∨ r.1 = h.READ_ALLONE_NOT % 2 ^ 32 ∨
        r.1 = h.READ_ALLONE_CMD_FAIL % 2 ^ 32)

/-- Hardware on which every command completes at once and `ISPDAT` reads 0 until
twelve accesses have been made, and `0xA11FFFFF` afterwards.  Every other register
reads 0. -/
def hwAllOne : Hw := fun t r =>
  match r with
  | .ISPDAT => if t.length < 12 then 0 else 0xA11FFFFF
  | _ => 0

/-- The event is not a write of `ISPADDR`. -/
def NoAddrWrite (e : Ev) : Prop :=
  ∀ v, e ≠ Ev.wr .ISPADDR v

/-- Hardware on which `MPSTS` always reads `0x01`: the D0..D3 flags clear at once
and MPBUSY stays set.  Every other register reads 0. -/
def hwMpBusy : Hw := fun _ r =>
  match r with
  | .MPSTS => 0x01
  | _ => 0

/-- The hardware clears the D0/D1 and D2/D3 flags at once and keeps MPBUSY set:
every read of `MPSTS` shows the four data flags clear and MPBUSY set. -/
def MpBusyHw (h : Hdr) (hw : Hw) : Prop :=
  ∀ t, (hw t .MPSTS % 2 ^ 32) &&& (h.FMC_MPSTS_D0_Msk ||| h.FMC_MPSTS_D1_Msk) = 0 ∧
    (hw t .MPSTS % 2 ^ 32) &&& (h.FMC_MPSTS_D2_Msk ||| h.FMC_MPSTS_D3_Msk) = 0 ∧
    (hw t .MPSTS % 2 ^ 32) &&& h.FMC_MPSTS_MPBUSY_Msk ≠ 0

/-- The contract of `FMC_WriteMultiple` on `ISPADDR`: the call returns (given fuel
for `u32Len / 8 + 1` iterations); its trace is either unchanged or extended by
one write of `ISPADDR` with `u32Addr` followed by events none of which writes
`ISPADDR`; and on hardware that clears the data flags at once and keeps MPBUSY
set (budget above 1, burst length above 16 and outside 64..67) the call returns
the whole rounded length, however many bursts that is. -/
def WriteMultipleOneBurst (h : Hdr) (hw : Hw) (fuel a : Nat) (buf : Nat → Nat) (len : Nat)
    (s : St) : Prop :=
  (len < 2 ^ 31 → len < 8 * fuel → ∃ r, FMC_WriteMultiple h hw fuel a buf len s = some r) ∧
  (∀ r, FMC_WriteMultiple h hw fuel a buf len s = some r →
    r.2.2.trace = s.trace ∨
      ∃ rest, r.2.2.trace = s.trace ++ Ev.wr .ISPADDR (a % 2 ^ 32) :: rest ∧
        ∀ e ∈ rest, NoAddrWrite e) ∧
  (1 < h.FMC_TIMEOUT_WRITE → 16 < h.FMC_MULTI_WORD_PROG_LEN →
    h.FMC_MULTI_WORD_PROG_LEN / 4 ≠ 16 → MpBusyHw h hw → len < 2 ^ 31 → 8 ≤ len →
    len < 8 * fuel →
    ∃ l st, FMC_WriteMultiple h hw fuel a buf len s = some (((len - len % 8 : Nat) : Int), l, st))

/-- The over-read of `FMC_WriteMultiple` on a short input: the call returns (given
fuel), and the events it adds to the trace include the load of buffer word 3,
which lies at or beyond `u32Len / 4`. -/
def WriteMultipleOverRead (h : Hdr) (hw : Hw) (fuel a : Nat) (buf : Nat → Nat) (len : Nat)
    (s : St) : Prop :=
  (h.FMC_MULTI_WORD_PROG_LEN ≠ 16 → len < 8 * fuel →
    ∃ r, FMC_WriteMultiple h hw fuel a buf len s = some r) ∧
  ∀ r, FMC_WriteMultiple h hw fuel a buf len s = some r →
    ∃ ext, r.2.2.trace = s.trace ++ ext ∧ Ev.buf 3 ∈ ext ∧ ¬ (3 < len / 4)

end FMC

namespace SD

/-- One action on the SPI bus of the card: peripheral set-up, a clock-speed
selection, a chip-select level (`true` = high = deselected), or a full-duplex
byte exchange (byte written, byte read). -/
inductive BusEv
  | spiInit
  | speedLow
  | speedHigh
  | cs (high : Bool)
  | xfer (tx rx : Nat)
  deriving DecidableEq, Repr

/-- The card: the byte it returns in an exchange, given everything that happened
on the bus so far and the byte being written. -/
abbrev Card := List BusEv → Nat → Nat

/-- A record of one call of `SD_SendCmd`: command index, argument, CRC byte and the
value returned. -/
structure CmdRec where
  cmd : Nat
  arg : Nat
  crc : Nat
  r1 : Nat
  deriving DecidableEq, Repr

/-- Driver state: the bus log, the record of the `SD_SendCmd` calls, and the global
`SD_Type`. -/
structure St where
  log : List BusEv
  cmds : List CmdRec
  SD_Type : Nat
  deriving DecidableEq, Repr

/-- Macros of `sdcard.h`, which is not among the sources. -/
structure Hdr where
  CMD0 : Nat
  CMD1 : Nat
  CMD8 : Nat
  CMD9 : Nat
  CMD10 : Nat
  CMD12 : Nat
  CMD16 : Nat
  CMD17 : Nat
  CMD18 : Nat
  CMD23 : Nat
  CMD24 : Nat
  CMD25 : Nat
  CMD41 : Nat
  CMD55 : Nat
  CMD58 : Nat
  CRC_ON_OFF : Nat
  SD_TYPE_ERR : Nat
  SD_TYPE_MMC : Nat
  SD_TYPE_V1 : Nat
  SD_TYPE_V2 : Nat
  SD_TYPE_V2HC : Nat
  MSD_RESPONSE_NO_ERROR : Nat
  MSD_RESPONSE_FAILURE : Nat

/-- The usual values of `sdcard.h`: `CMDn` is the SD command index `n`, the card
types are small distinct codes with `SD_TYPE_ERR = 0`. -/
def sdcard_h : Hdr where
  CMD0 := 0
  CMD1 := 1
  CMD8 := 8
  CMD9 := 9
  CMD10 := 10
  CMD12 := 12
  CMD16 := 16
  CMD17 := 17
  CMD18 := 18
  CMD23 := 23
  CMD24 := 24
  CMD25 := 25
  CMD41 := 41
  CMD55 := 55
  CMD58 := 58
  CRC_ON_OFF := 59
  SD_TYPE_ERR := 0x00
  SD_TYPE_MMC := 0x01
  SD_TYPE_V1 := 0x02
  SD_TYPE_V2 := 0x04
  SD_TYPE_V2HC := 0x06
  MSD_RESPONSE_NO_ERROR := 0x00
  MSD_RESPONSE_FAILURE := 0xFF

/-- What the driver relies on in `sdcard.h`: the card-type codes are distinct
bytes, the error code is 0 (the value `SD_Initialize` starts from and tests
against), and `MSD_RESPONSE_NO_ERROR` is the only response code that is 0. -/
def Hdr.WellFormed (h : Hdr) : Prop :=
  h.SD_TYPE_ERR = 0 ∧
  0 < h.SD_TYPE_MMC ∧ h.SD_TYPE_MMC < 256 ∧ 0 < h.SD_TYPE_V1 ∧ h.SD_TYPE_V1 < 256 ∧
  0 < h.SD_TYPE_V2 ∧ h.SD_TYPE_V2 < 256 ∧ 0 < h.SD_TYPE_V2HC ∧ h.SD_TYPE_V2HC < 256 ∧
  h.SD_TYPE_MMC ≠ h.SD_TYPE_V1 ∧ h.SD_TYPE_MMC ≠ h.SD_TYPE_V2 ∧
  h.SD_TYPE_MMC ≠ h.SD_TYPE_V2HC ∧ h.SD_TYPE_V1 ≠ h.SD_TYPE_V2 ∧
  h.SD_TYPE_V1 ≠ h.SD_TYPE_V2HC ∧ h.SD_TYPE_V2 ≠ h.SD_TYPE_V2HC ∧
  h.MSD_RESPONSE_NO_ERROR = 0 ∧ h.MSD_RESPONSE_FAILURE % 256 ≠ 0

instance wellFormedDecidable (h : Hdr) : Decidable h.WellFormed := by
  unfold Hdr.WellFormed
  infer_instance

/-- `SD_SPI_ReadWriteByte`: one byte exchange.  (The wait for the SPI peripheral to
finish the transfer is taken to end.) -/
def SD_SPI_ReadWriteByte (card : Card) (u32Data : Nat) (s : St) : Nat × St :=
  (card s.log (u32Data % 256) % 256,
   { s with log := s.log ++ [BusEv.xfer (u32Data % 256) (card s.log (u32Data % 256) % 256)] })

/-- The macros `Set_SD_CS` (`high = true`) and `Clr_SD_CS` (`high = false`). -/
def setCS (high : Bool) (s : St) : St :=
  { s with log := s.log ++ [BusEv.cs high] }

/-- `SD_DisSelect`. -/
def SD_DisSelect (card : Card) (s : St) : St :=
  (SD_SPI_ReadWriteByte card 0xff (setCS true s)).2

/-- The `do ... while (t < 0xFFFFFF)` loop of `SD_WaitReady` with `n` iterations
left, followed by the final `return 1`. -/
def waitReadyLoop (card : Card) : Nat → St → Nat × St
  | 0, s => (1, s)
  | n + 1, s =>
    if (SD_SPI_ReadWriteByte card 0xFF s).1 = 0xFF then (0, (SD_SPI_ReadWriteByte card 0xFF s).2)
    else waitReadyLoop card n (SD_SPI_ReadWriteByte card 0xFF s).2

/-- `SD_WaitReady`: `t` runs from 0 to `0xFFFFFE`. -/
def SD_WaitReady (card : Card) (s : St) : Nat × St :=
  waitReadyLoop card 0xFFFFFF s

/-- `SD_Select`. -/
def SD_Select (card : Card) (s : St) : Nat × St :=
  let s := setCS false s
  let r := SD_WaitReady card s
  if r.1 = 0 then (0, r.2)
  else (1, SD_DisSelect card r.2)

/-- The loop `while ((SD_SPI_ReadWriteByte(0xFF) != Response) && Count) Count--;`
of `SD_GetResponse`; the first component of the result is the final `Count`. -/
def getResponseLoop (card : Card) (Response : Nat) : Nat → St → Nat × St
  | 0, s => (0, (SD_SPI_ReadWriteByte card 0xFF s).2)
  | Count + 1, s =>
    if (SD_SPI_ReadWriteByte card 0xFF s).1 ≠ Response % 256 then
      getResponseLoop card Response Count (SD_SPI_ReadWriteByte card 0xFF s).2
    else (Count + 1, (SD_SPI_ReadWriteByte card 0xFF s).2)

/-- `SD_GetResponse`. -/
def SD_GetResponse (h : Hdr) (card : Card) (Response : Nat) (s : St) : Nat × St :=
  let r := getResponseLoop card Response 0xFFFF s
  if r.1 = 0 then (h.MSD_RESPONSE_FAILURE % 256, r.2)
  else (h.MSD_RESPONSE_NO_ERROR % 256, r.2)

/-- The loop `while (len--) { *buf = SD_SPI_ReadWriteByte(0xFF); buf++; }`: the
bytes stored, in order. -/
def recvBytes (card : Card) : Nat → St → List Nat × St
  | 0, s => ([], s)
  | len + 1, s =>
    ((SD_SPI_ReadWriteByte card 0xFF s).1 ::
        (recvBytes card len (SD_SPI_ReadWriteByte card 0xFF s).2).1,
     (recvBytes card len (SD_SPI_ReadWriteByte card 0xFF s).2).2)

/-- `SD_RecvData`: the result is the return value and the bytes stored into `buf`
(none when the start token was not found). -/
def SD_RecvData (h : Hdr) (card : Card) (len : Nat) (s : St) : (Nat × List Nat) × St :=
  let g := SD_GetResponse h card 0xFE s
  if g.1 ≠ 0 then ((1, []), g.2)
  else
    let d := recvBytes card len g.2
    let s := (SD_SPI_ReadWriteByte card 0xFF d.2).2
    let s := (SD_SPI_ReadWriteByte card 0xFF s).2
    ((0, d.1), s)

/-- The loop `for (t = 0; t < 512; t++) SD_SPI_ReadWriteByte(buf[t]);` with `n`
bytes left, starting at index `t`. -/
def sendBytes (card : Card) (buf : Nat → Nat) : Nat → Nat → St → St
  | 0, _, s => s
  | n + 1, t, s => sendBytes card buf n (t + 1) (SD_SPI_ReadWriteByte card (buf t) s).2

/-- `SD_SendBlock`. -/
def SD_SendBlock (card : Card) (buf : Nat → Nat) (cmd : Nat) (s : St) : Nat × St :=
  let w := SD_WaitReady card s
  if w.1 ≠ 0 then (1, w.2)
  else
    let s := (SD_SPI_ReadWriteByte card cmd w.2).2
    if cmd % 256 ≠ 0xFD then
      let s := sendBytes card buf 512 0 s
      let s := (SD_SPI_ReadWriteByte card 0xFF s).2
      let s := (SD_SPI_ReadWriteByte card 0xFF s).2
      let t := SD_SPI_ReadWriteByte card 0xFF s
      if t.1 &&& 0x1F ≠ 0x05 then (2, t.2) else (0, t.2)
    else (0, s)

/-- The loop `do { r1 = SD_SPI_ReadWriteByte(0xFF); } while ((r1 & 0x80) && Retry--);`
of `SD_SendCmd`, entered with the given value of `Retry`; the result is `r1`. -/
def respLoop (card : Card) : Nat → St → Nat × St
  | 0, s => SD_SPI_ReadWriteByte card 0xFF s
  | Retry + 1, s =>
    if (SD_SPI_ReadWriteByte card 0xFF s).1 &&& 0x80 ≠ 0 then
      respLoop card Retry (SD_SPI_ReadWriteByte card 0xFF s).2
    else SD_SPI_ReadWriteByte card 0xFF s

/-- The body of `SD_SendCmd` (`cmd` already converted to `unsigned char`, `arg` to
`unsigned int`). -/
def sendCmdBody (h : Hdr) (card : Card) (cmd arg crc : Nat) (s : St) : Nat × St :=
  let s := SD_DisSelect card s
  let sel := SD_Select card s
  if sel.1 ≠ 0 then (0xFF, sel.2)
  else
    let s := (SD_SPI_ReadWriteByte card (cmd ||| 0x40) sel.2).2
    let s := (SD_SPI_ReadWriteByte card (arg >>> 24) s).2
    let s := (SD_SPI_ReadWriteByte card (arg >>> 16) s).2
    let s := (SD_SPI_ReadWriteByte card (arg >>> 8) s).2
    let s := (SD_SPI_ReadWriteByte card arg s).2
    let s := (SD_SPI_ReadWriteByte card crc s).2
    let s := if cmd = h.CMD12 then (SD_SPI_ReadWriteByte card 0xff s).2 else s
    respLoop card 0x1F s

/-- `SD_SendCmd`.  Each call is recorded in `cmds` together with the value it
returns. -/
def SD_SendCmd (h : Hdr) (card : Card) (cmd arg crc : Nat) (s : St) : Nat × St :=
  let r := sendCmdBody h card (cmd % 256) (arg % 2 ^ 32) (crc % 256) s
  (r.1, { r.2 with cmds := r.2.cmds ++
    [{ cmd := cmd % 256, arg := arg % 2 ^ 32, crc := crc % 256, r1 := r.1 }] })

/-- The loop `for (i = 0; i < 4; i++) buf[i] = SD_SPI_ReadWriteByte(0xFF);`. -/
def read4 (card : Card) (s : St) : List Nat × St :=
  recvBytes card 4 s

/-- The loop `do { r1 = SD_SendCmd(CMD0, 0, 0x95); } while ((r1 != 0x01) && retry--);`
of `SD_Initialize`, entered with the given `retry`; the result is `r1`. -/
def cmd0Loop (h : Hdr) (card : Card) : Nat → St → Nat × St
  | 0, s => SD_SendCmd h card h.CMD0 0 0x95 s
  | retry + 1, s =>
    if (SD_SendCmd h card h.CMD0 0 0x95 s).1 ≠ 0x01 then
      cmd0Loop h card retry (SD_SendCmd h card h.CMD0 0 0x95 s).2
    else SD_SendCmd h card h.CMD0 0 0x95 s

/-- The pair `SD_SendCmd(CMD55, 0, 0x01); r1 = SD_SendCmd(CMD41, arg, 0x01);`. -/
def acmd41 (h : Hdr) (card : Card) (arg : Nat) (s : St) : Nat × St :=
  SD_SendCmd h card h.CMD41 arg 0x01 (SD_SendCmd h card h.CMD55 0 0x01 s).2

/-- The loop `do { body } while (r1 && retry--);` of `SD_Initialize` for a `body`
that sets `r1`, entered with the given `retry`.  The result is `r1` and the value
of the `unsigned int retry` after the loop: when `r1` is non-zero and `retry` is 0
the test decrements `retry` once more, to `0xFFFFFFFF`. -/
def retryLoop (body : St → Nat × St) : Nat → St → (Nat × Nat) × St
  | 0, s =>
    if (body s).1 ≠ 0 then (((body s).1, 0xFFFFFFFF), (body s).2)
    else (((body s).1, 0), (body s).2)
  | retry + 1, s =>
    if (body s).1 ≠ 0 then retryLoop body retry (body s).2
    else (((body s).1, retry + 1), (body s).2)

/-- The statement `SD_Type = t`. -/
def setType (t : Nat) (s : St) : St :=
  { s with SD_Type := t % 256 }

/-- The part of `SD_Initialize` inside `if (r1 == 0x01) { ... }`; the result is the
value of `r1` afterwards. -/
def initIdle (h : Hdr) (card : Card) (s : St) : Nat × St :=
  let c8 := SD_SendCmd h card h.CMD8 0x1AA 0x87 s
  if c8.1 = 1 then
    let b := read4 card c8.2
    if b.1.getD 2 0 = 0x01 ∧ b.1.getD 3 0 = 0xAA then
      let l := retryLoop (acmd41 h card 0x40000000) 0xFFFE b.2
      if l.1.2 ≠ 0 then
        let c58 := SD_SendCmd h card h.CMD58 0 0x01 l.2
        if c58.1 = 0 then
          let o := read4 card c58.2
          if o.1.getD 0 0 &&& 0x40 ≠ 0 then (l.1.1, setType h.SD_TYPE_V2HC o.2)
          else (l.1.1, setType h.SD_TYPE_V2 o.2)
        else (l.1.1, c58.2)
      else (l.1.1, l.2)
    else (0x01, b.2)
  else
    let a := acmd41 h card 0 c8.2
    let l :=
      if a.1 ≤ 1 then retryLoop (acmd41 h card 0) 0xFFFE (setType h.SD_TYPE_V1 a.2)
      else retryLoop (SD_SendCmd h card h.CMD1 0 0x01) 0xFFFE (setType h.SD_TYPE_MMC a.2)
    if l.1.2 = 0 then (l.1.1, setType h.SD_TYPE_ERR l.2)
    else
      let c16 := SD_SendCmd h card h.CMD16 512 0x01 l.2
      if c16.1 ≠ 0 then (l.1.1, setType h.SD_TYPE_ERR c16.2) else (l.1.1, c16.2)

/-- The start of `SD_Initialize`: `SD_SPI_Init()` (which ends with chip-select
high), `SD_SPI_SpeedLow`, and the ten dummy bytes. -/
def initStart (card : Card) (s : St) : St :=
  let s := { s with log := s.log ++ [BusEv.spiInit, BusEv.cs true] }
  let s := { s with log := s.log ++ [BusEv.speedLow] }
  (recvBytes card 10 s).2

/-- The end of `SD_Initialize`, with the current value of `r1`: `SD_DisSelect()`,
`SD_SPI_SpeedHigh`, and the computation of the return value. -/
def initFinish (card : Card) (r1 : Nat) (s : St) : Nat × St :=
  let s := SD_DisSelect card s
  let s := { s with log := s.log ++ [BusEv.speedHigh] }
  if s.SD_Type ≠ 0 then (0, s)
  else if r1 ≠ 0 then (r1, s)
  else (0xaa, s)

/-- `SD_Initialize`. -/
def SD_Initialize (h : Hdr) (card : Card) (s : St) : Nat × St :=
  let s := initStart card s
  let c0 := cmd0Loop h card 20 s
  let s := setType 0 c0.2
  let r := if c0.1 = 0x01 then initIdle h card s else (c0.1, s)
  initFinish card r.1 r.2

/-- The loop `do { r1 = SD_RecvData(buf, 512); buf += 512; } while (--cnt && r1 == 0);`
of `SD_ReadDisk` with `n` further iterations allowed by `cnt`. -/
def readBlocks (h : Hdr) (card : Card) : Nat → St → (Nat × List Nat) × St
  | 0, s => SD_RecvData h card 512 s
  | n + 1, s =>
    if (SD_RecvData h card 512 s).1.1 = 0 then
      (((readBlocks h card n (SD_RecvData h card 512 s).2).1.1,
        (SD_RecvData h card 512 s).1.2 ++ (readBlocks h card n (SD_RecvData h card 512 s).2).1.2),
       (readBlocks h card n (SD_RecvData h card 512 s).2).2)
    else SD_RecvData h card 512 s

/-- `SD_ReadDisk`: the result is the return value and the bytes stored into
`buf`. -/
def SD_ReadDisk (h : Hdr) (card : Card) (sector cnt : Nat) (s : St) : (Nat × List Nat) × St :=
  let sector := sector % 2 ^ 32
  let cnt := cnt % 256
  let sector := if s.SD_Type ≠ h.SD_TYPE_V2HC then (sector <<< 9) % 2 ^ 32 else sector
  if cnt = 1 then
    let c := SD_SendCmd h card h.CMD17 sector 0x01 s
    if c.1 = 0 then
      let d := SD_RecvData h card 512 c.2
      (d.1, SD_DisSelect card d.2)
    else ((c.1, []), SD_DisSelect card c.2)
  else
    let c := SD_SendCmd h card h.CMD18 sector 0x01 s
    let d := readBlocks h card ((cnt + 255) % 256) c.2
    let e := SD_SendCmd h card h.CMD12 0 0x01 d.2
    (d.1, SD_DisSelect card e.2)

/-- The loop `do { r1 = SD_SendBlock(buf, 0xFC); buf += 512; } while (--cnt && r1 == 0);`
of `SD_WriteDisk` with `n` further iterations allowed by `cnt`, `buf` advanced by
`off` bytes. -/
def writeBlocks (card : Card) (buf : Nat → Nat) : Nat → Nat → St → Nat × St
  | 0, off, s => SD_SendBlock card (fun t => buf (off + t)) 0xFC s
  | n + 1, off, s =>
    if (SD_SendBlock card (fun t => buf (off + t)) 0xFC s).1 = 0 then
      writeBlocks card buf n (off + 512) (SD_SendBlock card (fun t => buf (off + t)) 0xFC s).2
    else SD_SendBlock card (fun t => buf (off + t)) 0xFC s

/-- `SD_WriteDisk`. -/
def SD_WriteDisk (h : Hdr) (card : Card) (buf : Nat → Nat) (sector cnt : Nat) (s : St) :
    Nat × St :=
  let sector := sector % 2 ^ 32
  let cnt := cnt % 256
  let sector := if s.SD_Type ≠ h.SD_TYPE_V2HC then (sector * 512) % 2 ^ 32 else sector
  if cnt = 1 then
    let c := SD_SendCmd h card h.CMD24 sector 0x01 s
    if c.1 = 0 then
      let b := SD_SendBlock card buf 0xFE c.2
      (b.1, SD_DisSelect card b.2)
    else (c.1, SD_DisSelect card c.2)
  else
    let s :=
      if s.SD_Type ≠ h.SD_TYPE_MMC then
        (SD_SendCmd h card h.CMD23 cnt 0x01 (SD_SendCmd h card h.CMD55 0 0x01 s).2).2
      else s
    let c := SD_SendCmd h card h.CMD25 sector 0x01 s
    if c.1 = 0 then
      let w := writeBlocks card buf ((cnt + 255) % 256) 0 c.2
      let e := SD_SendBlock card (fun _ => 0) 0xFD w.2
      (e.1, SD_DisSelect card e.2)
    else (c.1, SD_DisSelect card c.2)

/-- The bus log after writing the bytes `bs` in order, starting from log `l`. -/
def writes (card : Card) : List Nat → List BusEv → List BusEv
  | [], l => l
  | b :: bs, l => writes card bs (l ++ [BusEv.xfer (b % 256) (card l (b % 256) % 256)])

/-- The bus log after `k` exchanges that write `0xFF`, starting from log `l`. -/
def reads (card : Card) (k : Nat) (l : List BusEv) : List BusEv :=
  writes card (List.replicate k 0xFF) l

/-- The byte read by exchange number `j` (counted from 0) of a run of exchanges
that write `0xFF`, starting from log `l`. -/
def rxAt (card : Card) (l : List BusEv) (j : Nat) : Nat :=
  card (reads card j l) 0xFF % 256

/-- The command frame of `SD_SendCmd(cmd, arg, crc)`: the six bytes, each truncated
to 8 bits, and the stuff byte when the command is CMD12. -/
def frame (h : Hdr) (cmd arg crc : Nat) : List Nat :=
  [(cmd % 256 ||| 0x40) % 256, ((arg % 2 ^ 32) >>> 24) % 256, ((arg % 2 ^ 32) >>> 16) % 256,
    ((arg % 2 ^ 32) >>> 8) % 256, (arg % 2 ^ 32) % 256, crc % 256] ++
  (if cmd % 256 = h.CMD12 then [0xFF] else [])

/-- The bytes written since the card was last selected (chip-select low). -/
def sinceSelect (log : List BusEv) : List Nat :=
  log.foldl (fun acc e =>
    match e with
    | BusEv.cs false => []
    | BusEv.xfer tx _ => acc ++ [tx]
    | _ => acc) []

/-- A card that is ready as soon as it is selected and answers the 6-byte command
frame that follows at once: the exchange after the frame returns `r1 c` for
command byte `c`, and the `i`-th exchange after that returns `tail c i`. -/
def frameCard (r1 : Nat → Nat) (tail : Nat → Nat → Nat) : Card := fun log _ =>
  if (sinceSelect log).length < 7 then 0xFF
  else if (sinceSelect log).length = 7 then r1 ((sinceSelect log).getD 1 0)
  else tail ((sinceSelect log).getD 1 0) ((sinceSelect log).length - 8)

/-- A version-2 high-capacity card: in idle state after CMD0, echoes the CMD8
check pattern, ready at the first ACMD41, OCR with the CCS bit (0x40) set; a
read command is answered by the start token and data bytes `0xA5`. -/
def cardV2HC : Card :=
  frameCard
    (fun c => if c = 0x40 ∨ c = 0x48 ∨ c = 0x77 then 1 else 0)
    (fun c i =>
      if c = 0x48 then [0x00, 0x00, 0x01, 0xAA].getD i 0xFF
      else if c = 0x7A then [0xC0, 0xFF, 0x80, 0x00].getD i 0xFF
      else if c = 0x51 then (if i = 0 then 0xFE else 0xA5)
      else 0xFF)

/-- A version-1 card that never leaves the idle state: CMD8 is rejected as an
illegal command (`0x05`), every CMD55 and ACMD41 is answered `0x01`, CMD16 and the
other commands are answered `0x00`. -/
def cardIdleV1 : Card :=
  frameCard
    (fun c => if c = 0x40 ∨ c = 0x77 ∨ c = 0x69 then 1 else if c = 0x48 then 5 else 0)
    (fun _ _ => 0xFF)

/-- The initial state: empty bus log, no command sent, `SD_Type = 0`. -/
def st0 : St := { log := [], cmds := [], SD_Type := 0 }

/-- Every byte exchange in `ext` writes `0xFF` (a dummy byte, not a command byte). -/
def OnlyFF (ext : List BusEv) : Prop :=
  ∀ e ∈ ext, ∀ tx rx, e = BusEv.xfer tx rx → tx = 0xFF

/-- The contract of `SD_SendCmd(cmd, arg, crc)`.  Either the card was selected: the
log continues from the log after `SD_Select` with exactly the command frame and
then `k` response reads, `1 <= k <= 32`; every response byte before the last has
bit 7 set, the last has bit 7 clear unless `k = 32`, and it is the value returned.
Or selecting failed: `0xFF` is returned, nothing is exchanged after `SD_Select`,
and everything written to the bus during the call is the dummy byte `0xFF`. -/
def SendCmdContract (h : Hdr) (card : Card) (cmd arg crc : Nat) (s : St) : Prop :=
  ((SD_Select card (SD_DisSelect card s)).1 = 0 ∧ ∃ k, 1 ≤ k ∧ k ≤ 32 ∧
    (SD_SendCmd h card cmd arg crc s).2.log =
      reads card k (writes card (frame h cmd arg crc) (SD_Select card (SD_DisSelect card s)).2.log) ∧
    (SD_SendCmd h card cmd arg crc s).1 =
      rxAt card (writes card (frame h cmd arg crc) (SD_Select card (SD_DisSelect card s)).2.log)
        (k - 1) ∧
    (∀ j, j + 1 < k →
      rxAt card (writes card (frame h cmd arg crc) (SD_Select card (SD_DisSelect card s)).2.log) j
        &&& 0x80 ≠ 0) ∧
    ((SD_SendCmd h card cmd arg crc s).1 &&& 0x80 = 0 ∨ k = 32)) ∨
  ((SD_Select card (SD_DisSelect card s)).1 ≠ 0 ∧
    (SD_SendCmd h card cmd arg crc s).1 = 0xFF ∧
    (SD_SendCmd h card cmd arg crc s).2.log = (SD_Select card (SD_DisSelect card s)).2.log ∧
    ∃ ext, (SD_SendCmd h card cmd arg crc s).2.log = s.log ++ ext ∧ OnlyFF ext)

/-- The argument of the data-transfer command for sector index `sector`: the index
itself on a high-capacity card, the byte offset `sector * 512` (as a 32-bit value)
otherwise. -/
def sectorArg (h : Hdr) (s : St) (sector : Nat) : Nat :=
  if s.SD_Type = h.SD_TYPE_V2HC then sector % 2 ^ 32 else (sector * 512) % 2 ^ 32

/-- The contract of `SD_ReadDisk(buf, sector, 1)`: exactly one command is sent,
CMD17 with the argument `sectorArg`; a non-zero R1 is returned as the failure code;
with R1 = 0, if none of the 65536 bytes read while waiting is the start token
`0xFE` the result is non-zero; and the result is 0 only if R1 = 0 and 512 bytes
were stored into `buf`. -/
def ReadOneContract (h : Hdr) (card : Card) (sector : Nat) (s : St) : Prop :=
  (SD_ReadDisk h card sector 1 s).2.cmds = s.cmds ++
    [{ cmd := h.CMD17 % 256, arg := sectorArg h s sector, crc := 0x01,
       r1 := (SD_SendCmd h card h.CMD17 (sectorArg h s sector) 0x01 s).1 }] ∧
  ((SD_SendCmd h card h.CMD17 (sectorArg h s sector) 0x01 s).1 ≠ 0 →
    (SD_ReadDisk h card sector 1 s).1.1 =
      (SD_SendCmd h card h.CMD17 (sectorArg h s sector) 0x01 s).1) ∧
  ((SD_SendCmd h card h.CMD17 (sectorArg h s sector) 0x01 s).1 = 0 →
    (∀ j, j < 65536 →
      rxAt card (SD_SendCmd h card h.CMD17 (sectorArg h s sector) 0x01 s).2.log j ≠ 0xFE) →
    (SD_ReadDisk h card sector 1 s).1.1 ≠ 0) ∧
  ((SD_ReadDisk h card sector 1 s).1.1 = 0 →
    (SD_SendCmd h card h.CMD17 (sectorArg h s sector) 0x01 s).1 = 0 ∧
    (SD_ReadDisk h card sector 1 s).1.2.length = 512)

/-- The card's answers on the version-2 path of `SD_Initialize` started in state
`s`: the CMD0 loop ends with R1 = `0x01`; CMD8 (argument `0x1AA`) is answered
`0x01` and the last two of the four R7 bytes are `0x01`, `0xAA`; the CMD55 + CMD41
(argument `0x40000000`) loop ends with R1 = `0x00` and `retry` not 0; CMD58 is
answered `0x00`. -/
def V2Handshake (h : Hdr) (card : Card) (s : St) : Prop :=
  (cmd0Loop h card 20 (initStart card s)).1 = 0x01 ∧
  (SD_SendCmd h card h.CMD8 0x1AA 0x87
    (setType 0 (cmd0Loop h card 20 (initStart card s)).2)).1 = 1 ∧
  (read4 card (SD_SendCmd h card h.CMD8 0x1AA 0x87
    (setType 0 (cmd0Loop h card 20 (initStart card s)).2)).2).1.getD 2 0 = 0x01 ∧
  (read4 card (SD_SendCmd h card h.CMD8 0x1AA 0x87
    (setType 0 (cmd0Loop h card 20 (initStart card s)).2)).2).1.getD 3 0 = 0xAA ∧
  (retryLoop (acmd41 h card 0x40000000) 0xFFFE (read4 card (SD_SendCmd h card h.CMD8 0x1AA 0x87
    (setType 0 (cmd0Loop h card 20 (initStart card s)).2)).2).2).1.1 = 0 ∧
  (retryLoop (acmd41 h card 0x40000000) 0xFFFE (read4 card (SD_SendCmd h card h.CMD8 0x1AA 0x87
    (setType 0 (cmd0Loop h card 20 (initStart card s)).2)).2).2).1.2 ≠ 0 ∧
  (SD_SendCmd h card h.CMD58 0 0x01
    (retryLoop (acmd41 h card 0x40000000) 0xFFFE (read4 card (SD_SendCmd h card h.CMD8 0x1AA 0x87
      (setType 0 (cmd0Loop h card 20 (initStart card s)).2)).2).2).2).1 = 0

/-- The first of the four OCR bytes read after CMD58 on the version-2 path. -/
def ocr0 (h : Hdr) (card : Card) (s : St) : Nat :=
  (read4 card (SD_SendCmd h card h.CMD58 0 0x01
    (retryLoop (acmd41 h card 0x40000000) 0xFFFE (read4 card (SD_SendCmd h card h.CMD8 0x1AA 0x87
      (setType 0 (cmd0Loop h card 20 (initStart card s)).2)).2).2).2).2).1.getD 0 0

/-- With `SD_Type = SD_TYPE_V2HC`, sector transfers address by block index: a call
of `SD_ReadDisk` or `SD_WriteDisk` leaves `SD_Type` unchanged; `SD_ReadDisk` sends
CMD17, or CMD18 followed by CMD12, and `SD_WriteDisk` sends CMD24, or CMD25 after
the optional CMD55 + CMD23; the argument of CMD17/CMD18/CMD24/CMD25 is the sector
index itself. -/
def BlockIndexAddressing (h : Hdr) : Prop :=
  ∀ (card : Card) (buf : Nat → Nat) (sector cnt : Nat) (s : St),
    s.SD_Type = h.SD_TYPE_V2HC →
    (SD_ReadDisk h card sector cnt s).2.SD_Type = h.SD_TYPE_V2HC ∧
    (SD_WriteDisk h card buf sector cnt s).2.SD_Type = h.SD_TYPE_V2HC ∧
    ((∃ r, (SD_ReadDisk h card sector cnt s).2.cmds = s.cmds ++
        [{ cmd := h.CMD17 % 256, arg := sector % 2 ^ 32, crc := 0x01, r1 := r }]) ∨
      (∃ r r', (SD_ReadDisk h card sector cnt s).2.cmds = s.cmds ++
        [{ cmd := h.CMD18 % 256, arg := sector % 2 ^ 32, crc := 0x01, r1 := r },
         { cmd := h.CMD12 % 256, arg := 0, crc := 0x01, r1 := r' }])) ∧
    ((∃ r, (SD_WriteDisk h card buf sector cnt s).2.cmds = s.cmds ++
        [{ cmd := h.CMD24 % 256, arg := sector % 2 ^ 32, crc := 0x01, r1 := r }]) ∨
      (∃ r, (SD_WriteDisk h card buf sector cnt s).2.cmds = s.cmds ++
        [{ cmd := h.CMD25 % 256, arg := sector % 2 ^ 32, crc := 0x01, r1 := r }]) ∨
      (∃ a b r, (SD_WriteDisk h card buf sector cnt s).2.cmds = s.cmds ++
        [{ cmd := h.CMD55 % 256, arg := 0, crc := 0x01, r1 := a },
         { cmd := h.CMD23 % 256, arg := cnt % 256, crc := 0x01, r1 := b },
         { cmd := h.CMD25 % 256, arg := sector % 2 ^ 32, crc := 0x01, r1 := r }]))

instance v2HandshakeDecidable (h : Hdr) (card : Card) (s : St) :
    Decidable (V2Handshake h card s) := by
  unfold V2Handshake
  infer_instance

/-- A version-2 standard-capacity card: as `cardV2HC`, but the OCR read after CMD58
has the CCS bit (0x40 of the first byte) clear. -/
def cardV2SC : Card :=
  frameCard
    (fun c => if c = 0x40 ∨ c = 0x48 ∨ c = 0x77 then 1 else 0)
    (fun c i =>
      if c = 0x48 then [0x00, 0x00, 0x01, 0xAA].getD i 0xFF
      else if c = 0x7A then [0x80, 0xFF, 0x80, 0x00].getD i 0xFF
      else 0xFF)

/-- A version-1 card that is ready at the first ACMD41: CMD0 is answered `0x01`,
CMD8 is rejected (`0x05`), every other command is answered `0x00`. -/
def cardV1 : Card :=
  frameCard (fun c => if c = 0x40 then 1 else if c = 0x48 then 5 else 0) (fun _ _ => 0xFF)

/-- `SD_GetCSD`: the result is the return value and the bytes stored into
`csd_data` (none when `SD_RecvData` was not called or did not find the start
token). -/
def SD_GetCSD (h : Hdr) (card : Card) (s : St) : (Nat × List Nat) × St :=
  let c := SD_SendCmd h card h.CMD9 0 0x01 s
  let r := if c.1 = 0 then SD_RecvData h card 16 c.2 else ((c.1, []), c.2)
  let s := SD_DisSelect card r.2
  if r.1.1 ≠ 0 then ((1, r.1.2), s) else ((0, r.1.2), s)

/-- The value of the `unsigned char n` in the `else` branch of `SD_GetSectorCount`. -/
def csdN (csd : List Nat) : Nat :=
  ((csd.getD 5 0 &&& 15) + ((csd.getD 10 0 &&& 128) >>> 7) + ((csd.getD 9 0 &&& 3) <<< 1) + 2) % 256

/-- The decoding part of `SD_GetSectorCount`, applied to the bytes of `csd`; all
arithmetic is `unsigned int`.  In the `else` branch C shifts by the `int` value
`n - 9`, which is undefined for `n < 9`; the subtraction here is truncated. -/
def csdCapacity (csd : List Nat) : Nat :=
  if csd.getD 0 0 &&& 0xC0 = 0x40 then
    let csize := (csd.getD 9 0 + (csd.getD 8 0 <<< 8) % 2 ^ 32 + 1) % 2 ^ 32
    (csize <<< 10) % 2 ^ 32
  else
    let n := csdN csd
    let csize := ((csd.getD 8 0 >>> 6) + (csd.getD 7 0 <<< 2) % 2 ^ 32 +
      ((csd.getD 6 0 &&& 3) <<< 10) % 2 ^ 32 + 1) % 2 ^ 32
    (csize <<< (n - 9)) % 2 ^ 32

/-- `SD_GetSectorCount`. -/
def SD_GetSectorCount (h : Hdr) (card : Card) (s : St) : Nat × St :=
  let g := SD_GetCSD h card s
  if g.1.1 ≠ 0 then (0, g.2)
  else (csdCapacity g.1.2, g.2)

/-- The contract of `SD_RecvData(buf, len)` in terms of the bytes `rxAt card s.log j`
that the card returns to the successive exchanges.  If the first `0xFE` is byte
number `j < 0xFFFF` (so `Count` is still positive when it is read), the `len` bytes
that follow are stored in order, two more bytes are exchanged, and 0 is returned.
If none of the first 65536 bytes is `0xFE`, exactly 65536 bytes are exchanged,
nothing is stored, and 1 is returned. -/
def RecvDataContract (h : Hdr) (card : Card) (len : Nat) (s : St) : Prop :=
  (∀ j, j < 0xFFFF → (∀ i, i < j → rxAt card s.log i ≠ 0xFE) → rxAt card s.log j = 0xFE →
    (SD_RecvData h card len s).1.1 = 0 ∧
    (SD_RecvData h card len s).1.2 =
      (List.range len).map (fun i => rxAt card s.log (j + 1 + i)) ∧
    (SD_RecvData h card len s).2.log = reads card (j + 1 + len + 2) s.log) ∧
  ((∀ j, j < 65536 → rxAt card s.log j ≠ 0xFE) →
    (SD_RecvData h card len s).1.1 = 1 ∧ (SD_RecvData h card len s).1.2 = [] ∧
    (SD_RecvData h card len s).2.log = reads card 65536 s.log)

/-- The byte the card returns as data response: the third exchange after the token
`cmd` and the 512 bytes of `buf` were written, starting from log `l`. -/
def dataResponse (card : Card) (buf : Nat → Nat) (cmd : Nat) (l : List BusEv) : Nat :=
  rxAt card (writes card (cmd :: ((List.range 512).map buf ++ [0xFF, 0xFF])) l) 0

/-- The contract of `SD_SendBlock(buf, cmd)`.  If none of the `0xFFFFFF` polls of
`SD_WaitReady` reads `0xFF`, the result is 1 and only those polls were exchanged.
If poll number `j` is the first to read `0xFF`: for a token other than `0xFD` the
token, `buf[0..511]` and three `0xFF` bytes are written in this order, and the
result is 0 when the byte read by the last exchange has low five bits `0x05` and 2
otherwise; for the token `0xFD` only the token is written, the result is 0, and
the call does not depend on `buf`. -/
def SendBlockContract (card : Card) (buf : Nat → Nat) (cmd : Nat) (s : St) : Prop :=
  ((∀ j, j < 0xFFFFFF → rxAt card s.log j ≠ 0xFF) →
    (SD_SendBlock card buf cmd s).1 = 1 ∧
    (SD_SendBlock card buf cmd s).2.log = reads card 0xFFFFFF s.log) ∧
  (∀ j, j < 0xFFFFFF → (∀ i, i < j → rxAt card s.log i ≠ 0xFF) → rxAt card s.log j = 0xFF →
    (cmd % 256 ≠ 0xFD →
      (SD_SendBlock card buf cmd s).2.log =
        writes card (cmd :: ((List.range 512).map buf ++ [0xFF, 0xFF, 0xFF]))
          (reads card (j + 1) s.log) ∧
      ((SD_SendBlock card buf cmd s).1 = 0 ↔
        dataResponse card buf cmd (reads card (j + 1) s.log) &&& 0x1F = 0x05) ∧
      ((SD_SendBlock card buf cmd s).1 = 2 ↔
        dataResponse card buf cmd (reads card (j + 1) s.log) &&& 0x1F ≠ 0x05)) ∧
    (cmd % 256 = 0xFD →
      (SD_SendBlock card buf cmd s).1 = 0 ∧
      (SD_SendBlock card buf cmd s).2.log = writes card [cmd] (reads card (j + 1) s.log) ∧
      ∀ buf2, SD_SendBlock card buf2 cmd s = SD_SendBlock card buf cmd s))

/-- The field C_SIZE of a version-2 CSD register as the SD physical-layer
specification defines it: the 22 bits [69:48]. -/
def specCSizeV2 (csd : List Nat) : Nat :=
  ((csd.getD 7 0 &&& 0x3F) <<< 16) ||| (csd.getD 8 0 <<< 8) ||| csd.getD 9 0

/-- The field READ_BL_LEN of a version-1 CSD register: the low four bits of byte 5. -/
def specReadBlLen (csd : List Nat) : Nat :=
  csd.getD 5 0 &&& 0x0F

/-- The 12-bit field C_SIZE of a version-1 CSD register. -/
def specCSizeV1 (csd : List Nat) : Nat :=
  ((csd.getD 6 0 &&& 3) <<< 10) ||| (csd.getD 7 0 <<< 2) ||| (csd.getD 8 0 >>> 6)

/-- The 3-bit field C_SIZE_MULT of a version-1 CSD register. -/
def specCSizeMult (csd : List Nat) : Nat :=
  ((csd.getD 9 0 &&& 3) <<< 1) ||| (csd.getD 10 0 >>> 7)

/-- A card that answers CMD9 (command byte `0x49`) with R1 = 0, the start token and
the 16 bytes `csd`; every other command is answered `0x00` with no data. -/
def cardWithCSD (csd : List Nat) : Card :=
  frameCard (fun _ => 0) (fun c i => if c = 0x49 then (0xFE :: csd).getD i 0xFF else 0xFF)

/-- The CSD register of a 64 GB card in the version-2 layout: C_SIZE = `0x01DBD3`,
with byte 7 holding the bits above the low sixteen. -/
def csdSDXC : List Nat :=
  [0x40, 0x0E, 0x00, 0x32, 0x5B, 0x59, 0x00, 0x01, 0xDB, 0xD3, 0x7F, 0x80, 0x0A, 0x40, 0x00, 0x01]

/-- The CSD register of a 1 GB card in the version-1 layout: READ_BL_LEN = 10,
C_SIZE = 3819, C_SIZE_MULT = 7. -/
def csdV1 : List Nat :=
  [0x00, 0x2E, 0x00, 0x32, 0x5B, 0x5A, 0x83, 0xBA, 0xED, 0xB7, 0xFF, 0xBF, 0x16, 0x80, 0x00, 0x01]

/-- A card that returns `0x00` twice, then the start token, then the bytes
`1, 2, 3, ...`. -/
def cardToken : Card := fun log _ => if log.length < 2 then 0 else if log.length = 2 then 0xFE
  else log.length - 2

/-- The sector count of a version-1 card computed from the fields of its CSD
register: `(C_SIZE + 1) * 2^(C_SIZE_MULT + 2) * 2^READ_BL_LEN / 512`. -/
def specCapacityV1 (csd : List Nat) : Nat :=
  (specCSizeV1 csd + 1) * 2 ^ (specCSizeMult csd + 2) * 2 ^ specReadBlLen csd / 512

/-- Macros and enumerators of `diskio.h` and `ff.h`, which are not among the
sources: the `DRESULT` codes, the `DSTATUS` bit `STA_NOINIT` and the `disk_ioctl`
command codes. -/
structure DiskHdr where
  RES_OK : Nat
  RES_PARERR : Nat
  STA_NOINIT : Nat
  CTRL_SYNC : Nat
  GET_SECTOR_COUNT : Nat
  GET_SECTOR_SIZE : Nat
  GET_BLOCK_SIZE : Nat

/-- The values of FatFs R0.14b: `RES_OK = 0`, `RES_PARERR = 4`, `STA_NOINIT = 0x01`,
and the generic `disk_ioctl` commands 0 to 3. -/
def diskio_h : DiskHdr where
  RES_OK := 0
  RES_PARERR := 4
  STA_NOINIT := 0x01
  CTRL_SYNC := 0
  GET_SECTOR_COUNT := 1
  GET_SECTOR_SIZE := 2
  GET_BLOCK_SIZE := 3

/-- `disk_status`. -/
def disk_status (d : DiskHdr) (pdrv : Nat) : Nat :=
  if pdrv % 256 ≠ 0 then d.STA_NOINIT else d.RES_OK

/-- `disk_initialize`. -/
def disk_initialize (d : DiskHdr) (h : Hdr) (card : Card) (s : St) : Nat × St :=
  let r := SD_Initialize h card s
  if r.1 = 0 then (d.RES_OK, r.2) else (d.STA_NOINIT, r.2)

/-- `disk_read`: the result is the value returned, the bytes stored into `buff`,
and the state. -/
def disk_read (d : DiskHdr) (h : Hdr) (card : Card) (pdrv sector count : Nat) (s : St) :
    (Nat × List Nat) × St :=
  if pdrv % 256 ≠ 0 then ((d.STA_NOINIT, []), s)
  else if count % 2 ^ 32 = 0 ∨ count % 2 ^ 32 ≥ 2 then ((d.STA_NOINIT, []), s)
  else
    let r := SD_ReadDisk h card sector count s
    ((d.RES_OK, r.1.2), r.2)

/-- `disk_write`. -/
def disk_write (d : DiskHdr) (h : Hdr) (card : Card) (pdrv : Nat) (buff : Nat → Nat)
    (sector count : Nat) (s : St) : Nat × St :=
  if pdrv % 256 ≠ 0 then (d.STA_NOINIT, s)
  else if count % 2 ^ 32 = 0 ∨ count % 2 ^ 32 ≥ 2 then (d.STA_NOINIT, s)
  else
    let w := SD_WriteDisk h card buff sector count s
    (d.RES_OK, w.2)

/-- The `switch (cmd)` statement of `disk_ioctl`: the value of `res` after it, the
value stored into `*(DWORD*)buff` (`none`: nothing is stored), and the state. -/
def ioctlSwitch (d : DiskHdr) (h : Hdr) (card : Card) (cmd : Nat) (s : St) :
    (Nat × Option Nat) × St :=
  if cmd % 256 = d.CTRL_SYNC then ((d.RES_OK, none), s)
  else if cmd % 256 = d.GET_SECTOR_COUNT then
    let c := SD_GetSectorCount h card s
    ((d.RES_OK, some (c.1 >>> 11)), c.2)
  else if cmd % 256 = d.GET_SECTOR_SIZE then ((d.RES_OK, some 512), s)
  else if cmd % 256 = d.GET_BLOCK_SIZE then ((d.RES_OK, some 1), s)
  else ((d.RES_PARERR, none), s)

/-- `disk_ioctl`: after the `switch` the function executes `res = RES_OK;`. -/
def disk_ioctl (d : DiskHdr) (h : Hdr) (card : Card) (pdrv cmd : Nat) (s : St) :
    (Nat × Option Nat) × St :=
  if pdrv % 256 ≠ 0 then ((d.RES_PARERR, none), s)
  else
    let r := ioctlSwitch d h card cmd s
    ((d.RES_OK, r.1.2), r.2)

/-- A card that answers every command with R1 = `0x04` (illegal command). -/
def cardIllegal : Card :=
  frameCard (fun _ => 0x04) (fun _ _ => 0xFF)

/-- The part of `SD_WriteDisk` for `cnt != 1` up to the CMD25 command: CMD55 and
CMD23 unless the card is MMC, then CMD25; the result is the R1 of CMD25. -/
def multiWriteCmd (h : Hdr) (card : Card) (sector cnt : Nat) (s : St) : Nat × St :=
  SD_SendCmd h card h.CMD25
    (if s.SD_Type ≠ h.SD_TYPE_V2HC then ((sector % 2 ^ 32) * 512) % 2 ^ 32 else sector % 2 ^ 32)
    0x01
    (if s.SD_Type ≠ h.SD_TYPE_MMC then
      (SD_SendCmd h card h.CMD23 (cnt % 256) 0x01 (SD_SendCmd h card h.CMD55 0 0x01 s).2).2
    else s)

/-- The data-block loop of `SD_WriteDisk` for `cnt != 1`, run after CMD25. -/
def multiWriteBlocks (h : Hdr) (card : Card) (buf : Nat → Nat) (sector cnt : Nat) (s : St) :
    Nat × St :=
  writeBlocks card buf ((cnt % 256 + 255) % 256) 0 (multiWriteCmd h card sector cnt s).2

/-- A card that answers every command with R1 = 0, is ready whenever polled, and
answers the first data block after CMD25 with the data response `0x0B` (rejected,
CRC error): the exchange number 516 after the R1 of CMD25 (ready poll, token, 512
data bytes and two CRC bytes come before it). -/
def cardRejectBlock : Card :=
  frameCard (fun _ => 0) (fun c i => if c = 0x59 ∧ i = 516 then 0x0B else 0xFF)

end SD

/-! ## Theorems -/

namespace FMC


theorem waitWhile_busy (hw : Hw) (r : Reg) (m : Nat) :
    ∀ (n : Nat) (s : St), (∀ j, j < n → busyAt hw r m s.trace j) →
      waitWhile hw r m n s = (-1, { s with trace := polls hw r n s.trace })
  | 0, s, _ => rfl
  | n + 1, s, hb => by
    have h0 : (rd hw r s).1 &&& m ≠ 0 := hb 0 (Nat.succ_pos n)
    have ih := waitWhile_busy hw r m n (rd hw r s).2 (fun j hj => hb (j + 1) (Nat.succ_lt_succ hj))
    rw [waitWhile, if_pos h0, ih]
    rfl

theorem waitWhile_clear (hw : Hw) (r : Reg) (m : Nat) :
    ∀ (n j : Nat) (s : St), j < n → (∀ i, i < j → busyAt hw r m s.trace i) →
      ¬ busyAt hw r m s.trace j →
      waitWhile hw r m n s = (((n - 1 - j : Nat) : Int), { s with trace := polls hw r (j + 1) s.trace })
  | 0, _, _, hj, _, _ => absurd hj (Nat.not_lt_zero _)
  | n + 1, 0, s, _, _, hc => by
    have h0 : ¬ ((rd hw r s).1 &&& m ≠ 0) := hc
    rw [waitWhile, if_neg h0]
    rfl
  | n + 1, j + 1, s, hj, hb, hc => by
    have h0 : (rd hw r s).1 &&& m ≠ 0 := hb 0 (Nat.succ_pos j)
    have ih := waitWhile_clear hw r m n j (rd hw r s).2 (Nat.lt_of_succ_lt_succ hj)
      (fun i hi => hb (i + 1) (Nat.succ_lt_succ hi)) hc
    rw [waitWhile, if_pos h0, ih]
    have e : n + 1 - 1 - (j + 1) = n - 1 - j := by omega
    rw [e]
    rfl

theorem clearedAt_unique (hw : Hw) (r : Reg) (m N : Nat) (t : List Ev) (j k : Nat)
    (hj : ClearedAt hw r m N t j) (hk : ClearedAt hw r m N t k) : j = k := by
  rcases Nat.lt_trichotomy j k with hlt | heq | hgt
  · exact absurd (hk.2.1 j hlt) hj.2.2
  · exact heq
  · exact absurd (hj.2.1 k hgt) hk.2.2

theorem timeout_or_cleared (hw : Hw) (r : Reg) (m N : Nat) (t : List Ev) :
    (∀ j, j + 1 < N → busyAt hw r m t j) ∨ ∃ j, ClearedAt hw r m N t j := by
  classical
  by_cases hex : ∃ j, j + 1 < N ∧ ¬ busyAt hw r m t j
  · right
    refine ⟨Nat.find hex, (Nat.find_spec hex).1, ?_, (Nat.find_spec hex).2⟩
    intro i hi
    by_contra hb
    exact Nat.find_min hex hi ⟨by have := (Nat.find_spec hex).1; omega, hb⟩
  · left
    intro j hj
    by_contra hb
    exact hex ⟨j, hj, hb⟩

theorem ispTail_timeout (hw : Hw) (r : Reg) (m N : Nat) (fr : Reg) (fm : Nat) (s : St)
    (hb : ∀ j, j + 1 < N → busyAt hw r m s.trace j) :
    (ispTail hw r m N fr fm s).1 = -1 ∧ (ispTail hw r m N fr fm s).2.g_FMC_i32ErrCode = -1 ∧
      ∃ k, k ≤ N ∧ (ispTail hw r m N fr fm s).2.trace = polls hw r k s.trace := by
  classical
  cases N with
  | zero =>
    refine ⟨rfl, rfl, 0, le_refl _, rfl⟩
  | succ n =>
    by_cases hl : busyAt hw r m s.trace n
    · have hall : ∀ j, j < n + 1 → busyAt hw r m s.trace j := by
        intro j hj
        rcases Nat.lt_succ_iff_lt_or_eq.mp hj with h1 | h1
        · exact hb j (by omega)
        · exact h1 ▸ hl
      have hw1 := waitWhile_busy hw r m (n + 1) s hall
      simp only [ispTail, hw1]
      exact ⟨rfl, rfl, n + 1, le_refl _, rfl⟩
    · have hw1 := waitWhile_clear hw r m (n + 1) n s (Nat.lt_succ_self n)
        (fun i hi => hb i (by omega)) hl
      have e : n + 1 - 1 - n = 0 := by omega
      rw [e] at hw1
      simp only [ispTail, hw1]
      exact ⟨rfl, rfl, n + 1, le_refl _, rfl⟩

theorem ispTail_cleared (hw : Hw) (r : Reg) (m N : Nat) (fr : Reg) (fm : Nat) (s : St) (j : Nat)
    (hc : ClearedAt hw r m N s.trace j) :
    ispTail hw r m N fr fm s =
      if (hw (polls hw r (j + 1) s.trace) fr % 2 ^ 32) &&& fm ≠ 0 then
        (-1, { trace := polls hw r (j + 1) s.trace ++
                [Ev.rd fr (hw (polls hw r (j + 1) s.trace) fr % 2 ^ 32),
                 Ev.rd fr (hw (polls hw r (j + 1) s.trace ++
                   [Ev.rd fr (hw (polls hw r (j + 1) s.trace) fr % 2 ^ 32)]) fr % 2 ^ 32),
                 Ev.wr fr (((hw (polls hw r (j + 1) s.trace ++
                   [Ev.rd fr (hw (polls hw r (j + 1) s.trace) fr % 2 ^ 32)]) fr % 2 ^ 32) ||| fm)
                     % 2 ^ 32)],
               g_FMC_i32ErrCode := -1 })
      else
        (0, { trace := polls hw r (j + 1) s.trace ++
                [Ev.rd fr (hw (polls hw r (j + 1) s.trace) fr % 2 ^ 32)],
              g_FMC_i32ErrCode := s.g_FMC_i32ErrCode }) := by
  have hw1 := waitWhile_clear hw r m N j s (by have := hc.1; omega) hc.2.1 hc.2.2
  have hpos : ¬ (((N - 1 - j : Nat) : Int) ≤ 0) := by have := hc.1; omega
  simp only [ispTail, hw1, if_neg hpos, rd, orReg, wr, setErr, List.append_assoc,
    List.singleton_append, List.cons_append, List.nil_append]

theorem ispTail_outcome (hw : Hw) (r : Reg) (m N : Nat) (fr : Reg) (fm : Nat) (s : St)
    (he : s.g_FMC_i32ErrCode = 0) :
    IspOutcome hw r m N fr fm s.trace (ispTail hw r m N fr fm s) := by
  classical
  refine ⟨?_, ?_, ?_, ?_⟩
  · rcases timeout_or_cleared hw r m N s.trace with hb | ⟨j, hc⟩
    · exact Or.inl ⟨hb, ispTail_timeout hw r m N fr fm s hb⟩
    · have e := ispTail_cleared hw r m N fr fm s j hc
      by_cases hf : (hw (polls hw r (j + 1) s.trace) fr % 2 ^ 32) &&& fm ≠ 0
      · rw [if_pos hf] at e
        exact Or.inr (Or.inl ⟨j, hc, hf, by rw [e], by rw [e], _, by rw [e]⟩)
      · rw [if_neg hf] at e
        exact Or.inr (Or.inr ⟨j, hc, not_not.mp hf, by rw [e], by rw [e]; exact he, by rw [e]⟩)
  · rintro ⟨⟨hb, _⟩, ⟨j, hc, _⟩⟩
    exact hc.2.2 (hb j hc.1)
  · rintro ⟨⟨hb, _⟩, ⟨j, hc, _⟩⟩
    exact hc.2.2 (hb j hc.1)
  · rintro ⟨⟨j, _, _, h1, _⟩, ⟨k, _, _, h2, _⟩⟩
    rw [h1] at h2
    exact absurd h2 (by decide)

theorem setup_outcome (hw : Hw) (r : Reg) (m N : Nat) (fr : Reg) (fm : Nat) (s : St)
    (t0 : List Ev) (res : Int × St) (he : s.g_FMC_i32ErrCode = 0) (ht : s.trace = t0)
    (hr : res = ispTail hw r m N fr fm s) : IspOutcome hw r m N fr fm t0 res := by
  subst ht hr
  exact ispTail_outcome hw r m N fr fm s he

theorem FMC_Read_eq (h : Hdr) (hw : Hw) (a : Nat) (s : St) :
    FMC_Read h hw a s =
      if (waitWhile hw .ISPTRG h.FMC_ISPTRG_ISPGO_Msk h.FMC_TIMEOUT_READ
            { trace := readSetup h a s, g_FMC_i32ErrCode := 0 }).1 ≤ 0 then
        (0xFFFFFFFF, setErr (-1) (waitWhile hw .ISPTRG h.FMC_ISPTRG_ISPGO_Msk h.FMC_TIMEOUT_READ
            { trace := readSetup h a s, g_FMC_i32ErrCode := 0 }).2)
      else rd hw .ISPDAT (waitWhile hw .ISPTRG h.FMC_ISPTRG_ISPGO_Msk h.FMC_TIMEOUT_READ
            { trace := readSetup h a s, g_FMC_i32ErrCode := 0 }).2 := by
  simp [FMC_Read, readSetup, wr, setErr]

/-- C2 (the code at the failing input): with a budget of `n + 1` polls, when the GO
bit reads set on the first `n` polls and clear on poll `n + 1`, `FMC_Read` has seen
the GO bit clear within its budget and still reports a time-out: it returns
`0xFFFFFFFF`, sets the error code to `-1` and never reads `ISPDAT`. -/
theorem C2_FMC_Read_clear_on_last_poll (h : Hdr) (hw : Hw) (a : Nat) (s : St) (n : Nat)
    (hN : h.FMC_TIMEOUT_READ = n + 1)
    (hb : ∀ j, j < n → busyAt hw .ISPTRG h.FMC_ISPTRG_ISPGO_Msk (readSetup h a s) j)
    (hc : ¬ busyAt hw .ISPTRG h.FMC_ISPTRG_ISPGO_Msk (readSetup h a s) n) :
    FMC_Read h hw a s =
      (0xFFFFFFFF, { trace := polls hw .ISPTRG (n + 1) (readSetup h a s),
                     g_FMC_i32ErrCode := -1 }) := by
  have hw1 := waitWhile_clear hw .ISPTRG h.FMC_ISPTRG_ISPGO_Msk (n + 1) n
    { trace := readSetup h a s, g_FMC_i32ErrCode := 0 } (Nat.lt_succ_self n) hb hc
  have e : n + 1 - 1 - n = 0 := by omega
  rw [e] at hw1
  rw [FMC_Read_eq, hN, hw1]
  rfl

theorem C2_FMC_Read_clear_on_last_poll_witness :
    (m480.FMC_TIMEOUT_READ = 2 + 1 ∧
      (∀ j, j < 2 → busyAt hwClearOnThirdPoll .ISPTRG m480.FMC_ISPTRG_ISPGO_Msk
        (readSetup m480 0x1000 st0) j) ∧
      ¬ busyAt hwClearOnThirdPoll .ISPTRG m480.FMC_ISPTRG_ISPGO_Msk
        (readSetup m480 0x1000 st0) 2) ∧
    FMC_Read m480 hwClearOnThirdPoll 0x1000 st0 =
      (0xFFFFFFFF, { trace := [Ev.wr .ISPCMD 0, Ev.wr .ISPADDR 0x1000, Ev.wr .ISPTRG 1,
                       Ev.rd .ISPTRG 1, Ev.rd .ISPTRG 1, Ev.rd .ISPTRG 0],
                     g_FMC_i32ErrCode := -1 }) :=
  ⟨⟨rfl, by decide, by decide⟩,
   C2_FMC_Read_clear_on_last_poll m480 hwClearOnThirdPoll 0x1000 st0 2 rfl
     (by decide) (by decide)⟩

/-- C3 (the code at the failing input): when the GO bit clears within the budget
and the fault flag `ISPFF` is set, `FMC_Read` returns the content of `ISPDAT` as a
successful read with error code `0`; the trace ends with the read of `ISPDAT`, so
the flag is neither tested nor written back. -/
theorem C3_FMC_Read_ignores_fault_flag (h : Hdr) (hw : Hw) (a : Nat) (s : St) (j : Nat)
    (hc : ClearedAt hw .ISPTRG h.FMC_ISPTRG_ISPGO_Msk h.FMC_TIMEOUT_READ (readSetup h a s) j)
    (_hff : (hw (polls hw .ISPTRG (j + 1) (readSetup h a s)) .ISPSTS % 2 ^ 32)
      &&& h.FMC_ISPSTS_ISPFF_Msk ≠ 0) :
    FMC_Read h hw a s =
      (hw (polls hw .ISPTRG (j + 1) (readSetup h a s)) .ISPDAT % 2 ^ 32,
       { trace := polls hw .ISPTRG (j + 1) (readSetup h a s) ++
           [Ev.rd .ISPDAT (hw (polls hw .ISPTRG (j + 1) (readSetup h a s)) .ISPDAT % 2 ^ 32)],
         g_FMC_i32ErrCode := 0 }) := by
  have hw1 := waitWhile_clear hw .ISPTRG h.FMC_ISPTRG_ISPGO_Msk h.FMC_TIMEOUT_READ j
    { trace := readSetup h a s, g_FMC_i32ErrCode := 0 } (by have := hc.1; omega) hc.2.1 hc.2.2
  have hpos : ¬ (((h.FMC_TIMEOUT_READ - 1 - j : Nat) : Int) ≤ 0) := by have := hc.1; omega
  rw [FMC_Read_eq, hw1, if_neg hpos]
  rfl

theorem C3_FMC_Read_ignores_fault_flag_witness :
    (ClearedAt hwFault .ISPTRG m480.FMC_ISPTRG_ISPGO_Msk m480.FMC_TIMEOUT_READ
        (readSetup m480 0x1000 st0) 0 ∧
      (hwFault (polls hwFault .ISPTRG (0 + 1) (readSetup m480 0x1000 st0)) .ISPSTS % 2 ^ 32)
        &&& m480.FMC_ISPSTS_ISPFF_Msk ≠ 0) ∧
    FMC_Read m480 hwFault 0x1000 st0 =
      (0xCAFE, { trace := [Ev.wr .ISPCMD 0, Ev.wr .ISPADDR 0x1000, Ev.wr .ISPTRG 1,
                   Ev.rd .ISPTRG 0, Ev.rd .ISPDAT 0xCAFE],
                 g_FMC_i32ErrCode := 0 }) :=
  ⟨⟨⟨by decide, by intro i hi; omega, by decide⟩, by decide⟩,
   C3_FMC_Read_ignores_fault_flag m480 hwFault 0x1000 st0 0
     ⟨by decide, by intro i hi; omega, by decide⟩ (by decide)⟩

@[simp] theorem rd_err (hw : Hw) (r : Reg) (s : St) :
    (rd hw r s).2.g_FMC_i32ErrCode = s.g_FMC_i32ErrCode := rfl

@[simp] theorem wr_err (r : Reg) (v : Nat) (s : St) :
    (wr r v s).g_FMC_i32ErrCode = s.g_FMC_i32ErrCode := rfl

@[simp] theorem ldBuf_err (b : Nat → Nat) (r : Reg) (l : WM) (s : St) :
    (ldBuf b r l s).2.g_FMC_i32ErrCode = s.g_FMC_i32ErrCode := rfl

@[simp] theorem ldBuf_retval (b : Nat → Nat) (r : Reg) (l : WM) (s : St) :
    (ldBuf b r l s).1.retval = l.retval := rfl

@[simp] theorem ldBuf_u32Len (b : Nat → Nat) (r : Reg) (l : WM) (s : St) :
    (ldBuf b r l s).1.u32Len = l.u32Len := rfl

@[simp] theorem ldBuf_i (b : Nat → Nat) (r : Reg) (l : WM) (s : St) :
    (ldBuf b r l s).1.i = l.i := rfl

theorem count8_i (l : WM) : (count8 l).i = l.i := by
  unfold count8
  rfl

theorem waitWhile_err (hw : Hw) (r : Reg) (m : Nat) :
    ∀ (n : Nat) (s : St), (waitWhile hw r m n s).2.g_FMC_i32ErrCode = s.g_FMC_i32ErrCode
  | 0, _ => rfl
  | n + 1, s => by
    rw [waitWhile]
    split
    · rw [waitWhile_err hw r m n]; rfl
    · rfl

theorem waitWhile_timeout (hw : Hw) (r : Reg) (m n : Nat) (s : St)
    (hto : (waitWhile hw r m n s).1 ≤ 0) :
    (∀ j, j + 1 < n → busyAt hw r m s.trace j) ∧
      ∃ k, k ≤ n ∧ (waitWhile hw r m n s).2.trace = polls hw r k s.trace := by
  classical
  rcases timeout_or_cleared hw r m n s.trace with hb | ⟨j, hc⟩
  · refine ⟨hb, ?_⟩
    obtain ⟨k, hk, ht⟩ := (ispTail_timeout hw r m n r m s hb).2.2
    refine ⟨k, hk, ?_⟩
    simp only [ispTail, if_pos hto, setErr] at ht
    exact ht
  · have hw1 := waitWhile_clear hw r m n j s (by have := hc.1; omega) hc.2.1 hc.2.2
    rw [hw1] at hto
    have := hc.1
    simp only at hto
    omega

theorem count8_inv (R : Nat) (l : WM) (hR : R < 2 ^ 31) (hi : WMInv R l) (h8 : 8 ≤ l.u32Len) :
    WMInv R (count8 l) ∧ (count8 l).u32Len + 8 = l.u32Len := by
  obtain ⟨h0, hsum, hd1, hd2⟩ := hi
  have e1 : (count8 l).u32Len = l.u32Len - 8 := by
    show (if 8 ≤ l.u32Len then l.u32Len - 8 else l.u32Len + 2 ^ 32 - 8) = l.u32Len - 8
    rw [if_pos h8]
  have e2 : (count8 l).retval = l.retval + 8 := by
    show (l.retval + 8 + 2 ^ 31) % 2 ^ 32 - 2 ^ 31 = l.retval + 8
    omega
  refine ⟨⟨?_, ?_, ?_, ?_⟩, ?_⟩
  · rw [e2]; omega
  · rw [e1, e2]; omega
  · rw [e2]; omega
  · rw [e1]; omega
  · rw [e1]; omega

theorem WMInv_congr (R : Nat) (l l' : WM) (h1 : l'.retval = l.retval) (h2 : l'.u32Len = l.u32Len)
    (hi : WMInv R l) : WMInv R l' := by
  unfold WMInv at *
  rw [h1, h2]
  exact hi

theorem timedOutTail_of_wait (h : Hdr) (hw : Hw) (m : Nat) (s : St)
    (hm : m = (h.FMC_MPSTS_D0_Msk ||| h.FMC_MPSTS_D1_Msk) ∨
      m = (h.FMC_MPSTS_D2_Msk ||| h.FMC_MPSTS_D3_Msk) ∨ m = h.FMC_MPSTS_MPBUSY_Msk)
    (hto : (waitWhile hw .MPSTS m h.FMC_TIMEOUT_WRITE s).1 ≤ 0) :
    TimedOutTail h hw (setErr (-1) (waitWhile hw .MPSTS m h.FMC_TIMEOUT_WRITE s).2).trace := by
  obtain ⟨hb, k, hk, ht⟩ := waitWhile_timeout hw .MPSTS m h.FMC_TIMEOUT_WRITE s hto
  exact ⟨m, s.trace, k, hm, hb, hk, ht⟩

theorem wmFor_spec (h : Hdr) (hw : Hw) (buf : Nat → Nat) (R : Nat) (hR : R < 2 ^ 31) :
    ∀ (fuel : Nat) (l : WM) (s : St) (out : Option Int × WM × St),
      WMInv R l → 8 ≤ l.u32Len → s.g_FMC_i32ErrCode = 0 →
      wmFor h hw buf fuel l s = some out →
      WMInv R out.2.1 ∧
      (∀ v, out.1 = some v →
        (v = -1 ∧ out.2.2.g_FMC_i32ErrCode = -1 ∧ TimedOutTail h hw out.2.2.trace) ∨
        (v = out.2.1.retval ∧ out.2.2.g_FMC_i32ErrCode = 0)) ∧
      (out.1 = none → out.2.2.g_FMC_i32ErrCode = 0 ∧
        (out.2.1.u32Len + 8 ≤ l.u32Len ∨
          (¬ l.i < h.FMC_MULTI_WORD_PROG_LEN ∧ out.2.1.i = l.i))) := by
  intro fuel
  induction fuel with
  | zero =>
    intro l s out _ _ _ hres
    simp [wmFor] at hres
  | succ fuel ih =>
    intro l s out hi h8 he hres
    rw [wmFor] at hres
    dsimp only at hres
    have hw1e := waitWhile_err hw .MPSTS (h.FMC_MPSTS_D0_Msk ||| h.FMC_MPSTS_D1_Msk)
      h.FMC_TIMEOUT_WRITE s
    have hto1 := timedOutTail_of_wait h hw (h.FMC_MPSTS_D0_Msk ||| h.FMC_MPSTS_D1_Msk) s
      (Or.inl rfl)
    set w1 := waitWhile hw .MPSTS (h.FMC_MPSTS_D0_Msk ||| h.FMC_MPSTS_D1_Msk)
      h.FMC_TIMEOUT_WRITE s
    obtain ⟨hi1, hl1⟩ := count8_inv R l hR hi h8
    have hii1 := count8_i l
    set l1 := count8 l
    set b1 := rd hw .MPSTS w1.2
    set p1 := ldBuf buf .MPDAT1 (ldBuf buf .MPDAT0 l1 b1.2).1 (ldBuf buf .MPDAT0 l1 b1.2).2
    have hp1r : p1.1.retval = l1.retval := by rw [ldBuf_retval, ldBuf_retval]
    have hp1u : p1.1.u32Len = l1.u32Len := by rw [ldBuf_u32Len, ldBuf_u32Len]
    have hp1i : p1.1.i = l1.i := by rw [ldBuf_i, ldBuf_i]
    have hp1e : p1.2.g_FMC_i32ErrCode = 0 := by
      show w1.2.g_FMC_i32ErrCode = 0
      rw [hw1e, he]
    have hip1 : WMInv R p1.1 := WMInv_congr R l1 p1.1 hp1r hp1u hi1
    have hw2e := waitWhile_err hw .MPSTS (h.FMC_MPSTS_D2_Msk ||| h.FMC_MPSTS_D3_Msk)
      h.FMC_TIMEOUT_WRITE p1.2
    have hto2 := timedOutTail_of_wait h hw (h.FMC_MPSTS_D2_Msk ||| h.FMC_MPSTS_D3_Msk) p1.2
      (Or.inr (Or.inl rfl))
    set w2 := waitWhile hw .MPSTS (h.FMC_MPSTS_D2_Msk ||| h.FMC_MPSTS_D3_Msk)
      h.FMC_TIMEOUT_WRITE p1.2
    split_ifs at hres with c1 c2 c3 c4 c5 c6 c7 c8
    · -- D0/D1 wait timed out
      cases hres
      exact ⟨hi, fun v hv => Or.inl ⟨by cases hv; rfl, rfl, hto1 c2⟩, fun hn => by cases hn⟩
    · -- input exhausted after the first pair
      cases hres
      refine ⟨hi1, fun v hv => Or.inr ⟨by cases hv; rfl, ?_⟩, fun hn => by cases hn⟩
      show w1.2.g_FMC_i32ErrCode = 0
      rw [hw1e, he]
    · -- MPBUSY dropped after D0/D1
      cases hres
      refine ⟨WMInv_congr R l1 _ rfl rfl hi1, fun v hv => (by cases hv), fun _ => ⟨?_, Or.inl ?_⟩⟩
      · show w1.2.g_FMC_i32ErrCode = 0
        rw [hw1e, he]
      · show l1.u32Len + 8 ≤ l.u32Len
        omega
    · -- i = LEN / 4
      cases hres
      refine ⟨hip1, fun v hv => (by cases hv), fun _ => ⟨hp1e, Or.inl ?_⟩⟩
      show p1.1.u32Len + 8 ≤ l.u32Len
      omega
    · -- D2/D3 wait timed out
      cases hres
      exact ⟨hip1, fun v hv => Or.inl ⟨by cases hv; rfl, rfl, hto2 c6⟩, fun hn => by cases hn⟩
    · -- input exhausted after the second pair
      cases hres
      have h8' : 8 ≤ p1.1.u32Len := by omega
      obtain ⟨hi2, _⟩ := count8_inv R p1.1 hR hip1 h8'
      refine ⟨hi2, fun v hv => Or.inr ⟨by cases hv; rfl, ?_⟩, fun hn => by cases hn⟩
      show w2.2.g_FMC_i32ErrCode = 0
      rw [hw2e, hp1e]
    · -- MPBUSY dropped after D2/D3
      cases hres
      have h8' : 8 ≤ p1.1.u32Len := by omega
      obtain ⟨hi2, hl2⟩ := count8_inv R p1.1 hR hip1 h8'
      refine ⟨WMInv_congr R (count8 p1.1) _ rfl rfl hi2, fun v hv => (by cases hv),
        fun _ => ⟨?_, Or.inl ?_⟩⟩
      · show w2.2.g_FMC_i32ErrCode = 0
        rw [hw2e, hp1e]
      · show (count8 p1.1).u32Len + 8 ≤ l.u32Len
        omega
    · -- next iteration
      have h8' : 8 ≤ p1.1.u32Len := by omega
      obtain ⟨hi2, hl2⟩ := count8_inv R p1.1 hR hip1 h8'
      have hii2 := count8_i p1.1
      set l2 := count8 p1.1
      have h8'' : 8 ≤ l2.u32Len := by omega
      have hq := ih _ _ out
        (WMInv_congr R l2 _ (by rw [ldBuf_retval, ldBuf_retval])
          (by rw [ldBuf_u32Len, ldBuf_u32Len]) hi2)
        (by rw [ldBuf_u32Len, ldBuf_u32Len]; exact h8'')
        (by rw [ldBuf_err, ldBuf_err, rd_err, hw2e, hp1e]) hres
      refine ⟨hq.1, hq.2.1, fun hn => ?_⟩
      obtain ⟨e1, e2⟩ := hq.2.2 hn
      refine ⟨e1, ?_⟩
      rw [ldBuf_u32Len, ldBuf_u32Len, ldBuf_i, ldBuf_i] at e2
      rcases e2 with e2 | e2
      · left
        omega
      · exfalso
        apply e2.1
        rw [hii2, hp1i, hii1]
        exact c1
    · -- loop condition false
      cases hres
      exact ⟨hi, fun v hv => (by cases hv), fun _ => ⟨he, Or.inr ⟨c1, rfl⟩⟩⟩


theorem count8_u32Len (l : WM) (h8 : 8 ≤ l.u32Len) : (count8 l).u32Len = l.u32Len - 8 := by
  show (if 8 ≤ l.u32Len then l.u32Len - 8 else l.u32Len + 2 ^ 32 - 8) = l.u32Len - 8
  rw [if_pos h8]

theorem count8_dvd (l : WM) (hd : (8 : Int) ∣ l.retval) : (8 : Int) ∣ (count8 l).retval := by
  show (8 : Int) ∣ (l.retval + 8 + 2 ^ 31) % 2 ^ 32 - 2 ^ 31
  omega

theorem wmFor_total (h : Hdr) (hw : Hw) (buf : Nat → Nat) :
    ∀ (fuel : Nat) (l : WM) (s : St), 8 ≤ l.u32Len → l.u32Len < 16 * fuel + 8 →
      ∃ out, wmFor h hw buf fuel l s = some out := by
  intro fuel
  induction fuel with
  | zero =>
    intro l s h8 hlt
    omega
  | succ fuel ih =>
    intro l s h8 hlt
    rw [wmFor]
    dsimp only
    have hl1 := count8_u32Len l h8
    split_ifs with c1 c2 c3 c4 c5 c6 c7 c8
    · exact ⟨_, rfl⟩
    · exact ⟨_, rfl⟩
    · exact ⟨_, rfl⟩
    · exact ⟨_, rfl⟩
    · exact ⟨_, rfl⟩
    · exact ⟨_, rfl⟩
    · exact ⟨_, rfl⟩
    · have h8' : 8 ≤ (count8 l).u32Len := by omega
      have hl2 := count8_u32Len
        (ldBuf buf .MPDAT1 (ldBuf buf .MPDAT0 (count8 l)
          (rd hw .MPSTS (waitWhile hw .MPSTS (h.FMC_MPSTS_D0_Msk ||| h.FMC_MPSTS_D1_Msk)
            h.FMC_TIMEOUT_WRITE s).2).2).1 (ldBuf buf .MPDAT0 (count8 l)
          (rd hw .MPSTS (waitWhile hw .MPSTS (h.FMC_MPSTS_D0_Msk ||| h.FMC_MPSTS_D1_Msk)
            h.FMC_TIMEOUT_WRITE s).2).2).2).1
        (by rw [ldBuf_u32Len, ldBuf_u32Len]; exact h8')
      rw [ldBuf_u32Len, ldBuf_u32Len] at hl2
      apply ih
      · rw [ldBuf_u32Len, ldBuf_u32Len]
        omega
      · rw [ldBuf_u32Len, ldBuf_u32Len]
        omega
    · exact ⟨_, rfl⟩

theorem wmFor_err (h : Hdr) (hw : Hw) (buf : Nat → Nat) :
    ∀ (fuel : Nat) (l : WM) (s : St) (out : Option Int × WM × St),
      (8 : Int) ∣ l.retval → s.g_FMC_i32ErrCode = 0 →
      wmFor h hw buf fuel l s = some out →
      (8 : Int) ∣ out.2.1.retval ∧
      (∀ v, out.1 = some v →
        (v = -1 ∧ out.2.2.g_FMC_i32ErrCode = -1 ∧ TimedOutTail h hw out.2.2.trace) ∨
        (v = out.2.1.retval ∧ out.2.2.g_FMC_i32ErrCode = 0)) ∧
      (out.1 = none → out.2.2.g_FMC_i32ErrCode = 0) := by
  intro fuel
  induction fuel with
  | zero =>
    intro l s out _ _ hres
    simp [wmFor] at hres
  | succ fuel ih =>
    intro l s out hd he hres
    rw [wmFor] at hres
    dsimp only at hres
    have hw1e := waitWhile_err hw .MPSTS (h.FMC_MPSTS_D0_Msk ||| h.FMC_MPSTS_D1_Msk)
      h.FMC_TIMEOUT_WRITE s
    have hto1 := timedOutTail_of_wait h hw (h.FMC_MPSTS_D0_Msk ||| h.FMC_MPSTS_D1_Msk) s
      (Or.inl rfl)
    set w1 := waitWhile hw .MPSTS (h.FMC_MPSTS_D0_Msk ||| h.FMC_MPSTS_D1_Msk)
      h.FMC_TIMEOUT_WRITE s
    have hd1 := count8_dvd l hd
    set l1 := count8 l
    set b1 := rd hw .MPSTS w1.2
    set p1 := ldBuf buf .MPDAT1 (ldBuf buf .MPDAT0 l1 b1.2).1 (ldBuf buf .MPDAT0 l1 b1.2).2
    have hp1r : p1.1.retval = l1.retval := by rw [ldBuf_retval, ldBuf_retval]
    have hp1e : p1.2.g_FMC_i32ErrCode = 0 := by
      show w1.2.g_FMC_i32ErrCode = 0
      rw [hw1e, he]
    have hdp1 : (8 : Int) ∣ p1.1.retval := by rw [hp1r]; exact hd1
    have hw2e := waitWhile_err hw .MPSTS (h.FMC_MPSTS_D2_Msk ||| h.FMC_MPSTS_D3_Msk)
      h.FMC_TIMEOUT_WRITE p1.2
    have hto2 := timedOutTail_of_wait h hw (h.FMC_MPSTS_D2_Msk ||| h.FMC_MPSTS_D3_Msk) p1.2
      (Or.inr (Or.inl rfl))
    set w2 := waitWhile hw .MPSTS (h.FMC_MPSTS_D2_Msk ||| h.FMC_MPSTS_D3_Msk)
      h.FMC_TIMEOUT_WRITE p1.2
    have hd2 := count8_dvd p1.1 hdp1
    have hw1z : w1.2.g_FMC_i32ErrCode = 0 := by rw [hw1e, he]
    have hw2z : w2.2.g_FMC_i32ErrCode = 0 := by rw [hw2e, hp1e]
    split_ifs at hres with c1 c2 c3 c4 c5 c6 c7 c8
    · cases hres
      exact ⟨hd, fun v hv => Or.inl ⟨by cases hv; rfl, rfl, hto1 c2⟩, fun hn => by cases hn⟩
    · cases hres
      exact ⟨hd1, fun v hv => Or.inr ⟨by cases hv; rfl, hw1z⟩, fun hn => by cases hn⟩
    · cases hres
      exact ⟨hd1, fun v hv => (by cases hv), fun _ => hw1z⟩
    · cases hres
      exact ⟨hdp1, fun v hv => (by cases hv), fun _ => hp1e⟩
    · cases hres
      exact ⟨hdp1, fun v hv => Or.inl ⟨by cases hv; rfl, rfl, hto2 c6⟩, fun hn => by cases hn⟩
    · cases hres
      exact ⟨hd2, fun v hv => Or.inr ⟨by cases hv; rfl, hw2z⟩, fun hn => by cases hn⟩
    · cases hres
      exact ⟨hd2, fun v hv => (by cases hv), fun _ => hw2z⟩
    · exact ih _ _ out (by rw [ldBuf_retval, ldBuf_retval]; exact hd2)
        (by rw [ldBuf_err, ldBuf_err, rd_err]; exact hw2z) hres
    · cases hres
      exact ⟨hd, fun v hv => (by cases hv), fun _ => he⟩

@[simp] theorem wmStart_retval (h : Hdr) (b : Nat → Nat) (l : WM) (s : St) :
    (wmStart h b l s).1.retval = l.retval := rfl

@[simp] theorem wmStart_u32Len (h : Hdr) (b : Nat → Nat) (l : WM) (s : St) :
    (wmStart h b l s).1.u32Len = l.u32Len := rfl

@[simp] theorem wmStart_i (h : Hdr) (b : Nat → Nat) (l : WM) (s : St) :
    (wmStart h b l s).1.i = 16 := rfl

@[simp] theorem wmStart_err (h : Hdr) (b : Nat → Nat) (l : WM) (s : St) :
    (wmStart h b l s).2.g_FMC_i32ErrCode = s.g_FMC_i32ErrCode := rfl

theorem wmWhile_err (h : Hdr) (hw : Hw) (buf : Nat → Nat) :
    ∀ (fuel : Nat) (l : WM) (s : St) (r : Int × WM × St),
      (8 : Int) ∣ l.retval → s.g_FMC_i32ErrCode = 0 →
      wmWhile h hw buf fuel l s = some r →
      (8 : Int) ∣ r.2.1.retval ∧
      ((r.1 = -1 ∧ r.2.2.g_FMC_i32ErrCode = -1 ∧ TimedOutTail h hw r.2.2.trace) ∨
        (r.1 = r.2.1.retval ∧ r.2.2.g_FMC_i32ErrCode = 0)) := by
  intro fuel
  induction fuel with
  | zero =>
    intro l s r _ _ hres
    simp [wmWhile] at hres
  | succ fuel ih =>
    intro l s r hd he hres
    rw [wmWhile] at hres
    split_ifs at hres with c1
    swap
    · cases hres
      exact ⟨hd, Or.inr ⟨rfl, he⟩⟩
    · rcases hfor : wmFor h hw buf (fuel + 1) (wmStart h buf l s).1 (wmStart h buf l s).2
        with _ | ⟨v, l', s'⟩
      · rw [hfor] at hres
        cases hres
      · rw [hfor] at hres
        have hq := wmFor_err h hw buf _ _ _ _ (by rw [wmStart_retval]; exact hd)
          (by rw [wmStart_err]; exact he) hfor
        cases v with
        | some v =>
          dsimp only at hres
          cases hres
          exact ⟨hq.1, hq.2.1 v rfl⟩
        | none =>
          dsimp only at hres
          have he' : s'.g_FMC_i32ErrCode = 0 := hq.2.2 rfl
          split_ifs at hres with c2 c3
          · cases hres
            exact ⟨hq.1, Or.inr ⟨rfl, he'⟩⟩
          · cases hres
            exact ⟨hq.1, Or.inl ⟨rfl, rfl,
              timedOutTail_of_wait h hw _ s' (Or.inr (Or.inr rfl)) c3⟩⟩
          · refine ih _ _ r ?_ ?_ hres
            · exact hq.1
            · rw [waitWhile_err]; exact he'

theorem wmWhile_spec (h : Hdr) (hw : Hw) (buf : Nat → Nat) (R : Nat) (hR : R < 2 ^ 31) :
    ∀ (fuel : Nat) (l : WM) (s : St) (r : Int × WM × St),
      WMInv R l → s.g_FMC_i32ErrCode = 0 →
      wmWhile h hw buf fuel l s = some r → WMInv R r.2.1 := by
  intro fuel
  induction fuel with
  | zero =>
    intro l s r _ _ hres
    simp [wmWhile] at hres
  | succ fuel ih =>
    intro l s r hi he hres
    rw [wmWhile] at hres
    split_ifs at hres with c1
    swap
    · cases hres
      exact hi
    · rcases hfor : wmFor h hw buf (fuel + 1) (wmStart h buf l s).1 (wmStart h buf l s).2
        with _ | ⟨v, l', s'⟩
      · rw [hfor] at hres
        cases hres
      · rw [hfor] at hres
        have hq := wmFor_spec h hw buf R hR _ _ _ _
          (WMInv_congr R l _ (wmStart_retval h buf l s) (wmStart_u32Len h buf l s) hi)
          (by rw [wmStart_u32Len]; omega) (by rw [wmStart_err]; exact he) hfor
        cases v with
        | some v =>
          dsimp only at hres
          cases hres
          exact hq.1
        | none =>
          dsimp only at hres
          have he' : s'.g_FMC_i32ErrCode = 0 := (hq.2.2 rfl).1
          split_ifs at hres with c2 c3
          · cases hres
            exact hq.1
          · cases hres
            exact hq.1
          · refine ih _ _ r ?_ ?_ hres
            · exact WMInv_congr R l' _ rfl rfl hq.1
            · rw [waitWhile_err]; exact he'

theorem wmWhile_total (h : Hdr) (hw : Hw) (buf : Nat → Nat) (R : Nat) (hR : R < 2 ^ 31)
    (hL : h.FMC_MULTI_WORD_PROG_LEN ≠ 16) :
    ∀ (fuel : Nat) (l : WM) (s : St),
      WMInv R l → s.g_FMC_i32ErrCode = 0 → l.u32Len < 8 * fuel →
      ∃ r, wmWhile h hw buf fuel l s = some r := by
  intro fuel
  induction fuel with
  | zero =>
    intro l s _ _ hlt
    omega
  | succ fuel ih =>
    intro l s hi he hlt
    rw [wmWhile]
    split_ifs with c1
    swap
    · exact ⟨_, rfl⟩
    · have h8 : 8 ≤ l.u32Len := c1
      obtain ⟨out, hfor⟩ := wmFor_total h hw buf (fuel + 1) (wmStart h buf l s).1
        (wmStart h buf l s).2 (by rw [wmStart_u32Len]; exact h8)
        (by rw [wmStart_u32Len]; omega)
      have hq := wmFor_spec h hw buf R hR _ _ _ _
        (WMInv_congr R l _ (wmStart_retval h buf l s) (wmStart_u32Len h buf l s) hi)
        (by rw [wmStart_u32Len]; exact h8) (by rw [wmStart_err]; exact he) hfor
      rw [hfor]
      obtain ⟨v, l', s'⟩ := out
      cases v with
      | some v => exact ⟨_, rfl⟩
      | none =>
        dsimp only
        obtain ⟨he', hdec⟩ := hq.2.2 rfl
        rw [wmStart_u32Len, wmStart_i] at hdec
        split_ifs with c2 c3
        · exact ⟨_, rfl⟩
        · exact ⟨_, rfl⟩
        · refine ih _ _ ?_ ?_ ?_
          · exact WMInv_congr R l' _ rfl rfl hq.1
          · rw [waitWhile_err]; exact he'
          rcases hdec with hdec | ⟨_, hdec⟩
          · show l'.u32Len < 8 * fuel
            have : l'.u32Len + 8 ≤ l.u32Len := hdec
            omega
          · exfalso
            have e1 : l'.i = 16 := hdec
            have e2 : l'.i = h.FMC_MULTI_WORD_PROG_LEN := not_not.mp c2
            exact hL (by rw [← e2, e1])

theorem FMC_WriteMultiple_valid (h : Hdr) (hw : Hw) (fuel a : Nat) (buf : Nat → Nat) (len : Nat)
    (s : St) (ha : a % 8 = 0) (hend : a < h.FMC_APROM_END) :
    FMC_WriteMultiple h hw fuel a buf len s =
      wmWhile h hw buf fuel
        { u32Addr := a, u32Len := len - len % 8, i := 0, idx := 0, retval := 0 } (setErr 0 s) := by
  have hc : ¬ (a ≥ h.FMC_APROM_END ∨ a % 8 ≠ 0) := by
    rintro (h1 | h1)
    · omega
    · exact h1 ha
  simp only [FMC_WriteMultiple, if_neg hc]

theorem WMInv_init (a len : Nat) :
    WMInv (len - len % 8)
      { u32Addr := a, u32Len := len - len % 8, i := 0, idx := 0, retval := 0 } := by
  refine ⟨le_refl _, ?_, ?_, ?_⟩
  · show (0 : Int) + ((len - len % 8 : Nat) : Int) = ((len - len % 8 : Nat) : Int)
    omega
  · exact dvd_zero _
  · show 8 ∣ len - len % 8
    omega

/-- C4: for an 8-byte-aligned address below `FMC_APROM_END`, every buffer, every
`u32Len < 2^31` and every hardware behaviour, `FMC_WriteMultiple` returns (given
fuel for `u32Len / 8 + 1` iterations, and a burst length other than 16); bytes
counted so far plus bytes remaining equals the rounded length initially, after
every counting step and at the `return`; and a non-negative returned value is a
multiple of 8 and at most the rounded length. -/
theorem C4_WriteMultiple_counts (h : Hdr) (hw : Hw) (fuel a : Nat) (buf : Nat → Nat)
    (len : Nat) (s : St) (ha : a % 8 = 0) (hend : a < h.FMC_APROM_END) (hlen : len < 2 ^ 31) :
    WriteMultipleCounts h hw fuel a buf len s := by
  have hR : len - len % 8 < 2 ^ 31 := by omega
  have hinit := WMInv_init a len
  rw [WriteMultipleCounts, FMC_WriteMultiple_valid h hw fuel a buf len s ha hend]
  refine ⟨?_, hinit, ?_, ?_⟩
  · intro hL hf
    exact wmWhile_total h hw buf _ hR hL fuel _ _ hinit rfl (by
      show len - len % 8 < 8 * fuel
      omega)
  · intro l hi h8
    exact (count8_inv _ l hR hi h8).1
  · intro r hres
    have hi := wmWhile_spec h hw buf _ hR fuel _ _ r hinit rfl hres
    have he := wmWhile_err h hw buf fuel _ _ r (dvd_zero _) rfl hres
    refine ⟨hi, fun h0 => ?_⟩
    obtain ⟨hi0, hsum, hd, _⟩ := hi
    rcases he.2 with ⟨e, _⟩ | ⟨e, _⟩
    · omega
    · refine ⟨e, ?_, ?_⟩
      · rw [e]; exact hd
      · rw [e]; omega

theorem C4_WriteMultiple_counts_witness :
    (0 % 8 = 0 ∧ 0 < m480.FMC_APROM_END ∧ 40 < 2 ^ 31) ∧
      WriteMultipleCounts m480 hwD2Stuck 10 0 (fun i => i) 40 st0 :=
  ⟨⟨by decide, by decide, by decide⟩,
   C4_WriteMultiple_counts m480 hwD2Stuck 10 0 (fun i => i) 40 st0 (by decide) (by decide)
     (by decide)⟩

/-- C5 (counterexample): on hardware whose D2/D3 flags never clear, the call with
32 bytes counts 8 bytes, then its D2/D3 wait uses up the budget; the error code is
`-1` and the value returned is `-1`, not the 8 bytes counted so far. -/
theorem C5_timeout_does_not_return_count :
    (FMC_WriteMultiple m480 hwD2Stuck 10 0 (fun i => i) 32 st0).map
        (fun r => (r.1, r.2.1.retval, r.2.2.g_FMC_i32ErrCode)) = some (-1, 8, -1) := by
  decide

theorem wmFor_exhausted (h : Hdr) (hw : Hw) (buf : Nat → Nat) :
    ∀ (fuel : Nat) (l : WM) (s sx : St), wmForExhausted h hw buf fuel l s = some sx →
      ∃ l', wmFor h hw buf fuel l s = some (some (-1), l', setErr (-1) sx) := by
  intro fuel
  induction fuel with
  | zero =>
    intro l s sx hex
    simp [wmForExhausted] at hex
  | succ fuel ih =>
    intro l s sx hex
    rw [wmForExhausted] at hex
    rw [wmFor]
    dsimp only at hex ⊢
    split_ifs at hex ⊢ <;>
      first
        | exact ih _ _ _ hex
        | (cases hex; exact ⟨_, rfl⟩)

set_option maxHeartbeats 2000000 in
theorem wmFor_not_exhausted (h : Hdr) (hw : Hw) (buf : Nat → Nat) :
    ∀ (fuel : Nat) (l : WM) (s : St) (out : Option Int × WM × St),
      wmForExhausted h hw buf fuel l s = none → wmFor h hw buf fuel l s = some out →
      out.2.2.g_FMC_i32ErrCode = s.g_FMC_i32ErrCode := by
  intro fuel
  induction fuel with
  | zero =>
    intro l s out _ hres
    simp [wmFor] at hres
  | succ fuel ih =>
    intro l s out hex hres
    rw [wmForExhausted] at hex
    rw [wmFor] at hres
    dsimp only at hex hres
    split_ifs at hex hres <;>
      first
        | (cases hres; simp only [waitWhile_err, rd_err, ldBuf_err])
        | (rw [ih _ _ out hex hres]; simp only [waitWhile_err, rd_err, ldBuf_err])

theorem wmWhile_exhausted (h : Hdr) (hw : Hw) (buf : Nat → Nat) :
    ∀ (fuel : Nat) (l : WM) (s sx : St), wmWhileExhausted h hw buf fuel l s = some sx →
      ∃ l', wmWhile h hw buf fuel l s = some (-1, l', setErr (-1) sx) := by
  intro fuel
  induction fuel with
  | zero =>
    intro l s sx hex
    simp [wmWhileExhausted] at hex
  | succ fuel ih =>
    intro l s sx hex
    rw [wmWhileExhausted] at hex
    rw [wmWhile]
    by_cases c1 : ¬ (l.u32Len ≥ 8)
    · rw [if_pos c1] at hex
      cases hex
    · rw [if_neg c1] at hex
      rw [if_neg c1]
      rcases hfe : wmForExhausted h hw buf (fuel + 1) (wmStart h buf l s).1 (wmStart h buf l s).2
        with _ | sx'
      · rw [hfe] at hex
        dsimp only at hex
        rcases hfor : wmFor h hw buf (fuel + 1) (wmStart h buf l s).1 (wmStart h buf l s).2
          with _ | ⟨v, l', s'⟩
        · rw [hfor] at hex
          cases hex
        · rw [hfor] at hex
          cases v with
          | some v =>
            dsimp only at hex
            cases hex
          | none =>
            dsimp only at hex ⊢
            split_ifs at hex ⊢
            · cases hex
              exact ⟨_, rfl⟩
            · exact ih _ _ _ hex
      · rw [hfe] at hex
        dsimp only at hex
        cases hex
        obtain ⟨l', e⟩ := wmFor_exhausted h hw buf _ _ _ _ hfe
        rw [e]
        exact ⟨_, rfl⟩

theorem wmWhile_not_exhausted (h : Hdr) (hw : Hw) (buf : Nat → Nat) :
    ∀ (fuel : Nat) (l : WM) (s : St) (r : Int × WM × St),
      wmWhileExhausted h hw buf fuel l s = none → wmWhile h hw buf fuel l s = some r →
      r.2.2.g_FMC_i32ErrCode = s.g_FMC_i32ErrCode := by
  intro fuel
  induction fuel with
  | zero =>
    intro l s r _ hres
    simp [wmWhile] at hres
  | succ fuel ih =>
    intro l s r hex hres
    rw [wmWhileExhausted] at hex
    rw [wmWhile] at hres
    by_cases c1 : ¬ (l.u32Len ≥ 8)
    · rw [if_pos c1] at hres
      cases hres
      rfl
    · rw [if_neg c1] at hex hres
      rcases hfe : wmForExhausted h hw buf (fuel + 1) (wmStart h buf l s).1 (wmStart h buf l s).2
        with _ | sx'
      · rw [hfe] at hex
        dsimp only at hex
        rcases hfor : wmFor h hw buf (fuel + 1) (wmStart h buf l s).1 (wmStart h buf l s).2
          with _ | ⟨v, l', s'⟩
        · rw [hfor] at hres
          cases hres
        · rw [hfor] at hex hres
          have he := wmFor_not_exhausted h hw buf _ _ _ _ hfe hfor
          rw [wmStart_err] at he
          have he' : s'.g_FMC_i32ErrCode = s.g_FMC_i32ErrCode := he
          cases v with
          | some v =>
            dsimp only at hres
            cases hres
            exact he'
          | none =>
            dsimp only at hex hres
            split_ifs at hex hres
            · cases hres
              exact he'
            · rw [ih _ _ r hex hres, waitWhile_err]
              exact he'
      · rw [hfe] at hex
        dsimp only at hex
        cases hex

/-- C5 (amended): on a valid address, for every input and hardware: when a call of
`FMC_WriteMultiple` reaches a bounded wait (for D0/D1, D2/D3 or MPBUSY clear) that
uses up its budget, the call returns right after the polls of that wait with
`g_FMC_i32ErrCode = -1` and the value `-1`, not the byte count; when it reaches
none, every result has error code `0` and is the byte count. -/
theorem C5_WriteMultiple_timeout (h : Hdr) (hw : Hw) (fuel a : Nat) (buf : Nat → Nat)
    (len : Nat) (s : St) (ha : a % 8 = 0) (hend : a < h.FMC_APROM_END) :
    WriteMultipleTimeout h hw fuel a buf len s := by
  have hc : ¬ (a ≥ h.FMC_APROM_END ∨ a % 8 ≠ 0) := by
    rintro (h1 | h1)
    · omega
    · exact h1 ha
  have hx : writeMultipleExhausted h hw fuel a buf len s =
      wmWhileExhausted h hw buf fuel
        { u32Addr := a, u32Len := len - len % 8, i := 0, idx := 0, retval := 0 }
        (setErr 0 s) := by
    simp only [writeMultipleExhausted, if_neg hc]
  rw [WriteMultipleTimeout, FMC_WriteMultiple_valid h hw fuel a buf len s ha hend, hx]
  refine ⟨fun sx hex => ?_, fun hex r hres => ?_⟩
  · obtain ⟨l, e⟩ := wmWhile_exhausted h hw buf fuel _ _ sx hex
    obtain ⟨hd, -⟩ := wmWhile_err h hw buf fuel _ _ _ (dvd_zero _) rfl e
    refine ⟨l, e, fun e1 => ?_⟩
    have hd' : (8 : Int) ∣ l.retval := hd
    rw [e1] at hd'
    omega
  · have he0 : r.2.2.g_FMC_i32ErrCode = 0 := wmWhile_not_exhausted h hw buf fuel _ _ r hex hres
    obtain ⟨hd, he⟩ := wmWhile_err h hw buf fuel _ _ r (dvd_zero _) rfl hres
    rcases he with ⟨-, e2, -⟩ | ⟨e1, -⟩
    · rw [e2] at he0
      omega
    · refine ⟨he0, e1, fun e => ?_⟩
      rw [e1] at e
      rw [e] at hd
      omega

theorem C5_WriteMultiple_timeout_witness :
    (0 % 8 = 0 ∧ 0 < m480.FMC_APROM_END) ∧
    writeMultipleExhausted m480 hwD2Stuck 10 0 (fun i => i) 32 st0 =
      some (setErr 0 d2StuckResult.2.2) ∧
    FMC_WriteMultiple m480 hwD2Stuck 10 0 (fun i => i) 32 st0 = some d2StuckResult ∧
    writeMultipleExhausted m480 hwMpBusy 10 0 (fun i => i) 32 st0 = none ∧
    (FMC_WriteMultiple m480 hwMpBusy 10 0 (fun i => i) 32 st0).map
      (fun r => (r.1, r.2.1.retval, r.2.2.g_FMC_i32ErrCode)) = some (32, 32, 0) ∧
    WriteMultipleTimeout m480 hwD2Stuck 10 0 (fun i => i) 32 st0 :=
  ⟨⟨by decide, by decide⟩, by decide, by decide, by decide, by decide,
   C5_WriteMultiple_timeout m480 hwD2Stuck 10 0 (fun i => i) 32 st0 (by decide) (by decide)⟩

/-- C15: for an XOM region number `n >= 4`, `FMC_GetXOMState`, `FMC_ConfigXOM` and
`FMC_EraseXOM` return `-2`; for an OTP number above 255, `FMC_Write_OTP`,
`FMC_Read_OTP`, `FMC_Lock_OTP` and `FMC_Is_OTP_Locked` return `-2`; for an address
that is not 8-byte aligned or not below `FMC_APROM_END`, `FMC_WriteMultiple`
returns `-2`; in each case the trace is unchanged (no register access) and no
output parameter is stored. -/
theorem C15_invalid_parameter_no_access (h : Hdr) (hw : Hw) (s : St)
    (n base page otp lo hi fuel a : Nat) (buf : Nat → Nat) (len : Nat)
    (hn : 4 ≤ n) (ho : 255 < otp) (ha : a % 8 ≠ 0 ∨ h.FMC_APROM_END ≤ a) :
    InvalidParamContract h hw s n base page otp lo hi fuel a buf len := by
  have hn' : n ≥ 4 := hn
  have ho' : otp > 255 := ho
  have ha' : a ≥ h.FMC_APROM_END ∨ a % 8 ≠ 0 := ha.symm
  have h2 : ¬ ((-2 : Int) ≥ 0) := by decide
  have h3 : ¬ ((-2 : Int) = 0) := by decide
  refine ⟨?_, ?_, ?_, ?_, ?_, ?_, ?_, ?_⟩
  · simp only [FMC_GetXOMState, if_pos hn', if_neg h2]
  · simp only [FMC_ConfigXOM, if_pos hn', setErr]
  · simp only [FMC_EraseXOM, if_pos hn', if_neg h3, setErr]
  · simp only [FMC_Write_OTP, if_pos ho', setErr]
  · simp only [FMC_Read_OTP, if_pos ho', setErr]
  · simp only [FMC_Lock_OTP, if_pos ho', setErr]
  · simp only [FMC_Is_OTP_Locked, if_pos ho', setErr]
  · simp only [FMC_WriteMultiple, if_pos ha', setErr]

theorem C15_invalid_parameter_no_access_witness :
    ((4 : Nat) ≤ 4 ∧ (255 : Nat) < 256 ∧ (0x1004 % 8 ≠ 0 ∨ m480.FMC_APROM_END ≤ 0x1004)) ∧
    InvalidParamContract m480 hwFault st0 4 0x10000 2 256 1 2 10 0x1004 (fun i => i) 64 :=
  ⟨⟨by decide, by decide, by decide⟩,
   C15_invalid_parameter_no_access m480 hwFault st0 4 0x10000 2 256 1 2 10 0x1004 (fun i => i) 64
     (by decide) (by decide) (by decide)⟩

theorem xom_bit_small : ∀ x, x < 16 → ∀ n, n < 4 →
    ((x &&& ((1 <<< n) % 2 ^ 32)) >>> n) = x / 2 ^ n % 2 := by decide

theorem xom_bit (v n : Nat) (hn : n < 4) :
    ((v &&& 0xf) &&& ((1 <<< n) % 2 ^ 32)) >>> n = if v.testBit n then 1 else 0 := by
  have e : v &&& 0xf = v % 16 := Nat.and_pow_two_sub_one_eq_mod v 4
  rw [e, xom_bit_small _ (Nat.mod_lt _ (by decide)) n hn, Nat.testBit_to_div_mod]
  have e2 : v % 16 / 2 ^ n % 2 = v / 2 ^ n % 2 := by
    interval_cases n <;> omega
  rw [e2]
  by_cases hb : v / 2 ^ n % 2 = 1
  · simp [hb]
  · have h0 : v / 2 ^ n % 2 = 0 := by omega
    simp [h0]

theorem FMC_GetXOMState_valid (hw : Hw) (n : Nat) (s : St) (hn : n < 4) :
    FMC_GetXOMState hw n s =
      (if (hw s.trace .XOMSTS % 2 ^ 32).testBit n then 1 else 0,
        { s with trace := s.trace ++ [Ev.rd .XOMSTS (hw s.trace .XOMSTS % 2 ^ 32)] }) := by
  have hn' : ¬ n ≥ 4 := by omega
  have h0 : (0 : Int) ≥ 0 := le_refl _
  simp only [FMC_GetXOMState, if_neg hn', if_pos h0, rd, xom_bit _ n hn]
  split <;> rfl

theorem setErr_self (s : St) (e : Int) (he : s.g_FMC_i32ErrCode = e) : setErr e s = s := by
  cases s
  simp only at he
  subst he
  rfl

theorem progStep_eq_write (h : Hdr) (hw : Hw) (a d : Nat) (s : St)
    (he : s.g_FMC_i32ErrCode = 0) : progStep h hw a d s = FMC_Write h hw a d s := by
  simp only [progStep, FMC_Write, setErr_self s 0 he]

theorem FMC_Write_outcome (h : Hdr) (hw : Hw) (a d : Nat) (s : St) :
    IspOutcome hw .ISPTRG h.FMC_ISPTRG_ISPGO_Msk h.FMC_TIMEOUT_WRITE .ISPSTS
      h.FMC_ISPSTS_ISPFF_Msk (progSetup h s.trace a d) (FMC_Write h hw a d s) :=
  setup_outcome hw _ _ _ _ _
    (wr .ISPTRG h.FMC_ISPTRG_ISPGO_Msk (wr .ISPDAT d (wr .ISPADDR a
      (wr .ISPCMD h.FMC_ISPCMD_PROGRAM (setErr 0 s))))) _ _ rfl
    (by simp [wr, setErr, progSetup]) rfl

theorem FMC_Write_zero_iff (h : Hdr) (hw : Hw) (a d : Nat) (s : St) :
    (FMC_Write h hw a d s).1 = 0 ↔ WriteOk h hw a d s := by
  have ho := (FMC_Write_outcome h hw a d s).1
  constructor
  · intro hz
    rcases ho with ht | hf | hk
    · rw [ht.2.1] at hz
      exact absurd hz (by decide)
    · obtain ⟨j, _, _, h1, _⟩ := hf
      rw [h1] at hz
      exact absurd hz (by decide)
    · exact hk
  · rintro ⟨j, _, _, h1, _⟩
    exact h1

theorem FMC_Write_ret (h : Hdr) (hw : Hw) (a d : Nat) (s : St) :
    ((FMC_Write h hw a d s).1 = 0 ∧ (FMC_Write h hw a d s).2.g_FMC_i32ErrCode = 0) ∨
    ((FMC_Write h hw a d s).1 = -1 ∧ (FMC_Write h hw a d s).2.g_FMC_i32ErrCode = -1) := by
  rcases (FMC_Write_outcome h hw a d s).1 with ht | hf | hk
  · exact Or.inr ⟨ht.2.1, ht.2.2.1⟩
  · obtain ⟨j, _, _, h1, h2, _⟩ := hf
    exact Or.inr ⟨h1, h2⟩
  · obtain ⟨j, _, _, h1, h2, _⟩ := hk
    exact Or.inl ⟨h1, h2⟩

theorem FMC_ConfigXOM_valid (h : Hdr) (hw : Hw) (n base page : Nat) (s : St) (hn : n < 4) :
    FMC_ConfigXOM h hw n base page s =
      if (hw s.trace .XOMSTS % 2 ^ 32).testBit n then
        (1, { trace := s.trace ++ [Ev.rd .XOMSTS (hw s.trace .XOMSTS % 2 ^ 32)],
              g_FMC_i32ErrCode := 0 })
      else
        if (FMC_Write h hw (h.FMC_XOM_BASE + 16 * n) base
            { trace := s.trace ++ [Ev.rd .XOMSTS (hw s.trace .XOMSTS % 2 ^ 32)],
              g_FMC_i32ErrCode := 0 }).1 ≠ 0 then
          FMC_Write h hw (h.FMC_XOM_BASE + 16 * n) base
            { trace := s.trace ++ [Ev.rd .XOMSTS (hw s.trace .XOMSTS % 2 ^ 32)],
              g_FMC_i32ErrCode := 0 }
        else if (FMC_Write h hw (h.FMC_XOM_BASE + 16 * n + 4) (page % 256)
            (FMC_Write h hw (h.FMC_XOM_BASE + 16 * n) base
              { trace := s.trace ++ [Ev.rd .XOMSTS (hw s.trace .XOMSTS % 2 ^ 32)],
                g_FMC_i32ErrCode := 0 }).2).1 ≠ 0 then
          FMC_Write h hw (h.FMC_XOM_BASE + 16 * n + 4) (page % 256)
            (FMC_Write h hw (h.FMC_XOM_BASE + 16 * n) base
              { trace := s.trace ++ [Ev.rd .XOMSTS (hw s.trace .XOMSTS % 2 ^ 32)],
                g_FMC_i32ErrCode := 0 }).2
        else
          FMC_Write h hw (h.FMC_XOM_BASE + 16 * n + 8) 0
            (FMC_Write h hw (h.FMC_XOM_BASE + 16 * n + 4) (page % 256)
              (FMC_Write h hw (h.FMC_XOM_BASE + 16 * n) base
                { trace := s.trace ++ [Ev.rd .XOMSTS (hw s.trace .XOMSTS % 2 ^ 32)],
                  g_FMC_i32ErrCode := 0 }).2).2 := by
  have hn' : ¬ n ≥ 4 := by omega
  have hg := FMC_GetXOMState_valid hw n (setErr 0 s) hn
  have e1 : h.FMC_XOM_BASE + n * 0x10 = h.FMC_XOM_BASE + 16 * n := by omega
  have e2 : h.FMC_XOM_BASE + (n * 0x10 + 0x04) = h.FMC_XOM_BASE + 16 * n + 4 := by omega
  have e3 : h.FMC_XOM_BASE + (n * 0x10 + 0x08) = h.FMC_XOM_BASE + 16 * n + 8 := by omega
  simp only [FMC_ConfigXOM, if_neg hn', hg, e1, e2, e3]
  have ht : (setErr 0 s).trace = s.trace := rfl
  have hge : (setErr 0 s).g_FMC_i32ErrCode = 0 := rfl
  simp only [ht, hge]
  generalize hS : St.mk (s.trace ++ [Ev.rd .XOMSTS (hw s.trace .XOMSTS % 2 ^ 32)]) 0 = s1
  have hs1e : s1.g_FMC_i32ErrCode = 0 := by rw [← hS]
  by_cases hb : (hw s.trace .XOMSTS % 2 ^ 32).testBit n = true
  · simp only [hb, if_true]
    rw [if_pos (by decide)]
  · simp only [hb]
    rw [if_neg (by decide), progStep_eq_write h hw _ _ s1 hs1e]
    simp only [Bool.false_eq_true, if_false]
    by_cases h1 : (FMC_Write h hw (h.FMC_XOM_BASE + 16 * n) base s1).1 ≠ 0
    · rw [if_pos h1, if_pos h1]
    · rw [if_neg h1, if_neg h1]
      have he1 : (FMC_Write h hw (h.FMC_XOM_BASE + 16 * n) base s1).2.g_FMC_i32ErrCode = 0 := by
        rcases FMC_Write_ret h hw (h.FMC_XOM_BASE + 16 * n) base s1 with hz | hz
        · exact hz.2
        · exact absurd (not_not.mp h1) (by rw [hz.1]; decide)
      rw [progStep_eq_write h hw _ _ _ he1]
      by_cases h2 : (FMC_Write h hw (h.FMC_XOM_BASE + 16 * n + 4) (page % 256)
          (FMC_Write h hw (h.FMC_XOM_BASE + 16 * n) base s1).2).1 ≠ 0
      · rw [if_pos h2, if_pos h2]
      · rw [if_neg h2, if_neg h2]
        have he2 : (FMC_Write h hw (h.FMC_XOM_BASE + 16 * n + 4) (page % 256)
            (FMC_Write h hw (h.FMC_XOM_BASE + 16 * n) base s1).2).2.g_FMC_i32ErrCode = 0 := by
          rcases FMC_Write_ret h hw (h.FMC_XOM_BASE + 16 * n + 4) (page % 256)
            (FMC_Write h hw (h.FMC_XOM_BASE + 16 * n) base s1).2 with hz | hz
          · exact hz.2
          · exact absurd (not_not.mp h2) (by rw [hz.1]; decide)
        rw [progStep_eq_write h hw _ _ _ he2]
        split
        · rfl
        · rename_i h3
          exact Prod.ext (not_not.mp h3).symm rfl

/-- C16: for a region number `n < 4`: when bit `n` of `XOMSTS` is set at the time
of the call, `FMC_ConfigXOM` returns 1 and its only register access is the read of
`XOMSTS` (no write to `ISPCMD`, `ISPADDR`, `ISPDAT`, `ISPTRG`); when the bit is
clear it issues, in order, the program commands for `base` at
`FMC_XOM_BASE + 16n`, the page count at `FMC_XOM_BASE + 16n + 4` and 0 at
`FMC_XOM_BASE + 16n + 8`, stopping at the first failure, and returns 0 exactly when
all three complete in time without fault, and -1 otherwise. -/
theorem C16_ConfigXOM_contract (h : Hdr) (hw : Hw) (n base page : Nat) (s : St) (hn : n < 4) :
    ConfigXOMContract h hw n base page s := by
  unfold ConfigXOMContract
  intro v s1 w1 w2 w3
  have hv := FMC_ConfigXOM_valid h hw n base page s hn
  refine ⟨fun hb => ?_, fun hb => ?_⟩
  · rw [hv, if_pos hb]
  · have hb' : ¬ (hw s.trace .XOMSTS % 2 ^ 32).testBit n = true := by
      intro hc
      have hc' : v.testBit n = true := hc
      rw [hb] at hc'
      exact Bool.false_ne_true hc'
    have he : FMC_ConfigXOM h hw n base page s =
        (if w1.1 ≠ 0 then w1 else if w2.1 ≠ 0 then w2 else w3) := by
      rw [hv, if_neg hb']
    have i1 := FMC_Write_zero_iff h hw (h.FMC_XOM_BASE + 16 * n) base s1
    have i2 := FMC_Write_zero_iff h hw (h.FMC_XOM_BASE + 16 * n + 4) (page % 256) w1.2
    have i3 := FMC_Write_zero_iff h hw (h.FMC_XOM_BASE + 16 * n + 8) 0 w2.2
    have r1 := FMC_Write_ret h hw (h.FMC_XOM_BASE + 16 * n) base s1
    have r2 := FMC_Write_ret h hw (h.FMC_XOM_BASE + 16 * n + 4) (page % 256) w1.2
    have r3 := FMC_Write_ret h hw (h.FMC_XOM_BASE + 16 * n + 8) 0 w2.2
    refine ⟨he, ?_, ?_⟩
    · rw [he]
      by_cases h1 : w1.1 ≠ 0
      · rw [if_pos h1]
        rcases r1 with hz | hz
        · exact absurd hz.1 h1
        · exact Or.inr hz.1
      · rw [if_neg h1]
        by_cases h2 : w2.1 ≠ 0
        · rw [if_pos h2]
          rcases r2 with hz | hz
          · exact absurd hz.1 h2
          · exact Or.inr hz.1
        · rw [if_neg h2]
          rcases r3 with hz | hz
          · exact Or.inl hz.1
          · exact Or.inr hz.1
    · rw [he, ← i1, ← i2, ← i3]
      by_cases h1 : w1.1 ≠ 0
      · rw [if_pos h1]
        exact ⟨fun hz => absurd hz h1, fun hz => hz.1⟩
      · rw [if_neg h1]
        by_cases h2 : w2.1 ≠ 0
        · rw [if_pos h2]
          exact ⟨fun hz => absurd hz h2, fun hz => hz.2.1⟩
        · rw [if_neg h2]
          exact ⟨fun hz => ⟨not_not.mp h1, not_not.mp h2, hz⟩, fun hz => hz.2.2⟩

theorem C16_ConfigXOM_contract_witness :
    ((1 : Nat) < 4 ∧
      (FMC_ConfigXOM m480 hwXomLatch 1 0x10000 2 st0).1 = 0 ∧
      (hwXomLatch (FMC_ConfigXOM m480 hwXomLatch 1 0x10000 2 st0).2.trace .XOMSTS % 2 ^ 32).testBit 1
        = true ∧
      FMC_ConfigXOM m480 hwXomLatch 1 0x10000 2 (FMC_ConfigXOM m480 hwXomLatch 1 0x10000 2 st0).2 =
        (1, { trace := (FMC_ConfigXOM m480 hwXomLatch 1 0x10000 2 st0).2.trace ++
                [Ev.rd .XOMSTS 2], g_FMC_i32ErrCode := 0 })) ∧
    ConfigXOMContract m480 hwXomLatch 1 0x10000 2 st0 ∧
    ConfigXOMContract m480 hwXomLatch 1 0x10000 2
      (FMC_ConfigXOM m480 hwXomLatch 1 0x10000 2 st0).2 :=
  ⟨⟨by decide, by decide, by decide, by decide⟩,
   C16_ConfigXOM_contract m480 hwXomLatch 1 0x10000 2 st0 (by decide),
   C16_ConfigXOM_contract m480 hwXomLatch 1 0x10000 2 _ (by decide)⟩

theorem traceExt_refl (P : Ev → Prop) (s : St) : TraceExt P s s :=
  ⟨[], by simp, fun e he => by cases he⟩

theorem traceExt_trans (P : Ev → Prop) (s1 s2 s3 : St) (h12 : TraceExt P s1 s2)
    (h23 : TraceExt P s2 s3) : TraceExt P s1 s3 := by
  obtain ⟨e1, h1, p1⟩ := h12
  obtain ⟨e2, h2, p2⟩ := h23
  refine ⟨e1 ++ e2, by rw [h2, h1, List.append_assoc], fun e he => ?_⟩
  rcases List.mem_append.mp he with hm | hm
  · exact p1 e hm
  · exact p2 e hm

theorem traceExt_rd (P : Ev → Prop) (hw : Hw) (r : Reg) (s : St) (hP : ∀ v, P (Ev.rd r v)) :
    TraceExt P s (rd hw r s).2 :=
  ⟨[Ev.rd r (hw s.trace r % 2 ^ 32)], rfl, fun e he => by
    rw [List.mem_singleton] at he
    rw [he]
    exact hP _⟩

theorem traceExt_wr (P : Ev → Prop) (r : Reg) (v : Nat) (s : St) (hP : P (Ev.wr r (v % 2 ^ 32))) :
    TraceExt P s (wr r v s) :=
  ⟨[Ev.wr r (v % 2 ^ 32)], rfl, fun e he => by
    rw [List.mem_singleton] at he
    rw [he]
    exact hP⟩

theorem traceExt_setErr (P : Ev → Prop) (e : Int) (s1 s2 : St) (h12 : TraceExt P s1 s2) :
    TraceExt P s1 (setErr e s2) := h12

theorem traceExt_orReg (P : Ev → Prop) (hw : Hw) (r : Reg) (m : Nat) (s : St)
    (hr : ∀ v, P (Ev.rd r v)) (hwr : ∀ v, P (Ev.wr r v)) : TraceExt P s (orReg hw r m s) :=
  traceExt_trans P _ _ _ (traceExt_rd P hw r s hr) (traceExt_wr P r _ _ (hwr _))

theorem traceExt_waitWhile (P : Ev → Prop) (hw : Hw) (r : Reg) (m : Nat)
    (hr : ∀ v, P (Ev.rd r v)) : ∀ (n : Nat) (s : St), TraceExt P s (waitWhile hw r m n s).2
  | 0, s => traceExt_refl P s
  | n + 1, s => by
    rw [waitWhile]
    split
    · exact traceExt_trans P _ _ _ (traceExt_rd P hw r s hr) (traceExt_waitWhile P hw r m hr n _)
    · exact traceExt_rd P hw r s hr

theorem traceExt_ispTail (P : Ev → Prop) (hw : Hw) (r : Reg) (m N : Nat) (fr : Reg) (fm : Nat)
    (s : St) (hr : ∀ q v, P (Ev.rd q v)) (hwr : ∀ v, P (Ev.wr fr v)) :
    TraceExt P s (ispTail hw r m N fr fm s).2 := by
  have hw1 := traceExt_waitWhile P hw r m (hr r) N s
  have hf := traceExt_rd P hw fr (waitWhile hw r m N s).2 (hr fr)
  simp only [ispTail]
  split
  · exact hw1
  · split
    · exact traceExt_trans P _ _ _ hw1 (traceExt_trans P _ _ _ hf
        (traceExt_orReg P hw fr fm _ (hr fr) hwr))
    · exact traceExt_trans P _ _ _ hw1 hf

theorem FMC_Erase_eq (h : Hdr) (hw : Hw) (a : Nat) (s : St) :
    FMC_Erase h hw a s =
      ispTail hw .ISPTRG h.FMC_ISPTRG_ISPGO_Msk h.FMC_TIMEOUT_ERASE .ISPCTL h.FMC_ISPCTL_ISPFF_Msk
        (if a = h.FMC_SPROM_BASE then
          wr .ISPTRG h.FMC_ISPTRG_ISPGO_Msk (wr .ISPDAT 0x0055AA03 (wr .ISPADDR a
            (wr .ISPCMD h.FMC_ISPCMD_PAGE_ERASE (setErr 0 s))))
         else
          wr .ISPTRG h.FMC_ISPTRG_ISPGO_Msk (wr .ISPADDR a
            (wr .ISPCMD h.FMC_ISPCMD_PAGE_ERASE (setErr 0 s)))) := by
  by_cases ha : a = h.FMC_SPROM_BASE
  · rw [if_pos ha]
    subst ha
    simp only [FMC_Erase, if_true]
    rfl
  · rw [if_neg ha]
    simp only [FMC_Erase, if_neg ha]
    rfl

theorem FMC_Write_eq (h : Hdr) (hw : Hw) (a d : Nat) (s : St) :
    FMC_Write h hw a d s =
      ispTail hw .ISPTRG h.FMC_ISPTRG_ISPGO_Msk h.FMC_TIMEOUT_WRITE .ISPSTS h.FMC_ISPSTS_ISPFF_Msk
        (wr .ISPTRG h.FMC_ISPTRG_ISPGO_Msk (wr .ISPDAT d (wr .ISPADDR a
          (wr .ISPCMD h.FMC_ISPCMD_PROGRAM (setErr 0 s))))) := rfl

/-- Every event of an erase command satisfies `P`, when `P` holds of every read,
of every write to a register other than `ISPCMD`, and of the write of the erase
command code. -/
theorem traceExt_FMC_Erase (P : Ev → Prop) (h : Hdr) (hw : Hw) (a : Nat) (s : St)
    (hr : ∀ q v, P (Ev.rd q v)) (hwr : ∀ q v, q ≠ Reg.ISPCMD → P (Ev.wr q v))
    (hc : P (Ev.wr .ISPCMD (h.FMC_ISPCMD_PAGE_ERASE % 2 ^ 32))) :
    TraceExt P s (FMC_Erase h hw a s).2 := by
  rw [FMC_Erase_eq]
  refine traceExt_trans P _ _ _ ?_ (traceExt_ispTail P hw _ _ _ _ _ _ hr
    (fun v => hwr _ v (by decide)))
  have h1 : TraceExt P s (wr .ISPADDR a (wr .ISPCMD h.FMC_ISPCMD_PAGE_ERASE (setErr 0 s))) :=
    traceExt_trans P _ _ _ (traceExt_wr P .ISPCMD _ (setErr 0 s) hc)
      (traceExt_wr P .ISPADDR _ _ (hwr _ _ (by decide)))
  split
  · exact traceExt_trans P _ _ _ h1 (traceExt_trans P _ _ _
      (traceExt_wr P .ISPDAT _ _ (hwr _ _ (by decide)))
      (traceExt_wr P .ISPTRG _ _ (hwr _ _ (by decide))))
  · exact traceExt_trans P _ _ _ h1 (traceExt_wr P .ISPTRG _ _ (hwr _ _ (by decide)))

/-- The trace of an erase command starts with the writes of the command code and of
the page address. -/
theorem FMC_Erase_issues (h : Hdr) (hw : Hw) (a : Nat) (s : St) :
    ∃ post, (FMC_Erase h hw a s).2.trace = s.trace ++
      [Ev.wr .ISPCMD (h.FMC_ISPCMD_PAGE_ERASE % 2 ^ 32), Ev.wr .ISPADDR (a % 2 ^ 32)] ++ post := by
  have ht : TraceExt (fun _ => True)
      (wr .ISPADDR a (wr .ISPCMD h.FMC_ISPCMD_PAGE_ERASE (setErr 0 s))) (FMC_Erase h hw a s).2 := by
    rw [FMC_Erase_eq]
    refine traceExt_trans _ _ _ _ ?_ (traceExt_ispTail _ hw _ _ _ _ _ _ (fun _ _ => trivial)
      (fun _ => trivial))
    split
    · exact traceExt_trans _ _ _ _ (traceExt_wr _ .ISPDAT _ _ trivial)
        (traceExt_wr _ .ISPTRG _ _ trivial)
    · exact traceExt_wr _ .ISPTRG _ _ trivial
  obtain ⟨ext, he, _⟩ := ht
  exact ⟨ext, by rw [he]; simp [wr, setErr]⟩

theorem writeConfigLoop_cases (h : Hdr) (hw : Hw) (cfg : Nat → Nat) :
    ∀ (n i : Nat) (s : St), (writeConfigLoop h hw cfg n i s).1 = 0 ∨
      ((writeConfigLoop h hw cfg n i s).1 = -1 ∧
        ∃ s2, (writeConfigLoop h hw cfg n i s).2 = FMC_DISABLE_CFG_UPDATE h hw s2)
  | 0, _, _ => Or.inl rfl
  | n + 1, i, s => by
    rw [writeConfigLoop]
    dsimp only
    split
    · exact Or.inr ⟨rfl, _, rfl⟩
    · split
      · exact Or.inr ⟨rfl, _, rfl⟩
      · split
        · exact Or.inr ⟨rfl, _, rfl⟩
        · exact writeConfigLoop_cases h hw cfg n (i + 1) _

/-- C17: when the erase of the config page fails, `FMC_WriteConfig` returns `-1`
in the state in which `FMC_Erase` ended: nothing is executed after the erase, in
particular not `FMC_DISABLE_CFG_UPDATE()`.  On every path on which the erase
succeeds, the last action of the call is `FMC_DISABLE_CFG_UPDATE()`, and a failure
returns `-1`. -/
theorem C17_erase_failure_skips_disable (h : Hdr) (hw : Hw) (cfg : Nat → Nat) (cnt : Nat)
    (s : St) :
    ((FMC_Erase h hw h.FMC_CONFIG_BASE (FMC_ENABLE_CFG_UPDATE h hw s)).1 ≠ 0 →
      FMC_WriteConfig h hw cfg cnt s =
        (-1, (FMC_Erase h hw h.FMC_CONFIG_BASE (FMC_ENABLE_CFG_UPDATE h hw s)).2)) ∧
    ((FMC_Erase h hw h.FMC_CONFIG_BASE (FMC_ENABLE_CFG_UPDATE h hw s)).1 = 0 →
      ((FMC_WriteConfig h hw cfg cnt s).1 = 0 ∨ (FMC_WriteConfig h hw cfg cnt s).1 = -1) ∧
      ∃ s2, (FMC_WriteConfig h hw cfg cnt s).2 = FMC_DISABLE_CFG_UPDATE h hw s2) := by
  refine ⟨fun hf => ?_, fun hok => ?_⟩
  · simp only [FMC_WriteConfig, if_pos hf]
  · simp only [FMC_WriteConfig, if_neg (not_not.mpr hok)]
    split
    · exact ⟨Or.inr rfl, _, rfl⟩
    · split
      · exact ⟨Or.inr rfl, _, rfl⟩
      · split
        · exact ⟨Or.inr rfl, _, rfl⟩
        · split
          · exact ⟨Or.inr rfl, _, rfl⟩
          · split
            · rename_i hl
              rcases writeConfigLoop_cases h hw cfg (cnt % 2 ^ 32) 0
                (FMC_Read h hw ((h.FMC_CONFIG_BASE + 8) % 2 ^ 32)
                  (FMC_Read h hw ((h.FMC_CONFIG_BASE + 4) % 2 ^ 32)
                    (FMC_Read h hw h.FMC_CONFIG_BASE
                      (FMC_Erase h hw h.FMC_CONFIG_BASE
                        (FMC_ENABLE_CFG_UPDATE h hw s)).2).2).2).2 with hz | hz
              · exact absurd hz hl
              · exact ⟨Or.inr hz.1, hz.2⟩
            · exact ⟨Or.inl rfl, _, rfl⟩

theorem C17_erase_failure_skips_disable_witness :
    (FMC_Erase m480 hwGoStuck m480.FMC_CONFIG_BASE (FMC_ENABLE_CFG_UPDATE m480 hwGoStuck st0)).1 ≠ 0 ∧
    FMC_WriteConfig m480 hwGoStuck (fun _ => 0xFFFFFFFF) 2 st0 =
      (-1, { trace := [Ev.rd .ISPCTL 0, Ev.wr .ISPCTL 0x10, Ev.wr .ISPCMD 0x22,
               Ev.wr .ISPADDR 0x300000, Ev.wr .ISPTRG 1, Ev.rd .ISPTRG 1, Ev.rd .ISPTRG 1,
               Ev.rd .ISPTRG 1, Ev.rd .ISPTRG 1],
             g_FMC_i32ErrCode := -1 }) ∧
    cfgUpdateMode m480 (FMC_WriteConfig m480 hwGoStuck (fun _ => 0xFFFFFFFF) 2 st0).2.trace =
      some true ∧
    FMC_WriteConfig m480 hwGoStuck (fun _ => 0xFFFFFFFF) 2 st0 =
      (-1, (FMC_Erase m480 hwGoStuck m480.FMC_CONFIG_BASE
        (FMC_ENABLE_CFG_UPDATE m480 hwGoStuck st0)).2) :=
  ⟨by decide, by decide, by decide,
   (C17_erase_failure_skips_disable m480 hwGoStuck (fun _ => 0xFFFFFFFF) 2 st0).1 (by decide)⟩

/-- C18: for `u32Count >= 2`, once the CONFIG0 read has succeeded `FMC_ReadConfig`
returns 0 whatever the CONFIG1 read does: the call ends in the state in which the
second `FMC_Read` ended, so after a time-out of that read the value returned is
still 0, with `g_FMC_i32ErrCode = -1` and `u32Config[1] = 0xFFFFFFFF`. -/
theorem C18_second_read_failure_returns_zero (h : Hdr) (hw : Hw) (cfg : List Nat) (cnt : Nat)
    (s : St) (hc : 2 ≤ cnt)
    (h0 : (FMC_Read h hw h.FMC_CONFIG_BASE s).2.g_FMC_i32ErrCode = 0) :
    FMC_ReadConfig h hw cfg cnt s =
      ((0, (cfg.set 0 (FMC_Read h hw h.FMC_CONFIG_BASE s).1).set 1
          (FMC_Read h hw ((h.FMC_CONFIG_BASE + 4) % 2 ^ 32) (FMC_Read h hw h.FMC_CONFIG_BASE s).2).1),
       (FMC_Read h hw ((h.FMC_CONFIG_BASE + 4) % 2 ^ 32) (FMC_Read h hw h.FMC_CONFIG_BASE s).2).2) := by
  have hc' : ¬ cnt < 2 := by omega
  simp only [FMC_ReadConfig, if_neg (not_not.mpr h0), if_neg hc']

theorem C18_second_read_failure_returns_zero_witness :
    ((2 : Nat) ≤ 2 ∧
      (FMC_Read m480 (hwStuckAt 0x300004 0) m480.FMC_CONFIG_BASE st0).2.g_FMC_i32ErrCode = 0 ∧
      (FMC_Read m480 (hwStuckAt 0x300004 0) ((m480.FMC_CONFIG_BASE + 4) % 2 ^ 32)
        (FMC_Read m480 (hwStuckAt 0x300004 0) m480.FMC_CONFIG_BASE st0).2).2.g_FMC_i32ErrCode = -1 ∧
      (FMC_ReadConfig m480 (hwStuckAt 0x300004 0) [0, 0] 2 st0).1 = (0, [0x12345678, 0xFFFFFFFF]) ∧
      (FMC_ReadConfig m480 (hwStuckAt 0x300004 0) [0, 0] 2 st0).2.g_FMC_i32ErrCode = -1) ∧
    FMC_ReadConfig m480 (hwStuckAt 0x300004 0) [0, 0] 2 st0 =
      ((0, ([0, 0].set 0 (FMC_Read m480 (hwStuckAt 0x300004 0) m480.FMC_CONFIG_BASE st0).1).set 1
          (FMC_Read m480 (hwStuckAt 0x300004 0) ((m480.FMC_CONFIG_BASE + 4) % 2 ^ 32)
            (FMC_Read m480 (hwStuckAt 0x300004 0) m480.FMC_CONFIG_BASE st0).2).1),
       (FMC_Read m480 (hwStuckAt 0x300004 0) ((m480.FMC_CONFIG_BASE + 4) % 2 ^ 32)
          (FMC_Read m480 (hwStuckAt 0x300004 0) m480.FMC_CONFIG_BASE st0).2).2) :=
  ⟨⟨by decide, by decide, by decide, by decide, by decide⟩,
   C18_second_read_failure_returns_zero m480 (hwStuckAt 0x300004 0) [0, 0] 2 st0
     (by decide) (by decide)⟩

theorem FMC_SetSPKey_skip (h : Hdr) (hw : Hw) (key : Nat → Nat) (kpmax kemax : Nat)
    (lc ls : Int) (s : St)
    (hne : spKeyRet (rd hw .KPKEYSTS (setErr 0 s)).1
      (FMC_Erase h hw h.FMC_KPROM_BASE (rd hw .KPKEYSTS (setErr 0 s)).2).1
      (FMC_Erase h hw ((h.FMC_KPROM_BASE + 0x200) % 2 ^ 32)
        (FMC_Erase h hw h.FMC_KPROM_BASE (rd hw .KPKEYSTS (setErr 0 s)).2).2).1 ≠ 0) :
    FMC_SetSPKey h hw key kpmax kemax lc ls s =
      (spKeyRet (rd hw .KPKEYSTS (setErr 0 s)).1
        (FMC_Erase h hw h.FMC_KPROM_BASE (rd hw .KPKEYSTS (setErr 0 s)).2).1
        (FMC_Erase h hw ((h.FMC_KPROM_BASE + 0x200) % 2 ^ 32)
          (FMC_Erase h hw h.FMC_KPROM_BASE (rd hw .KPKEYSTS (setErr 0 s)).2).2).1,
       setErr (spKeyRet (rd hw .KPKEYSTS (setErr 0 s)).1
        (FMC_Erase h hw h.FMC_KPROM_BASE (rd hw .KPKEYSTS (setErr 0 s)).2).1
        (FMC_Erase h hw ((h.FMC_KPROM_BASE + 0x200) % 2 ^ 32)
          (FMC_Erase h hw h.FMC_KPROM_BASE (rd hw .KPKEYSTS (setErr 0 s)).2).2).1)
        (FMC_Erase h hw ((h.FMC_KPROM_BASE + 0x200) % 2 ^ 32)
          (FMC_Erase h hw h.FMC_KPROM_BASE (rd hw .KPKEYSTS (setErr 0 s)).2).2).2) := by
  have e : ∀ (k : Nat) (e1 e2 : Int),
      (if e2 ≠ 0 then (-3 : Int) else if e1 ≠ 0 then -2 else if k ≠ 0x200 then -1 else 0) =
        spKeyRet k e1 e2 := fun _ _ _ => rfl
  simp only [FMC_SetSPKey, e, if_neg hne]

theorem noProgram_rd (h : Hdr) (q : Reg) (v : Nat) :
    Ev.rd q v ≠ Ev.wr .ISPCMD (h.FMC_ISPCMD_PROGRAM % 2 ^ 32) := by
  intro he
  cases he

theorem noProgram_wr (h : Hdr) (q : Reg) (v : Nat) (hq : q ≠ Reg.ISPCMD) :
    Ev.wr q v ≠ Ev.wr .ISPCMD (h.FMC_ISPCMD_PROGRAM % 2 ^ 32) := by
  intro he
  injection he with h1 _
  exact hq h1

theorem noProgram_erase (h : Hdr)
    (hp : h.FMC_ISPCMD_PROGRAM % 2 ^ 32 ≠ h.FMC_ISPCMD_PAGE_ERASE % 2 ^ 32) :
    Ev.wr .ISPCMD (h.FMC_ISPCMD_PAGE_ERASE % 2 ^ 32) ≠
      Ev.wr .ISPCMD (h.FMC_ISPCMD_PROGRAM % 2 ^ 32) := by
  intro he
  injection he with _ h2
  exact hp h2.symm

/-- The part of `FMC_SetSPKey` before `if (ret == 0)`: the read of `KPKEYSTS` and
the two erase calls.  Both erase commands are issued, and no program command. -/
theorem spKey_erases (h : Hdr) (hw : Hw) (s : St) :
    IssuesErase h h.FMC_KPROM_BASE
      (FMC_Erase h hw ((h.FMC_KPROM_BASE + 0x200) % 2 ^ 32)
        (FMC_Erase h hw h.FMC_KPROM_BASE (rd hw .KPKEYSTS (setErr 0 s)).2).2).2.trace ∧
    IssuesErase h (h.FMC_KPROM_BASE + 0x200)
      (FMC_Erase h hw ((h.FMC_KPROM_BASE + 0x200) % 2 ^ 32)
        (FMC_Erase h hw h.FMC_KPROM_BASE (rd hw .KPKEYSTS (setErr 0 s)).2).2).2.trace ∧
    (h.FMC_ISPCMD_PROGRAM % 2 ^ 32 ≠ h.FMC_ISPCMD_PAGE_ERASE % 2 ^ 32 →
      ∃ ext, (FMC_Erase h hw ((h.FMC_KPROM_BASE + 0x200) % 2 ^ 32)
        (FMC_Erase h hw h.FMC_KPROM_BASE (rd hw .KPKEYSTS (setErr 0 s)).2).2).2.trace =
          s.trace ++ ext ∧ NoProgram h ext) := by
  obtain ⟨p1, h1⟩ := FMC_Erase_issues h hw h.FMC_KPROM_BASE (rd hw .KPKEYSTS (setErr 0 s)).2
  obtain ⟨p2, h2⟩ := FMC_Erase_issues h hw ((h.FMC_KPROM_BASE + 0x200) % 2 ^ 32)
    (FMC_Erase h hw h.FMC_KPROM_BASE (rd hw .KPKEYSTS (setErr 0 s)).2).2
  refine ⟨⟨(rd hw .KPKEYSTS (setErr 0 s)).2.trace, p1 ++
      [Ev.wr .ISPCMD (h.FMC_ISPCMD_PAGE_ERASE % 2 ^ 32),
       Ev.wr .ISPADDR ((h.FMC_KPROM_BASE + 0x200) % 2 ^ 32 % 2 ^ 32)] ++ p2, ?_⟩,
    ⟨(FMC_Erase h hw h.FMC_KPROM_BASE (rd hw .KPKEYSTS (setErr 0 s)).2).2.trace, p2, ?_⟩,
    fun hp => ?_⟩
  · rw [h2, h1]
    simp only [List.append_assoc]
  · rw [h2, Nat.mod_mod]
  · have t0 : TraceExt (fun e => e ≠ Ev.wr .ISPCMD (h.FMC_ISPCMD_PROGRAM % 2 ^ 32)) s
        (rd hw .KPKEYSTS (setErr 0 s)).2 :=
      traceExt_rd _ hw .KPKEYSTS (setErr 0 s) (fun v => noProgram_rd h _ v)
    have t1 := traceExt_FMC_Erase (fun e => e ≠ Ev.wr .ISPCMD (h.FMC_ISPCMD_PROGRAM % 2 ^ 32))
      h hw h.FMC_KPROM_BASE (rd hw .KPKEYSTS (setErr 0 s)).2 (noProgram_rd h)
      (noProgram_wr h) (noProgram_erase h hp)
    have t2 := traceExt_FMC_Erase (fun e => e ≠ Ev.wr .ISPCMD (h.FMC_ISPCMD_PROGRAM % 2 ^ 32))
      h hw ((h.FMC_KPROM_BASE + 0x200) % 2 ^ 32)
      (FMC_Erase h hw h.FMC_KPROM_BASE (rd hw .KPKEYSTS (setErr 0 s)).2).2 (noProgram_rd h)
      (noProgram_wr h) (noProgram_erase h hp)
    exact traceExt_trans _ _ _ _ (traceExt_trans _ _ _ _ t0 t1) t2

theorem setErr_trace (e : Int) (s : St) : (setErr e s).trace = s.trace := rfl

theorem setErr_err (e : Int) (s : St) : (setErr e s).g_FMC_i32ErrCode = e := rfl

/-- C19: when `KPKEYSTS` does not read `0x200` on entry, `FMC_SetSPKey` still issues
the erase commands for both key pages, `FMC_KPROM_BASE` and `FMC_KPROM_BASE + 0x200`.
It returns `-1` only when both erases succeed, `-2` when only the first fails and
`-3` when the second fails; the value returned is recorded in `g_FMC_i32ErrCode`;
no program command is issued (when the program and erase command codes differ). -/
theorem C19_locked_key_pages_are_erased (h : Hdr) (hw : Hw) (key : Nat → Nat)
    (kpmax kemax : Nat) (lc ls : Int) (s : St)
    (hl : hw s.trace .KPKEYSTS % 2 ^ 32 ≠ 0x200) :
    IssuesErase h h.FMC_KPROM_BASE (FMC_SetSPKey h hw key kpmax kemax lc ls s).2.trace ∧
    IssuesErase h (h.FMC_KPROM_BASE + 0x200) (FMC_SetSPKey h hw key kpmax kemax lc ls s).2.trace ∧
    (FMC_SetSPKey h hw key kpmax kemax lc ls s).1 =
      (if (FMC_Erase h hw ((h.FMC_KPROM_BASE + 0x200) % 2 ^ 32)
          (FMC_Erase h hw h.FMC_KPROM_BASE (rd hw .KPKEYSTS (setErr 0 s)).2).2).1 ≠ 0 then -3
       else if (FMC_Erase h hw h.FMC_KPROM_BASE (rd hw .KPKEYSTS (setErr 0 s)).2).1 ≠ 0 then -2
       else -1) ∧
    (FMC_SetSPKey h hw key kpmax kemax lc ls s).2.g_FMC_i32ErrCode =
      (FMC_SetSPKey h hw key kpmax kemax lc ls s).1 ∧
    (h.FMC_ISPCMD_PROGRAM % 2 ^ 32 ≠ h.FMC_ISPCMD_PAGE_ERASE % 2 ^ 32 →
      ∃ ext, (FMC_SetSPKey h hw key kpmax kemax lc ls s).2.trace = s.trace ++ ext ∧
        NoProgram h ext) := by
  have hk : (rd hw .KPKEYSTS (setErr 0 s)).1 ≠ 0x200 := hl
  have hr : spKeyRet (rd hw .KPKEYSTS (setErr 0 s)).1
      (FMC_Erase h hw h.FMC_KPROM_BASE (rd hw .KPKEYSTS (setErr 0 s)).2).1
      (FMC_Erase h hw ((h.FMC_KPROM_BASE + 0x200) % 2 ^ 32)
        (FMC_Erase h hw h.FMC_KPROM_BASE (rd hw .KPKEYSTS (setErr 0 s)).2).2).1 =
      (if (FMC_Erase h hw ((h.FMC_KPROM_BASE + 0x200) % 2 ^ 32)
          (FMC_Erase h hw h.FMC_KPROM_BASE (rd hw .KPKEYSTS (setErr 0 s)).2).2).1 ≠ 0 then -3
       else if (FMC_Erase h hw h.FMC_KPROM_BASE (rd hw .KPKEYSTS (setErr 0 s)).2).1 ≠ 0 then -2
       else -1) := by
    simp only [spKeyRet, if_pos hk]
  have hne : spKeyRet (rd hw .KPKEYSTS (setErr 0 s)).1
      (FMC_Erase h hw h.FMC_KPROM_BASE (rd hw .KPKEYSTS (setErr 0 s)).2).1
      (FMC_Erase h hw ((h.FMC_KPROM_BASE + 0x200) % 2 ^ 32)
        (FMC_Erase h hw h.FMC_KPROM_BASE (rd hw .KPKEYSTS (setErr 0 s)).2).2).1 ≠ 0 := by
    rw [hr]
    split
    · decide
    · split <;> decide
  have he := spKey_erases h hw s
  rw [FMC_SetSPKey_skip h hw key kpmax kemax lc ls s hne]
  simp only [setErr_trace, setErr_err]
  refine ⟨?_, ?_, ?_, ?_, ?_⟩
  · exact he.1
  · exact he.2.1
  · exact hr
  · trivial
  · exact he.2.2

theorem C19_locked_key_pages_are_erased_witness :
    (hwStuckAt 0xFFFFFFFF 0 st0.trace .KPKEYSTS % 2 ^ 32 ≠ 0x200 ∧
      FMC_SetSPKey m480 (hwStuckAt 0xFFFFFFFF 0) (fun i => i) 3 5 1 1 st0 =
        (-1, { trace := [Ev.rd .KPKEYSTS 0,
                 Ev.wr .ISPCMD 0x22, Ev.wr .ISPADDR 0x301000, Ev.wr .ISPTRG 1,
                 Ev.rd .ISPTRG 0, Ev.rd .ISPCTL 0,
                 Ev.wr .ISPCMD 0x22, Ev.wr .ISPADDR 0x301200, Ev.wr .ISPTRG 1,
                 Ev.rd .ISPTRG 0, Ev.rd .ISPCTL 0],
               g_FMC_i32ErrCode := -1 })) ∧
    IssuesErase m480 m480.FMC_KPROM_BASE
      (FMC_SetSPKey m480 (hwStuckAt 0xFFFFFFFF 0) (fun i => i) 3 5 1 1 st0).2.trace :=
  ⟨⟨by decide, by decide⟩,
   (C19_locked_key_pages_are_erased m480 (hwStuckAt 0xFFFFFFFF 0) (fun i => i) 3 5 1 1 st0
     (by decide)).1⟩

/-- C20: with `KPKEYSTS = 0x200` on entry, when the erase of the second key page
`FMC_KPROM_BASE + 0x200` fails, `FMC_SetSPKey` returns `-3` (and records `-3`), not
`-2`, in the state in which that erase ended: no key word was programmed and no
key-busy wait took place.  When only the erase of the first page fails it returns
`-2`.  In both cases no program command is issued (when the program and erase
command codes differ). -/
theorem C20_second_erase_failure_returns_minus3 (h : Hdr) (hw : Hw) (key : Nat → Nat)
    (kpmax kemax : Nat) (lc ls : Int) (s : St)
    (hu : hw s.trace .KPKEYSTS % 2 ^ 32 = 0x200) :
    ((FMC_Erase h hw ((h.FMC_KPROM_BASE + 0x200) % 2 ^ 32)
        (FMC_Erase h hw h.FMC_KPROM_BASE (rd hw .KPKEYSTS (setErr 0 s)).2).2).1 ≠ 0 →
      FMC_SetSPKey h hw key kpmax kemax lc ls s =
        (-3, setErr (-3) (FMC_Erase h hw ((h.FMC_KPROM_BASE + 0x200) % 2 ^ 32)
          (FMC_Erase h hw h.FMC_KPROM_BASE (rd hw .KPKEYSTS (setErr 0 s)).2).2).2)) ∧
    ((FMC_Erase h hw ((h.FMC_KPROM_BASE + 0x200) % 2 ^ 32)
        (FMC_Erase h hw h.FMC_KPROM_BASE (rd hw .KPKEYSTS (setErr 0 s)).2).2).1 = 0 →
      (FMC_Erase h hw h.FMC_KPROM_BASE (rd hw .KPKEYSTS (setErr 0 s)).2).1 ≠ 0 →
      FMC_SetSPKey h hw key kpmax kemax lc ls s =
        (-2, setErr (-2) (FMC_Erase h hw ((h.FMC_KPROM_BASE + 0x200) % 2 ^ 32)
          (FMC_Erase h hw h.FMC_KPROM_BASE (rd hw .KPKEYSTS (setErr 0 s)).2).2).2)) ∧
    (h.FMC_ISPCMD_PROGRAM % 2 ^ 32 ≠ h.FMC_ISPCMD_PAGE_ERASE % 2 ^ 32 →
      ∃ ext, (FMC_Erase h hw ((h.FMC_KPROM_BASE + 0x200) % 2 ^ 32)
        (FMC_Erase h hw h.FMC_KPROM_BASE (rd hw .KPKEYSTS (setErr 0 s)).2).2).2.trace =
          s.trace ++ ext ∧ NoProgram h ext) := by
  have hk : ¬ (rd hw .KPKEYSTS (setErr 0 s)).1 ≠ 0x200 := not_not.mpr hu
  refine ⟨fun h2 => ?_, fun h2 h1 => ?_, (spKey_erases h hw s).2.2⟩
  · have hr : spKeyRet (rd hw .KPKEYSTS (setErr 0 s)).1
        (FMC_Erase h hw h.FMC_KPROM_BASE (rd hw .KPKEYSTS (setErr 0 s)).2).1
        (FMC_Erase h hw ((h.FMC_KPROM_BASE + 0x200) % 2 ^ 32)
          (FMC_Erase h hw h.FMC_KPROM_BASE (rd hw .KPKEYSTS (setErr 0 s)).2).2).1 = -3 := by
      simp only [spKeyRet, if_pos h2]
    rw [FMC_SetSPKey_skip h hw key kpmax kemax lc ls s (by rw [hr]; decide), hr]
  · have hr : spKeyRet (rd hw .KPKEYSTS (setErr 0 s)).1
        (FMC_Erase h hw h.FMC_KPROM_BASE (rd hw .KPKEYSTS (setErr 0 s)).2).1
        (FMC_Erase h hw ((h.FMC_KPROM_BASE + 0x200) % 2 ^ 32)
          (FMC_Erase h hw h.FMC_KPROM_BASE (rd hw .KPKEYSTS (setErr 0 s)).2).2).1 = -2 := by
      simp only [spKeyRet, if_neg (not_not.mpr h2), if_pos h1]
    rw [FMC_SetSPKey_skip h hw key kpmax kemax lc ls s (by rw [hr]; decide), hr]

theorem C20_second_erase_failure_returns_minus3_witness :
    (hwStuckAt 0x301200 0x200 st0.trace .KPKEYSTS % 2 ^ 32 = 0x200 ∧
      (FMC_Erase m480 (hwStuckAt 0x301200 0x200) m480.FMC_KPROM_BASE
        (rd (hwStuckAt 0x301200 0x200) .KPKEYSTS (setErr 0 st0)).2).1 = 0 ∧
      (FMC_Erase m480 (hwStuckAt 0x301200 0x200) ((m480.FMC_KPROM_BASE + 0x200) % 2 ^ 32)
        (FMC_Erase m480 (hwStuckAt 0x301200 0x200) m480.FMC_KPROM_BASE
          (rd (hwStuckAt 0x301200 0x200) .KPKEYSTS (setErr 0 st0)).2).2).1 ≠ 0 ∧
      FMC_SetSPKey m480 (hwStuckAt 0x301200 0x200) (fun i => i) 3 5 1 1 st0 =
        (-3, { trace := [Ev.rd .KPKEYSTS 0x200,
                 Ev.wr .ISPCMD 0x22, Ev.wr .ISPADDR 0x301000, Ev.wr .ISPTRG 1,
                 Ev.rd .ISPTRG 0, Ev.rd .ISPCTL 0,
                 Ev.wr .ISPCMD 0x22, Ev.wr .ISPADDR 0x301200, Ev.wr .ISPTRG 1,
                 Ev.rd .ISPTRG 1, Ev.rd .ISPTRG 1, Ev.rd .ISPTRG 1, Ev.rd .ISPTRG 1],
               g_FMC_i32ErrCode := -3 })) ∧
    FMC_SetSPKey m480 (hwStuckAt 0x301200 0x200) (fun i => i) 3 5 1 1 st0 =
      (-3, setErr (-3) (FMC_Erase m480 (hwStuckAt 0x301200 0x200)
        ((m480.FMC_KPROM_BASE + 0x200) % 2 ^ 32)
        (FMC_Erase m480 (hwStuckAt 0x301200 0x200) m480.FMC_KPROM_BASE
          (rd (hwStuckAt 0x301200 0x200) .KPKEYSTS (setErr 0 st0)).2).2).2) :=
  ⟨⟨by decide, by decide, by decide, by decide⟩,
   (C20_second_erase_failure_returns_minus3 m480 (hwStuckAt 0x301200 0x200) (fun i => i) 3 5 1 1
     st0 (by decide)).1 (by decide)⟩

theorem waitWhile_all_busy (hw : Hw) (r : Reg) (m n : Nat) (s : St)
    (hb : ∀ j, j + 1 < n → busyAt hw r m s.trace j) :
    (waitWhile hw r m n s).1 ≤ 0 ∧
      ∃ k, k ≤ n ∧ (waitWhile hw r m n s).2 = { s with trace := polls hw r k s.trace } := by
  cases n with
  | zero => exact ⟨show (-1 : Int) ≤ 0 by decide, 0, le_refl _, rfl⟩
  | succ n =>
    by_cases hl : busyAt hw r m s.trace n
    · have hall : ∀ j, j < n + 1 → busyAt hw r m s.trace j := by
        intro j hj
        by_cases hjn : j = n
        · rw [hjn]; exact hl
        · exact hb j (by omega)
      rw [waitWhile_busy hw r m (n + 1) s hall]
      exact ⟨show (-1 : Int) ≤ 0 by decide, n + 1, le_refl _, rfl⟩
    · rw [waitWhile_clear hw r m (n + 1) n s (Nat.lt_succ_self n) (fun i hi => hb i (by omega)) hl]
      refine ⟨?_, n + 1, le_refl _, rfl⟩
      simp

theorem waitWhile_cleared (hw : Hw) (r : Reg) (m N : Nat) (s : St) (j : Nat)
    (hc : ClearedAt hw r m N s.trace j) :
    0 < (waitWhile hw r m N s).1 ∧
      waitWhile hw r m N s =
        (((N - 1 - j : Nat) : Int), { s with trace := polls hw r (j + 1) s.trace }) := by
  have e := waitWhile_clear hw r m N j s (by have := hc.1; omega) hc.2.1 hc.2.2
  refine ⟨?_, e⟩
  rw [e]
  have := hc.1
  show (0 : Int) < ((N - 1 - j : Nat) : Int)
  omega

theorem FMC_CompareSPKey_eq (h : Hdr) (hw : Hw) (key : Nat → Nat) (s : St) :
    FMC_CompareSPKey h hw key s =
      if (hw s.trace .KPKEYSTS % 2 ^ 32) &&& h.FMC_KPKEYSTS_FORBID_Msk ≠ 0 then
        (-2, { trace := s.trace ++ [Ev.rd .KPKEYSTS (hw s.trace .KPKEYSTS % 2 ^ 32)],
               g_FMC_i32ErrCode := -2 })
      else if (hw (s.trace ++ [Ev.rd .KPKEYSTS (hw s.trace .KPKEYSTS % 2 ^ 32)]) .KPKEYSTS
          % 2 ^ 32) &&& h.FMC_KPKEYSTS_KEYLOCK_Msk = 0 then
        (-4, { trace := s.trace ++ [Ev.rd .KPKEYSTS (hw s.trace .KPKEYSTS % 2 ^ 32)] ++
                 [Ev.rd .KPKEYSTS (hw (s.trace ++
                   [Ev.rd .KPKEYSTS (hw s.trace .KPKEYSTS % 2 ^ 32)]) .KPKEYSTS % 2 ^ 32)],
               g_FMC_i32ErrCode := -4 })
      else
        if (waitWhile hw .KPKEYSTS h.FMC_KPKEYSTS_KEYBUSY_Msk h.FMC_TIMEOUT_READ
            (St.mk (compareSetup h hw key s.trace) 0)).1 ≤ 0 then
          (-1, setErr (-1) (waitWhile hw .KPKEYSTS h.FMC_KPKEYSTS_KEYBUSY_Msk h.FMC_TIMEOUT_READ
            (St.mk (compareSetup h hw key s.trace) 0)).2)
        else if (rd hw .KPKEYSTS (waitWhile hw .KPKEYSTS h.FMC_KPKEYSTS_KEYBUSY_Msk
            h.FMC_TIMEOUT_READ (St.mk (compareSetup h hw key s.trace) 0)).2).1 &&& h.FMC_KPKEYSTS_KEYMATCH_Msk = 0 then
          (-3, setErr (-3) (rd hw .KPKEYSTS (waitWhile hw .KPKEYSTS h.FMC_KPKEYSTS_KEYBUSY_Msk
            h.FMC_TIMEOUT_READ (St.mk (compareSetup h hw key s.trace) 0)).2).2)
        else if (rd hw .KPKEYSTS (waitWhile hw .KPKEYSTS h.FMC_KPKEYSTS_KEYBUSY_Msk
            h.FMC_TIMEOUT_READ (St.mk (compareSetup h hw key s.trace) 0)).2).1 &&& h.FMC_KPKEYSTS_KEYLOCK_Msk ≠ 0 then
          (-5, setErr (-5) (rd hw .KPKEYSTS (waitWhile hw .KPKEYSTS h.FMC_KPKEYSTS_KEYBUSY_Msk
            h.FMC_TIMEOUT_READ (St.mk (compareSetup h hw key s.trace) 0)).2).2)
        else
          (0, (rd hw .KPKEYSTS (waitWhile hw .KPKEYSTS h.FMC_KPKEYSTS_KEYBUSY_Msk
            h.FMC_TIMEOUT_READ (St.mk (compareSetup h hw key s.trace) 0)).2).2) := by
  simp only [FMC_CompareSPKey, rd, wr, setErr, compareSetup, List.append_assoc,
    List.singleton_append, List.cons_append, List.nil_append]

/-- C21: `FMC_CompareSPKey` returns `-2` when `FORBID` is set in `KPKEYSTS` on
entry and `-4` when `KEYLOCK` is then clear, in both cases without writing
`KPKEY0..2` or `KPKEYTRG`; otherwise it writes the three key words and the
trigger, and returns `-1` when `KEYBUSY` does not clear in time, `-3` when
`KEYMATCH` is then clear, `-5` when `KEYMATCH` and `KEYLOCK` are set, `0`
otherwise; `g_FMC_i32ErrCode` equals the value returned in every case. -/
theorem C21_CompareSPKey_contract (h : Hdr) (hw : Hw) (key : Nat → Nat) (s : St) :
    CompareSPKeyContract h hw key s := by
  simp only [CompareSPKeyContract]
  have hsetup : s.trace ++ [Ev.rd .KPKEYSTS (hw s.trace .KPKEYSTS % 2 ^ 32)] ++
      [Ev.rd .KPKEYSTS (hw (s.trace ++ [Ev.rd .KPKEYSTS (hw s.trace .KPKEYSTS % 2 ^ 32)])
        .KPKEYSTS % 2 ^ 32)] ++
      [Ev.wr .KPKEY0 (key 0 % 2 ^ 32), Ev.wr .KPKEY1 (key 1 % 2 ^ 32),
       Ev.wr .KPKEY2 (key 2 % 2 ^ 32),
       Ev.wr .KPKEYTRG ((h.FMC_KPKEYTRG_KPKEYGO_Msk ||| h.FMC_KPKEYTRG_TCEN_Msk) % 2 ^ 32)] =
      compareSetup h hw key s.trace := rfl
  rw [hsetup, FMC_CompareSPKey_eq]
  generalize hS : St.mk (compareSetup h hw key s.trace) 0 = S
  have hSt : S.trace = compareSetup h hw key s.trace := by rw [← hS]
  have hSe : S.g_FMC_i32ErrCode = 0 := by rw [← hS]
  rw [← hSt]
  have hwe := waitWhile_err hw .KPKEYSTS h.FMC_KPKEYSTS_KEYBUSY_Msk h.FMC_TIMEOUT_READ S
  refine ⟨?_, fun hf => ?_, fun hf hl => ?_, fun hf hl => ⟨fun hb => ?_, fun j hc => ?_⟩⟩
  · split
    · rfl
    · split
      · rfl
      · split
        · rfl
        · split
          · rfl
          · split
            · rfl
            · show (waitWhile hw .KPKEYSTS h.FMC_KPKEYSTS_KEYBUSY_Msk h.FMC_TIMEOUT_READ
                S).2.g_FMC_i32ErrCode = 0
              rw [hwe, hSe]
  · rw [if_pos hf]
  · rw [if_neg (not_not.mpr hf), if_pos hl]
  · rw [if_neg (not_not.mpr hf), if_neg hl]
    obtain ⟨hle, k, hk, hst⟩ := waitWhile_all_busy hw .KPKEYSTS h.FMC_KPKEYSTS_KEYBUSY_Msk
      h.FMC_TIMEOUT_READ S hb
    rw [if_pos hle]
    exact ⟨rfl, k, hk, by rw [hst]; rfl⟩
  · rw [if_neg (not_not.mpr hf), if_neg hl]
    obtain ⟨hpos, hst⟩ := waitWhile_cleared hw .KPKEYSTS h.FMC_KPKEYSTS_KEYBUSY_Msk
      h.FMC_TIMEOUT_READ S j hc
    have hnle : ¬ (waitWhile hw .KPKEYSTS h.FMC_KPKEYSTS_KEYBUSY_Msk h.FMC_TIMEOUT_READ S).1 ≤ 0 :=
      not_le.mpr hpos
    rw [if_neg hnle]
    have hu : (rd hw .KPKEYSTS (waitWhile hw .KPKEYSTS h.FMC_KPKEYSTS_KEYBUSY_Msk
        h.FMC_TIMEOUT_READ S).2).1 =
        hw (polls hw .KPKEYSTS (j + 1) S.trace) .KPKEYSTS % 2 ^ 32 := by
      rw [hst]; rfl
    have ht : (rd hw .KPKEYSTS (waitWhile hw .KPKEYSTS h.FMC_KPKEYSTS_KEYBUSY_Msk
        h.FMC_TIMEOUT_READ S).2).2.trace = polls hw .KPKEYSTS (j + 1) S.trace ++
        [Ev.rd .KPKEYSTS (hw (polls hw .KPKEYSTS (j + 1) S.trace) .KPKEYSTS % 2 ^ 32)] := by
      rw [hst]; rfl
    rw [hu]
    generalize hw (polls hw .KPKEYSTS (j + 1) S.trace) .KPKEYSTS % 2 ^ 32 = u at ht ⊢
    by_cases hm : u &&& h.FMC_KPKEYSTS_KEYMATCH_Msk = 0
    · rw [if_pos hm]
      exact ⟨ht, fun _ => rfl, fun hm' => absurd hm hm', fun hm' => absurd hm hm'⟩
    · rw [if_neg hm]
      by_cases hk : u &&& h.FMC_KPKEYSTS_KEYLOCK_Msk ≠ 0
      · rw [if_pos hk]
        exact ⟨ht, fun hm' => absurd hm' hm, fun _ _ => rfl, fun _ hk' => absurd hk' hk⟩
      · rw [if_neg hk]
        exact ⟨ht, fun hm' => absurd hm' hm, fun _ hk' => absurd hk' hk, fun _ _ => rfl⟩

theorem C21_CompareSPKey_contract_witness :
    FMC_CompareSPKey m480 hwKeyMatch (fun i => i + 7) st0 =
      (0, { trace := [Ev.rd .KPKEYSTS 2, Ev.rd .KPKEYSTS 2, Ev.wr .KPKEY0 7, Ev.wr .KPKEY1 8,
              Ev.wr .KPKEY2 9, Ev.wr .KPKEYTRG 3, Ev.rd .KPKEYSTS 4, Ev.rd .KPKEYSTS 4],
            g_FMC_i32ErrCode := 0 }) ∧
    (FMC_CompareSPKey m480 (fun _ _ => 0x8) (fun i => i + 7) st0).1 = -2 ∧
    (FMC_CompareSPKey m480 hwIdle (fun i => i + 7) st0).1 = -4 ∧
    (FMC_CompareSPKey m480 (fun _ _ => 0x3) (fun i => i + 7) st0).1 = -1 ∧
    (FMC_CompareSPKey m480 (fun _ _ => 0x2) (fun i => i + 7) st0).1 = -3 ∧
    (FMC_CompareSPKey m480 (fun _ _ => 0x6) (fun i => i + 7) st0).1 = -5 ∧
    CompareSPKeyContract m480 hwKeyMatch (fun i => i + 7) st0 :=
  ⟨by decide, by decide, by decide, by decide, by decide, by decide,
   C21_CompareSPKey_contract m480 hwKeyMatch (fun i => i + 7) st0⟩

/-- C22: when the read of the lock word of OTP row `otp_num <= 255` succeeds (GO
clears in time, `ISPFF` reads clear) and the word read from `ISPDAT` is not
`0xFFFFFFFF` (the row is locked), `FMC_Is_OTP_Locked` returns 1 and sets
`g_FMC_i32ErrCode` to `-1`. -/
theorem C22_locked_row_sets_error_code (h : Hdr) (hw : Hw) (otp : Nat) (s : St) (j : Nat)
    (ho : otp ≤ 255)
    (hc : ClearedAt hw .ISPTRG h.FMC_ISPTRG_ISPGO_Msk h.FMC_TIMEOUT_READ
      (readSetup h (h.FMC_OTP_BASE + 0x800 + otp * 4) s) j)
    (hf : (hw (polls hw .ISPTRG (j + 1) (readSetup h (h.FMC_OTP_BASE + 0x800 + otp * 4) s))
      .ISPSTS % 2 ^ 32) &&& h.FMC_ISPSTS_ISPFF_Msk = 0)
    (hd : hw (polls hw .ISPTRG (j + 1) (readSetup h (h.FMC_OTP_BASE + 0x800 + otp * 4) s) ++
      [Ev.rd .ISPSTS (hw (polls hw .ISPTRG (j + 1)
        (readSetup h (h.FMC_OTP_BASE + 0x800 + otp * 4) s)) .ISPSTS % 2 ^ 32)])
      .ISPDAT % 2 ^ 32 ≠ 0xFFFFFFFF) :
    (FMC_Is_OTP_Locked h hw otp s).1 = 1 ∧
      (FMC_Is_OTP_Locked h hw otp s).2.g_FMC_i32ErrCode = -1 := by
  have ho' : ¬ otp > 255 := by omega
  generalize hS : St.mk (readSetup h (h.FMC_OTP_BASE + 0x800 + otp * 4) s) 0 = S
  have hSt : S.trace = readSetup h (h.FMC_OTP_BASE + 0x800 + otp * 4) s := by rw [← hS]
  have hS' : wr .ISPTRG h.FMC_ISPTRG_ISPGO_Msk (wr .ISPADDR (h.FMC_OTP_BASE + 0x800 + otp * 4)
      (wr .ISPCMD h.FMC_ISPCMD_READ (setErr 0 s))) = S := by
    rw [← hS]; simp [wr, setErr, readSetup]
  rw [← hSt] at hc hf hd
  obtain ⟨hpos, hst⟩ := waitWhile_cleared hw .ISPTRG h.FMC_ISPTRG_ISPGO_Msk
    h.FMC_TIMEOUT_READ S j hc
  have hnle : ¬ (waitWhile hw .ISPTRG h.FMC_ISPTRG_ISPGO_Msk h.FMC_TIMEOUT_READ S).1 ≤ 0 :=
    not_le.mpr hpos
  have hf' : ¬ ((rd hw .ISPSTS (waitWhile hw .ISPTRG h.FMC_ISPTRG_ISPGO_Msk
      h.FMC_TIMEOUT_READ S).2).1 &&& h.FMC_ISPSTS_ISPFF_Msk ≠ 0) := by
    rw [hst]; exact not_not.mpr hf
  have hd' : (rd hw .ISPDAT (rd hw .ISPSTS (waitWhile hw .ISPTRG h.FMC_ISPTRG_ISPGO_Msk
      h.FMC_TIMEOUT_READ S).2).2).1 ≠ 0xFFFFFFFF := by
    rw [hst]; exact hd
  simp only [FMC_Is_OTP_Locked, if_neg ho', hS', if_neg hnle, if_neg hf', if_pos hd']
  exact ⟨trivial, rfl⟩

theorem C22_locked_row_sets_error_code_witness :
    FMC_Is_OTP_Locked m480 hwIdle 3 st0 =
      (1, { trace := [Ev.wr .ISPCMD 0, Ev.wr .ISPADDR 0x31080C, Ev.wr .ISPTRG 1,
              Ev.rd .ISPTRG 0, Ev.rd .ISPSTS 0, Ev.rd .ISPDAT 0],
            g_FMC_i32ErrCode := -1 }) ∧
    ((FMC_Is_OTP_Locked m480 hwIdle 3 st0).1 = 1 ∧
      (FMC_Is_OTP_Locked m480 hwIdle 3 st0).2.g_FMC_i32ErrCode = -1) :=
  ⟨by decide,
   C22_locked_row_sets_error_code m480 hwIdle 3 st0 0 (by decide)
     ⟨by decide, fun i hi => absurd hi (Nat.not_lt_zero i), by decide⟩ (by decide) (by decide)⟩

theorem FMC_EraseXOM_active (h : Hdr) (hw : Hw) (n : Nat) (s : St) (hn : n < 4)
    (ha : (hw s.trace .XOMSTS % 2 ^ 32).testBit n = true) :
    FMC_EraseXOM h hw n s =
      if (rd hw .ISPCTL (waitWhile hw .ISPTRG 0xFFFFFFFF h.FMC_TIMEOUT_ERASE
          (St.mk (xomEraseSetup h hw n s.trace) s.g_FMC_i32ErrCode)).2).1 &&&
            h.FMC_ISPCTL_ISPFF_Msk ≠ 0 then
        (-1, setErr (-1) (orReg hw .ISPCTL h.FMC_ISPCTL_ISPFF_Msk
          (rd hw .ISPCTL (waitWhile hw .ISPTRG 0xFFFFFFFF h.FMC_TIMEOUT_ERASE
            (St.mk (xomEraseSetup h hw n s.trace) s.g_FMC_i32ErrCode)).2).2))
      else
        (if (waitWhile hw .ISPTRG 0xFFFFFFFF h.FMC_TIMEOUT_ERASE
            (St.mk (xomEraseSetup h hw n s.trace) s.g_FMC_i32ErrCode)).1 ≤ 0 then -1 else 0,
         setErr (if (waitWhile hw .ISPTRG 0xFFFFFFFF h.FMC_TIMEOUT_ERASE
            (St.mk (xomEraseSetup h hw n s.trace) s.g_FMC_i32ErrCode)).1 ≤ 0 then -1 else 0)
          (rd hw .ISPCTL (waitWhile hw .ISPTRG 0xFFFFFFFF h.FMC_TIMEOUT_ERASE
            (St.mk (xomEraseSetup h hw n s.trace) s.g_FMC_i32ErrCode)).2).2) := by
  have hn' : ¬ n ≥ 4 := by omega
  have hg := FMC_GetXOMState_valid hw n s hn
  have h10 : (1 : Int) ≠ 0 := by decide
  have hS : wr .ISPTRG 0x1 (wr .ISPDAT 0x55aa03 (wr .ISPADDR
      (((hw (s.trace ++ [Ev.rd .XOMSTS (hw s.trace .XOMSTS % 2 ^ 32)]) (xomStsReg n) % 2 ^ 32)
        &&& 0xFFFFFF00) >>> 8)
      (wr .ISPCMD h.FMC_ISPCMD_PAGE_ERASE
        (rd hw (xomStsReg n)
          { s with trace := s.trace ++ [Ev.rd .XOMSTS (hw s.trace .XOMSTS % 2 ^ 32)] }).2))) =
      St.mk (xomEraseSetup h hw n s.trace) s.g_FMC_i32ErrCode := by
    simp [wr, rd, xomEraseSetup]
  have hx : (rd hw (xomStsReg n)
      { s with trace := s.trace ++ [Ev.rd .XOMSTS (hw s.trace .XOMSTS % 2 ^ 32)] }).1 =
      hw (s.trace ++ [Ev.rd .XOMSTS (hw s.trace .XOMSTS % 2 ^ 32)]) (xomStsReg n) % 2 ^ 32 := rfl
  simp only [FMC_EraseXOM, if_neg hn', if_true, hg, ha, if_pos h10, hx, hS]

/-- C23: when `FMC_EraseXOM` is called on an active region `n < 4` and the erase
poll uses up the `FMC_TIMEOUT_ERASE` budget, the function does not return at the
time-out: it goes on to read `ISPCTL` to test `ISPFF`, and when the flag reads set
it writes `ISPCTL` back; it returns `-1`, recorded in `g_FMC_i32ErrCode`.  On an
inactive region it returns `-1` after the read of `XOMSTS`, without any ISP
command. -/
theorem C23_EraseXOM_timeout_touches_fault_flag (h : Hdr) (hw : Hw) (n : Nat) (s : St)
    (hn : n < 4) :
    ((hw s.trace .XOMSTS % 2 ^ 32).testBit n = true →
      (∀ j, j + 1 < h.FMC_TIMEOUT_ERASE →
        busyAt hw .ISPTRG 0xFFFFFFFF (xomEraseSetup h hw n s.trace) j) →
      (FMC_EraseXOM h hw n s).1 = -1 ∧ (FMC_EraseXOM h hw n s).2.g_FMC_i32ErrCode = -1 ∧
      ∃ k, k ≤ h.FMC_TIMEOUT_ERASE ∧ ∃ ext,
        (FMC_EraseXOM h hw n s).2.trace =
          polls hw .ISPTRG k (xomEraseSetup h hw n s.trace) ++
            [Ev.rd .ISPCTL (hw (polls hw .ISPTRG k (xomEraseSetup h hw n s.trace)) .ISPCTL
              % 2 ^ 32)] ++ ext ∧
        ((hw (polls hw .ISPTRG k (xomEraseSetup h hw n s.trace)) .ISPCTL % 2 ^ 32) &&&
            h.FMC_ISPCTL_ISPFF_Msk ≠ 0 → ∃ v, ext = [Ev.rd .ISPCTL v,
              Ev.wr .ISPCTL ((v ||| h.FMC_ISPCTL_ISPFF_Msk) % 2 ^ 32)])) ∧
    ((hw s.trace .XOMSTS % 2 ^ 32).testBit n = false →
      FMC_EraseXOM h hw n s =
        (-1, { trace := s.trace ++ [Ev.rd .XOMSTS (hw s.trace .XOMSTS % 2 ^ 32)],
               g_FMC_i32ErrCode := -1 })) := by
  refine ⟨fun ha hb => ?_, fun ha => ?_⟩
  · rw [FMC_EraseXOM_active h hw n s hn ha]
    generalize hS : St.mk (xomEraseSetup h hw n s.trace) s.g_FMC_i32ErrCode = S
    have hSt : S.trace = xomEraseSetup h hw n s.trace := by rw [← hS]
    rw [← hSt] at hb ⊢
    obtain ⟨hle, k, hk, hst⟩ := waitWhile_all_busy hw .ISPTRG 0xFFFFFFFF h.FMC_TIMEOUT_ERASE S hb
    rw [if_pos hle, hst]
    by_cases hf : (rd hw .ISPCTL { S with trace := polls hw .ISPTRG k S.trace }).1 &&&
        h.FMC_ISPCTL_ISPFF_Msk ≠ 0
    · rw [if_pos hf]
      refine ⟨rfl, rfl, k, hk,
        [Ev.rd .ISPCTL (hw (polls hw .ISPTRG k S.trace ++
            [Ev.rd .ISPCTL (hw (polls hw .ISPTRG k S.trace) .ISPCTL % 2 ^ 32)]) .ISPCTL % 2 ^ 32),
          Ev.wr .ISPCTL (((hw (polls hw .ISPTRG k S.trace ++
            [Ev.rd .ISPCTL (hw (polls hw .ISPTRG k S.trace) .ISPCTL % 2 ^ 32)]) .ISPCTL % 2 ^ 32)
              ||| h.FMC_ISPCTL_ISPFF_Msk) % 2 ^ 32)], ?_, fun _ => ⟨_, rfl⟩⟩
      simp [orReg, wr, rd, setErr]
    · rw [if_neg hf]
      refine ⟨rfl, rfl, k, hk, [], ?_, fun hf' => absurd hf' hf⟩
      simp [rd, setErr]
  · have hn' : ¬ n ≥ 4 := by omega
    have hg := FMC_GetXOMState_valid hw n s hn
    have ha' : ¬ (hw s.trace .XOMSTS % 2 ^ 32).testBit n = true := by
      rw [ha]; decide
    have h00 : ¬ ((0 : Int) ≠ 0) := by decide
    simp only [FMC_EraseXOM, if_neg hn', if_true, hg, if_neg ha', if_neg h00, setErr]

theorem C23_EraseXOM_timeout_touches_fault_flag_witness :
    FMC_EraseXOM m480 hwXomStuck 0 st0 =
      (-1, { trace := [Ev.rd .XOMSTS 1, Ev.rd .XOMR0STS 0x12300, Ev.wr .ISPCMD 0x22,
               Ev.wr .ISPADDR 0x123, Ev.wr .ISPDAT 0x55aa03, Ev.wr .ISPTRG 1,
               Ev.rd .ISPTRG 1, Ev.rd .ISPTRG 1, Ev.rd .ISPTRG 1, Ev.rd .ISPTRG 1,
               Ev.rd .ISPCTL 0x40, Ev.rd .ISPCTL 0x40, Ev.wr .ISPCTL 0x40],
             g_FMC_i32ErrCode := -1 }) ∧
    ((FMC_EraseXOM m480 hwXomStuck 0 st0).1 = -1 ∧
      (FMC_EraseXOM m480 hwXomStuck 0 st0).2.g_FMC_i32ErrCode = -1 ∧
      ∃ k, k ≤ m480.FMC_TIMEOUT_ERASE ∧ ∃ ext,
        (FMC_EraseXOM m480 hwXomStuck 0 st0).2.trace =
          polls hwXomStuck .ISPTRG k (xomEraseSetup m480 hwXomStuck 0 st0.trace) ++
            [Ev.rd .ISPCTL (hwXomStuck (polls hwXomStuck .ISPTRG k
              (xomEraseSetup m480 hwXomStuck 0 st0.trace)) .ISPCTL % 2 ^ 32)] ++ ext ∧
        ((hwXomStuck (polls hwXomStuck .ISPTRG k (xomEraseSetup m480 hwXomStuck 0 st0.trace))
            .ISPCTL % 2 ^ 32) &&& m480.FMC_ISPCTL_ISPFF_Msk ≠ 0 → ∃ v, ext = [Ev.rd .ISPCTL v,
              Ev.wr .ISPCTL ((v ||| m480.FMC_ISPCTL_ISPFF_Msk) % 2 ^ 32)])) :=
  ⟨by decide,
   (C23_EraseXOM_timeout_touches_fault_flag m480 hwXomStuck 0 st0 (by decide)).1 (by decide)
     (fun _ _ => show (1 % 2 ^ 32) &&& 0xFFFFFFFF ≠ 0 by decide)⟩

theorem spKeyVerify_checks (h : Hdr) (hw : Hw) (kpmax kemax : Nat) (lc ls : Int) (sts : Nat)
    (s : St) : SpKeyChecks h hw kpmax kemax lc ls sts s
      (spKeyVerify h hw kpmax kemax lc ls sts s) := by
  simp only [SpKeyChecks, spKeyVerify, rd]
  generalize ((hw (s.trace ++ [Ev.rd .KPCNT (hw s.trace .KPCNT % 2 ^ 32)]) .KPKEYCNT
      % 2 ^ 32) &&& h.FMC_KPKEYCNT_KPKEMAX_Msk) >>> h.FMC_KPKEYCNT_KPKEMAX_Pos = ke
  generalize ((hw s.trace .KPCNT % 2 ^ 32) &&& h.FMC_KPCNT_KPMAX_Msk) >>>
      h.FMC_KPCNT_KPMAX_Pos = kp
  generalize kpmax % 2 ^ 32 = a
  generalize kemax % 2 ^ 32 = b
  by_cases hk : sts &&& h.FMC_KPKEYSTS_KEYLOCK_Msk = 0
  · simp [hk, setErr]
  · by_cases hcf : sts &&& h.FMC_KPKEYSTS_CFGFLAG_Msk = 0 <;> by_cases hlc : lc = 0 <;>
      by_cases hsf : sts &&& h.FMC_KPKEYSTS_SPFLAG_Msk = 0 <;> by_cases hls : ls = 0 <;>
      by_cases hp : kp = a <;> by_cases he : ke = b <;>
      simp [hk, hcf, hlc, hsf, hls, hp, he, setErr]

theorem FMC_SetSPKey_run (h : Hdr) (hw : Hw) (key : Nat → Nat) (kpmax kemax : Nat)
    (lc ls : Int) (s : St)
    (hz : spKeyRet (rd hw .KPKEYSTS (setErr 0 s)).1
      (FMC_Erase h hw h.FMC_KPROM_BASE (rd hw .KPKEYSTS (setErr 0 s)).2).1
      (FMC_Erase h hw ((h.FMC_KPROM_BASE + 0x200) % 2 ^ 32)
        (FMC_Erase h hw h.FMC_KPROM_BASE (rd hw .KPKEYSTS (setErr 0 s)).2).2).1 = 0) :
    FMC_SetSPKey h hw key kpmax kemax lc ls s =
      if (waitWhile hw .KPKEYSTS h.FMC_KPKEYSTS_KEYBUSY_Msk h.FMC_TIMEOUT_WRITE
          (spKeyAfterProgram h hw key kpmax kemax lc ls s)).1 ≤ 0 then
        (-3, setErr (-3) (waitWhile hw .KPKEYSTS h.FMC_KPKEYSTS_KEYBUSY_Msk h.FMC_TIMEOUT_WRITE
          (spKeyAfterProgram h hw key kpmax kemax lc ls s)).2)
      else
        spKeyVerify h hw kpmax kemax lc ls
          (rd hw .KPKEYSTS (waitWhile hw .KPKEYSTS h.FMC_KPKEYSTS_KEYBUSY_Msk h.FMC_TIMEOUT_WRITE
            (spKeyAfterProgram h hw key kpmax kemax lc ls s)).2).1
          (rd hw .KPKEYSTS (waitWhile hw .KPKEYSTS h.FMC_KPKEYSTS_KEYBUSY_Msk h.FMC_TIMEOUT_WRITE
            (spKeyAfterProgram h hw key kpmax kemax lc ls s)).2).2 := by
  have e : ∀ (k : Nat) (e1 e2 : Int),
      (if e2 ≠ 0 then (-3 : Int) else if e1 ≠ 0 then -2 else if k ≠ 0x200 then -1 else 0) =
        spKeyRet k e1 e2 := fun _ _ _ => rfl
  simp only [FMC_SetSPKey, e, hz, if_true, spKeyAfterProgram]

theorem FMC_Write_issues (h : Hdr) (hw : Hw) (a d : Nat) (s : St) :
    ∃ post, (FMC_Write h hw a d s).2.trace = progSetup h s.trace a d ++ post := by
  have ht := traceExt_ispTail (fun _ => True) hw .ISPTRG h.FMC_ISPTRG_ISPGO_Msk
    h.FMC_TIMEOUT_WRITE .ISPSTS h.FMC_ISPSTS_ISPFF_Msk
    (wr .ISPTRG h.FMC_ISPTRG_ISPGO_Msk (wr .ISPDAT d (wr .ISPADDR a
      (wr .ISPCMD h.FMC_ISPCMD_PROGRAM (setErr 0 s))))) (fun _ _ => trivial) (fun _ => trivial)
  rw [← FMC_Write_eq] at ht
  obtain ⟨ext, he, _⟩ := ht
  exact ⟨ext, by rw [he]; simp [wr, setErr, progSetup]⟩

theorem traceExt_spKeyVerify (h : Hdr) (hw : Hw) (kpmax kemax : Nat) (lc ls : Int) (sts : Nat)
    (s : St) : TraceExt (fun _ => True) s (spKeyVerify h hw kpmax kemax lc ls sts s).2 := by
  have t1 := traceExt_rd (fun _ => True) hw .KPCNT s (fun _ => trivial)
  have t2 := traceExt_rd (fun _ => True) hw .KPKEYCNT (rd hw .KPCNT s).2 (fun _ => trivial)
  simp only [spKeyVerify]
  split
  · exact traceExt_refl _ s
  · split
    · exact traceExt_refl _ s
    · split
      · exact traceExt_refl _ s
      · split
        · exact t1
        · split
          · exact traceExt_trans _ _ _ _ t1 t2
          · exact traceExt_trans _ _ _ _ t1 t2

theorem lockWord_bits (lc ls : Int) :
    (((if lc = 0 then 0x1 else 0) ||| (if ls = 0 then 0x2 else 0) : Nat).testBit 0 = true ↔
      lc = 0) ∧
    (((if lc = 0 then 0x1 else 0) ||| (if ls = 0 then 0x2 else 0) : Nat).testBit 1 = true ↔
      ls = 0) ∧
    ((if lc = 0 then 0x1 else 0) ||| (if ls = 0 then 0x2 else 0) : Nat) < 4 := by
  by_cases h1 : lc = 0 <;> by_cases h2 : ls = 0 <;> simp [h1, h2] <;> decide

theorem spKeyAfterProgram_issues (h : Hdr) (hw : Hw) (key : Nat → Nat) (kpmax kemax : Nat)
    (lc ls : Int) (s : St) :
    ∃ pre post, (spKeyAfterProgram h hw key kpmax kemax lc ls s).trace =
      progSetup h pre ((h.FMC_KPROM_BASE + 0x14) % 2 ^ 32)
        ((if lc = 0 then 0x1 else 0) ||| (if ls = 0 then 0x2 else 0)) ++ post := by
  simp only [spKeyAfterProgram, spKeyProgram]
  exact ⟨_, FMC_Write_issues h hw _ _ _⟩

/-- C27: with `KPKEYSTS = 0x200` on entry, both key-page erases successful and
`KEYBUSY` clear in time, `FMC_SetSPKey` has issued the program command for the
lock-control word at `FMC_KPROM_BASE + 0x14`, whose bit 0 is set iff `lock_CONFIG`
is 0 and bit 1 iff `lock_SPROM` is 0, and the value returned is decided by the
first failing check in the order `-4` (`KEYLOCK` clear), `-5` (`CFGFLAG` disagrees
with `lock_CONFIG`), `-6` (`SPFLAG` disagrees with `lock_SPROM`), `-7` (KPMAX field
differs from `kpmax`), `-8` (KPKEMAX field differs from `kemax`); it is 0 exactly
when all five pass, and `g_FMC_i32ErrCode` equals it. -/
theorem C27_SetSPKey_checks (h : Hdr) (hw : Hw) (key : Nat → Nat) (kpmax kemax : Nat)
    (lc ls : Int) (s : St) (j : Nat)
    (hu : hw s.trace .KPKEYSTS % 2 ^ 32 = 0x200)
    (h1 : (FMC_Erase h hw h.FMC_KPROM_BASE (rd hw .KPKEYSTS (setErr 0 s)).2).1 = 0)
    (h2 : (FMC_Erase h hw ((h.FMC_KPROM_BASE + 0x200) % 2 ^ 32)
      (FMC_Erase h hw h.FMC_KPROM_BASE (rd hw .KPKEYSTS (setErr 0 s)).2).2).1 = 0)
    (hc : ClearedAt hw .KPKEYSTS h.FMC_KPKEYSTS_KEYBUSY_Msk h.FMC_TIMEOUT_WRITE
      (spKeyAfterProgram h hw key kpmax kemax lc ls s).trace j) :
    (∃ w pre post, (FMC_SetSPKey h hw key kpmax kemax lc ls s).2.trace =
        progSetup h pre ((h.FMC_KPROM_BASE + 0x14) % 2 ^ 32) w ++ post ∧
      (w.testBit 0 = true ↔ lc = 0) ∧ (w.testBit 1 = true ↔ ls = 0) ∧ w < 4) ∧
    SpKeyChecks h hw kpmax kemax lc ls
      (hw (polls hw .KPKEYSTS (j + 1) (spKeyAfterProgram h hw key kpmax kemax lc ls s).trace)
        .KPKEYSTS % 2 ^ 32)
      (rd hw .KPKEYSTS { spKeyAfterProgram h hw key kpmax kemax lc ls s with
        trace := polls hw .KPKEYSTS (j + 1)
          (spKeyAfterProgram h hw key kpmax kemax lc ls s).trace }).2
      (FMC_SetSPKey h hw key kpmax kemax lc ls s) := by
  have hk : ¬ (rd hw .KPKEYSTS (setErr 0 s)).1 ≠ 0x200 := not_not.mpr hu
  have hz : spKeyRet (rd hw .KPKEYSTS (setErr 0 s)).1
      (FMC_Erase h hw h.FMC_KPROM_BASE (rd hw .KPKEYSTS (setErr 0 s)).2).1
      (FMC_Erase h hw ((h.FMC_KPROM_BASE + 0x200) % 2 ^ 32)
        (FMC_Erase h hw h.FMC_KPROM_BASE (rd hw .KPKEYSTS (setErr 0 s)).2).2).1 = 0 := by
    simp only [spKeyRet, if_neg (not_not.mpr h2), if_neg (not_not.mpr h1), if_neg hk]
  rw [FMC_SetSPKey_run h hw key kpmax kemax lc ls s hz]
  obtain ⟨pre, post, hP⟩ := spKeyAfterProgram_issues h hw key kpmax kemax lc ls s
  generalize spKeyAfterProgram h hw key kpmax kemax lc ls s = P at hc hP ⊢
  obtain ⟨hpos, hst⟩ := waitWhile_cleared hw .KPKEYSTS h.FMC_KPKEYSTS_KEYBUSY_Msk
    h.FMC_TIMEOUT_WRITE P j hc
  rw [if_neg (not_le.mpr hpos), hst]
  refine ⟨?_, spKeyVerify_checks h hw kpmax kemax lc ls _ _⟩
  obtain ⟨ext, he, _⟩ := traceExt_spKeyVerify h hw kpmax kemax lc ls
    (rd hw .KPKEYSTS { P with trace := polls hw .KPKEYSTS (j + 1) P.trace }).1
    (rd hw .KPKEYSTS { P with trace := polls hw .KPKEYSTS (j + 1) P.trace }).2
  obtain ⟨ext2, he2, _⟩ := traceExt_waitWhile (fun _ => True) hw .KPKEYSTS
    h.FMC_KPKEYSTS_KEYBUSY_Msk (fun _ => trivial) h.FMC_TIMEOUT_WRITE P
  rw [hst] at he2
  have he2' : polls hw .KPKEYSTS (j + 1) P.trace = P.trace ++ ext2 := he2
  have hb := lockWord_bits lc ls
  refine ⟨_, pre, post ++ ext2 ++ [Ev.rd .KPKEYSTS (hw (polls hw .KPKEYSTS (j + 1) P.trace)
    .KPKEYSTS % 2 ^ 32)] ++ ext, ?_, hb.1, hb.2.1, hb.2.2⟩
  rw [he]
  show polls hw .KPKEYSTS (j + 1) P.trace ++ [Ev.rd .KPKEYSTS (hw (polls hw .KPKEYSTS (j + 1)
    P.trace) .KPKEYSTS % 2 ^ 32)] ++ ext = _
  rw [he2', hP]
  simp only [List.append_assoc]

theorem C27_SetSPKey_checks_witness :
    (FMC_SetSPKey m480 hwKeySet (fun i => i + 7) 3 5 1 0 st0).1 = 0 ∧
    (FMC_SetSPKey m480 hwKeySet (fun i => i + 7) 3 4 1 0 st0).1 = -8 ∧
    (FMC_SetSPKey m480 hwKeySet (fun i => i + 7) 3 5 0 0 st0).1 = -5 ∧
    ((∃ w pre post, (FMC_SetSPKey m480 hwKeySet (fun i => i + 7) 3 5 1 0 st0).2.trace =
        progSetup m480 pre ((m480.FMC_KPROM_BASE + 0x14) % 2 ^ 32) w ++ post ∧
      (w.testBit 0 = true ↔ (1 : Int) = 0) ∧ (w.testBit 1 = true ↔ (0 : Int) = 0) ∧ w < 4) ∧
    SpKeyChecks m480 hwKeySet 3 5 1 0
      (hwKeySet (polls hwKeySet .KPKEYSTS (0 + 1)
        (spKeyAfterProgram m480 hwKeySet (fun i => i + 7) 3 5 1 0 st0).trace) .KPKEYSTS % 2 ^ 32)
      (rd hwKeySet .KPKEYSTS { spKeyAfterProgram m480 hwKeySet (fun i => i + 7) 3 5 1 0 st0 with
        trace := polls hwKeySet .KPKEYSTS (0 + 1)
          (spKeyAfterProgram m480 hwKeySet (fun i => i + 7) 3 5 1 0 st0).trace }).2
      (FMC_SetSPKey m480 hwKeySet (fun i => i + 7) 3 5 1 0 st0)) :=
  ⟨by decide, by decide, by decide,
   C27_SetSPKey_checks m480 hwKeySet (fun i => i + 7) 3 5 1 0 st0 0 (by decide) (by decide)
     (by decide) ⟨by decide, fun i hi => absurd hi (Nat.not_lt_zero i), by decide⟩⟩

theorem waitWhile_lt (hw : Hw) (r : Reg) (m : Nat) :
    ∀ (n : Nat) (s : St), (waitWhile hw r m n s).1 < (n : Int)
  | 0, _ => by
    show (-1 : Int) < ((0 : Nat) : Int)
    decide
  | n + 1, s => by
    rw [waitWhile]
    split
    · have := waitWhile_lt hw r m n (rd hw r s).2
      omega
    · show (n : Int) < ((n + 1 : Nat) : Int)
      omega

theorem checkAllOneLoop_total (h : Hdr) (hw : Hw) (a : Nat) :
    ∀ (fuel tout : Nat) (s : St), tout ≤ fuel → 0 < fuel →
      ∃ r, checkAllOneLoop h hw a fuel tout s = some r
  | 0, _, _, _, hf => absurd hf (Nat.lt_irrefl 0)
  | fuel + 1, tout, s, ht, _ => by
    rw [checkAllOneLoop]
    dsimp only
    generalize hS : wr .ISPTRG h.FMC_ISPTRG_ISPGO_Msk (wr .ISPADDR a
      (wr .ISPCMD h.FMC_ISPCMD_READ_ALL1 s)) = S
    have hlt := waitWhile_lt hw .ISPSTS h.FMC_ISPSTS_ISPBUSY_Msk tout S
    by_cases hw0 : (waitWhile hw .ISPSTS h.FMC_ISPSTS_ISPBUSY_Msk tout S).1 ≤ 0
    · rw [if_pos hw0]
      exact ⟨_, rfl⟩
    · rw [if_neg hw0]
      split
      · apply checkAllOneLoop_total h hw a fuel
        · omega
        · omega
      · exact ⟨_, rfl⟩

theorem count_traceExt (e : Ev) (s1 s2 : St) (hx : TraceExt (fun x => x ≠ e) s1 s2) :
    s2.trace.count e = s1.trace.count e := by
  obtain ⟨ext, he, hp⟩ := hx
  rw [he, List.count_append]
  have h0 : ext.count e = 0 := by
    rw [List.count_eq_zero]
    intro hm
    exact hp e hm rfl
  rw [h0, Nat.add_zero]

theorem traceExt_checkAllOneEnd (P : Ev → Prop) (h : Hdr) (hw : Hw) (s : St)
    (hr : ∀ q v, P (Ev.rd q v)) : TraceExt P s (checkAllOneEnd h hw s).2 := by
  have t1 := traceExt_rd P hw .ISPDAT s (hr _)
  have t2 := traceExt_rd P hw .ISPDAT (rd hw .ISPDAT s).2 (hr _)
  have t3 := traceExt_rd P hw .ISPDAT (rd hw .ISPDAT (rd hw .ISPDAT s).2).2 (hr _)
  simp only [checkAllOneEnd]
  split
  · exact traceExt_trans P _ _ _ t1 t2
  · split
    · exact traceExt_trans P _ _ _ t1 (traceExt_trans P _ _ _ t2 t3)
    · exact traceExt_trans P _ _ _ t1 t2

theorem rd_ne_wr (e : Reg) (x : Nat) (q : Reg) (v : Nat) : Ev.rd q v ≠ Ev.wr e x := by
  intro he
  cases he

theorem wr_ne_wr (e : Reg) (x : Nat) (q : Reg) (v : Nat) (hq : q ≠ e) : Ev.wr q v ≠ Ev.wr e x := by
  intro he
  injection he with h1 _
  exact hq h1

theorem checkAllOneLoop_count (h : Hdr) (hw : Hw) (a : Nat) :
    ∀ (fuel tout : Nat) (s : St) (r : Nat × St), 0 < tout →
      checkAllOneLoop h hw a fuel tout s = some r →
      numReadAll1 h r.2.trace ≤ numReadAll1 h s.trace + tout
  | 0, _, _, _, _, hr => by
    rw [checkAllOneLoop] at hr
    cases hr
  | fuel + 1, tout, s, r, ht, hr => by
    rw [checkAllOneLoop] at hr
    dsimp only at hr
    have hS : numReadAll1 h (wr .ISPTRG h.FMC_ISPTRG_ISPGO_Msk (wr .ISPADDR a
        (wr .ISPCMD h.FMC_ISPCMD_READ_ALL1 s))).trace = numReadAll1 h s.trace + 1 := by
      simp [numReadAll1, wr, List.count_append, List.count_cons, List.count_nil]
    generalize wr .ISPTRG h.FMC_ISPTRG_ISPGO_Msk (wr .ISPADDR a
      (wr .ISPCMD h.FMC_ISPCMD_READ_ALL1 s)) = S at hr hS
    have hlt := waitWhile_lt hw .ISPSTS h.FMC_ISPSTS_ISPBUSY_Msk tout S
    have hW : numReadAll1 h (waitWhile hw .ISPSTS h.FMC_ISPSTS_ISPBUSY_Msk tout S).2.trace =
        numReadAll1 h S.trace :=
      count_traceExt _ _ _ (traceExt_waitWhile _ hw .ISPSTS _ (fun v => rd_ne_wr _ _ _ v) tout S)
    by_cases hw0 : (waitWhile hw .ISPSTS h.FMC_ISPSTS_ISPBUSY_Msk tout S).1 ≤ 0
    · rw [if_pos hw0] at hr
      cases hr
      show numReadAll1 h (waitWhile hw .ISPSTS h.FMC_ISPSTS_ISPBUSY_Msk tout S).2.trace ≤ _
      rw [hW, hS]
      omega
    · rw [if_neg hw0] at hr
      have hD : numReadAll1 h (rd hw .ISPDAT (waitWhile hw .ISPSTS h.FMC_ISPSTS_ISPBUSY_Msk
          tout S).2).2.trace = numReadAll1 h S.trace := by
        rw [← hW]
        exact count_traceExt _ _ _ (traceExt_rd _ hw .ISPDAT _ (fun v => rd_ne_wr _ _ _ v))
      split at hr
      · have ih := checkAllOneLoop_count h hw a fuel _ _ r (by omega) hr
        rw [hD, hS] at ih
        omega
      · cases hr
        have hE := count_traceExt _ _ _ (traceExt_checkAllOneEnd _ h hw
          (rd hw .ISPDAT (waitWhile hw .ISPSTS h.FMC_ISPSTS_ISPBUSY_Msk tout S).2).2
          (fun q v => rd_ne_wr .ISPCMD (h.FMC_ISPCMD_READ_ALL1 % 2 ^ 32) q v))
        show numReadAll1 h (checkAllOneEnd h hw _).2.trace ≤ _
        unfold numReadAll1 at hD hS ⊢
        rw [hE, hD, hS]
        omega

theorem checkAllOneEnd_fail (h : Hdr) (hw : Hw) (s : St)
    (hn : ∀ t, hw t .ISPDAT % 2 ^ 32 ≠ h.READ_ALLONE_YES % 2 ^ 32 ∧
      hw t .ISPDAT % 2 ^ 32 ≠ h.READ_ALLONE_NOT % 2 ^ 32) :
    (checkAllOneEnd h hw s).1 = h.READ_ALLONE_CMD_FAIL % 2 ^ 32 ∧
      (checkAllOneEnd h hw s).2.g_FMC_i32ErrCode = -1 := by
  have h1 : ¬ (rd hw .ISPDAT s).1 = h.READ_ALLONE_YES % 2 ^ 32 := (hn _).1
  have h2 : ¬ (rd hw .ISPDAT (rd hw .ISPDAT s).2).1 = h.READ_ALLONE_NOT % 2 ^ 32 := (hn _).2
  simp only [checkAllOneEnd, if_neg h1, if_neg h2]
  exact ⟨trivial, rfl⟩

theorem checkAllOneLoop_fail (h : Hdr) (hw : Hw) (a : Nat)
    (hn : ∀ t, hw t .ISPDAT % 2 ^ 32 ≠ h.READ_ALLONE_YES % 2 ^ 32 ∧
      hw t .ISPDAT % 2 ^ 32 ≠ h.READ_ALLONE_NOT % 2 ^ 32) :
    ∀ (fuel tout : Nat) (s : St) (r : Nat × St),
      checkAllOneLoop h hw a fuel tout s = some r →
      r.1 = h.READ_ALLONE_CMD_FAIL % 2 ^ 32 ∧ r.2.g_FMC_i32ErrCode = -1
  | 0, _, _, _, hr => by
    rw [checkAllOneLoop] at hr
    cases hr
  | fuel + 1, tout, s, r, hr => by
    rw [checkAllOneLoop] at hr
    dsimp only at hr
    split at hr
    · cases hr
      exact ⟨rfl, rfl⟩
    · split at hr
      · exact checkAllOneLoop_fail h hw a hn fuel _ _ r hr
      · cases hr
        exact checkAllOneEnd_fail h hw _ hn

theorem checkAllOneEnd_stable (h : Hdr) (hw : Hw) (s : St) (hst : IspdatStable hw)
    (hv : (rd hw .ISPDAT s).1 ≠ 0) :
    (checkAllOneEnd h hw (rd hw .ISPDAT s).2).1 = h.READ_ALLONE_YES % 2 ^ 32 ∨
      (checkAllOneEnd h hw (rd hw .ISPDAT s).2).1 = h.READ_ALLONE_NOT % 2 ^ 32 ∨
      (checkAllOneEnd h hw (rd hw .ISPDAT s).2).1 = h.READ_ALLONE_CMD_FAIL % 2 ^ 32 := by
  have hv' : hw s.trace .ISPDAT % 2 ^ 32 ≠ 0 := hv
  have e1 : (rd hw .ISPDAT (rd hw .ISPDAT s).2).1 = hw s.trace .ISPDAT % 2 ^ 32 :=
    hst s.trace _ hv'
  have e2 : (rd hw .ISPDAT (rd hw .ISPDAT (rd hw .ISPDAT s).2).2).1 =
      hw s.trace .ISPDAT % 2 ^ 32 := by
    have := hst s.trace ([Ev.rd .ISPDAT (hw s.trace .ISPDAT % 2 ^ 32)] ++
      [Ev.rd .ISPDAT (hw (s.trace ++ [Ev.rd .ISPDAT (hw s.trace .ISPDAT % 2 ^ 32)]) .ISPDAT
        % 2 ^ 32)]) hv'
    rw [← List.append_assoc] at this
    exact this
  have e3 : (rd hw .ISPDAT (rd hw .ISPDAT (rd hw .ISPDAT (rd hw .ISPDAT s).2).2).2).1 =
      hw s.trace .ISPDAT % 2 ^ 32 := by
    have := hst s.trace ([Ev.rd .ISPDAT (hw s.trace .ISPDAT % 2 ^ 32)] ++
      [Ev.rd .ISPDAT (hw (s.trace ++ [Ev.rd .ISPDAT (hw s.trace .ISPDAT % 2 ^ 32)]) .ISPDAT
        % 2 ^ 32)] ++
      [Ev.rd .ISPDAT (hw (s.trace ++ [Ev.rd .ISPDAT (hw s.trace .ISPDAT % 2 ^ 32)] ++
        [Ev.rd .ISPDAT (hw (s.trace ++ [Ev.rd .ISPDAT (hw s.trace .ISPDAT % 2 ^ 32)]) .ISPDAT
          % 2 ^ 32)]) .ISPDAT % 2 ^ 32)]) hv'
    rw [← List.append_assoc, ← List.append_assoc] at this
    exact this
  simp only [checkAllOneEnd]
  by_cases hy : (rd hw .ISPDAT (rd hw .ISPDAT s).2).1 = h.READ_ALLONE_YES % 2 ^ 32
  · rw [if_pos hy]
    left
    rw [e2, ← e1, hy]
  · rw [if_neg hy]
    by_cases hnn : (rd hw .ISPDAT (rd hw .ISPDAT (rd hw .ISPDAT s).2).2).1 =
        h.READ_ALLONE_NOT % 2 ^ 32
    · rw [if_pos hnn]
      right; left
      rw [e3, ← e2, hnn]
    · rw [if_neg hnn]
      right; right
      trivial

theorem checkAllOneLoop_stable (h : Hdr) (hw : Hw) (a : Nat) (hst : IspdatStable hw) :
    ∀ (fuel tout : Nat) (s : St) (r : Nat × St),
      checkAllOneLoop h hw a fuel tout s = some r →
      r.1 = h.READ_ALLONE_YES % 2 ^ 32 ∨ r.1 = h.READ_ALLONE_NOT % 2 ^ 32 ∨
        r.1 = h.READ_ALLONE_CMD_FAIL % 2 ^ 32
  | 0, _, _, _, hr => by
    rw [checkAllOneLoop] at hr
    cases hr
  | fuel + 1, tout, s, r, hr => by
    rw [checkAllOneLoop] at hr
    dsimp only at hr
    split at hr
    · cases hr
      exact Or.inr (Or.inr rfl)
    · split at hr
      · exact checkAllOneLoop_stable h hw a hst fuel _ _ r hr
      · rename_i hd
        cases hr
        exact checkAllOneEnd_stable h hw _ hst hd

/-- C28: `FMC_CheckAllOne` returns for every behaviour of the hardware (the loop
runs at most `FMC_TIMEOUT_CHKALLONE` times because all `READ_ALL1` commands share
one poll budget); it issues at most `FMC_TIMEOUT_CHKALLONE` `READ_ALL1` commands;
when `ISPDAT` never reads `READ_ALLONE_YES` or `READ_ALLONE_NOT` it returns
`READ_ALLONE_CMD_FAIL` with `g_FMC_i32ErrCode = -1`; and when `ISPDAT` is stable
once non-zero the value returned is `READ_ALLONE_YES`, `READ_ALLONE_NOT` or
`READ_ALLONE_CMD_FAIL`. -/
theorem C28_CheckAllOne_terminates (h : Hdr) (hw : Hw) (fuel u32addr u32count : Nat) (s : St) :
    CheckAllOneContract h hw fuel u32addr u32count s := by
  unfold CheckAllOneContract
  generalize hS : wr .ISPTRG h.FMC_ISPTRG_ISPGO_Msk (wr .ISPDAT u32count (wr .ISPADDR u32addr
    (wr .ISPCMD h.FMC_ISPCMD_RUN_ALL1 (wr .ISPSTS 0x80 (setErr 0 s))))) = S
  have hF : FMC_CheckAllOne h hw fuel u32addr u32count s =
      if (waitWhile hw .ISPSTS h.FMC_ISPSTS_ISPBUSY_Msk h.FMC_TIMEOUT_CHKALLONE S).1 ≤ 0 then
        some (h.READ_ALLONE_CMD_FAIL % 2 ^ 32,
          setErr (-1) (waitWhile hw .ISPSTS h.FMC_ISPSTS_ISPBUSY_Msk h.FMC_TIMEOUT_CHKALLONE S).2)
      else checkAllOneLoop h hw u32addr fuel h.FMC_TIMEOUT_CHKALLONE
        (waitWhile hw .ISPSTS h.FMC_ISPSTS_ISPBUSY_Msk h.FMC_TIMEOUT_CHKALLONE S).2 := by
    rw [← hS]
    rfl
  have hlt := waitWhile_lt hw .ISPSTS h.FMC_ISPSTS_ISPBUSY_Msk h.FMC_TIMEOUT_CHKALLONE S
  rw [hF]
  refine ⟨fun hf1 hf0 => ?_, fun r hr => ⟨fun hne => ?_, fun hn => ?_, fun hst => ?_⟩⟩
  · split
    · exact ⟨_, rfl⟩
    · exact checkAllOneLoop_total h hw u32addr fuel _ _ hf1 hf0
  · have hSc : numReadAll1 h S.trace = numReadAll1 h s.trace := by
      rw [← hS]
      have hne' : Ev.wr .ISPCMD (h.FMC_ISPCMD_RUN_ALL1 % 2 ^ 32) ≠
          Ev.wr .ISPCMD (h.FMC_ISPCMD_READ_ALL1 % 2 ^ 32) := by
        intro he
        injection he with _ h2
        exact hne h2
      have hne2 : ¬ h.FMC_ISPCMD_RUN_ALL1 % 4294967296 = h.FMC_ISPCMD_READ_ALL1 % 4294967296 :=
        hne
      simp [numReadAll1, wr, setErr, List.count_append, List.count_cons, List.count_nil, hne2]
    have hW : numReadAll1 h (waitWhile hw .ISPSTS h.FMC_ISPSTS_ISPBUSY_Msk
        h.FMC_TIMEOUT_CHKALLONE S).2.trace = numReadAll1 h S.trace :=
      count_traceExt _ _ _ (traceExt_waitWhile _ hw .ISPSTS _ (fun v => rd_ne_wr _ _ _ v) _ S)
    split at hr
    · cases hr
      show numReadAll1 h (waitWhile hw .ISPSTS h.FMC_ISPSTS_ISPBUSY_Msk
        h.FMC_TIMEOUT_CHKALLONE S).2.trace ≤ _
      rw [hW, hSc]
      omega
    · rename_i hw0
      have hc := checkAllOneLoop_count h hw u32addr fuel _ _ r (by omega) hr
      rw [hW, hSc] at hc
      exact hc
  · split at hr
    · cases hr
      exact ⟨rfl, rfl⟩
    · exact checkAllOneLoop_fail h hw u32addr hn fuel _ _ r hr
  · split at hr
    · cases hr
      exact Or.inr (Or.inr rfl)
    · exact checkAllOneLoop_stable h hw u32addr hst fuel _ _ r hr

theorem C28_CheckAllOne_terminates_witness :
    FMC_CheckAllOne m480 hwAllOne 5 0 512 st0 =
      some (0xA11FFFFF, St.mk [Ev.wr .ISPSTS 0x80, Ev.wr .ISPCMD 0x28, Ev.wr .ISPADDR 0,
          Ev.wr .ISPDAT 512, Ev.wr .ISPTRG 1, Ev.rd .ISPSTS 0,
          Ev.wr .ISPCMD 0x08, Ev.wr .ISPADDR 0, Ev.wr .ISPTRG 1, Ev.rd .ISPSTS 0, Ev.rd .ISPDAT 0,
          Ev.wr .ISPCMD 0x08, Ev.wr .ISPADDR 0, Ev.wr .ISPTRG 1, Ev.rd .ISPSTS 0,
          Ev.rd .ISPDAT 0xA11FFFFF, Ev.rd .ISPDAT 0xA11FFFFF, Ev.rd .ISPDAT 0xA11FFFFF] 0) ∧
    (FMC_CheckAllOne m480 hwIdle 5 0 512 st0).map
      (fun r => (r.1, r.2.g_FMC_i32ErrCode, numReadAll1 m480 r.2.trace)) =
        some (0xFFFFFFFF, -1, 5) ∧
    CheckAllOneContract m480 hwAllOne 5 0 512 st0 :=
  ⟨by decide, by decide,
   C28_CheckAllOne_terminates m480 hwAllOne 5 0 512 st0⟩

theorem traceExt_ldBuf (P : Ev → Prop) (buf : Nat → Nat) (r : Reg) (l : WM) (s : St)
    (hb : ∀ i, P (Ev.buf i)) (hwr : ∀ v, P (Ev.wr r v)) : TraceExt P s (ldBuf buf r l s).2 :=
  ⟨[Ev.buf l.idx, Ev.wr r (buf l.idx % 2 ^ 32)], by simp [ldBuf, wr], fun e he => by
    simp only [List.mem_cons, List.mem_singleton, List.not_mem_nil, or_false] at he
    rcases he with he | he
    · rw [he]
      exact hb _
    · rw [he]
      exact hwr _⟩

theorem traceExt_wmFor (P : Ev → Prop) (h : Hdr) (hw : Hw) (buf : Nat → Nat)
    (hrd : ∀ v, P (Ev.rd .MPSTS v)) (hb : ∀ i, P (Ev.buf i))
    (h0 : ∀ v, P (Ev.wr .MPDAT0 v)) (h1 : ∀ v, P (Ev.wr .MPDAT1 v))
    (h2 : ∀ v, P (Ev.wr .MPDAT2 v)) (h3 : ∀ v, P (Ev.wr .MPDAT3 v)) :
    ∀ (fuel : Nat) (l : WM) (s : St) (out : Option Int × WM × St),
      wmFor h hw buf fuel l s = some out → TraceExt P s out.2.2 := by
  intro fuel
  induction fuel with
  | zero =>
    intro l s out hres
    simp [wmFor] at hres
  | succ fuel ih =>
    intro l s out hres
    rw [wmFor] at hres
    dsimp only at hres
    have t1 := traceExt_waitWhile P hw .MPSTS (h.FMC_MPSTS_D0_Msk ||| h.FMC_MPSTS_D1_Msk) hrd
      h.FMC_TIMEOUT_WRITE s
    set w1 := waitWhile hw .MPSTS (h.FMC_MPSTS_D0_Msk ||| h.FMC_MPSTS_D1_Msk)
      h.FMC_TIMEOUT_WRITE s
    set l1 := count8 l
    have t2 : TraceExt P s (rd hw .MPSTS w1.2).2 :=
      traceExt_trans P _ _ _ t1 (traceExt_rd P hw .MPSTS _ hrd)
    set b1 := rd hw .MPSTS w1.2
    have t3 : TraceExt P s
        (ldBuf buf .MPDAT1 (ldBuf buf .MPDAT0 l1 b1.2).1 (ldBuf buf .MPDAT0 l1 b1.2).2).2 :=
      traceExt_trans P _ _ _ (traceExt_trans P _ _ _ t2 (traceExt_ldBuf P buf .MPDAT0 _ _ hb h0))
        (traceExt_ldBuf P buf .MPDAT1 _ _ hb h1)
    set p1 := ldBuf buf .MPDAT1 (ldBuf buf .MPDAT0 l1 b1.2).1 (ldBuf buf .MPDAT0 l1 b1.2).2
    have t4 : TraceExt P s (waitWhile hw .MPSTS (h.FMC_MPSTS_D2_Msk ||| h.FMC_MPSTS_D3_Msk)
        h.FMC_TIMEOUT_WRITE p1.2).2 :=
      traceExt_trans P _ _ _ t3 (traceExt_waitWhile P hw .MPSTS _ hrd _ _)
    set w2 := waitWhile hw .MPSTS (h.FMC_MPSTS_D2_Msk ||| h.FMC_MPSTS_D3_Msk)
      h.FMC_TIMEOUT_WRITE p1.2
    set l2 := count8 p1.1
    have t5 : TraceExt P s (rd hw .MPSTS w2.2).2 :=
      traceExt_trans P _ _ _ t4 (traceExt_rd P hw .MPSTS _ hrd)
    set b2 := rd hw .MPSTS w2.2
    have t6 : TraceExt P s
        (ldBuf buf .MPDAT3 (ldBuf buf .MPDAT2 l2 b2.2).1 (ldBuf buf .MPDAT2 l2 b2.2).2).2 :=
      traceExt_trans P _ _ _ (traceExt_trans P _ _ _ t5 (traceExt_ldBuf P buf .MPDAT2 _ _ hb h2))
        (traceExt_ldBuf P buf .MPDAT3 _ _ hb h3)
    split_ifs at hres with c1 c2 c3 c4 c5 c6 c7 c8
    · cases hres
      exact t1
    · cases hres
      exact t1
    · cases hres
      exact t2
    · cases hres
      exact t3
    · cases hres
      exact t4
    · cases hres
      exact t4
    · cases hres
      exact t5
    · exact traceExt_trans P _ _ _ t6 (ih _ _ out hres)
    · cases hres
      exact traceExt_refl P s

theorem wmFor_i (h : Hdr) (hw : Hw) (buf : Nat → Nat) :
    ∀ (fuel : Nat) (l : WM) (s : St) (out : Option Int × WM × St),
      l.i = 16 → wmFor h hw buf fuel l s = some out → out.2.1.i = 16 ∨ out.2.1.i = 24 := by
  intro fuel
  induction fuel with
  | zero =>
    intro l s out _ hres
    simp [wmFor] at hres
  | succ fuel ih =>
    intro l s out hi hres
    rw [wmFor] at hres
    dsimp only at hres
    have hi1 : (count8 l).i = 16 := by rw [count8_i]; exact hi
    set w1 := waitWhile hw .MPSTS (h.FMC_MPSTS_D0_Msk ||| h.FMC_MPSTS_D1_Msk)
      h.FMC_TIMEOUT_WRITE s
    set l1 := count8 l
    set b1 := rd hw .MPSTS w1.2
    set p1 := ldBuf buf .MPDAT1 (ldBuf buf .MPDAT0 l1 b1.2).1 (ldBuf buf .MPDAT0 l1 b1.2).2
    have hp1 : p1.1.i = 16 := by rw [ldBuf_i, ldBuf_i]; exact hi1
    have hi2 : (count8 p1.1).i = 16 := by rw [count8_i]; exact hp1
    split_ifs at hres with c1 c2 c3 c4 c5 c6 c7 c8
    · cases hres
      exact Or.inl hi
    · cases hres
      exact Or.inl hi1
    · cases hres
      right
      show l1.i + 8 = 24
      rw [hi1]
    · cases hres
      exact Or.inl hp1
    · cases hres
      exact Or.inl hp1
    · cases hres
      exact Or.inl hi2
    · cases hres
      right
      show (count8 p1.1).i + 8 = 24
      rw [hi2]
    · exact ih _ _ out (by rw [ldBuf_i, ldBuf_i]; exact hi2) hres
    · cases hres
      exact Or.inl hi

theorem wmStart_trace (h : Hdr) (buf : Nat → Nat) (l : WM) (s : St) :
    (wmStart h buf l s).2.trace = s.trace ++ Ev.wr .ISPADDR (l.u32Addr % 2 ^ 32) ::
      [Ev.buf l.idx, Ev.wr .MPDAT0 (buf l.idx % 2 ^ 32),
       Ev.buf (l.idx + 1), Ev.wr .MPDAT1 (buf (l.idx + 1) % 2 ^ 32),
       Ev.buf (l.idx + 1 + 1), Ev.wr .MPDAT2 (buf (l.idx + 1 + 1) % 2 ^ 32),
       Ev.buf (l.idx + 1 + 1 + 1), Ev.wr .MPDAT3 (buf (l.idx + 1 + 1 + 1) % 2 ^ 32),
       Ev.wr .ISPCMD (h.FMC_ISPCMD_PROGRAM_MUL % 2 ^ 32),
       Ev.wr .ISPTRG (h.FMC_ISPTRG_ISPGO_Msk % 2 ^ 32)] := by
  simp [wmStart, ldBuf, wr]

theorem noAddrWrite_start (h : Hdr) (buf : Nat → Nat) (l : WM) (ext : List Ev)
    (hext : ∀ e ∈ ext, NoAddrWrite e) :
    ∀ e ∈ [Ev.buf l.idx, Ev.wr .MPDAT0 (buf l.idx % 2 ^ 32),
       Ev.buf (l.idx + 1), Ev.wr .MPDAT1 (buf (l.idx + 1) % 2 ^ 32),
       Ev.buf (l.idx + 1 + 1), Ev.wr .MPDAT2 (buf (l.idx + 1 + 1) % 2 ^ 32),
       Ev.buf (l.idx + 1 + 1 + 1), Ev.wr .MPDAT3 (buf (l.idx + 1 + 1 + 1) % 2 ^ 32),
       Ev.wr .ISPCMD (h.FMC_ISPCMD_PROGRAM_MUL % 2 ^ 32),
       Ev.wr .ISPTRG (h.FMC_ISPTRG_ISPGO_Msk % 2 ^ 32)] ++ ext, NoAddrWrite e := by
  intro e he
  rw [List.mem_append] at he
  rcases he with he | he
  · simp only [List.mem_cons, List.mem_singleton, List.not_mem_nil, or_false] at he
    intro v hv
    rcases he with he | he | he | he | he | he | he | he | he | he <;>
      · rw [he] at hv
        cases hv
  · exact hext e he

theorem wmWhile_one_burst (h : Hdr) (hw : Hw) (buf : Nat → Nat)
    (hL16 : h.FMC_MULTI_WORD_PROG_LEN ≠ 16) (hL24 : h.FMC_MULTI_WORD_PROG_LEN ≠ 24)
    (fuel : Nat) (l : WM) (s : St) (r : Int × WM × St)
    (hres : wmWhile h hw buf fuel l s = some r) :
    r.2.2.trace = s.trace ∨
      ∃ rest, r.2.2.trace = s.trace ++ Ev.wr .ISPADDR (l.u32Addr % 2 ^ 32) :: rest ∧
        ∀ e ∈ rest, NoAddrWrite e := by
  cases fuel with
  | zero => simp [wmWhile] at hres
  | succ fuel =>
    rw [wmWhile] at hres
    split_ifs at hres with c1
    swap
    · cases hres
      exact Or.inl rfl
    · right
      rcases hfor : wmFor h hw buf (fuel + 1) (wmStart h buf l s).1 (wmStart h buf l s).2
        with _ | ⟨v, l', s'⟩
      · rw [hfor] at hres
        cases hres
      · rw [hfor] at hres
        obtain ⟨ext, hext, hP⟩ := traceExt_wmFor NoAddrWrite h hw buf
          (fun v w hw1 => by cases hw1) (fun i w hw1 => by cases hw1)
          (fun v w hw1 => by cases hw1) (fun v w hw1 => by cases hw1)
          (fun v w hw1 => by cases hw1) (fun v w hw1 => by cases hw1) _ _ _ _ hfor
        have hi := wmFor_i h hw buf _ _ _ _ (wmStart_i h buf l s) hfor
        have htr : s'.trace = s.trace ++ Ev.wr .ISPADDR (l.u32Addr % 2 ^ 32) ::
            ([Ev.buf l.idx, Ev.wr .MPDAT0 (buf l.idx % 2 ^ 32),
              Ev.buf (l.idx + 1), Ev.wr .MPDAT1 (buf (l.idx + 1) % 2 ^ 32),
              Ev.buf (l.idx + 1 + 1), Ev.wr .MPDAT2 (buf (l.idx + 1 + 1) % 2 ^ 32),
              Ev.buf (l.idx + 1 + 1 + 1), Ev.wr .MPDAT3 (buf (l.idx + 1 + 1 + 1) % 2 ^ 32),
              Ev.wr .ISPCMD (h.FMC_ISPCMD_PROGRAM_MUL % 2 ^ 32),
              Ev.wr .ISPTRG (h.FMC_ISPTRG_ISPGO_Msk % 2 ^ 32)] ++ ext) := by
          have : s'.trace = (wmStart h buf l s).2.trace ++ ext := hext
          rw [this, wmStart_trace, List.append_assoc]
          rfl
        have hrest := noAddrWrite_start h buf l ext hP
        cases v with
        | some v =>
          dsimp only at hres
          cases hres
          exact ⟨_, htr, hrest⟩
        | none =>
          dsimp only at hres
          have hne : l'.i ≠ h.FMC_MULTI_WORD_PROG_LEN := by
            intro e
            rcases hi with hi | hi
            · exact hL16 (by rw [← e]; exact hi)
            · exact hL24 (by rw [← e]; exact hi)
          rw [if_pos hne] at hres
          cases hres
          exact ⟨_, htr, hrest⟩

theorem traceExt_wmWhile (P : Ev → Prop) (h : Hdr) (hw : Hw) (buf : Nat → Nat)
    (hP : ∀ e, P e) :
    ∀ (fuel : Nat) (l : WM) (s : St) (r : Int × WM × St),
      wmWhile h hw buf fuel l s = some r → TraceExt P s r.2.2 := by
  intro fuel
  induction fuel with
  | zero =>
    intro l s r hres
    simp [wmWhile] at hres
  | succ fuel ih =>
    intro l s r hres
    rw [wmWhile] at hres
    split_ifs at hres with c1
    swap
    · cases hres
      exact traceExt_refl P s
    · rcases hfor : wmFor h hw buf (fuel + 1) (wmStart h buf l s).1 (wmStart h buf l s).2
        with _ | ⟨v, l', s'⟩
      · rw [hfor] at hres
        cases hres
      · rw [hfor] at hres
        have tf := traceExt_wmFor P h hw buf (fun _ => hP _) (fun _ => hP _) (fun _ => hP _)
          (fun _ => hP _) (fun _ => hP _) (fun _ => hP _) _ _ _ _ hfor
        have ts : TraceExt P s (wmStart h buf l s).2 :=
          ⟨_, wmStart_trace h buf l s, fun e _ => hP e⟩
        have t1 : TraceExt P s s' := traceExt_trans P _ _ _ ts tf
        cases v with
        | some v =>
          dsimp only at hres
          cases hres
          exact t1
        | none =>
          dsimp only at hres
          have t2 : TraceExt P s (waitWhile hw .MPSTS h.FMC_MPSTS_MPBUSY_Msk
              h.FMC_TIMEOUT_WRITE s').2 :=
            traceExt_trans P _ _ _ t1 (traceExt_waitWhile P hw .MPSTS _ (fun _ => hP _) _ _)
          split_ifs at hres with c2 c3
          · cases hres
            exact t1
          · cases hres
            exact t2
          · exact traceExt_trans P _ _ _ t2 (ih _ _ r hres)

theorem wmWhile_reads_start (h : Hdr) (hw : Hw) (buf : Nat → Nat)
    (fuel : Nat) (l : WM) (s : St) (r : Int × WM × St) (h8 : 8 ≤ l.u32Len)
    (hres : wmWhile h hw buf fuel l s = some r) :
    ∃ ext, r.2.2.trace = s.trace ++ ext ∧ Ev.buf (l.idx + 1 + 1 + 1) ∈ ext := by
  cases fuel with
  | zero => simp [wmWhile] at hres
  | succ fuel =>
    rw [wmWhile] at hres
    have c1 : l.u32Len ≥ 8 := h8
    rw [if_neg (not_not.mpr c1)] at hres
    rcases hfor : wmFor h hw buf (fuel + 1) (wmStart h buf l s).1 (wmStart h buf l s).2
      with _ | ⟨v, l', s'⟩
    · rw [hfor] at hres
      cases hres
    · rw [hfor] at hres
      obtain ⟨e1, he1, -⟩ := traceExt_wmFor (fun _ => True) h hw buf (fun _ => trivial)
        (fun _ => trivial) (fun _ => trivial) (fun _ => trivial) (fun _ => trivial)
        (fun _ => trivial) _ _ _ _ hfor
      have hs' : s'.trace = (wmStart h buf l s).2.trace ++ e1 := he1
      have hrs : TraceExt (fun _ => True) s' r.2.2 := by
        cases v with
        | some v =>
          dsimp only at hres
          cases hres
          exact traceExt_refl _ _
        | none =>
          dsimp only at hres
          have t2 := traceExt_waitWhile (fun _ => True) hw .MPSTS h.FMC_MPSTS_MPBUSY_Msk
            (fun _ => trivial) h.FMC_TIMEOUT_WRITE s'
          split_ifs at hres with c2 c3
          · cases hres
            exact traceExt_refl _ _
          · cases hres
            exact t2
          · exact traceExt_trans _ _ _ _ t2
              (traceExt_wmWhile (fun _ => True) h hw buf (fun _ => trivial) _ _ _ _ hres)
      obtain ⟨e2, he2, -⟩ := hrs
      refine ⟨Ev.wr .ISPADDR (l.u32Addr % 2 ^ 32) :: ([Ev.buf l.idx, Ev.wr .MPDAT0 (buf l.idx % 2 ^ 32),
              Ev.buf (l.idx + 1), Ev.wr .MPDAT1 (buf (l.idx + 1) % 2 ^ 32),
              Ev.buf (l.idx + 1 + 1), Ev.wr .MPDAT2 (buf (l.idx + 1 + 1) % 2 ^ 32),
              Ev.buf (l.idx + 1 + 1 + 1), Ev.wr .MPDAT3 (buf (l.idx + 1 + 1 + 1) % 2 ^ 32),
              Ev.wr .ISPCMD (h.FMC_ISPCMD_PROGRAM_MUL % 2 ^ 32),
              Ev.wr .ISPTRG (h.FMC_ISPTRG_ISPGO_Msk % 2 ^ 32)] ++ e1 ++ e2), ?_, ?_⟩
      · rw [he2, hs', wmStart_trace]
        simp only [List.append_assoc, List.cons_append]
      · simp

theorem waitWhile_ready (hw : Hw) (r : Reg) (m N : Nat) (s : St) (hN : 1 < N)
    (hr : (hw s.trace r % 2 ^ 32) &&& m = 0) : ¬ (waitWhile hw r m N s).1 ≤ 0 := by
  obtain ⟨n, rfl⟩ : ∃ n, N = n + 1 := ⟨N - 1, by omega⟩
  rw [waitWhile]
  have hc : ¬ ((rd hw r s).1 &&& m ≠ 0) := not_not.mpr hr
  rw [if_neg hc]
  show ¬ ((n : Int) ≤ 0)
  omega

theorem wmFor_busy (h : Hdr) (hw : Hw) (buf : Nat → Nat) (R : Nat) (hR : R < 2 ^ 31)
    (hT : 1 < h.FMC_TIMEOUT_WRITE) (hL : 16 < h.FMC_MULTI_WORD_PROG_LEN)
    (hL4 : h.FMC_MULTI_WORD_PROG_LEN / 4 ≠ 16) (hhw : MpBusyHw h hw) :
    ∀ (fuel : Nat) (l : WM) (s : St), WMInv R l → l.i = 16 → 8 ≤ l.u32Len →
      l.u32Len < 16 * fuel + 8 →
      ∃ l' s', wmFor h hw buf fuel l s = some (some (R : Int), l', s') ∧
        4 * l'.idx + 8 = 4 * l.idx + l.u32Len := by
  intro fuel
  induction fuel with
  | zero =>
    intro l s _ _ h8 hlt
    omega
  | succ fuel ih =>
    intro l s hi hi16 h8 hlt
    rw [wmFor]
    dsimp only
    have hw1 := waitWhile_ready hw .MPSTS (h.FMC_MPSTS_D0_Msk ||| h.FMC_MPSTS_D1_Msk)
      h.FMC_TIMEOUT_WRITE s hT (hhw _).1
    set w1 := waitWhile hw .MPSTS (h.FMC_MPSTS_D0_Msk ||| h.FMC_MPSTS_D1_Msk)
      h.FMC_TIMEOUT_WRITE s
    obtain ⟨hi1, hl1⟩ := count8_inv R l hR hi h8
    have hb1 : ¬ ((rd hw .MPSTS w1.2).1 &&& h.FMC_MPSTS_MPBUSY_Msk = 0) := (hhw _).2.2
    have hidx1 : (count8 l).idx = l.idx := rfl
    set l1 := count8 l
    set b1 := rd hw .MPSTS w1.2
    have hp1i : (ldBuf buf .MPDAT1 (ldBuf buf .MPDAT0 l1 b1.2).1
        (ldBuf buf .MPDAT0 l1 b1.2).2).1.i = 16 := by
      rw [ldBuf_i, ldBuf_i, count8_i]
      exact hi16
    have hp1x : (ldBuf buf .MPDAT1 (ldBuf buf .MPDAT0 l1 b1.2).1
        (ldBuf buf .MPDAT0 l1 b1.2).2).1.idx = l.idx + 1 + 1 := rfl
    have hp1l : (ldBuf buf .MPDAT1 (ldBuf buf .MPDAT0 l1 b1.2).1
        (ldBuf buf .MPDAT0 l1 b1.2).2).1.u32Len = l1.u32Len := rfl
    have hp1inv : WMInv R (ldBuf buf .MPDAT1 (ldBuf buf .MPDAT0 l1 b1.2).1
        (ldBuf buf .MPDAT0 l1 b1.2).2).1 := WMInv_congr R l1 _ rfl rfl hi1
    set p1 := ldBuf buf .MPDAT1 (ldBuf buf .MPDAT0 l1 b1.2).1 (ldBuf buf .MPDAT0 l1 b1.2).2
    have hw2 := waitWhile_ready hw .MPSTS (h.FMC_MPSTS_D2_Msk ||| h.FMC_MPSTS_D3_Msk)
      h.FMC_TIMEOUT_WRITE p1.2 hT (hhw _).2.1
    set w2 := waitWhile hw .MPSTS (h.FMC_MPSTS_D2_Msk ||| h.FMC_MPSTS_D3_Msk)
      h.FMC_TIMEOUT_WRITE p1.2
    have hb2 : ¬ ((rd hw .MPSTS w2.2).1 &&& h.FMC_MPSTS_MPBUSY_Msk = 0) := (hhw _).2.2
    have hd1 : 8 ∣ l1.u32Len := hi1.2.2.2
    split_ifs with c1 c2 c3 c4
    · have hz : l1.u32Len = 0 := by omega
      have hs := hi1.2.1
      rw [hz] at hs
      have hv : l1.retval = (R : Int) := by simpa using hs
      refine ⟨l1, w1.2, by rw [hv], ?_⟩
      rw [hidx1]
      omega
    · exact absurd (hp1i.symm.trans c3).symm hL4
    · have h8' : 8 ≤ p1.1.u32Len := by rw [hp1l]; omega
      obtain ⟨hi2, hl2⟩ := count8_inv R p1.1 hR hp1inv h8'
      have hz : (count8 p1.1).u32Len = 0 := by
        have := hi2.2.2.2
        omega
      have hs := hi2.2.1
      rw [hz] at hs
      have hv : (count8 p1.1).retval = (R : Int) := by simpa using hs
      refine ⟨count8 p1.1, w2.2, by rw [hv], ?_⟩
      show 4 * p1.1.idx + 8 = 4 * l.idx + l.u32Len
      rw [hp1x]
      rw [hp1l] at hl2
      omega
    · have h8' : 8 ≤ p1.1.u32Len := by rw [hp1l]; omega
      obtain ⟨hi2, hl2⟩ := count8_inv R p1.1 hR hp1inv h8'
      rw [hp1l] at hl2
      obtain ⟨l', s', e, hx⟩ := ih
        (ldBuf buf .MPDAT3 (ldBuf buf .MPDAT2 (count8 p1.1) (rd hw .MPSTS w2.2).2).1
          (ldBuf buf .MPDAT2 (count8 p1.1) (rd hw .MPSTS w2.2).2).2).1
        (ldBuf buf .MPDAT3 (ldBuf buf .MPDAT2 (count8 p1.1) (rd hw .MPSTS w2.2).2).1
          (ldBuf buf .MPDAT2 (count8 p1.1) (rd hw .MPSTS w2.2).2).2).2
        (WMInv_congr R (count8 p1.1) _ rfl rfl hi2)
        (by rw [ldBuf_i, ldBuf_i, count8_i]; exact hp1i)
        (by rw [ldBuf_u32Len, ldBuf_u32Len]; omega)
        (by rw [ldBuf_u32Len, ldBuf_u32Len]; omega)
      refine ⟨l', s', e, ?_⟩
      rw [hx, ldBuf_u32Len, ldBuf_u32Len]
      show 4 * (p1.1.idx + 1 + 1) + (count8 p1.1).u32Len = 4 * l.idx + l.u32Len
      rw [hp1x]
      omega
    · omega

theorem wmWhile_busy (h : Hdr) (hw : Hw) (buf : Nat → Nat) (R : Nat) (hR : R < 2 ^ 31)
    (hT : 1 < h.FMC_TIMEOUT_WRITE) (hL : 16 < h.FMC_MULTI_WORD_PROG_LEN)
    (hL4 : h.FMC_MULTI_WORD_PROG_LEN / 4 ≠ 16) (hhw : MpBusyHw h hw)
    (fuel : Nat) (l : WM) (s : St) (hi : WMInv R l) (h8 : 8 ≤ l.u32Len)
    (hf : l.u32Len < 8 * fuel) :
    ∃ l' s', wmWhile h hw buf fuel l s = some ((R : Int), l', s') ∧
      4 * l'.idx = 4 * l.idx + l.u32Len + 8 := by
  obtain ⟨fuel, rfl⟩ : ∃ n, fuel = n + 1 := ⟨fuel - 1, by omega⟩
  rw [wmWhile]
  have c1 : l.u32Len ≥ 8 := h8
  rw [if_neg (not_not.mpr c1)]
  obtain ⟨l', s', e, hx⟩ := wmFor_busy h hw buf R hR hT hL hL4 hhw (fuel + 1)
    (wmStart h buf l s).1 (wmStart h buf l s).2
    (WMInv_congr R l _ (wmStart_retval h buf l s) (wmStart_u32Len h buf l s) hi)
    (wmStart_i h buf l s) (by rw [wmStart_u32Len]; exact h8) (by rw [wmStart_u32Len]; omega)
  rw [e]
  refine ⟨l', s', rfl, ?_⟩
  have : (wmStart h buf l s).1.idx = l.idx + 1 + 1 + 1 + 1 := rfl
  rw [this, wmStart_u32Len] at hx
  omega

theorem hwMpBusy_spec : MpBusyHw m480 hwMpBusy := by
  intro t
  show (1 % 2 ^ 32) &&& (0x10 ||| 0x20) = 0 ∧ (1 % 2 ^ 32) &&& (0x40 ||| 0x80) = 0 ∧
    (1 % 2 ^ 32) &&& 0x1 ≠ 0
  decide

theorem FMC_WriteMultiple_1024_single_address :
    ∃ l st, FMC_WriteMultiple m480 hwMpBusy 130 0 (fun i => i) 1024 st0 = some (1024, l, st) ∧
      l.idx = 258 ∧ Ev.wr .ISPADDR 512 ∉ st.trace := by
  rw [FMC_WriteMultiple_valid m480 hwMpBusy 130 0 (fun i => i) 1024 st0 (by decide) (by decide)]
  obtain ⟨l, st, e, hx⟩ := wmWhile_busy m480 hwMpBusy (fun i => i) (1024 - 1024 % 8) (by decide)
    (by decide) (by decide) (by decide) hwMpBusy_spec 130 _ (setErr 0 st0) (WMInv_init 0 1024)
    (by decide) (by decide)
  have hb := wmWhile_one_burst m480 hwMpBusy (fun i => i) (by decide) (by decide) 130 _ _ _ e
  refine ⟨l, st, e, ?_, ?_⟩
  · have hx' : 4 * l.idx = 4 * 0 + (1024 - 1024 % 8) + 8 := hx
    omega
  · rcases hb with hb | ⟨rest, hb, hn⟩
    · have hb' : st.trace = [] := hb
      rw [hb']
      exact List.not_mem_nil _
    · have hb' : st.trace = [] ++ Ev.wr .ISPADDR (0 % 2 ^ 32) :: rest := hb
      rw [hb']
      intro hm
      simp only [List.nil_append, List.mem_cons] at hm
      rcases hm with hm | hm
      · injection hm with _ h2
        exact absurd h2 (by decide)
      · exact hn _ hm 512 rfl

/-- C25: with a burst length other than 16 and 24 (it is 512 on this chip), a call
of `FMC_WriteMultiple` on a valid address returns, and it writes `ISPADDR` at most
once, with `u32Addr`, whatever the length and whatever the hardware does: the
loop variable `i` of the `for` loop never counts the bytes supplied, so the loop
is never left with `i == FMC_MULTI_WORD_PROG_LEN` and the function returns after
the first burst; `ISPADDR = u32Addr + FMC_MULTI_WORD_PROG_LEN` is never written.
On hardware that clears the data flags at once and keeps MPBUSY set, the call
returns the whole rounded length, also when that exceeds the burst length. -/
theorem C25_ISPADDR_written_once (h : Hdr) (hw : Hw) (fuel a : Nat) (buf : Nat → Nat)
    (len : Nat) (s : St) (ha : a % 8 = 0) (hend : a < h.FMC_APROM_END)
    (hL16 : h.FMC_MULTI_WORD_PROG_LEN ≠ 16) (hL24 : h.FMC_MULTI_WORD_PROG_LEN ≠ 24) :
    WriteMultipleOneBurst h hw fuel a buf len s := by
  rw [WriteMultipleOneBurst, FMC_WriteMultiple_valid h hw fuel a buf len s ha hend]
  refine ⟨fun hlen hf => ?_, fun r hres => ?_, fun hT hL hL4 hhw hlen h8 hf => ?_⟩
  · exact wmWhile_total h hw buf _ (by omega) hL16 fuel _ _ (WMInv_init a len) rfl (by
      show len - len % 8 < 8 * fuel
      omega)
  · exact wmWhile_one_burst h hw buf hL16 hL24 fuel _ _ r hres
  · obtain ⟨l, st, e, -⟩ := wmWhile_busy h hw buf (len - len % 8) (by omega) hT hL hL4 hhw fuel
      _ (setErr 0 s) (WMInv_init a len) (by show 8 ≤ len - len % 8; omega)
      (by show len - len % 8 < 8 * fuel; omega)
    exact ⟨l, st, e⟩

theorem C25_ISPADDR_written_once_witness :
    (0 % 8 = 0 ∧ 0 < m480.FMC_APROM_END ∧ m480.FMC_MULTI_WORD_PROG_LEN ≠ 16 ∧
      m480.FMC_MULTI_WORD_PROG_LEN ≠ 24) ∧
      WriteMultipleOneBurst m480 hwMpBusy 130 0 (fun i => i) 1024 st0 :=
  ⟨⟨by decide, by decide, by decide, by decide⟩,
   C25_ISPADDR_written_once m480 hwMpBusy 130 0 (fun i => i) 1024 st0 (by decide) (by decide)
     (by decide) (by decide)⟩

/-- C29: for a valid address and `8 <= u32Len < 16`, whatever the hardware does,
`FMC_WriteMultiple` returns and has loaded buffer word 3 (`pu32Buf[3]`), which is
not below `u32Len / 4`: the start of a burst loads four words into
`MPDAT0..MPDAT3` once `u32Len >= 8`, before any further length check. -/
theorem C29_short_input_reads_past_buffer (h : Hdr) (hw : Hw) (fuel a : Nat) (buf : Nat → Nat)
    (len : Nat) (s : St) (ha : a % 8 = 0) (hend : a < h.FMC_APROM_END) (h8 : 8 ≤ len)
    (h16 : len < 16) : WriteMultipleOverRead h hw fuel a buf len s := by
  rw [WriteMultipleOverRead, FMC_WriteMultiple_valid h hw fuel a buf len s ha hend]
  refine ⟨fun hL16 hf => ?_, fun r hres => ?_⟩
  · exact wmWhile_total h hw buf _ (by omega) hL16 fuel _ _ (WMInv_init a len) rfl (by
      show len - len % 8 < 8 * fuel
      omega)
  · obtain ⟨ext, he, hm⟩ := wmWhile_reads_start h hw buf fuel _ _ r (by
      show 8 ≤ len - len % 8
      omega) hres
    exact ⟨ext, he, hm, by omega⟩

theorem C29_short_input_reads_past_buffer_witness :
    (0 % 8 = 0 ∧ 0 < m480.FMC_APROM_END ∧ 8 ≤ 8 ∧ 8 < 16) ∧
      WriteMultipleOverRead m480 hwIdle 2 0 (fun i => i) 8 st0 ∧
      (FMC_WriteMultiple m480 hwIdle 2 0 (fun i => 0x100 + i) 8 st0).map
          (fun r => (r.1, r.2.2.trace)) =
        some (8, [Ev.wr .ISPADDR 0, Ev.buf 0, Ev.wr .MPDAT0 0x100, Ev.buf 1, Ev.wr .MPDAT1 0x101,
          Ev.buf 2, Ev.wr .MPDAT2 0x102, Ev.buf 3, Ev.wr .MPDAT3 0x103, Ev.wr .ISPCMD 0x27,
          Ev.wr .ISPTRG 1, Ev.rd .MPSTS 0]) :=
  ⟨⟨by decide, by decide, by decide, by decide⟩,
   C29_short_input_reads_past_buffer m480 hwIdle 2 0 (fun i => i) 8 st0 (by decide) (by decide)
     (by decide) (by decide), by decide⟩

end FMC

namespace SD

theorem rw_keep (card : Card) (b : Nat) (s : St) :
    (SD_SPI_ReadWriteByte card b s).2.cmds = s.cmds ∧
      (SD_SPI_ReadWriteByte card b s).2.SD_Type = s.SD_Type := ⟨rfl, rfl⟩

theorem SD_DisSelect_keep (card : Card) (s : St) :
    (SD_DisSelect card s).cmds = s.cmds ∧ (SD_DisSelect card s).SD_Type = s.SD_Type :=
  ⟨rfl, rfl⟩

theorem waitReadyLoop_keep (card : Card) :
    ∀ (n : Nat) (s : St), (waitReadyLoop card n s).2.cmds = s.cmds ∧
      (waitReadyLoop card n s).2.SD_Type = s.SD_Type
  | 0, _ => ⟨rfl, rfl⟩
  | n + 1, s => by
    rw [waitReadyLoop]
    split
    · exact ⟨rfl, rfl⟩
    · exact waitReadyLoop_keep card n _

theorem SD_Select_keep (card : Card) (s : St) :
    (SD_Select card s).2.cmds = s.cmds ∧ (SD_Select card s).2.SD_Type = s.SD_Type := by
  have hk := waitReadyLoop_keep card 0xFFFFFF (setCS false s)
  simp only [SD_Select, SD_WaitReady]
  split
  · exact hk
  · exact hk

theorem respLoop_keep (card : Card) :
    ∀ (n : Nat) (s : St), (respLoop card n s).2.cmds = s.cmds ∧
      (respLoop card n s).2.SD_Type = s.SD_Type
  | 0, _ => ⟨rfl, rfl⟩
  | n + 1, s => by
    rw [respLoop]
    split
    · exact respLoop_keep card n _
    · exact ⟨rfl, rfl⟩

theorem sendCmdBody_keep (h : Hdr) (card : Card) (cmd arg crc : Nat) (s : St) :
    (sendCmdBody h card cmd arg crc s).2.cmds = s.cmds ∧
      (sendCmdBody h card cmd arg crc s).2.SD_Type = s.SD_Type := by
  have hsel := SD_Select_keep card (SD_DisSelect card s)
  simp only [sendCmdBody]
  split
  · exact hsel
  · split
    · have hr := respLoop_keep card 0x1F (SD_SPI_ReadWriteByte card 0xff
        (SD_SPI_ReadWriteByte card crc (SD_SPI_ReadWriteByte card arg
          (SD_SPI_ReadWriteByte card (arg >>> 8) (SD_SPI_ReadWriteByte card (arg >>> 16)
            (SD_SPI_ReadWriteByte card (arg >>> 24) (SD_SPI_ReadWriteByte card (cmd ||| 0x40)
              (SD_Select card (SD_DisSelect card s)).2).2).2).2).2).2).2).2
      exact ⟨hr.1.trans hsel.1, hr.2.trans hsel.2⟩
    · have hr := respLoop_keep card 0x1F
        (SD_SPI_ReadWriteByte card crc (SD_SPI_ReadWriteByte card arg
          (SD_SPI_ReadWriteByte card (arg >>> 8) (SD_SPI_ReadWriteByte card (arg >>> 16)
            (SD_SPI_ReadWriteByte card (arg >>> 24) (SD_SPI_ReadWriteByte card (cmd ||| 0x40)
              (SD_Select card (SD_DisSelect card s)).2).2).2).2).2).2).2
      exact ⟨hr.1.trans hsel.1, hr.2.trans hsel.2⟩

theorem SD_SendCmd_cmds (h : Hdr) (card : Card) (cmd arg crc : Nat) (s : St) :
    (SD_SendCmd h card cmd arg crc s).2.cmds = s.cmds ++
      [{ cmd := cmd % 256, arg := arg % 2 ^ 32, crc := crc % 256,
         r1 := (SD_SendCmd h card cmd arg crc s).1 }] := by
  simp only [SD_SendCmd, (sendCmdBody_keep h card _ _ _ s).1]

theorem SD_SendCmd_type (h : Hdr) (card : Card) (cmd arg crc : Nat) (s : St) :
    (SD_SendCmd h card cmd arg crc s).2.SD_Type = s.SD_Type := by
  simp only [SD_SendCmd, (sendCmdBody_keep h card _ _ _ s).2]

theorem reads_succ (card : Card) (k : Nat) (l : List BusEv) :
    reads card (k + 1) l = reads card k (l ++ [BusEv.xfer 0xFF (card l 0xFF % 256)]) := by
  simp [reads, writes, List.replicate_succ]

theorem rxAt_succ (card : Card) (j : Nat) (l : List BusEv) :
    rxAt card l (j + 1) = rxAt card (l ++ [BusEv.xfer 0xFF (card l 0xFF % 256)]) j := by
  simp only [rxAt, reads_succ]

theorem respLoop_spec (card : Card) :
    ∀ (n : Nat) (s : St), ∃ k, 1 ≤ k ∧ k ≤ n + 1 ∧
      (respLoop card n s).2.log = reads card k s.log ∧
      (respLoop card n s).1 = rxAt card s.log (k - 1) ∧
      (∀ j, j + 1 < k → rxAt card s.log j &&& 0x80 ≠ 0) ∧
      ((respLoop card n s).1 &&& 0x80 = 0 ∨ k = n + 1)
  | 0, s => ⟨1, le_refl _, le_refl _, by simp [respLoop, SD_SPI_ReadWriteByte, reads, writes],
      by simp [respLoop, SD_SPI_ReadWriteByte, rxAt, reads, writes],
      fun j hj => by omega, Or.inr rfl⟩
  | n + 1, s => by
    by_cases hb : (SD_SPI_ReadWriteByte card 0xFF s).1 &&& 0x80 ≠ 0
    · obtain ⟨k, h1, h2, h3, h4, h5, h6⟩ := respLoop_spec card n (SD_SPI_ReadWriteByte card 0xFF s).2
      have hlog : (SD_SPI_ReadWriteByte card 0xFF s).2.log =
          s.log ++ [BusEv.xfer 0xFF (card s.log 0xFF % 256)] := by
        simp [SD_SPI_ReadWriteByte]
      rw [hlog] at h3 h4 h5
      refine ⟨k + 1, by omega, by omega, ?_, ?_, ?_, ?_⟩
      · rw [respLoop, if_pos hb, h3, reads_succ]
      · rw [respLoop, if_pos hb, h4]
        obtain ⟨k', rfl⟩ : ∃ k', k = k' + 1 := ⟨k - 1, by omega⟩
        simp only [Nat.add_sub_cancel]
        rw [rxAt_succ]
      · intro j hj
        cases j with
        | zero =>
          have : rxAt card s.log 0 = (SD_SPI_ReadWriteByte card 0xFF s).1 := by
            simp [rxAt, reads, writes, SD_SPI_ReadWriteByte]
          rw [this]
          exact hb
        | succ j =>
          rw [rxAt_succ]
          exact h5 j (by omega)
      · rw [respLoop, if_pos hb]
        rcases h6 with h6 | h6
        · exact Or.inl h6
        · exact Or.inr (by omega)
    · refine ⟨1, le_refl _, by omega, ?_, ?_, fun j hj => by omega, ?_⟩
      · rw [respLoop, if_neg hb]
        simp [SD_SPI_ReadWriteByte, reads, writes]
      · rw [respLoop, if_neg hb]
        simp [SD_SPI_ReadWriteByte, rxAt, reads, writes]
      · rw [respLoop, if_neg hb]
        exact Or.inl (not_not.mp hb)

theorem onlyFF_append (a b : List BusEv) (ha : OnlyFF a) (hb : OnlyFF b) : OnlyFF (a ++ b) := by
  intro e he tx rx hx
  rcases List.mem_append.mp he with h1 | h1
  · exact ha e h1 tx rx hx
  · exact hb e h1 tx rx hx

theorem waitReadyLoop_log (card : Card) :
    ∀ (n : Nat) (s : St), ∃ ext, (waitReadyLoop card n s).2.log = s.log ++ ext ∧ OnlyFF ext
  | 0, s => ⟨[], by simp [waitReadyLoop], by intro e he; cases he⟩
  | n + 1, s => by
    have h1 : OnlyFF [BusEv.xfer 0xFF (card s.log 0xFF % 256)] := by
      intro e he tx rx hx
      rw [List.mem_singleton] at he
      rw [he] at hx
      cases hx
      rfl
    rw [waitReadyLoop]
    split
    · exact ⟨[BusEv.xfer 0xFF (card s.log 0xFF % 256)], by simp [SD_SPI_ReadWriteByte], h1⟩
    · obtain ⟨ext, he, ho⟩ := waitReadyLoop_log card n (SD_SPI_ReadWriteByte card 0xFF s).2
      refine ⟨[BusEv.xfer 0xFF (card s.log 0xFF % 256)] ++ ext, ?_, onlyFF_append _ _ h1 ho⟩
      rw [he]
      simp [SD_SPI_ReadWriteByte]

theorem select_fail_log (card : Card) (s : St)
    (hf : (SD_Select card (SD_DisSelect card s)).1 ≠ 0) :
    ∃ ext, (SD_Select card (SD_DisSelect card s)).2.log = s.log ++ ext ∧ OnlyFF ext := by
  obtain ⟨ext, he, ho⟩ := waitReadyLoop_log card 0xFFFFFF (setCS false (SD_DisSelect card s))
  have hne : ¬ (waitReadyLoop card 0xFFFFFF (setCS false (SD_DisSelect card s))).1 = 0 := by
    intro h0
    apply hf
    simp only [SD_Select, SD_WaitReady, if_pos h0]
  have h0 : (setCS false (SD_DisSelect card s)).log =
      s.log ++ [BusEv.cs true, BusEv.xfer 0xFF (card (s.log ++ [BusEv.cs true]) 0xFF % 256),
        BusEv.cs false] := by
    simp [SD_DisSelect, SD_SPI_ReadWriteByte, setCS]
  have h1 : (SD_Select card (SD_DisSelect card s)).2.log =
      (waitReadyLoop card 0xFFFFFF (setCS false (SD_DisSelect card s))).2.log ++
        [BusEv.cs true, BusEv.xfer 0xFF (card ((waitReadyLoop card 0xFFFFFF
          (setCS false (SD_DisSelect card s))).2.log ++ [BusEv.cs true]) 0xFF % 256)] := by
    simp only [SD_Select, SD_WaitReady, if_neg hne]
    simp [SD_DisSelect, SD_SPI_ReadWriteByte, setCS]
  refine ⟨[BusEv.cs true, BusEv.xfer 0xFF (card (s.log ++ [BusEv.cs true]) 0xFF % 256),
      BusEv.cs false] ++ ext ++
      [BusEv.cs true, BusEv.xfer 0xFF (card ((waitReadyLoop card 0xFFFFFF
        (setCS false (SD_DisSelect card s))).2.log ++ [BusEv.cs true]) 0xFF % 256)], ?_, ?_⟩
  · rw [h1, he, h0]
    simp only [List.append_assoc]
  · intro e hmem tx rx hx
    simp only [List.mem_append, List.mem_cons, List.mem_singleton, List.not_mem_nil,
      or_false] at hmem
    rcases hmem with ((h1 | h1 | h1) | h1) | (h1 | h1)
    · rw [h1] at hx; cases hx
    · rw [h1] at hx; cases hx; rfl
    · rw [h1] at hx; cases hx
    · exact ho e h1 tx rx hx
    · rw [h1] at hx; cases hx
    · rw [h1] at hx; cases hx; rfl

theorem rw_eq_writes (card : Card) (b : Nat) (t : St) :
    (SD_SPI_ReadWriteByte card b t).2 = { t with log := writes card [b % 256] t.log } := by
  simp [writes, SD_SPI_ReadWriteByte, Nat.mod_mod]

theorem writes_writes (card : Card) :
    ∀ (a b : List Nat) (l : List BusEv),
      writes card b (writes card a l) = writes card (a ++ b) l
  | [], _, _ => rfl
  | x :: a, b, l => by
    simp only [writes, List.cons_append]
    exact writes_writes card a b _

theorem sendCmdBody_ok (h : Hdr) (card : Card) (cmd arg crc : Nat) (s : St)
    (hs : (SD_Select card (SD_DisSelect card s)).1 = 0) :
    sendCmdBody h card (cmd % 256) (arg % 2 ^ 32) (crc % 256) s =
      respLoop card 0x1F
        { (SD_Select card (SD_DisSelect card s)).2 with
          log := writes card (frame h cmd arg crc) (SD_Select card (SD_DisSelect card s)).2.log } := by
  have hs' : ¬ (SD_Select card (SD_DisSelect card s)).1 ≠ 0 := not_not.mpr hs
  simp only [sendCmdBody, if_neg hs', rw_eq_writes]
  by_cases hc : cmd % 256 = h.CMD12
  · simp only [if_pos hc, frame, writes_writes, Nat.mod_mod, List.cons_append, List.nil_append,
      List.singleton_append, Nat.reduceMod]
  · simp only [if_neg hc, frame, writes_writes, Nat.mod_mod, List.cons_append, List.nil_append,
      List.singleton_append, List.append_nil]

/-- C6: `SD_SendCmd(cmd, arg, crc)`, for every command, argument, CRC byte and card:
once `SD_Select` has succeeded it writes exactly the six frame bytes
`[cmd | 0x40, arg >> 24, arg >> 16, arg >> 8, arg, crc]` (each truncated to 8
bits), one more `0xFF` iff `cmd` is CMD12, then reads response bytes until one has
bit 7 clear or 32 have been read, and returns the last byte read; when
`SD_Select` fails it returns `0xFF` and nothing but `0xFF` was written. -/
theorem C6_SD_SendCmd_frame (h : Hdr) (card : Card) (cmd arg crc : Nat) (s : St) :
    SendCmdContract h card cmd arg crc s := by
  by_cases hs : (SD_Select card (SD_DisSelect card s)).1 = 0
  · left
    refine ⟨hs, ?_⟩
    obtain ⟨k, h1, h2, h3, h4, h5, h6⟩ := respLoop_spec card 0x1F
      { (SD_Select card (SD_DisSelect card s)).2 with
        log := writes card (frame h cmd arg crc) (SD_Select card (SD_DisSelect card s)).2.log }
    refine ⟨k, h1, h2, ?_, ?_, h5, ?_⟩
    · simp only [SD_SendCmd, sendCmdBody_ok h card cmd arg crc s hs]
      exact h3
    · simp only [SD_SendCmd, sendCmdBody_ok h card cmd arg crc s hs]
      exact h4
    · simp only [SD_SendCmd, sendCmdBody_ok h card cmd arg crc s hs]
      exact h6
  · right
    refine ⟨hs, ?_, ?_, ?_⟩
    · simp only [SD_SendCmd, sendCmdBody, if_pos hs]
    · simp only [SD_SendCmd, sendCmdBody, if_pos hs]
    · simp only [SD_SendCmd, sendCmdBody, if_pos hs]
      exact select_fail_log card s hs

theorem getResponseLoop_keep (card : Card) (R : Nat) :
    ∀ (n : Nat) (s : St), (getResponseLoop card R n s).2.cmds = s.cmds ∧
      (getResponseLoop card R n s).2.SD_Type = s.SD_Type
  | 0, _ => ⟨rfl, rfl⟩
  | n + 1, s => by
    rw [getResponseLoop]
    split
    · exact getResponseLoop_keep card R n _
    · exact ⟨rfl, rfl⟩

theorem recvBytes_keep (card : Card) :
    ∀ (n : Nat) (s : St), (recvBytes card n s).2.cmds = s.cmds ∧
      (recvBytes card n s).2.SD_Type = s.SD_Type
  | 0, _ => ⟨rfl, rfl⟩
  | n + 1, s => by
    rw [recvBytes]
    exact recvBytes_keep card n _

theorem recvBytes_length (card : Card) :
    ∀ (n : Nat) (s : St), (recvBytes card n s).1.length = n
  | 0, _ => rfl
  | n + 1, s => by
    rw [recvBytes, List.length_cons, recvBytes_length card n]

theorem SD_RecvData_keep (h : Hdr) (card : Card) (len : Nat) (s : St) :
    (SD_RecvData h card len s).2.cmds = s.cmds ∧
      (SD_RecvData h card len s).2.SD_Type = s.SD_Type := by
  have hg := getResponseLoop_keep card 0xFE 0xFFFF s
  have hg' : (SD_GetResponse h card 0xFE s).2.cmds = s.cmds ∧
      (SD_GetResponse h card 0xFE s).2.SD_Type = s.SD_Type := by
    simp only [SD_GetResponse]
    split
    · exact hg
    · exact hg
  simp only [SD_RecvData]
  split
  · exact hg'
  · have hr := recvBytes_keep card len (SD_GetResponse h card 0xFE s).2
    exact ⟨hr.1.trans hg'.1, hr.2.trans hg'.2⟩

theorem rxAt_zero (card : Card) (s : St) :
    rxAt card s.log 0 = (SD_SPI_ReadWriteByte card 0xFF s).1 := by
  simp [rxAt, reads, writes, SD_SPI_ReadWriteByte]

theorem rw_log (card : Card) (s : St) :
    (SD_SPI_ReadWriteByte card 0xFF s).2.log =
      s.log ++ [BusEv.xfer 0xFF (card s.log 0xFF % 256)] := by
  simp [SD_SPI_ReadWriteByte]

theorem getResponseLoop_none (card : Card) (R : Nat) :
    ∀ (n : Nat) (s : St), (∀ j, j ≤ n → rxAt card s.log j ≠ R % 256) →
      (getResponseLoop card R n s).1 = 0
  | 0, _, _ => rfl
  | n + 1, s, hn => by
    have h0 : (SD_SPI_ReadWriteByte card 0xFF s).1 ≠ R % 256 := by
      rw [← rxAt_zero]
      exact hn 0 (Nat.zero_le _)
    rw [getResponseLoop, if_pos h0]
    apply getResponseLoop_none card R n
    intro j hj
    rw [rw_log, ← rxAt_succ]
    exact hn (j + 1) (by omega)

theorem SD_RecvData_zero (h : Hdr) (card : Card) (len : Nat) (s : St)
    (hz : (SD_RecvData h card len s).1.1 = 0) : (SD_RecvData h card len s).1.2.length = len := by
  simp only [SD_RecvData] at hz ⊢
  split at hz
  · cases hz
  · rename_i hg
    rw [if_neg hg]
    exact recvBytes_length card len _

theorem SD_RecvData_no_token (h : Hdr) (card : Card) (len : Nat) (s : St)
    (hf : h.MSD_RESPONSE_FAILURE % 256 ≠ 0)
    (hn : ∀ j, j < 65536 → rxAt card s.log j ≠ 0xFE) : (SD_RecvData h card len s).1.1 = 1 := by
  have hl := getResponseLoop_none card 0xFE 0xFFFF s (fun j hj => hn j (by omega))
  have hg : (SD_GetResponse h card 0xFE s).1 ≠ 0 := by
    simp only [SD_GetResponse, if_pos hl]
    exact hf
  simp only [SD_RecvData, if_pos hg]

theorem sectorArg_eq (h : Hdr) (s : St) (sector : Nat) :
    (if s.SD_Type ≠ h.SD_TYPE_V2HC then ((sector % 2 ^ 32) <<< 9) % 2 ^ 32 else sector % 2 ^ 32) =
      sectorArg h s sector := by
  unfold sectorArg
  by_cases ht : s.SD_Type = h.SD_TYPE_V2HC
  · rw [if_neg (not_not.mpr ht), if_pos ht]
  · rw [if_pos ht, if_neg ht, Nat.shiftLeft_eq]
    omega

theorem sectorArg_lt (h : Hdr) (s : St) (sector : Nat) : sectorArg h s sector % 2 ^ 32 =
    sectorArg h s sector := by
  unfold sectorArg
  split
  · exact Nat.mod_mod _ _
  · exact Nat.mod_mod _ _

theorem SD_ReadDisk_one (h : Hdr) (card : Card) (sector : Nat) (s : St) :
    SD_ReadDisk h card sector 1 s =
      if (SD_SendCmd h card h.CMD17 (sectorArg h s sector) 0x01 s).1 = 0 then
        ((SD_RecvData h card 512 (SD_SendCmd h card h.CMD17 (sectorArg h s sector) 0x01 s).2).1,
          SD_DisSelect card
            (SD_RecvData h card 512 (SD_SendCmd h card h.CMD17 (sectorArg h s sector) 0x01 s).2).2)
      else (((SD_SendCmd h card h.CMD17 (sectorArg h s sector) 0x01 s).1, []),
        SD_DisSelect card (SD_SendCmd h card h.CMD17 (sectorArg h s sector) 0x01 s).2) := by
  have h1 : (1 : Nat) % 256 = 1 := rfl
  simp only [SD_ReadDisk, h1, if_true, sectorArg_eq]

/-- C7: `SD_ReadDisk(buf, sector, 1)` sends exactly one command, CMD17, whose
argument is the sector index on a high-capacity card and `(sector * 512) mod 2^32`
otherwise; it returns the non-zero R1 of the command as failure code, returns
non-zero when the start token `0xFE` is not among the 65536 bytes read while
waiting for it, and returns 0 only when 512 data bytes were stored into `buf`. -/
theorem C7_SD_ReadDisk_single (h : Hdr) (card : Card) (sector : Nat) (s : St)
    (hwf : h.WellFormed) : ReadOneContract h card sector s := by
  have hf : h.MSD_RESPONSE_FAILURE % 256 ≠ 0 := hwf.2.2.2.2.2.2.2.2.2.2.2.2.2.2.2.2
  unfold ReadOneContract
  rw [SD_ReadDisk_one]
  have hc := SD_SendCmd_cmds h card h.CMD17 (sectorArg h s sector) 0x01 s
  rw [sectorArg_lt] at hc
  by_cases h0 : (SD_SendCmd h card h.CMD17 (sectorArg h s sector) 0x01 s).1 = 0
  · simp only [if_pos h0]
    have hk := SD_RecvData_keep h card 512
      (SD_SendCmd h card h.CMD17 (sectorArg h s sector) 0x01 s).2
    refine ⟨?_, fun hne => absurd h0 hne, fun _ hn => ?_, fun hz => ⟨h0, ?_⟩⟩
    · rw [(SD_DisSelect_keep card _).1, hk.1, hc]
    · rw [SD_RecvData_no_token h card 512 _ hf hn]
      decide
    · exact SD_RecvData_zero h card 512 _ hz
  · simp only [if_neg h0]
    refine ⟨?_, fun _ => trivial, fun hz => absurd hz h0, fun hz => absurd hz h0⟩
    rw [(SD_DisSelect_keep card _).1, hc]

theorem C7_SD_ReadDisk_single_witness :
    (sdcard_h.WellFormed ∧ sectorArg sdcard_h { st0 with SD_Type := 6 } 5 = 5 ∧
      sectorArg sdcard_h { st0 with SD_Type := 2 } 5 = 2560) ∧
    ReadOneContract sdcard_h cardV2HC 5 { st0 with SD_Type := 6 } :=
  ⟨⟨by decide, by decide, by decide⟩,
   C7_SD_ReadDisk_single sdcard_h cardV2HC 5 { st0 with SD_Type := 6 } (by decide)⟩

theorem sendBytes_keep (card : Card) (buf : Nat → Nat) :
    ∀ (n t : Nat) (s : St), (sendBytes card buf n t s).cmds = s.cmds ∧
      (sendBytes card buf n t s).SD_Type = s.SD_Type
  | 0, _, _ => ⟨rfl, rfl⟩
  | n + 1, t, s => by
    rw [sendBytes]
    exact sendBytes_keep card buf n (t + 1) _

theorem SD_SendBlock_keep (card : Card) (buf : Nat → Nat) (cmd : Nat) (s : St) :
    (SD_SendBlock card buf cmd s).2.cmds = s.cmds ∧
      (SD_SendBlock card buf cmd s).2.SD_Type = s.SD_Type := by
  have hw := waitReadyLoop_keep card 0xFFFFFF s
  have hb := sendBytes_keep card buf 512 0
    (SD_SPI_ReadWriteByte card cmd (waitReadyLoop card 0xFFFFFF s).2).2
  simp only [SD_SendBlock, SD_WaitReady]
  split
  · exact hw
  · split
    · split
      · refine ⟨?_, ?_⟩
        · rw [(rw_keep card _ _).1, (rw_keep card _ _).1, (rw_keep card _ _).1, hb.1,
            (rw_keep card _ _).1, hw.1]
        · rw [(rw_keep card _ _).2, (rw_keep card _ _).2, (rw_keep card _ _).2, hb.2,
            (rw_keep card _ _).2, hw.2]
      · refine ⟨?_, ?_⟩
        · rw [(rw_keep card _ _).1, (rw_keep card _ _).1, (rw_keep card _ _).1, hb.1,
            (rw_keep card _ _).1, hw.1]
        · rw [(rw_keep card _ _).2, (rw_keep card _ _).2, (rw_keep card _ _).2, hb.2,
            (rw_keep card _ _).2, hw.2]
    · refine ⟨?_, ?_⟩
      · rw [(rw_keep card _ _).1, hw.1]
      · rw [(rw_keep card _ _).2, hw.2]

theorem writeBlocks_keep (card : Card) (buf : Nat → Nat) :
    ∀ (n off : Nat) (s : St), (writeBlocks card buf n off s).2.cmds = s.cmds ∧
      (writeBlocks card buf n off s).2.SD_Type = s.SD_Type
  | 0, off, s => by
    rw [writeBlocks]
    exact SD_SendBlock_keep card _ _ _
  | n + 1, off, s => by
    have hb := SD_SendBlock_keep card (fun t => buf (off + t)) 0xFC s
    rw [writeBlocks]
    split
    · have hr := writeBlocks_keep card buf n (off + 512)
        (SD_SendBlock card (fun t => buf (off + t)) 0xFC s).2
      exact ⟨hr.1.trans hb.1, hr.2.trans hb.2⟩
    · exact hb

theorem readBlocks_keep (h : Hdr) (card : Card) :
    ∀ (n : Nat) (s : St), (readBlocks h card n s).2.cmds = s.cmds ∧
      (readBlocks h card n s).2.SD_Type = s.SD_Type
  | 0, s => by
    rw [readBlocks]
    exact SD_RecvData_keep h card 512 _
  | n + 1, s => by
    have hb := SD_RecvData_keep h card 512 s
    rw [readBlocks]
    split
    · have hr := readBlocks_keep h card n (SD_RecvData h card 512 s).2
      exact ⟨hr.1.trans hb.1, hr.2.trans hb.2⟩
    · exact hb

theorem sectorArg_mul (h : Hdr) (s : St) (sector : Nat) :
    (if s.SD_Type ≠ h.SD_TYPE_V2HC then (sector % 2 ^ 32 * 512) % 2 ^ 32 else sector % 2 ^ 32) =
      sectorArg h s sector := by
  unfold sectorArg
  by_cases ht : s.SD_Type = h.SD_TYPE_V2HC
  · rw [if_neg (not_not.mpr ht), if_pos ht]
  · rw [if_pos ht, if_neg ht]
    omega

theorem sectorArg_v2hc (h : Hdr) (s : St) (sector : Nat) (ht : s.SD_Type = h.SD_TYPE_V2HC) :
    sectorArg h s sector = sector % 2 ^ 32 := by
  unfold sectorArg
  rw [if_pos ht]

theorem SD_DisSelect_cmds (card : Card) (s : St) : (SD_DisSelect card s).cmds = s.cmds := rfl

theorem SD_RecvData_cmds (h : Hdr) (card : Card) (len : Nat) (s : St) :
    (SD_RecvData h card len s).2.cmds = s.cmds := (SD_RecvData_keep h card len s).1

theorem readBlocks_cmds (h : Hdr) (card : Card) (n : Nat) (s : St) :
    (readBlocks h card n s).2.cmds = s.cmds := (readBlocks_keep h card n s).1

theorem writeBlocks_cmds (card : Card) (buf : Nat → Nat) (n off : Nat) (s : St) :
    (writeBlocks card buf n off s).2.cmds = s.cmds := (writeBlocks_keep card buf n off s).1

theorem SD_SendBlock_cmds (card : Card) (buf : Nat → Nat) (cmd : Nat) (s : St) :
    (SD_SendBlock card buf cmd s).2.cmds = s.cmds := (SD_SendBlock_keep card buf cmd s).1

theorem SD_ReadDisk_keep (h : Hdr) (card : Card) (sector cnt : Nat) (s : St) :
    (SD_ReadDisk h card sector cnt s).2.SD_Type = s.SD_Type ∧
    ((∃ r, (SD_ReadDisk h card sector cnt s).2.cmds = s.cmds ++
        [{ cmd := h.CMD17 % 256, arg := sectorArg h s sector, crc := 0x01, r1 := r }]) ∨
      (∃ r r', (SD_ReadDisk h card sector cnt s).2.cmds = s.cmds ++
        [{ cmd := h.CMD18 % 256, arg := sectorArg h s sector, crc := 0x01, r1 := r },
         { cmd := h.CMD12 % 256, arg := 0, crc := 0x01, r1 := r' }])) := by
  simp only [SD_ReadDisk, sectorArg_eq]
  by_cases hc : cnt % 256 = 1
  · simp only [if_pos hc]
    by_cases h0 : (SD_SendCmd h card h.CMD17 (sectorArg h s sector) 0x01 s).1 = 0
    · simp only [if_pos h0]
      refine ⟨?_, Or.inl ⟨(SD_SendCmd h card h.CMD17 (sectorArg h s sector) 0x01 s).1, ?_⟩⟩
      · rw [(SD_DisSelect_keep card _).2, (SD_RecvData_keep h card 512 _).2, SD_SendCmd_type]
      · rw [SD_DisSelect_cmds, SD_RecvData_cmds, SD_SendCmd_cmds, sectorArg_lt]
    · simp only [if_neg h0]
      refine ⟨?_, Or.inl ⟨(SD_SendCmd h card h.CMD17 (sectorArg h s sector) 0x01 s).1, ?_⟩⟩
      · rw [(SD_DisSelect_keep card _).2, SD_SendCmd_type]
      · rw [SD_DisSelect_cmds, SD_SendCmd_cmds, sectorArg_lt]
  · simp only [if_neg hc]
    refine ⟨?_, Or.inr ?_⟩
    · rw [(SD_DisSelect_keep card _).2, SD_SendCmd_type, (readBlocks_keep h card _ _).2,
        SD_SendCmd_type]
    · simp only [SD_DisSelect_cmds, SD_SendCmd_cmds, readBlocks_cmds, sectorArg_lt,
        List.append_assoc, List.singleton_append, Nat.zero_mod, Nat.reduceMod]
      exact ⟨_, _, rfl⟩

theorem SD_WriteDisk_keep (h : Hdr) (card : Card) (buf : Nat → Nat) (sector cnt : Nat) (s : St) :
    (SD_WriteDisk h card buf sector cnt s).2.SD_Type = s.SD_Type ∧
    ((∃ r, (SD_WriteDisk h card buf sector cnt s).2.cmds = s.cmds ++
        [{ cmd := h.CMD24 % 256, arg := sectorArg h s sector, crc := 0x01, r1 := r }]) ∨
      (∃ r, (SD_WriteDisk h card buf sector cnt s).2.cmds = s.cmds ++
        [{ cmd := h.CMD25 % 256, arg := sectorArg h s sector, crc := 0x01, r1 := r }]) ∨
      (∃ a b r, (SD_WriteDisk h card buf sector cnt s).2.cmds = s.cmds ++
        [{ cmd := h.CMD55 % 256, arg := 0, crc := 0x01, r1 := a },
         { cmd := h.CMD23 % 256, arg := cnt % 256, crc := 0x01, r1 := b },
         { cmd := h.CMD25 % 256, arg := sectorArg h s sector, crc := 0x01, r1 := r }])) := by
  have hm : cnt % 256 % 2 ^ 32 = cnt % 256 := by omega
  simp only [SD_WriteDisk, sectorArg_mul]
  by_cases hc : cnt % 256 = 1
  · simp only [if_pos hc]
    by_cases h0 : (SD_SendCmd h card h.CMD24 (sectorArg h s sector) 0x01 s).1 = 0
    · simp only [if_pos h0]
      refine ⟨?_, Or.inl ⟨(SD_SendCmd h card h.CMD24 (sectorArg h s sector) 0x01 s).1, ?_⟩⟩
      · rw [(SD_DisSelect_keep card _).2, (SD_SendBlock_keep card _ _ _).2, SD_SendCmd_type]
      · rw [SD_DisSelect_cmds, SD_SendBlock_cmds, SD_SendCmd_cmds, sectorArg_lt]
    · simp only [if_neg h0]
      refine ⟨?_, Or.inl ⟨(SD_SendCmd h card h.CMD24 (sectorArg h s sector) 0x01 s).1, ?_⟩⟩
      · rw [(SD_DisSelect_keep card _).2, SD_SendCmd_type]
      · rw [SD_DisSelect_cmds, SD_SendCmd_cmds, sectorArg_lt]
  · simp only [if_neg hc]
    by_cases hmmc : s.SD_Type ≠ h.SD_TYPE_MMC
    · simp only [if_pos hmmc]
      by_cases h0 : (SD_SendCmd h card h.CMD25 (sectorArg h s sector) 0x01
          (SD_SendCmd h card h.CMD23 (cnt % 256) 0x01
            (SD_SendCmd h card h.CMD55 0 0x01 s).2).2).1 = 0
      · simp only [if_pos h0]
        refine ⟨?_, Or.inr (Or.inr ?_)⟩
        · rw [(SD_DisSelect_keep card _).2, (SD_SendBlock_keep card _ _ _).2,
            (writeBlocks_keep card _ _ _ _).2, SD_SendCmd_type, SD_SendCmd_type, SD_SendCmd_type]
        · simp only [SD_DisSelect_cmds, SD_SendBlock_cmds, writeBlocks_cmds, SD_SendCmd_cmds,
            sectorArg_lt, hm, List.append_assoc, List.singleton_append, Nat.zero_mod,
            Nat.reduceMod]
          exact ⟨_, _, _, rfl⟩
      · simp only [if_neg h0]
        refine ⟨?_, Or.inr (Or.inr ?_)⟩
        · rw [(SD_DisSelect_keep card _).2, SD_SendCmd_type, SD_SendCmd_type, SD_SendCmd_type]
        · simp only [SD_DisSelect_cmds, SD_SendCmd_cmds, sectorArg_lt, hm, List.append_assoc,
            List.singleton_append, Nat.zero_mod, Nat.reduceMod]
          exact ⟨_, _, _, rfl⟩
    · simp only [if_neg hmmc]
      by_cases h0 : (SD_SendCmd h card h.CMD25 (sectorArg h s sector) 0x01 s).1 = 0
      · simp only [if_pos h0]
        refine ⟨?_, Or.inr (Or.inl ?_)⟩
        · rw [(SD_DisSelect_keep card _).2, (SD_SendBlock_keep card _ _ _).2,
            (writeBlocks_keep card _ _ _ _).2, SD_SendCmd_type]
        · simp only [SD_DisSelect_cmds, SD_SendBlock_cmds, writeBlocks_cmds, SD_SendCmd_cmds,
            sectorArg_lt, Nat.reduceMod]
          exact ⟨_, rfl⟩
      · simp only [if_neg h0]
        refine ⟨?_, Or.inr (Or.inl ?_)⟩
        · rw [(SD_DisSelect_keep card _).2, SD_SendCmd_type]
        · simp only [SD_DisSelect_cmds, SD_SendCmd_cmds, sectorArg_lt, Nat.reduceMod]
          exact ⟨_, rfl⟩

theorem blockIndexAddressing (h : Hdr) : BlockIndexAddressing h := by
  intro card buf sector cnt s ht
  have hr := SD_ReadDisk_keep h card sector cnt s
  have hw := SD_WriteDisk_keep h card buf sector cnt s
  rw [sectorArg_v2hc h s sector ht] at hr hw
  exact ⟨hr.1.trans ht, hw.1.trans ht, hr.2, hw.2⟩

theorem initFinish_ret (card : Card) (r1 : Nat) (s : St) :
    (initFinish card r1 s).2.SD_Type = s.SD_Type ∧
    (s.SD_Type ≠ 0 → (initFinish card r1 s).1 = 0) ∧
    (s.SD_Type = 0 → (initFinish card r1 s).1 ≠ 0) := by
  have ht : (SD_DisSelect card s).SD_Type = s.SD_Type := rfl
  simp only [initFinish, ht]
  by_cases c : s.SD_Type ≠ 0
  · rw [if_pos c]
    exact ⟨rfl, fun _ => rfl, fun h0 => absurd h0 c⟩
  · rw [if_neg c]
    by_cases c2 : r1 ≠ 0
    · rw [if_pos c2]
      exact ⟨rfl, fun h0 => absurd h0 c, fun _ => c2⟩
    · rw [if_neg c2]
      exact ⟨rfl, fun h0 => absurd h0 c, fun _ => show (0xaa : Nat) ≠ 0 by decide⟩

theorem SD_Initialize_v2 (h : Hdr) (card : Card) (s : St) (hv : V2Handshake h card s) :
    SD_Initialize h card s =
      initFinish card 0
        (setType (if ocr0 h card s &&& 0x40 ≠ 0 then h.SD_TYPE_V2HC else h.SD_TYPE_V2)
          (read4 card (SD_SendCmd h card h.CMD58 0 0x01
            (retryLoop (acmd41 h card 0x40000000) 0xFFFE
              (read4 card (SD_SendCmd h card h.CMD8 0x1AA 0x87
                (setType 0 (cmd0Loop h card 20 (initStart card s)).2)).2).2).2).2).2) := by
  obtain ⟨h1, h2, h3, h4, h5, h6, h7⟩ := hv
  simp only [SD_Initialize, initIdle, h1, h2, h3, h4, h5, h7, if_pos h6, if_true, and_self, ocr0]
  by_cases ho : (read4 card (SD_SendCmd h card h.CMD58 0 0x01
      (retryLoop (acmd41 h card 0x40000000) 0xFFFE
        (read4 card (SD_SendCmd h card h.CMD8 0x1AA 0x87
          (setType 0 (cmd0Loop h card 20 (initStart card s)).2)).2).2).2).2).1.getD 0 0
        &&& 0x40 ≠ 0
  · simp only [if_pos ho]
  · simp only [if_neg ho]

/-- C8: when the card answers the version-2 handshake (CMD0 with `0x01`, CMD8 with
`0x01` and the R7 echo `0x01 0xAA`, the CMD55 + CMD41 loop with `0x00` while
retries remain, CMD58 with `0x00`), `SD_Initialize` returns 0 and leaves
`SD_Type = SD_TYPE_V2HC` if bit `0x40` of the first OCR byte is set and
`SD_TYPE_V2` if it is clear; and with `SD_Type = SD_TYPE_V2HC` every `SD_ReadDisk`
and `SD_WriteDisk` call keeps `SD_Type` and passes the sector index itself as the
argument of its transfer command. -/
theorem C8_v2hc_init_block_addressing (h : Hdr) (card : Card) (s : St) (hwf : h.WellFormed)
    (hv : V2Handshake h card s) :
    (ocr0 h card s &&& 0x40 ≠ 0 → (SD_Initialize h card s).1 = 0 ∧
      (SD_Initialize h card s).2.SD_Type = h.SD_TYPE_V2HC) ∧
    (ocr0 h card s &&& 0x40 = 0 → (SD_Initialize h card s).1 = 0 ∧
      (SD_Initialize h card s).2.SD_Type = h.SD_TYPE_V2) ∧
    BlockIndexAddressing h := by
  obtain ⟨_, _, _, _, _, hv2, hv2', hhc, hhc', _⟩ := hwf
  have e1 : h.SD_TYPE_V2HC % 256 = h.SD_TYPE_V2HC := Nat.mod_eq_of_lt hhc'
  have e2 : h.SD_TYPE_V2 % 256 = h.SD_TYPE_V2 := Nat.mod_eq_of_lt hv2'
  refine ⟨fun ho => ?_, fun ho => ?_, blockIndexAddressing h⟩
  · rw [SD_Initialize_v2 h card s hv, if_pos ho]
    have hr := initFinish_ret card 0 (setType h.SD_TYPE_V2HC
      (read4 card (SD_SendCmd h card h.CMD58 0 0x01
        (retryLoop (acmd41 h card 0x40000000) 0xFFFE
          (read4 card (SD_SendCmd h card h.CMD8 0x1AA 0x87
            (setType 0 (cmd0Loop h card 20 (initStart card s)).2)).2).2).2).2).2)
    have ht : (setType h.SD_TYPE_V2HC
      (read4 card (SD_SendCmd h card h.CMD58 0 0x01
        (retryLoop (acmd41 h card 0x40000000) 0xFFFE
          (read4 card (SD_SendCmd h card h.CMD8 0x1AA 0x87
            (setType 0 (cmd0Loop h card 20 (initStart card s)).2)).2).2).2).2).2).SD_Type =
        h.SD_TYPE_V2HC := e1
    exact ⟨hr.2.1 (by rw [ht]; omega), hr.1.trans ht⟩
  · have ho' : ¬ (ocr0 h card s &&& 0x40 ≠ 0) := not_not.mpr ho
    rw [SD_Initialize_v2 h card s hv, if_neg ho']
    have hr := initFinish_ret card 0 (setType h.SD_TYPE_V2
      (read4 card (SD_SendCmd h card h.CMD58 0 0x01
        (retryLoop (acmd41 h card 0x40000000) 0xFFFE
          (read4 card (SD_SendCmd h card h.CMD8 0x1AA 0x87
            (setType 0 (cmd0Loop h card 20 (initStart card s)).2)).2).2).2).2).2)
    have ht : (setType h.SD_TYPE_V2
      (read4 card (SD_SendCmd h card h.CMD58 0 0x01
        (retryLoop (acmd41 h card 0x40000000) 0xFFFE
          (read4 card (SD_SendCmd h card h.CMD8 0x1AA 0x87
            (setType 0 (cmd0Loop h card 20 (initStart card s)).2)).2).2).2).2).2).SD_Type =
        h.SD_TYPE_V2 := e2
    exact ⟨hr.2.1 (by rw [ht]; omega), hr.1.trans ht⟩

theorem C8_v2hc_init_block_addressing_witness :
    (sdcard_h.WellFormed ∧ V2Handshake sdcard_h cardV2HC st0 ∧
      ocr0 sdcard_h cardV2HC st0 &&& 0x40 ≠ 0) ∧
    ((ocr0 sdcard_h cardV2HC st0 &&& 0x40 ≠ 0 → (SD_Initialize sdcard_h cardV2HC st0).1 = 0 ∧
      (SD_Initialize sdcard_h cardV2HC st0).2.SD_Type = sdcard_h.SD_TYPE_V2HC) ∧
    (ocr0 sdcard_h cardV2HC st0 &&& 0x40 = 0 → (SD_Initialize sdcard_h cardV2HC st0).1 = 0 ∧
      (SD_Initialize sdcard_h cardV2HC st0).2.SD_Type = sdcard_h.SD_TYPE_V2) ∧
    BlockIndexAddressing sdcard_h) :=
  ⟨⟨by decide, by decide, by decide⟩,
   C8_v2hc_init_block_addressing sdcard_h cardV2HC st0 (by decide) (by decide)⟩

theorem sinceSelect_cs_false (l : List BusEv) : sinceSelect (l ++ [BusEv.cs false]) = [] := by
  simp [sinceSelect, List.foldl_append]

theorem sinceSelect_xfer (l : List BusEv) (tx rx : Nat) :
    sinceSelect (l ++ [BusEv.xfer tx rx]) = sinceSelect l ++ [tx] := by
  simp [sinceSelect, List.foldl_append]

theorem sinceSelect_writes (card : Card) :
    ∀ (bs : List Nat) (l : List BusEv),
      sinceSelect (writes card bs l) = sinceSelect l ++ bs.map (fun b => b % 256)
  | [], l => by simp [writes]
  | b :: bs, l => by
    rw [writes, sinceSelect_writes card bs, sinceSelect_xfer]
    simp

theorem waitReadyLoop_ready (card : Card) (n : Nat) (s : St)
    (hr : (SD_SPI_ReadWriteByte card 0xFF s).1 = 0xFF) :
    waitReadyLoop card (n + 1) s = (0, (SD_SPI_ReadWriteByte card 0xFF s).2) := by
  rw [waitReadyLoop, if_pos hr]

theorem frameCard_select (r1f : Nat → Nat) (tail : Nat → Nat → Nat) (s : St) :
    SD_Select (frameCard r1f tail) (SD_DisSelect (frameCard r1f tail) s) =
      (0, (SD_SPI_ReadWriteByte (frameCard r1f tail) 0xFF
        (setCS false (SD_DisSelect (frameCard r1f tail) s))).2) := by
  have hr : (SD_SPI_ReadWriteByte (frameCard r1f tail) 0xFF
      (setCS false (SD_DisSelect (frameCard r1f tail) s))).1 = 0xFF := by
    show frameCard r1f tail ((SD_DisSelect (frameCard r1f tail) s).log ++ [BusEv.cs false])
      (0xFF % 256) % 256 = 0xFF
    simp only [frameCard, sinceSelect_cs_false]
    rfl
  have hw := waitReadyLoop_ready (frameCard r1f tail) 0xFFFFFE
    (setCS false (SD_DisSelect (frameCard r1f tail) s)) hr
  simp only [SD_Select, SD_WaitReady]
  rw [show (0xFFFFFF : Nat) = 0xFFFFFE + 1 from rfl, hw]
  rfl

theorem frameCard_sendCmd (h : Hdr) (r1f : Nat → Nat) (tail : Nat → Nat → Nat)
    (cmd arg crc : Nat) (s : St) (h12 : cmd % 256 ≠ h.CMD12)
    (hb : (r1f ((cmd % 256 ||| 0x40) % 256) % 256) &&& 0x80 = 0) :
    (SD_SendCmd h (frameCard r1f tail) cmd arg crc s).1 =
      r1f ((cmd % 256 ||| 0x40) % 256) % 256 := by
  have hsel := frameCard_select r1f tail s
  have hs : (SD_Select (frameCard r1f tail) (SD_DisSelect (frameCard r1f tail) s)).1 = 0 := by
    rw [hsel]
  have hq : sinceSelect (writes (frameCard r1f tail) (frame h cmd arg crc)
      (SD_Select (frameCard r1f tail) (SD_DisSelect (frameCard r1f tail) s)).2.log) =
      [0xFF, (cmd % 256 ||| 0x40) % 256, ((arg % 2 ^ 32) >>> 24) % 256,
        ((arg % 2 ^ 32) >>> 16) % 256, ((arg % 2 ^ 32) >>> 8) % 256, (arg % 2 ^ 32) % 256,
        crc % 256] := by
    rw [sinceSelect_writes, hsel]
    have : (SD_SPI_ReadWriteByte (frameCard r1f tail) 0xFF
        (setCS false (SD_DisSelect (frameCard r1f tail) s))).2.log =
        ((SD_DisSelect (frameCard r1f tail) s).log ++ [BusEv.cs false]) ++
          [BusEv.xfer 0xFF (frameCard r1f tail
            ((SD_DisSelect (frameCard r1f tail) s).log ++ [BusEv.cs false]) 0xFF % 256)] := by
      simp [SD_SPI_ReadWriteByte, setCS]
    rw [this, sinceSelect_xfer, sinceSelect_cs_false]
    simp [frame, h12, Nat.mod_mod]
  have hrd : (SD_SPI_ReadWriteByte (frameCard r1f tail) 0xFF
      { (SD_Select (frameCard r1f tail) (SD_DisSelect (frameCard r1f tail) s)).2 with
        log := writes (frameCard r1f tail) (frame h cmd arg crc)
          (SD_Select (frameCard r1f tail) (SD_DisSelect (frameCard r1f tail) s)).2.log }).1 =
      r1f ((cmd % 256 ||| 0x40) % 256) % 256 := by
    show frameCard r1f tail (writes (frameCard r1f tail) (frame h cmd arg crc)
      (SD_Select (frameCard r1f tail) (SD_DisSelect (frameCard r1f tail) s)).2.log)
        (0xFF % 256) % 256 = _
    simp only [frameCard, hq]
    rfl
  have hnb : ¬ ((SD_SPI_ReadWriteByte (frameCard r1f tail) 0xFF
      { (SD_Select (frameCard r1f tail) (SD_DisSelect (frameCard r1f tail) s)).2 with
        log := writes (frameCard r1f tail) (frame h cmd arg crc)
          (SD_Select (frameCard r1f tail) (SD_DisSelect (frameCard r1f tail) s)).2.log }).1
        &&& 0x80 ≠ 0) := by
    rw [hrd]
    exact not_not.mpr hb
  simp only [SD_SendCmd, sendCmdBody_ok h (frameCard r1f tail) cmd arg crc s hs]
  rw [show (0x1F : Nat) = 0x1E + 1 from rfl, respLoop, if_neg hnb, hrd]

theorem retryLoop_exhausted (body : St → Nat × St) (hn : ∀ s, (body s).1 ≠ 0) :
    ∀ (n : Nat) (s : St), (retryLoop body n s).1.2 = 0xFFFFFFFF ∧ (retryLoop body n s).1.1 ≠ 0
  | 0, s => by
    rw [retryLoop, if_pos (hn s)]
    exact ⟨rfl, hn s⟩
  | n + 1, s => by
    rw [retryLoop, if_pos (hn s)]
    exact retryLoop_exhausted body hn n _

theorem retryLoop_type (body : St → Nat × St) (hk : ∀ s, (body s).2.SD_Type = s.SD_Type) :
    ∀ (n : Nat) (s : St), (retryLoop body n s).2.SD_Type = s.SD_Type
  | 0, s => by
    rw [retryLoop]
    split
    · exact hk s
    · exact hk s
  | n + 1, s => by
    rw [retryLoop]
    split
    · rw [retryLoop_type body hk n, hk]
    · exact hk s

theorem acmd41_type (h : Hdr) (card : Card) (arg : Nat) (s : St) :
    (acmd41 h card arg s).2.SD_Type = s.SD_Type := by
  simp only [acmd41, SD_SendCmd_type]

theorem cmd0Loop_first (h : Hdr) (card : Card) (n : Nat) (s : St)
    (h1 : (SD_SendCmd h card h.CMD0 0 0x95 s).1 = 0x01) :
    cmd0Loop h card (n + 1) s = SD_SendCmd h card h.CMD0 0 0x95 s := by
  rw [cmd0Loop, if_neg (not_not.mpr h1)]

theorem SD_Initialize_v1 (h : Hdr) (card : Card) (s : St)
    (h1 : (cmd0Loop h card 20 (initStart card s)).1 = 0x01)
    (h2 : (SD_SendCmd h card h.CMD8 0x1AA 0x87
      (setType 0 (cmd0Loop h card 20 (initStart card s)).2)).1 ≠ 1)
    (h3 : (acmd41 h card 0 (SD_SendCmd h card h.CMD8 0x1AA 0x87
      (setType 0 (cmd0Loop h card 20 (initStart card s)).2)).2).1 ≤ 1)
    (h4 : (retryLoop (acmd41 h card 0) 0xFFFE (setType h.SD_TYPE_V1
      (acmd41 h card 0 (SD_SendCmd h card h.CMD8 0x1AA 0x87
        (setType 0 (cmd0Loop h card 20 (initStart card s)).2)).2).2)).1.2 ≠ 0)
    (h5 : (SD_SendCmd h card h.CMD16 512 0x01
      (retryLoop (acmd41 h card 0) 0xFFFE (setType h.SD_TYPE_V1
        (acmd41 h card 0 (SD_SendCmd h card h.CMD8 0x1AA 0x87
          (setType 0 (cmd0Loop h card 20 (initStart card s)).2)).2).2)).2).1 = 0)
    (hv1 : h.SD_TYPE_V1 % 256 ≠ 0) :
    (SD_Initialize h card s).1 = 0 ∧ (SD_Initialize h card s).2.SD_Type = h.SD_TYPE_V1 % 256 := by
  have ht : (SD_SendCmd h card h.CMD16 512 0x01
      (retryLoop (acmd41 h card 0) 0xFFFE (setType h.SD_TYPE_V1
        (acmd41 h card 0 (SD_SendCmd h card h.CMD8 0x1AA 0x87
          (setType 0 (cmd0Loop h card 20 (initStart card s)).2)).2).2)).2).2.SD_Type =
      h.SD_TYPE_V1 % 256 := by
    rw [SD_SendCmd_type, retryLoop_type _ (acmd41_type h card 0)]
    rfl
  have h5' : ¬ ((SD_SendCmd h card h.CMD16 512 0x01
      (retryLoop (acmd41 h card 0) 0xFFFE (setType h.SD_TYPE_V1
        (acmd41 h card 0 (SD_SendCmd h card h.CMD8 0x1AA 0x87
          (setType 0 (cmd0Loop h card 20 (initStart card s)).2)).2).2)).2).1 ≠ 0) :=
    not_not.mpr h5
  have he : SD_Initialize h card s = initFinish card
      (retryLoop (acmd41 h card 0) 0xFFFE (setType h.SD_TYPE_V1
        (acmd41 h card 0 (SD_SendCmd h card h.CMD8 0x1AA 0x87
          (setType 0 (cmd0Loop h card 20 (initStart card s)).2)).2).2)).1.1
      (SD_SendCmd h card h.CMD16 512 0x01
        (retryLoop (acmd41 h card 0) 0xFFFE (setType h.SD_TYPE_V1
          (acmd41 h card 0 (SD_SendCmd h card h.CMD8 0x1AA 0x87
            (setType 0 (cmd0Loop h card 20 (initStart card s)).2)).2).2)).2).2 := by
    simp only [SD_Initialize, initIdle, h1, if_true, if_neg h2, if_pos h3, if_neg h4, if_neg h5']
  rw [he]
  have hr := initFinish_ret card
      (retryLoop (acmd41 h card 0) 0xFFFE (setType h.SD_TYPE_V1
        (acmd41 h card 0 (SD_SendCmd h card h.CMD8 0x1AA 0x87
          (setType 0 (cmd0Loop h card 20 (initStart card s)).2)).2).2)).1.1
      (SD_SendCmd h card h.CMD16 512 0x01
        (retryLoop (acmd41 h card 0) 0xFFFE (setType h.SD_TYPE_V1
          (acmd41 h card 0 (SD_SendCmd h card h.CMD8 0x1AA 0x87
            (setType 0 (cmd0Loop h card 20 (initStart card s)).2)).2).2)).2).2
  exact ⟨hr.2.1 (by rw [ht]; exact hv1), hr.1.trans ht⟩

theorem cardIdleV1_never_ready (s : St) : (acmd41 sdcard_h cardIdleV1 0 s).1 = 1 :=
  frameCard_sendCmd sdcard_h _ _ sdcard_h.CMD41 0 0x01 _ (by decide) (by decide)

/-- C9 (the code at the failing input): on a version-1 card that never leaves the
idle state (every CMD55 + CMD41 pair is answered `0x01`, so the loop uses up all
its `0xFFFF` attempts), `SD_Initialize` goes on to send CMD16 and returns 0 with
`SD_Type = SD_TYPE_V1`, not the error type. -/
theorem C9_exhausted_init_reports_success :
    (∀ s, (acmd41 sdcard_h cardIdleV1 0 s).1 = 1) ∧
    (SD_Initialize sdcard_h cardIdleV1 st0).1 = 0 ∧
    (SD_Initialize sdcard_h cardIdleV1 st0).2.SD_Type = sdcard_h.SD_TYPE_V1 := by
  have hn : ∀ s, (acmd41 sdcard_h cardIdleV1 0 s).1 ≠ 0 := by
    intro s
    rw [cardIdleV1_never_ready]
    decide
  have h0 : ∀ s, (SD_SendCmd sdcard_h cardIdleV1 sdcard_h.CMD0 0 0x95 s).1 = 0x01 := fun s =>
    frameCard_sendCmd sdcard_h _ _ sdcard_h.CMD0 0 0x95 s (by decide) (by decide)
  have h8 : ∀ s, (SD_SendCmd sdcard_h cardIdleV1 sdcard_h.CMD8 0x1AA 0x87 s).1 = 5 := fun s =>
    frameCard_sendCmd sdcard_h _ _ sdcard_h.CMD8 0x1AA 0x87 s (by decide) (by decide)
  have h16 : ∀ s, (SD_SendCmd sdcard_h cardIdleV1 sdcard_h.CMD16 512 0x01 s).1 = 0 := fun s =>
    frameCard_sendCmd sdcard_h _ _ sdcard_h.CMD16 512 0x01 s (by decide) (by decide)
  have hc0 : (cmd0Loop sdcard_h cardIdleV1 20 (initStart cardIdleV1 st0)).1 = 0x01 := by
    rw [show (20 : Nat) = 19 + 1 from rfl, cmd0Loop_first sdcard_h cardIdleV1 19 _ (h0 _), h0]
  have hq := SD_Initialize_v1 sdcard_h cardIdleV1 st0 hc0 (by rw [h8]; decide)
    (by rw [cardIdleV1_never_ready])
    (by rw [(retryLoop_exhausted _ hn 0xFFFE _).1]; decide) (h16 _) (by decide)
  exact ⟨cardIdleV1_never_ready, hq.1, hq.2⟩

theorem setType_type (t : Nat) (s : St) : (setType t s).SD_Type = t % 256 := rfl

theorem read4_type (card : Card) (s : St) : (read4 card s).2.SD_Type = s.SD_Type :=
  (recvBytes_keep card 4 s).2

theorem retryLoop_acmd41_type (h : Hdr) (card : Card) (arg n : Nat) (s : St) :
    (retryLoop (acmd41 h card arg) n s).2.SD_Type = s.SD_Type :=
  retryLoop_type _ (acmd41_type h card arg) n s

theorem retryLoop_cmd1_type (h : Hdr) (card : Card) (n : Nat) (s : St) :
    (retryLoop (SD_SendCmd h card h.CMD1 0 0x01) n s).2.SD_Type = s.SD_Type :=
  retryLoop_type _ (fun s => SD_SendCmd_type h card h.CMD1 0 0x01 s) n s

theorem legacy_loop_type (h : Hdr) (card : Card) (s : St) :
    (if (acmd41 h card 0 s).1 ≤ 1 then
        retryLoop (acmd41 h card 0) 0xFFFE (setType h.SD_TYPE_V1 (acmd41 h card 0 s).2)
      else retryLoop (SD_SendCmd h card h.CMD1 0 0x01) 0xFFFE
        (setType h.SD_TYPE_MMC (acmd41 h card 0 s).2)).2.SD_Type =
      (if (acmd41 h card 0 s).1 ≤ 1 then h.SD_TYPE_V1 % 256 else h.SD_TYPE_MMC % 256) := by
  split
  · rw [retryLoop_acmd41_type, setType_type]
  · rw [retryLoop_cmd1_type, setType_type]

/-- The outcome of the part of `SD_Initialize` inside `if (r1 == 0x01)`: either the
type is left 0, or it is V2HC or V2, or it is V1 or MMC and then the last command
sent is CMD16 with argument 512, answered `0x00`. -/
theorem initIdle_cases (h : Hdr) (card : Card) (s : St) (hs : s.SD_Type = 0)
    (he : h.SD_TYPE_ERR = 0) :
    (initIdle h card s).2.SD_Type = 0 ∨
    (initIdle h card s).2.SD_Type = h.SD_TYPE_V2HC % 256 ∨
    (initIdle h card s).2.SD_Type = h.SD_TYPE_V2 % 256 ∨
    (((initIdle h card s).2.SD_Type = h.SD_TYPE_V1 % 256 ∨
        (initIdle h card s).2.SD_Type = h.SD_TYPE_MMC % 256) ∧
      (initIdle h card s).2.cmds.getLast? =
        some { cmd := h.CMD16 % 256, arg := 512, crc := 0x01, r1 := 0 }) := by
  simp only [initIdle]
  by_cases c8 : (SD_SendCmd h card h.CMD8 0x1AA 0x87 s).1 = 1
  · simp only [if_pos c8]
    split
    · split
      · split
        · split
          · right; left
            rw [setType_type]
          · right; right; left
            rw [setType_type]
        · left
          rw [SD_SendCmd_type, retryLoop_acmd41_type, read4_type, SD_SendCmd_type, hs]
      · left
        rw [retryLoop_acmd41_type, read4_type, SD_SendCmd_type, hs]
    · left
      rw [read4_type, SD_SendCmd_type, hs]
  · simp only [if_neg c8]
    have hl := legacy_loop_type h card (SD_SendCmd h card h.CMD8 0x1AA 0x87 s).2
    generalize (if (acmd41 h card 0 (SD_SendCmd h card h.CMD8 0x1AA 0x87 s).2).1 ≤ 1 then
        retryLoop (acmd41 h card 0) 0xFFFE
          (setType h.SD_TYPE_V1 (acmd41 h card 0 (SD_SendCmd h card h.CMD8 0x1AA 0x87 s).2).2)
      else retryLoop (SD_SendCmd h card h.CMD1 0 0x01) 0xFFFE
        (setType h.SD_TYPE_MMC (acmd41 h card 0 (SD_SendCmd h card h.CMD8 0x1AA 0x87 s).2).2)) = l
      at hl ⊢
    by_cases cr : l.1.2 = 0
    · left
      rw [if_pos cr, setType_type, he]
    · rw [if_neg cr]
      by_cases c16 : (SD_SendCmd h card h.CMD16 512 0x01 l.2).1 ≠ 0
      · left
        rw [if_pos c16, setType_type, he]
      · rw [if_neg c16]
        right; right; right
        constructor
        · rw [SD_SendCmd_type, hl]
          split
          · exact Or.inl rfl
          · exact Or.inr rfl
        · rw [SD_SendCmd_cmds, List.getLast?_append, not_not.mp c16]
          rfl
theorem initFinish_cmds (card : Card) (r1 : Nat) (s : St) :
    (initFinish card r1 s).2.cmds = s.cmds := by
  simp only [initFinish]
  split
  · rfl
  · split
    · rfl
    · rfl

/-- C10 (counterexample): on a version-2 standard-capacity card `SD_Initialize`
ends with `SD_Type = SD_TYPE_V2`, a non-high-capacity type, and the commands it
sent are CMD0, CMD8, CMD55, CMD41 and CMD58: no CMD16. -/
theorem C10_v2_standard_capacity_sends_no_cmd16 :
    (SD_Initialize sdcard_h cardV2SC st0).2.SD_Type = sdcard_h.SD_TYPE_V2 ∧
    (SD_Initialize sdcard_h cardV2SC st0).2.cmds =
      [{ cmd := 0, arg := 0, crc := 0x95, r1 := 1 },
       { cmd := 8, arg := 0x1AA, crc := 0x87, r1 := 1 },
       { cmd := 55, arg := 0, crc := 0x01, r1 := 1 },
       { cmd := 41, arg := 0x40000000, crc := 0x01, r1 := 0 },
       { cmd := 58, arg := 0, crc := 0x01, r1 := 0 }] := by
  decide

/-- C10 (amended): every run of `SD_Initialize` that ends with `SD_TYPE_MMC` or
`SD_TYPE_V1` has sent CMD16 with argument 512 as its last command and received
R1 = `0x00` for it. -/
theorem C10_legacy_types_sent_cmd16 (h : Hdr) (card : Card) (s : St) (hwf : h.WellFormed)
    (ht : (SD_Initialize h card s).2.SD_Type = h.SD_TYPE_MMC ∨
      (SD_Initialize h card s).2.SD_Type = h.SD_TYPE_V1) :
    (SD_Initialize h card s).2.cmds.getLast? =
      some { cmd := h.CMD16 % 256, arg := 512, crc := 0x01, r1 := 0 } := by
  obtain ⟨he, hm0, hm, hv10, hv1, hv20, hv2, hhc0, hhc, d1, d2, d3, d4, d5, d6, _⟩ := hwf
  simp only [SD_Initialize] at ht ⊢
  rw [(initFinish_ret card _ _).1] at ht
  rw [initFinish_cmds]
  by_cases c0 : (cmd0Loop h card 20 (initStart card s)).1 = 0x01
  · rw [if_pos c0] at ht ⊢
    have hc := initIdle_cases h card (setType 0 (cmd0Loop h card 20 (initStart card s)).2) rfl he
    rw [Nat.mod_eq_of_lt hhc, Nat.mod_eq_of_lt hv2, Nat.mod_eq_of_lt hv1,
      Nat.mod_eq_of_lt hm] at hc
    rcases hc with hc | hc | hc | ⟨_, hc⟩
    · rw [hc] at ht
      omega
    · rw [hc] at ht
      omega
    · rw [hc] at ht
      omega
    · exact hc
  · rw [if_neg c0] at ht
    have hz : (setType 0 (cmd0Loop h card 20 (initStart card s)).2).SD_Type = 0 := rfl
    rw [hz] at ht
    omega

theorem C10_legacy_types_sent_cmd16_witness :
    (sdcard_h.WellFormed ∧
      ((SD_Initialize sdcard_h cardV1 st0).2.SD_Type = sdcard_h.SD_TYPE_MMC ∨
        (SD_Initialize sdcard_h cardV1 st0).2.SD_Type = sdcard_h.SD_TYPE_V1)) ∧
    (SD_Initialize sdcard_h cardV1 st0).2.cmds.getLast? =
      some { cmd := sdcard_h.CMD16 % 256, arg := 512, crc := 0x01, r1 := 0 } :=
  ⟨⟨by decide, by decide⟩,
   C10_legacy_types_sent_cmd16 sdcard_h cardV1 st0 (by decide) (by decide)⟩

theorem reads_reads (card : Card) (a b : Nat) (l : List BusEv) :
    reads card b (reads card a l) = reads card (a + b) l := by
  simp only [reads, writes_writes, List.replicate_add]

theorem rxAt_reads (card : Card) (k i : Nat) (l : List BusEv) :
    rxAt card (reads card k l) i = rxAt card l (k + i) := by
  simp only [rxAt, reads_reads]

theorem reads_zero (card : Card) (l : List BusEv) : reads card 0 l = l := rfl

theorem rw_ff (card : Card) (s : St) :
    SD_SPI_ReadWriteByte card 0xFF s = (rxAt card s.log 0, { s with log := reads card 1 s.log }) := by
  simp [rxAt, reads, writes, SD_SPI_ReadWriteByte]

theorem getResponseLoop_found (card : Card) (R : Nat) :
    ∀ (n : Nat) (s : St) (j : Nat), j < n → (∀ i, i < j → rxAt card s.log i ≠ R % 256) →
      rxAt card s.log j = R % 256 →
      getResponseLoop card R n s = (n - j, { s with log := reads card (j + 1) s.log })
  | 0, _, _, hj, _, _ => absurd hj (Nat.not_lt_zero _)
  | n + 1, s, 0, _, _, h0 => by
    have h0' : ¬ (SD_SPI_ReadWriteByte card 0xFF s).1 ≠ R % 256 := by
      rw [rw_ff]; exact not_not.mpr h0
    rw [getResponseLoop, if_neg h0', rw_ff]
    rfl
  | n + 1, s, j + 1, hj, hb, hf => by
    have h0 : (SD_SPI_ReadWriteByte card 0xFF s).1 ≠ R % 256 := by
      rw [rw_ff]; exact hb 0 (Nat.succ_pos _)
    rw [getResponseLoop, if_pos h0, rw_ff]
    rw [getResponseLoop_found card R n _ j (by omega)]
    · simp only [reads_reads]
      have e1 : n + 1 - (j + 1) = n - j := by omega
      have e2 : 1 + (j + 1) = j + 1 + 1 := by omega
      rw [e1, e2]
    · intro i hi
      show rxAt card (reads card 1 s.log) i ≠ R % 256
      rw [rxAt_reads, Nat.add_comm]
      exact hb (i + 1) (by omega)
    · show rxAt card (reads card 1 s.log) j = R % 256
      rw [rxAt_reads, Nat.add_comm]
      exact hf

theorem getResponseLoop_none_log (card : Card) (R : Nat) :
    ∀ (n : Nat) (s : St), (∀ j, j ≤ n → rxAt card s.log j ≠ R % 256) →
      getResponseLoop card R n s = (0, { s with log := reads card (n + 1) s.log })
  | 0, s, _ => by
    rw [getResponseLoop, rw_ff]
  | n + 1, s, hn => by
    have h0 : (SD_SPI_ReadWriteByte card 0xFF s).1 ≠ R % 256 := by
      rw [rw_ff]; exact hn 0 (Nat.zero_le _)
    rw [getResponseLoop, if_pos h0, rw_ff, getResponseLoop_none_log card R n]
    · simp only [reads_reads]
      have e2 : 1 + (n + 1) = n + 1 + 1 := by omega
      rw [e2]
    · intro j hj
      show rxAt card (reads card 1 s.log) j ≠ R % 256
      rw [rxAt_reads, Nat.add_comm]
      exact hn (j + 1) (by omega)

theorem recvBytes_spec (card : Card) :
    ∀ (n : Nat) (s : St), recvBytes card n s =
      ((List.range' 0 n).map (fun i => rxAt card s.log i), { s with log := reads card n s.log })
  | 0, _ => rfl
  | n + 1, s => by
    rw [recvBytes, rw_ff, recvBytes_spec card n]
    simp only [reads_reads, rxAt_reads]
    rw [List.range'_succ, List.map_cons, Nat.add_comm 1 n]
    congr 2
    have e : List.range' (0 + 1) n = List.map (fun i => 1 + i) (List.range' 0 n) :=
      (List.map_add_range' 1 0 n 1).symm
    rw [e, List.map_map]
    rfl

theorem SD_RecvData_found (h : Hdr) (card : Card) (len : Nat) (s : St) (j : Nat)
    (h0 : h.MSD_RESPONSE_NO_ERROR = 0) (hj : j < 0xFFFF)
    (hb : ∀ i, i < j → rxAt card s.log i ≠ 0xFE) (hf : rxAt card s.log j = 0xFE) :
    SD_RecvData h card len s =
      ((0, (List.range len).map (fun i => rxAt card s.log (j + 1 + i))),
       { s with log := reads card (j + 1 + len + 2) s.log }) := by
  have hl := getResponseLoop_found card 0xFE 0xFFFF s j hj hb hf
  have hne : ¬ (0xFFFF - j = 0) := by omega
  have hg : SD_GetResponse h card 0xFE s = (0, { s with log := reads card (j + 1) s.log }) := by
    simp only [SD_GetResponse, hl, if_neg hne, h0, Nat.zero_mod]
  have h00 : ¬ ((0 : Nat) ≠ 0) := fun hh => hh rfl
  simp only [SD_RecvData, hg, if_neg h00, recvBytes_spec, rw_ff, reads_reads, rxAt_reads,
    List.range_eq_range']

theorem SD_RecvData_none (h : Hdr) (card : Card) (len : Nat) (s : St)
    (hf : h.MSD_RESPONSE_FAILURE % 256 ≠ 0)
    (hn : ∀ j, j < 65536 → rxAt card s.log j ≠ 0xFE) :
    SD_RecvData h card len s = ((1, []), { s with log := reads card 65536 s.log }) := by
  have hl := getResponseLoop_none_log card 0xFE 0xFFFF s (fun j hj => hn j (by omega))
  have hg : SD_GetResponse h card 0xFE s =
      (h.MSD_RESPONSE_FAILURE % 256, { s with log := reads card 65536 s.log }) := by
    simp only [SD_GetResponse, hl, if_true]
  simp only [SD_RecvData, hg, if_pos hf]

/-- C11: `SD_RecvData(buf, len)`: when the first `0xFE` among the bytes read is
byte number `j < 0xFFFF` (the retry counter of `SD_GetResponse` is still positive),
the next `len` bytes read are stored into `buf` in order, exactly two more bytes
are exchanged, and 0 is returned; when none of the first 65536 bytes read is
`0xFE`, the call returns 1 after exactly 65536 exchanges and stores nothing. -/
theorem C11_SD_RecvData_contract (h : Hdr) (card : Card) (len : Nat) (s : St)
    (hwf : h.WellFormed) : RecvDataContract h card len s := by
  have h0 : h.MSD_RESPONSE_NO_ERROR = 0 := hwf.2.2.2.2.2.2.2.2.2.2.2.2.2.2.2.1
  have hf : h.MSD_RESPONSE_FAILURE % 256 ≠ 0 := hwf.2.2.2.2.2.2.2.2.2.2.2.2.2.2.2.2
  refine ⟨fun j hj hb hfound => ?_, fun hn => ?_⟩
  · rw [SD_RecvData_found h card len s j h0 hj hb hfound]
    exact ⟨rfl, rfl, by dsimp only⟩
  · rw [SD_RecvData_none h card len s hf hn]
    exact ⟨rfl, rfl, by dsimp only⟩

theorem C11_SD_RecvData_contract_witness :
    sdcard_h.WellFormed ∧ RecvDataContract sdcard_h cardToken 3 st0 ∧
      SD_RecvData sdcard_h cardToken 3 st0 =
        ((0, [1, 2, 3]), { st0 with log := [BusEv.xfer 0xFF 0, BusEv.xfer 0xFF 0,
          BusEv.xfer 0xFF 0xFE, BusEv.xfer 0xFF 1, BusEv.xfer 0xFF 2, BusEv.xfer 0xFF 3,
          BusEv.xfer 0xFF 4, BusEv.xfer 0xFF 5] }) :=
  ⟨by decide, C11_SD_RecvData_contract sdcard_h cardToken 3 st0 (by decide), by decide⟩

theorem waitReadyLoop_none (card : Card) :
    ∀ (n : Nat) (s : St), (∀ j, j < n → rxAt card s.log j ≠ 0xFF) →
      waitReadyLoop card n s = (1, { s with log := reads card n s.log })
  | 0, _, _ => rfl
  | n + 1, s, hn => by
    have h0 : ¬ (SD_SPI_ReadWriteByte card 0xFF s).1 = 0xFF := by
      rw [rw_ff]; exact hn 0 (Nat.succ_pos _)
    rw [waitReadyLoop, if_neg h0, rw_ff, waitReadyLoop_none card n]
    · simp only [reads_reads]
      rw [Nat.add_comm 1 n]
    · intro j hj
      show rxAt card (reads card 1 s.log) j ≠ 0xFF
      rw [rxAt_reads, Nat.add_comm]
      exact hn (j + 1) (by omega)

theorem waitReadyLoop_found (card : Card) :
    ∀ (n : Nat) (s : St) (j : Nat), j < n → (∀ i, i < j → rxAt card s.log i ≠ 0xFF) →
      rxAt card s.log j = 0xFF →
      waitReadyLoop card n s = (0, { s with log := reads card (j + 1) s.log })
  | 0, _, _, hj, _, _ => absurd hj (Nat.not_lt_zero _)
  | n + 1, s, 0, _, _, h0 => by
    have h0' : (SD_SPI_ReadWriteByte card 0xFF s).1 = 0xFF := by
      rw [rw_ff]; exact h0
    rw [waitReadyLoop, if_pos h0', rw_ff]
  | n + 1, s, j + 1, hj, hb, hf => by
    have h0 : ¬ (SD_SPI_ReadWriteByte card 0xFF s).1 = 0xFF := by
      rw [rw_ff]; exact hb 0 (Nat.succ_pos _)
    rw [waitReadyLoop, if_neg h0, rw_ff]
    rw [waitReadyLoop_found card n _ j (by omega)]
    · simp only [reads_reads]
      have e2 : 1 + (j + 1) = j + 1 + 1 := by omega
      rw [e2]
    · intro i hi
      show rxAt card (reads card 1 s.log) i ≠ 0xFF
      rw [rxAt_reads, Nat.add_comm]
      exact hb (i + 1) (by omega)
    · show rxAt card (reads card 1 s.log) j = 0xFF
      rw [rxAt_reads, Nat.add_comm]
      exact hf

theorem sendBytes_spec (card : Card) (buf : Nat → Nat) :
    ∀ (n t : Nat) (s : St), sendBytes card buf n t s =
      { s with log := writes card ((List.range' t n).map buf) s.log }
  | 0, _, _ => rfl
  | n + 1, t, s => by
    rw [sendBytes, rw_eq_writes, sendBytes_spec card buf n (t + 1)]
    simp only [writes_writes, List.range'_succ, List.map_cons, List.singleton_append]
    congr 1
    simp only [writes, Nat.mod_mod]

theorem writes_mod_head (card : Card) (b : Nat) (bs : List Nat) (l : List BusEv) :
    writes card (b % 256 :: bs) l = writes card (b :: bs) l := by
  simp only [writes, Nat.mod_mod]

theorem SD_SendBlock_ready (card : Card) (buf : Nat → Nat) (cmd : Nat) (s : St) (j : Nat)
    (hj : j < 0xFFFFFF) (hb : ∀ i, i < j → rxAt card s.log i ≠ 0xFF)
    (hf : rxAt card s.log j = 0xFF) :
    SD_SendBlock card buf cmd s =
      if cmd % 256 ≠ 0xFD then
        (if dataResponse card buf cmd (reads card (j + 1) s.log) &&& 0x1F ≠ 0x05 then 2 else 0,
          { s with
            log := writes card (cmd :: ((List.range 512).map buf ++ [0xFF, 0xFF, 0xFF]))
                    (reads card (j + 1) s.log) })
      else (0, { s with log := writes card [cmd] (reads card (j + 1) s.log) }) := by
  have hw := waitReadyLoop_found card 0xFFFFFF s j hj hb hf
  have h00 : ¬ ((0 : Nat) ≠ 0) := fun hh => hh rfl
  by_cases hc : cmd % 256 ≠ 0xFD
  · simp only [SD_SendBlock, SD_WaitReady, hw, if_neg h00, if_pos hc, rw_eq_writes, sendBytes_spec,
      writes_writes, List.singleton_append, writes_mod_head, List.range_eq_range', dataResponse,
      List.append_assoc, List.cons_append, List.nil_append]
    simp only [Nat.reduceMod]
    have e4 : ∀ (t : St), (SD_SPI_ReadWriteByte card 255 t).1 = rxAt card t.log 0 :=
      fun t => (rxAt_zero card t).symm
    rw [e4]
    dsimp only
    split
    · rfl
    · rfl
  · simp only [SD_SendBlock, SD_WaitReady, hw, if_neg h00, if_neg hc, rw_eq_writes,
      writes_mod_head]

/-- C12: `SD_SendBlock(buf, cmd)` returns 1, having exchanged only the polls of
`SD_WaitReady`, when the card never reads back `0xFF`; otherwise it writes the
token, and for a token other than `0xFD` writes `buf[0..511]` in order, two `0xFF`
bytes, reads the data response with one more exchange and returns 0 exactly when
its low five bits are `0x05`, and 2 otherwise; for the token `0xFD` it writes only
the token, returns 0, and does not depend on `buf`. -/
theorem C12_SD_SendBlock_contract (card : Card) (buf : Nat → Nat) (cmd : Nat) (s : St) :
    SendBlockContract card buf cmd s := by
  refine ⟨fun hn => ?_, fun j hj hb hf => ⟨fun hc => ?_, fun hc => ?_⟩⟩
  · have hw := waitReadyLoop_none card 0xFFFFFF s hn
    have h10 : (1 : Nat) ≠ 0 := Nat.one_ne_zero
    simp only [SD_SendBlock, SD_WaitReady, hw, if_pos h10, and_self]
  · rw [SD_SendBlock_ready card buf cmd s j hj hb hf, if_pos hc]
    dsimp only
    by_cases hd : dataResponse card buf cmd (reads card (j + 1) s.log) &&& 0x1F ≠ 0x05
    · rw [if_pos hd]
      exact ⟨rfl, ⟨fun h2 => absurd h2 (by decide), fun h5 => absurd h5 hd⟩,
        fun _ => hd, fun _ => rfl⟩
    · rw [if_neg hd]
      exact ⟨rfl, ⟨fun _ => not_not.mp hd, fun _ => rfl⟩,
        fun h2 => absurd h2 (by decide), fun h5 => absurd h5 hd⟩
  · have hc' : ¬ cmd % 256 ≠ 0xFD := not_not.mpr hc
    refine ⟨?_, ?_, fun buf2 => ?_⟩
    · rw [SD_SendBlock_ready card buf cmd s j hj hb hf, if_neg hc']
    · rw [SD_SendBlock_ready card buf cmd s j hj hb hf, if_neg hc']
    · rw [SD_SendBlock_ready card buf cmd s j hj hb hf,
        SD_SendBlock_ready card buf2 cmd s j hj hb hf, if_neg hc', if_neg hc']

theorem shl_or_eq_add (a b i : Nat) (hb : b < 2 ^ i) : (a <<< i) ||| b = a * 2 ^ i + b := by
  rw [Nat.shiftLeft_eq, Nat.mul_comm, ← Nat.mul_add_lt_is_or hb]

theorem rxAt_lt (card : Card) (l : List BusEv) (j : Nat) : rxAt card l j < 256 :=
  Nat.mod_lt _ (by decide)

theorem getD_lt (l : List Nat) (hl : ∀ b ∈ l, b < 256) (i : Nat) : l.getD i 0 < 256 := by
  rw [List.getD_eq_getElem?_getD]
  cases hi : l[i]? with
  | none => simp
  | some v =>
    simp only [Option.getD_some]
    exact hl v (List.getElem?_mem hi)

theorem recvBytes_lt (card : Card) (n : Nat) (s : St) : ∀ b ∈ (recvBytes card n s).1, b < 256 := by
  intro b hb
  rw [recvBytes_spec] at hb
  simp only [List.mem_map] at hb
  obtain ⟨i, _, rfl⟩ := hb
  exact rxAt_lt card _ _

theorem SD_RecvData_lt (h : Hdr) (card : Card) (len : Nat) (s : St) :
    ∀ b ∈ (SD_RecvData h card len s).1.2, b < 256 := by
  intro b hb
  simp only [SD_RecvData] at hb
  split at hb
  · cases hb
  · exact recvBytes_lt card len _ b hb

theorem ite_fst_snd {α β γ : Type} (c : Prop) [Decidable c] (a b : α) (x : β) (y : γ) :
    (if c then ((a, x), y) else ((b, x), y)).1.2 = x := by
  split <;> rfl

theorem SD_GetCSD_lt (h : Hdr) (card : Card) (s : St) :
    ∀ b ∈ (SD_GetCSD h card s).1.2, b < 256 := by
  intro b hb
  have e : (SD_GetCSD h card s).1.2 =
      (if (SD_SendCmd h card h.CMD9 0 0x01 s).1 = 0 then
        SD_RecvData h card 16 (SD_SendCmd h card h.CMD9 0 0x01 s).2
       else (((SD_SendCmd h card h.CMD9 0 0x01 s).1, []), (SD_SendCmd h card h.CMD9 0 0x01 s).2)).1.2 := by
    simp only [SD_GetCSD]
    exact ite_fst_snd _ _ _ _ _
  rw [e] at hb
  split at hb
  · exact SD_RecvData_lt h card 16 _ b hb
  · cases hb

theorem csdCapacity_v2 (csd : List Nat) (hl : ∀ b ∈ csd, b < 256)
    (hv : csd.getD 0 0 &&& 0xC0 = 0x40) :
    csdCapacity csd = (csd.getD 8 0 * 256 + csd.getD 9 0 + 1) * 1024 := by
  have h8 := getD_lt csd hl 8
  have h9 := getD_lt csd hl 9
  simp only [csdCapacity, if_pos hv, Nat.shiftLeft_eq]
  omega

theorem specCSizeV2_eq (csd : List Nat) (hl : ∀ b ∈ csd, b < 256) :
    specCSizeV2 csd = (csd.getD 7 0 &&& 0x3F) * 65536 + csd.getD 8 0 * 256 + csd.getD 9 0 := by
  have h8 := getD_lt csd hl 8
  have h9 := getD_lt csd hl 9
  unfold specCSizeV2
  rw [shl_or_eq_add _ (csd.getD 8 0 <<< 8) 16 (by rw [Nat.shiftLeft_eq]; omega)]
  have e : (csd.getD 7 0 &&& 0x3F) * 2 ^ 16 + csd.getD 8 0 <<< 8 =
      ((csd.getD 7 0 &&& 0x3F) * 256 + csd.getD 8 0) <<< 8 := by
    simp only [Nat.shiftLeft_eq]
    omega
  rw [e, shl_or_eq_add _ _ 8 (by omega)]
  omega

theorem SD_GetSectorCount_ok (h : Hdr) (card : Card) (s : St)
    (hok : (SD_GetCSD h card s).1.1 = 0) :
    (SD_GetSectorCount h card s).1 = csdCapacity (SD_GetCSD h card s).1.2 := by
  simp only [SD_GetSectorCount, if_neg (not_not.mpr hok)]

/-- C13: when the CSD read succeeds and the register is in the version-2 layout,
`SD_GetSectorCount` returns `(csd[8] * 256 + csd[9] + 1) * 1024`: it decodes only the
low sixteen bits of C_SIZE.  The result equals `(C_SIZE + 1) * 1024` for the 22-bit
field of the SD specification exactly when the six bits `csd[7] & 0x3F` are zero. -/
theorem C13_v2_capacity_drops_high_bits (h : Hdr) (card : Card) (s : St)
    (hok : (SD_GetCSD h card s).1.1 = 0)
    (hv : (SD_GetCSD h card s).1.2.getD 0 0 &&& 0xC0 = 0x40) :
    (SD_GetSectorCount h card s).1 =
      ((SD_GetCSD h card s).1.2.getD 8 0 * 256 + (SD_GetCSD h card s).1.2.getD 9 0 + 1) * 1024 ∧
    ((SD_GetSectorCount h card s).1 = (specCSizeV2 (SD_GetCSD h card s).1.2 + 1) * 1024 ↔
      (SD_GetCSD h card s).1.2.getD 7 0 &&& 0x3F = 0) := by
  have hl := SD_GetCSD_lt h card s
  rw [SD_GetSectorCount_ok h card s hok, csdCapacity_v2 _ hl hv, specCSizeV2_eq _ hl]
  refine ⟨rfl, ?_⟩
  generalize (SD_GetCSD h card s).1.2.getD 7 0 &&& 0x3F = a
  omega

theorem C13_v2_capacity_drops_high_bits_witness :
    (SD_GetCSD sdcard_h (cardWithCSD csdSDXC) st0).1 = (0, csdSDXC) ∧
    (specCSizeV2 csdSDXC + 1) * 1024 = 124735488 ∧
    (SD_GetSectorCount sdcard_h (cardWithCSD csdSDXC) st0).1 = 57626624 ∧
    ((SD_GetSectorCount sdcard_h (cardWithCSD csdSDXC) st0).1 =
        ((SD_GetCSD sdcard_h (cardWithCSD csdSDXC) st0).1.2.getD 8 0 * 256 +
          (SD_GetCSD sdcard_h (cardWithCSD csdSDXC) st0).1.2.getD 9 0 + 1) * 1024 ∧
      ((SD_GetSectorCount sdcard_h (cardWithCSD csdSDXC) st0).1 =
          (specCSizeV2 (SD_GetCSD sdcard_h (cardWithCSD csdSDXC) st0).1.2 + 1) * 1024 ↔
        (SD_GetCSD sdcard_h (cardWithCSD csdSDXC) st0).1.2.getD 7 0 &&& 0x3F = 0)) :=
  ⟨by decide, by decide, by decide,
   C13_v2_capacity_drops_high_bits sdcard_h (cardWithCSD csdSDXC) st0 (by decide) (by decide)⟩

set_option maxRecDepth 20000 in
theorem and128_shr7 : ∀ c, c < 256 → (c &&& 128) >>> 7 = c >>> 7 := by decide

theorem specCSizeV1_eq (csd : List Nat) (hl : ∀ b ∈ csd, b < 256) :
    specCSizeV1 csd = (csd.getD 6 0 &&& 3) * 1024 + csd.getD 7 0 * 4 + csd.getD 8 0 >>> 6 := by
  have h7 := getD_lt csd hl 7
  have h8 := getD_lt csd hl 8
  have h8' : csd.getD 8 0 >>> 6 < 2 ^ 2 := by
    rw [Nat.shiftRight_eq_div_pow]
    omega
  unfold specCSizeV1
  rw [shl_or_eq_add _ (csd.getD 7 0 <<< 2) 10 (by rw [Nat.shiftLeft_eq]; omega)]
  have e : (csd.getD 6 0 &&& 3) * 2 ^ 10 + csd.getD 7 0 <<< 2 =
      ((csd.getD 6 0 &&& 3) * 256 + csd.getD 7 0) <<< 2 := by
    simp only [Nat.shiftLeft_eq]
    omega
  rw [e, shl_or_eq_add _ _ 2 h8']
  omega

theorem specCSizeMult_eq (csd : List Nat) (hl : ∀ b ∈ csd, b < 256) :
    specCSizeMult csd = (csd.getD 9 0 &&& 3) * 2 + csd.getD 10 0 >>> 7 := by
  have h10 := getD_lt csd hl 10
  have h10' : csd.getD 10 0 >>> 7 < 2 ^ 1 := by
    rw [Nat.shiftRight_eq_div_pow]
    omega
  unfold specCSizeMult
  rw [shl_or_eq_add _ _ 1 h10', Nat.pow_one]

theorem csdN_eq (csd : List Nat) (hl : ∀ b ∈ csd, b < 256) :
    csdN csd = specReadBlLen csd + specCSizeMult csd + 2 := by
  have h10 := getD_lt csd hl 10
  have h10' : csd.getD 10 0 >>> 7 < 2 := by
    rw [Nat.shiftRight_eq_div_pow]
    omega
  have h5 : csd.getD 5 0 &&& 15 ≤ 15 := Nat.and_le_right
  have h9 : csd.getD 9 0 &&& 3 ≤ 3 := Nat.and_le_right
  rw [specCSizeMult_eq csd hl]
  unfold csdN specReadBlLen
  rw [and128_shr7 _ h10, Nat.shiftLeft_eq]
  omega

theorem csdCapacity_v1 (csd : List Nat) (hl : ∀ b ∈ csd, b < 256)
    (hv : ¬ csd.getD 0 0 &&& 0xC0 = 0x40) (hr : 9 ≤ specReadBlLen csd) :
    9 ≤ csdN csd ∧ specCapacityV1 csd < 2 ^ 32 ∧ csdCapacity csd = specCapacityV1 csd := by
  have h7 := getD_lt csd hl 7
  have h8 := getD_lt csd hl 8
  have h8' : csd.getD 8 0 >>> 6 < 4 := by
    rw [Nat.shiftRight_eq_div_pow]
    omega
  have h6 : csd.getD 6 0 &&& 3 ≤ 3 := Nat.and_le_right
  have hC := specCSizeV1_eq csd hl
  have hN := csdN_eq csd hl
  have hM : specCSizeMult csd ≤ 7 := by
    have h10 := getD_lt csd hl 10
    have h10' : csd.getD 10 0 >>> 7 < 2 := by
      rw [Nat.shiftRight_eq_div_pow]
      omega
    have h9 : csd.getD 9 0 &&& 3 ≤ 3 := Nat.and_le_right
    rw [specCSizeMult_eq csd hl]
    omega
  have hR : specReadBlLen csd ≤ 15 := Nat.and_le_right
  have hcs : ((csd.getD 8 0 >>> 6) + (csd.getD 7 0 <<< 2) % 2 ^ 32 +
      ((csd.getD 6 0 &&& 3) <<< 10) % 2 ^ 32 + 1) % 2 ^ 32 = specCSizeV1 csd + 1 := by
    rw [hC]
    simp only [Nat.shiftLeft_eq]
    omega
  have hCle : specCSizeV1 csd + 1 ≤ 2 ^ 12 := by
    rw [hC]
    omega
  -- the same value written without the division
  have hspec : specCapacityV1 csd =
      (specCSizeV1 csd + 1) * 2 ^ (specReadBlLen csd + specCSizeMult csd + 2 - 9) := by
    unfold specCapacityV1
    have e1 : 2 ^ specReadBlLen csd = 2 ^ (specReadBlLen csd - 9) * 512 := by
      rw [show (512 : Nat) = 2 ^ 9 from rfl, ← Nat.pow_add]
      congr 1
      omega
    have e2 : specReadBlLen csd + specCSizeMult csd + 2 - 9 =
        (specCSizeMult csd + 2) + (specReadBlLen csd - 9) := by omega
    rw [e2, Nat.pow_add 2 (specCSizeMult csd + 2) (specReadBlLen csd - 9), e1, ← Nat.mul_assoc,
      ← Nat.mul_assoc, Nat.mul_div_cancel _ (by decide : 0 < 512)]
  have hpow : 2 ^ (specReadBlLen csd + specCSizeMult csd + 2 - 9) ≤ 2 ^ 15 :=
    Nat.pow_le_pow_right (by decide) (by omega)
  have hlt : (specCSizeV1 csd + 1) * 2 ^ (specReadBlLen csd + specCSizeMult csd + 2 - 9) <
      2 ^ 32 :=
    calc (specCSizeV1 csd + 1) * 2 ^ (specReadBlLen csd + specCSizeMult csd + 2 - 9)
        ≤ 2 ^ 12 * 2 ^ 15 := Nat.mul_le_mul hCle hpow
      _ < 2 ^ 32 := by decide
  refine ⟨by omega, by rw [hspec]; exact hlt, ?_⟩
  rw [hspec]
  simp only [csdCapacity, if_neg hv]
  rw [hcs, hN, Nat.shiftLeft_eq, Nat.mod_eq_of_lt hlt]

/-- C14: `SD_GetSectorCount` returns 0 when reading the CSD fails.  When the read
succeeds, the register is not in the version-2 layout and READ_BL_LEN is at least
9, the shift amount `n - 9` is non-negative, the value
`(C_SIZE + 1) * 2^(C_SIZE_MULT + 2) * 2^READ_BL_LEN / 512` is below `2^32`, and it is
the value returned. -/
theorem C14_v1_capacity (h : Hdr) (card : Card) (s : St) :
    ((SD_GetCSD h card s).1.1 ≠ 0 → (SD_GetSectorCount h card s).1 = 0) ∧
    ((SD_GetCSD h card s).1.1 = 0 → (SD_GetCSD h card s).1.2.getD 0 0 &&& 0xC0 ≠ 0x40 →
      9 ≤ specReadBlLen (SD_GetCSD h card s).1.2 →
      9 ≤ csdN (SD_GetCSD h card s).1.2 ∧ specCapacityV1 (SD_GetCSD h card s).1.2 < 2 ^ 32 ∧
      (SD_GetSectorCount h card s).1 = specCapacityV1 (SD_GetCSD h card s).1.2) := by
  refine ⟨fun hf => ?_, fun hok hv hr => ?_⟩
  · simp only [SD_GetSectorCount, if_pos hf]
  · rw [SD_GetSectorCount_ok h card s hok]
    exact csdCapacity_v1 _ (SD_GetCSD_lt h card s) hv hr

theorem C14_v1_capacity_witness :
    (SD_GetCSD sdcard_h (cardWithCSD csdV1) st0).1 = (0, csdV1) ∧
    specCSizeV1 csdV1 = 3819 ∧ specCSizeMult csdV1 = 7 ∧ specReadBlLen csdV1 = 10 ∧
    (SD_GetSectorCount sdcard_h (cardWithCSD csdV1) st0).1 = 3911680 ∧
    (9 ≤ csdN (SD_GetCSD sdcard_h (cardWithCSD csdV1) st0).1.2 ∧
      specCapacityV1 (SD_GetCSD sdcard_h (cardWithCSD csdV1) st0).1.2 < 2 ^ 32 ∧
      (SD_GetSectorCount sdcard_h (cardWithCSD csdV1) st0).1 =
        specCapacityV1 (SD_GetCSD sdcard_h (cardWithCSD csdV1) st0).1.2) :=
  ⟨by decide, by decide, by decide, by decide, by decide,
   (C14_v1_capacity sdcard_h (cardWithCSD csdV1) st0).2 (by decide) (by decide) (by decide)⟩

theorem frameCard_at (r1f : Nat → Nat) (tail : Nat → Nat → Nat) (l : List BusEv) (b : Nat)
    (h8 : 8 ≤ (sinceSelect l).length) :
    frameCard r1f tail l b = tail ((sinceSelect l).getD 1 0) ((sinceSelect l).length - 8) := by
  have h1 : ¬ (sinceSelect l).length < 7 := by omega
  have h2 : ¬ (sinceSelect l).length = 7 := by omega
  simp only [frameCard, if_neg h1, if_neg h2]

theorem frameCard_sendCmd_since (h : Hdr) (r1f : Nat → Nat) (tail : Nat → Nat → Nat)
    (cmd arg crc : Nat) (s : St) (h12 : cmd % 256 ≠ h.CMD12)
    (hb : (r1f ((cmd % 256 ||| 0x40) % 256) % 256) &&& 0x80 = 0) :
    sinceSelect (SD_SendCmd h (frameCard r1f tail) cmd arg crc s).2.log =
      [0xFF, (cmd % 256 ||| 0x40) % 256, ((arg % 2 ^ 32) >>> 24) % 256,
        ((arg % 2 ^ 32) >>> 16) % 256, ((arg % 2 ^ 32) >>> 8) % 256, (arg % 2 ^ 32) % 256,
        crc % 256, 0xFF] := by
  have hsel := frameCard_select r1f tail s
  have hs : (SD_Select (frameCard r1f tail) (SD_DisSelect (frameCard r1f tail) s)).1 = 0 := by
    rw [hsel]
  have hq : sinceSelect (writes (frameCard r1f tail) (frame h cmd arg crc)
      (SD_Select (frameCard r1f tail) (SD_DisSelect (frameCard r1f tail) s)).2.log) =
      [0xFF, (cmd % 256 ||| 0x40) % 256, ((arg % 2 ^ 32) >>> 24) % 256,
        ((arg % 2 ^ 32) >>> 16) % 256, ((arg % 2 ^ 32) >>> 8) % 256, (arg % 2 ^ 32) % 256,
        crc % 256] := by
    rw [sinceSelect_writes, hsel]
    have : (SD_SPI_ReadWriteByte (frameCard r1f tail) 0xFF
        (setCS false (SD_DisSelect (frameCard r1f tail) s))).2.log =
        ((SD_DisSelect (frameCard r1f tail) s).log ++ [BusEv.cs false]) ++
          [BusEv.xfer 0xFF (frameCard r1f tail
            ((SD_DisSelect (frameCard r1f tail) s).log ++ [BusEv.cs false]) 0xFF % 256)] := by
      simp [SD_SPI_ReadWriteByte, setCS]
    rw [this, sinceSelect_xfer, sinceSelect_cs_false]
    simp [frame, h12, Nat.mod_mod]
  have hrd : (SD_SPI_ReadWriteByte (frameCard r1f tail) 0xFF
      { (SD_Select (frameCard r1f tail) (SD_DisSelect (frameCard r1f tail) s)).2 with
        log := writes (frameCard r1f tail) (frame h cmd arg crc)
          (SD_Select (frameCard r1f tail) (SD_DisSelect (frameCard r1f tail) s)).2.log }).1 =
      r1f ((cmd % 256 ||| 0x40) % 256) % 256 := by
    show frameCard r1f tail (writes (frameCard r1f tail) (frame h cmd arg crc)
      (SD_Select (frameCard r1f tail) (SD_DisSelect (frameCard r1f tail) s)).2.log)
        (0xFF % 256) % 256 = _
    simp only [frameCard, hq]
    rfl
  have hnb : ¬ ((SD_SPI_ReadWriteByte (frameCard r1f tail) 0xFF
      { (SD_Select (frameCard r1f tail) (SD_DisSelect (frameCard r1f tail) s)).2 with
        log := writes (frameCard r1f tail) (frame h cmd arg crc)
          (SD_Select (frameCard r1f tail) (SD_DisSelect (frameCard r1f tail) s)).2.log }).1
        &&& 0x80 ≠ 0) := by
    rw [hrd]
    exact not_not.mpr hb
  simp only [SD_SendCmd, sendCmdBody_ok h (frameCard r1f tail) cmd arg crc s hs]
  rw [show (0x1F : Nat) = 0x1E + 1 from rfl, respLoop, if_neg hnb]
  show sinceSelect (SD_SPI_ReadWriteByte (frameCard r1f tail) 0xFF
      { (SD_Select (frameCard r1f tail) (SD_DisSelect (frameCard r1f tail) s)).2 with
        log := writes (frameCard r1f tail) (frame h cmd arg crc)
          (SD_Select (frameCard r1f tail) (SD_DisSelect (frameCard r1f tail) s)).2.log }).2.log = _
  rw [rw_log]
  show sinceSelect (writes (frameCard r1f tail) (frame h cmd arg crc)
      (SD_Select (frameCard r1f tail) (SD_DisSelect (frameCard r1f tail) s)).2.log ++ _) = _
  rw [sinceSelect_xfer, hq]
  rfl

theorem sinceSelect_reads (card : Card) (k : Nat) (l : List BusEv) :
    sinceSelect (reads card k l) = sinceSelect l ++ List.replicate k 0xFF := by
  rw [reads, sinceSelect_writes]
  simp

theorem cardRejectBlock_at (l : List BusEv) (b : Nat) (h8 : 8 ≤ (sinceSelect l).length) :
    cardRejectBlock l b =
      if (sinceSelect l).getD 1 0 = 0x59 ∧ (sinceSelect l).length - 8 = 516 then 0x0B
      else 0xFF :=
  frameCard_at (fun _ => 0) (fun c i => if c = 0x59 ∧ i = 516 then 0x0B else 0xFF) l b h8

theorem cardRejectBlock_since :
    sinceSelect (multiWriteCmd sdcard_h cardRejectBlock 0 2 st0).2.log =
      [0xFF, 0x59, 0, 0, 0, 0, 0x01, 0xFF] :=
  frameCard_sendCmd_since sdcard_h (fun _ => 0)
    (fun c i => if c = 0x59 ∧ i = 516 then 0x0B else 0xFF) sdcard_h.CMD25
    (if st0.SD_Type ≠ sdcard_h.SD_TYPE_V2HC then ((0 % 2 ^ 32) * 512) % 2 ^ 32 else 0 % 2 ^ 32)
    0x01
    (if st0.SD_Type ≠ sdcard_h.SD_TYPE_MMC then
      (SD_SendCmd sdcard_h cardRejectBlock sdcard_h.CMD23 (2 % 256) 0x01
        (SD_SendCmd sdcard_h cardRejectBlock sdcard_h.CMD55 0 0x01 st0).2).2
    else st0) (by decide) (by decide)

theorem cardRejectBlock_block (l : List BusEv) (d t : List Nat)
    (hq : sinceSelect l = [0xFF, 0x59, 0, 0, 0, 0, 0x01, 0xFF]) (hd : d.length = 512) :
    cardRejectBlock (writes cardRejectBlock (0xFC :: (d ++ t)) (reads cardRejectBlock (0 + 1) l)) 0xFF =
      if t.length = 2 then 0x0B else 0xFF := by
  have hs : sinceSelect (writes cardRejectBlock (0xFC :: (d ++ t)) (reads cardRejectBlock (0 + 1) l)) =
      [0xFF, 0x59, 0, 0, 0, 0, 0x01, 0xFF] ++ List.replicate (0 + 1) 0xFF ++
        (0xFC :: (d ++ t)).map (fun b => b % 256) := by
    rw [sinceSelect_writes, sinceSelect_reads, hq]
  have hl : (sinceSelect (writes cardRejectBlock (0xFC :: (d ++ t))
      (reads cardRejectBlock (0 + 1) l))).length = 8 + (514 + t.length) := by
    rw [hs]
    simp only [List.length_append, List.length_cons, List.length_map, List.length_replicate,
      List.length_nil, hd]
    omega
  have hg : (sinceSelect (writes cardRejectBlock (0xFC :: (d ++ t))
      (reads cardRejectBlock (0 + 1) l))).getD 1 0 = 0x59 := by
    rw [hs]
    rfl
  rw [cardRejectBlock_at _ _ (by rw [hl]; omega), hl, hg]
  by_cases ht : t.length = 2
  · rw [if_pos ht, if_pos ⟨rfl, by omega⟩]
  · rw [if_neg ht, if_neg (fun hh => ht (by have := hh.2; omega))]

theorem cardRejectBlock_blocks (buf : Nat → Nat) (n : Nat) (s : St)
    (hq : sinceSelect s.log = [0xFF, 0x59, 0, 0, 0, 0, 0x01, 0xFF]) :
    (writeBlocks cardRejectBlock buf (n + 1) 0 s).1 = 2 ∧
      (SD_WaitReady cardRejectBlock (writeBlocks cardRejectBlock buf (n + 1) 0 s).2).1 = 0 := by
  have hdl : ((List.range 512).map (fun t => buf (0 + t))).length = 512 := by
    rw [List.length_map, List.length_range]
  have h0 : rxAt cardRejectBlock s.log 0 = 0xFF := by
    unfold rxAt
    rw [reads_zero, cardRejectBlock_at _ _ (by rw [hq]; decide), hq]
    decide
  have hb := SD_SendBlock_ready cardRejectBlock (fun t => buf (0 + t)) 0xFC s 0 (by decide)
    (fun i hi => absurd hi (Nat.not_lt_zero i)) h0
  have hd : dataResponse cardRejectBlock (fun t => buf (0 + t)) 0xFC
      (reads cardRejectBlock (0 + 1) s.log) = 0x0B := by
    unfold dataResponse rxAt
    rw [reads_zero, cardRejectBlock_block _ _ _ hq hdl]
    decide
  rw [hd] at hb
  have hc : (0xFC : Nat) % 256 ≠ 0xFD := by decide
  have hr : ((0x0B : Nat) &&& 0x1F ≠ 0x05) := by decide
  rw [if_pos hc, if_pos hr] at hb
  have hn : ¬ ((SD_SendBlock cardRejectBlock (fun t => buf (0 + t)) 0xFC s).1 = 0) := by
    rw [hb]
    exact fun hh => absurd hh (show (2 : Nat) ≠ 0 by decide)
  rw [writeBlocks, if_neg hn, hb]
  refine ⟨rfl, ?_⟩
  have h1 : rxAt cardRejectBlock
      (St.mk (writes cardRejectBlock
        (0xFC :: ((List.range 512).map (fun t => buf (0 + t)) ++ [0xFF, 0xFF, 0xFF]))
        (reads cardRejectBlock (0 + 1) s.log)) s.cmds s.SD_Type).log 0 = 0xFF := by
    unfold rxAt
    rw [reads_zero]
    dsimp only
    rw [cardRejectBlock_block _ _ _ hq hdl]
    decide
  have hw := waitReadyLoop_found cardRejectBlock 0xFFFFFF
    (St.mk (writes cardRejectBlock
      (0xFC :: ((List.range 512).map (fun t => buf (0 + t)) ++ [0xFF, 0xFF, 0xFF]))
      (reads cardRejectBlock (0 + 1) s.log)) s.cmds s.SD_Type) 0 (by decide)
    (fun i hi => absurd hi (Nat.not_lt_zero i)) h1
  unfold SD_WaitReady
  dsimp only
  rw [hw]

theorem cardRejectBlock_write :
    (multiWriteBlocks sdcard_h cardRejectBlock (fun _ => 0) 0 2 st0).1 = 2 ∧
      (SD_WaitReady cardRejectBlock
        (multiWriteBlocks sdcard_h cardRejectBlock (fun _ => 0) 0 2 st0).2).1 = 0 :=
  cardRejectBlock_blocks (fun _ => 0) 0 (multiWriteCmd sdcard_h cardRejectBlock 0 2 st0).2
    cardRejectBlock_since

theorem SD_WriteDisk_multi (h : Hdr) (card : Card) (buf : Nat → Nat) (sector cnt : Nat)
    (s : St) (hcnt : cnt % 256 ≠ 1) :
    SD_WriteDisk h card buf sector cnt s =
      if (multiWriteCmd h card sector cnt s).1 = 0 then
        ((SD_SendBlock card (fun _ => 0) 0xFD (multiWriteBlocks h card buf sector cnt s).2).1,
          SD_DisSelect card
            (SD_SendBlock card (fun _ => 0) 0xFD (multiWriteBlocks h card buf sector cnt s).2).2)
      else ((multiWriteCmd h card sector cnt s).1,
        SD_DisSelect card (multiWriteCmd h card sector cnt s).2) := by
  simp only [SD_WriteDisk, if_neg hcnt, multiWriteBlocks, multiWriteCmd]

theorem SD_SendBlock_stop (card : Card) (buf : Nat → Nat) (s : St) :
    (SD_SendBlock card buf 0xFD s).1 ≠ 2 ∧
      ((SD_WaitReady card s).1 = 0 → (SD_SendBlock card buf 0xFD s).1 = 0) := by
  by_cases hw : (SD_WaitReady card s).1 = 0
  · have e : (SD_SendBlock card buf 0xFD s).1 = 0 := by
      simp [SD_SendBlock, hw]
    exact ⟨by rw [e]; decide, fun _ => e⟩
  · have e : (SD_SendBlock card buf 0xFD s).1 = 1 := by
      simp [SD_SendBlock, hw]
    exact ⟨by rw [e]; decide, fun h0 => absurd h0 hw⟩

/-- C24: for drive 0, `disk_ioctl(0, GET_SECTOR_COUNT, buff)` returns `RES_OK` and
stores `SD_GetSectorCount() >> 11`, which differs from the value returned by
`SD_GetSectorCount()` whenever that value is not 0: the sector count stored is too
small by a factor of 2048. -/
theorem C24_ioctl_stores_shifted_count (d : DiskHdr) (h : Hdr) (card : Card) (pdrv cmd : Nat)
    (s : St) (hp : pdrv % 256 = 0) (hcmd : cmd % 256 = d.GET_SECTOR_COUNT)
    (hne : d.GET_SECTOR_COUNT ≠ d.CTRL_SYNC) :
    disk_ioctl d h card pdrv cmd s =
        ((d.RES_OK, some ((SD_GetSectorCount h card s).1 >>> 11)),
          (SD_GetSectorCount h card s).2) ∧
      (0 < (SD_GetSectorCount h card s).1 →
        (SD_GetSectorCount h card s).1 >>> 11 ≠ (SD_GetSectorCount h card s).1) := by
  refine ⟨?_, fun hpos he => ?_⟩
  · have h1 : ¬ (cmd % 256 = d.CTRL_SYNC) := by
      rw [hcmd]
      exact hne
    simp only [disk_ioctl, ioctlSwitch, hp, ne_eq, not_true_eq_false, if_false, if_neg h1,
      if_pos hcmd]
  · rw [Nat.shiftRight_eq_div_pow] at he
    have := Nat.div_lt_self hpos (show 1 < 2 ^ 11 by decide)
    omega

theorem C24_ioctl_stores_shifted_count_witness :
    (0 % 256 = 0 ∧ 1 % 256 = diskio_h.GET_SECTOR_COUNT ∧
      diskio_h.GET_SECTOR_COUNT ≠ diskio_h.CTRL_SYNC) ∧
    (SD_GetSectorCount sdcard_h (cardWithCSD csdV1) st0).1 = 3911680 ∧
    (disk_ioctl diskio_h sdcard_h (cardWithCSD csdV1) 0 1 st0).1 = (0, some 1910) ∧
    (disk_ioctl diskio_h sdcard_h (cardWithCSD csdV1) 0 1 st0 =
        ((diskio_h.RES_OK, some ((SD_GetSectorCount sdcard_h (cardWithCSD csdV1) st0).1 >>> 11)),
          (SD_GetSectorCount sdcard_h (cardWithCSD csdV1) st0).2) ∧
      (0 < (SD_GetSectorCount sdcard_h (cardWithCSD csdV1) st0).1 →
        (SD_GetSectorCount sdcard_h (cardWithCSD csdV1) st0).1 >>> 11 ≠
          (SD_GetSectorCount sdcard_h (cardWithCSD csdV1) st0).1)) :=
  ⟨⟨by decide, by decide, by decide⟩, by decide, by decide,
   C24_ioctl_stores_shifted_count diskio_h sdcard_h (cardWithCSD csdV1) 0 1 st0 (by decide)
     (by decide) (by decide)⟩

/-- C26: in a multi-block `SD_WriteDisk` (`cnt != 1`) whose CMD25 was answered 0,
the value returned is the result of sending the stop token `0xFD`, which replaces
the result of the data-block loop: it is never 2 (the code of a rejected block),
and it is 0 whenever the card is ready for the stop token, also when a data block
was rejected or a block send failed. -/
theorem C26_stop_token_replaces_block_result (h : Hdr) (card : Card) (buf : Nat → Nat)
    (sector cnt : Nat) (s : St) (hcnt : cnt % 256 ≠ 1)
    (hc : (multiWriteCmd h card sector cnt s).1 = 0) :
    (SD_WriteDisk h card buf sector cnt s).1 =
        (SD_SendBlock card (fun _ => 0) 0xFD (multiWriteBlocks h card buf sector cnt s).2).1 ∧
      (SD_WriteDisk h card buf sector cnt s).1 ≠ 2 ∧
      ((SD_WaitReady card (multiWriteBlocks h card buf sector cnt s).2).1 = 0 →
        (SD_WriteDisk h card buf sector cnt s).1 = 0) := by
  rw [SD_WriteDisk_multi h card buf sector cnt s hcnt, if_pos hc]
  dsimp only
  exact ⟨rfl, SD_SendBlock_stop card (fun _ => 0) (multiWriteBlocks h card buf sector cnt s).2⟩

theorem C26_stop_token_replaces_block_result_witness :
    (2 % 256 ≠ 1 ∧ (multiWriteCmd sdcard_h cardRejectBlock 0 2 st0).1 = 0) ∧
    (multiWriteBlocks sdcard_h cardRejectBlock (fun _ => 0) 0 2 st0).1 = 2 ∧
    (SD_WriteDisk sdcard_h cardRejectBlock (fun _ => 0) 0 2 st0).1 = 0 :=
  ⟨⟨by decide, by decide⟩, cardRejectBlock_write.1,
   (C26_stop_token_replaces_block_result sdcard_h cardRejectBlock (fun _ => 0) 0 2 st0
     (by decide) (by decide)).2.2 cardRejectBlock_write.2⟩

/-- C30: for drive 0 and `count = 1`, `disk_read` and `disk_write` call the driver
and return `RES_OK` whatever `SD_ReadDisk` or `SD_WriteDisk` returned: the value
returned by the driver is discarded.  For a non-zero drive number, `count = 0` or
`count >= 2` both return `STA_NOINIT` without calling the driver. -/
theorem C30_glue_discards_driver_result (d : DiskHdr) (h : Hdr) (card : Card)
    (pdrv : Nat) (buff : Nat → Nat) (sector count : Nat) (s : St) :
    (pdrv % 256 = 0 → count % 2 ^ 32 = 1 →
      (disk_read d h card pdrv sector count s).1.1 = d.RES_OK ∧
      (disk_read d h card pdrv sector count s).2 = (SD_ReadDisk h card sector count s).2 ∧
      (disk_write d h card pdrv buff sector count s).1 = d.RES_OK ∧
      (disk_write d h card pdrv buff sector count s).2 =
        (SD_WriteDisk h card buff sector count s).2) ∧
    ((pdrv % 256 ≠ 0 ∨ count % 2 ^ 32 = 0 ∨ count % 2 ^ 32 ≥ 2) →
      disk_read d h card pdrv sector count s = ((d.STA_NOINIT, []), s) ∧
      disk_write d h card pdrv buff sector count s = (d.STA_NOINIT, s)) := by
  refine ⟨fun hp hc => ?_, fun hbad => ?_⟩
  · have h1 : ¬ (pdrv % 256 ≠ 0) := not_not.mpr hp
    have h2 : ¬ (count % 2 ^ 32 = 0 ∨ count % 2 ^ 32 ≥ 2) := by omega
    simp only [disk_read, disk_write, if_neg h1, if_neg h2, and_self]
  · by_cases h1 : pdrv % 256 ≠ 0
    · simp only [disk_read, disk_write, if_pos h1, and_self]
    · have h2 : count % 2 ^ 32 = 0 ∨ count % 2 ^ 32 ≥ 2 := by
        rcases hbad with hb | hb
        · exact absurd hb h1
        · exact hb
      simp only [disk_read, disk_write, if_neg h1, if_pos h2, and_self]

theorem C30_glue_discards_driver_result_witness :
    ((SD_ReadDisk sdcard_h cardIllegal 7 1 st0).1.1 = 4 ∧
      (disk_read diskio_h sdcard_h cardIllegal 0 7 1 st0).1 = (0, []) ∧
      (SD_WriteDisk sdcard_h cardIllegal (fun _ => 0) 7 1 st0).1 = 4 ∧
      (disk_write diskio_h sdcard_h cardIllegal 0 (fun _ => 0) 7 1 st0).1 = 0) ∧
    (disk_read diskio_h sdcard_h cardIllegal 0 7 1 st0).1.1 = diskio_h.RES_OK ∧
    (disk_write diskio_h sdcard_h cardIllegal 0 (fun _ => 0) 7 1 st0).1 = diskio_h.RES_OK :=
  ⟨⟨by decide, by decide, by decide, by decide⟩,
   ((C30_glue_discards_driver_result diskio_h sdcard_h cardIllegal 0 (fun _ => 0) 7 1 st0).1
      (by decide) (by decide)).1,
   ((C30_glue_discards_driver_result diskio_h sdcard_h cardIllegal 0 (fun _ => 0) 7 1 st0).1
      (by decide) (by decide)).2.2.1⟩

end SD
